import Mathlib

/-!
# Verification of the Deno text-encoding core (`op_crates/web/08_text_encoding.js`)

Shallow embedding of the text-codec engine: the Base64 codec (`fromByteArray`,
`toByteArray`, `atob`, `btoa`), the UTF-8 DFA decoder (`decodeUtf8`) and handler
encoder (`UTF8Encoder`), the UTF-16 byte decoder (`Utf16ByteDecoder`), the Big5
double-byte decoder (`Big5Decoder`), the generic single-byte decoder, and label
resolution (`trimAsciiWhitespace` + alias table).

Conventions of the embedding:
* JavaScript strings are modelled as `List Nat` of UTF-16 code-unit values.
* Byte arrays are `List Nat` (values < 256 where the host guarantees it).
* JavaScript numbers in the bit-twiddling code are non-negative and far below
  2^31, so `Nat` with the built-in `&&&`/`|||`/`<<<`/`>>>` operators coincides
  with JS int32 semantics at every use site.
* A thrown exception is `Except.error`; `decoderError(fatal)` is the single
  error/substitution point of every decoder, so each decoder returns
  `Except Unit (output × Nat)` where the `Nat` counts the `decoderError`
  invocations of the corresponding non-fatal run (0xFFFD substitutions).
* JS `undefined` produced by an out-of-range array read is modelled by
  `Option`/`getD` defaults matching the arithmetic JS would perform on it.
-/

set_option maxRecDepth 40000

namespace DenoTextEncoding

deriving instance DecidableEq for Except

/-! ## Base64 codec (forked from base64-js in the source) -/

/-- Char codes of `"ABCDEFGHIJKLMNOPQRSTUVWXYZabcdefghijklmnopqrstuvwxyz0123456789+/"`,
the `code` string whose characters populate `lookup`. -/
def b64Code : List Nat :=
  [65, 66, 67, 68, 69, 70, 71, 72, 73, 74, 75, 76, 77, 78, 79, 80, 81, 82, 83, 84, 85, 86,
   87, 88, 89, 90, 97, 98, 99, 100, 101, 102, 103, 104, 105, 106, 107, 108, 109, 110, 111,
   112, 113, 114, 115, 116, 117, 118, 119, 120, 121, 122, 48, 49, 50, 51, 52, 53, 54, 55,
   56, 57, 43, 47]

/-- `revLookup[c]`: built by `revLookup[code.charCodeAt(i)] = i`, then the URL-safe
overrides `revLookup["-"] = 62`, `revLookup["_"] = 63`.  A character with no entry
yields JS `undefined`, which every use site (`<<`, `>>`, `|`) coerces to 0. -/
def revLookup (c : Nat) : Nat :=
  if c = 45 then 62
  else if c = 95 then 63
  else (b64Code.findIdx? (· = c)).getD 0

/-- `tripletToBase64(num)`: four alphabet characters from a 24-bit group. -/
def tripletToBase64 (num : Nat) : List Nat :=
  [b64Code.getD ((num >>> 18) &&& 0x3f) 0,
   b64Code.getD ((num >>> 12) &&& 0x3f) 0,
   b64Code.getD ((num >>> 6) &&& 0x3f) 0,
   b64Code.getD (num &&& 0x3f) 0]

/-- `encodeChunk(uint8, start, end)`: 3-byte groups at `start, start+3, …` up to
`end`, each emitted through `tripletToBase64`. -/
def encodeChunk (uint8 : List Nat) (start endIdx : Nat) : List Nat :=
  if h : start < endIdx then
    let tmp := ((uint8.getD start 0 <<< 16) &&& 0xff0000) +
               ((uint8.getD (start + 1) 0 <<< 8) &&& 0xff00) +
               (uint8.getD (start + 2) 0 &&& 0xff)
    tripletToBase64 tmp ++ encodeChunk uint8 (start + 3) endIdx
  else []
  termination_by endIdx - start
  decreasing_by omega

/-- The chunking loop of `fromByteArray`: steps of `maxChunkLength = 16383`,
each chunk encoded by `encodeChunk` up to `min (i + 16383) len2`. -/
def b64ChunkLoop (uint8 : List Nat) (i len2 : Nat) : List Nat :=
  if h : i < len2 then
    encodeChunk uint8 i (if i + 16383 > len2 then len2 else i + 16383) ++
      b64ChunkLoop uint8 (i + 16383) len2
  else []
  termination_by len2 - i
  decreasing_by omega

/-- `fromByteArray(uint8)`: chunked encoding of the 3-aligned prefix followed by
the padded tail for 1 or 2 leftover bytes. -/
def fromByteArray (uint8 : List Nat) : List Nat :=
  let len := uint8.length
  let extraBytes := len % 3
  let len2 := len - extraBytes
  let parts := b64ChunkLoop uint8 0 len2
  let tail :=
    if extraBytes = 1 then
      let tmp := uint8.getD (len - 1) 0
      [b64Code.getD (tmp >>> 2) 0, b64Code.getD ((tmp <<< 4) &&& 0x3f) 0, 61, 61]
    else if extraBytes = 2 then
      let tmp := (uint8.getD (len - 2) 0 <<< 8) + uint8.getD (len - 1) 0
      [b64Code.getD (tmp >>> 10) 0, b64Code.getD ((tmp >>> 4) &&& 0x3f) 0,
       b64Code.getD ((tmp <<< 2) &&& 0x3f) 0, 61]
    else []
  parts ++ tail

/-- `getLens(b64)`: length check (`Error` unless a multiple of 4), position of the
first `'='` (char code 61) and the number of placeholder slots. -/
def getLens (b64 : List Nat) : Except Unit (Nat × Nat) :=
  let len := b64.length
  if len % 4 > 0 then .error ()
  else
    let validLen := (b64.findIdx? (· = 61)).getD len
    let placeHoldersLen := if validLen = len then 0 else 4 - validLen % 4
    .ok (validLen, placeHoldersLen)

/-- The main loop of `toByteArray`: while `i < len`, four characters at positions
`i..i+3` become three bytes.  Returns the decoded bytes together with the list
remaining at the final loop index (the source reads the placeholder characters at
that index afterwards). -/
def b64DecLoop (b64 : List Nat) (len : Nat) : List Nat × List Nat :=
  if h : 0 < len then
    let tmp := (revLookup (b64.getD 0 0) <<< 18) ||| (revLookup (b64.getD 1 0) <<< 12) |||
               (revLookup (b64.getD 2 0) <<< 6) ||| revLookup (b64.getD 3 0)
    let rest := b64DecLoop (b64.drop 4) (len - 4)
    (((tmp >>> 16) &&& 0xff) :: ((tmp >>> 8) &&& 0xff) :: (tmp &&& 0xff) :: rest.1, rest.2)
  else ([], b64)
  termination_by len
  decreasing_by omega

/-- `toByteArray(b64)`: `getLens`, the 4-character main loop, then the
1- or 2-placeholder tail cases. -/
def toByteArray (b64 : List Nat) : Except Unit (List Nat) := do
  let lens ← getLens b64
  let validLen := lens.1
  let placeHoldersLen := lens.2
  let len := if placeHoldersLen > 0 then validLen - 4 else validLen
  let dec := b64DecLoop b64 len
  let mainBytes := dec.1
  let rest := dec.2
  let ph2 :=
    if placeHoldersLen = 2 then
      let tmp := (revLookup (rest.getD 0 0) <<< 2) ||| (revLookup (rest.getD 1 0) >>> 4)
      [tmp &&& 0xff]
    else []
  let ph1 :=
    if placeHoldersLen = 1 then
      let tmp := (revLookup (rest.getD 0 0) <<< 10) ||| (revLookup (rest.getD 1 0) <<< 4) |||
                 (revLookup (rest.getD 2 0) >>> 2)
      [(tmp >>> 8) &&& 0xff, tmp &&& 0xff]
    else []
  .ok (mainBytes ++ ph2 ++ ph1)

/-- The whitespace characters removed by `atob`'s `replace(/[\t\n\f\r ]/g, "")`. -/
def jsB64Whitespace (c : Nat) : Bool :=
  c = 9 || c = 10 || c = 12 || c = 13 || c = 32

/-- `s.replace(/==?$/, "")`: drop two trailing `'='` if present, else one, else none. -/
def stripPadding (s : List Nat) : List Nat :=
  match s.reverse with
  | 61 :: 61 :: r => r.reverse
  | 61 :: r => r.reverse
  | _ => s

/-- The character class `[+/0-9A-Za-z]` of `atob`'s validation regex. -/
def b64Allowed (c : Nat) : Bool :=
  c = 43 || c = 47 || (48 ≤ c && c ≤ 57) || (65 ≤ c && c ≤ 90) || (97 ≤ c && c ≤ 122)

inductive AtobError where
  | invalidChar
  | invalidLength
  deriving DecidableEq, Repr

/-- The first two steps of `atob(s)`: strip whitespace, and strip the trailing
padding when the remaining length is a multiple of 4. -/

def atobStripped (s : List Nat) : List Nat :=
  let s1 := s.filter (fun c => !(jsB64Whitespace c))
  if s1.length % 4 = 0 then stripPadding s1 else s1

/-- `atob(s)`: strip whitespace and padding (`atobStripped`), validate
(`InvalidCharacterError`), pad back to a multiple of 4, decode through
`base64.toByteArray` (whose own length `Error` is `invalidLength`). -/
def atob (s : List Nat) : Except AtobError (List Nat) :=
  let s2 := atobStripped s
  let rem := s2.length % 4
  if rem = 1 || s2.any (fun c => !(b64Allowed c)) then .error .invalidChar
  else
    let s3 := if rem > 0 then s2 ++ List.replicate (4 - rem) 61 else s2
    match toByteArray s3 with
    | .ok bytes => .ok bytes
    | .error _ => .error .invalidLength

/-- The char-code collection loop of `btoa(s)`: a `TypeError` on the first char
code above 0xFF, otherwise the char codes as bytes. -/
def btoaBytes : List Nat → Except Unit (List Nat)
  | [] => .ok []
  | c :: cs =>
    if c > 0xff then .error ()
    else (btoaBytes cs).map (c :: ·)

/-- `btoa(s)`: Latin-1 validation, then `base64.fromByteArray`. -/
def btoa (s : List Nat) : Except Unit (List Nat) :=
  (btoaBytes s).map fromByteArray

/-! ## UTF-8 engine (Bjoern Hoehrmann's DFA, as in `decodeUtf8`) -/

/-- The 256-entry byte-classification table of `decodeUtf8`. -/
def utf8TypeTable : List Nat :=
  [0, 0, 0, 0, 0, 0, 0, 0, 0, 0, 0, 0, 0, 0, 0, 0,
   0, 0, 0, 0, 0, 0, 0, 0, 0, 0, 0, 0, 0, 0, 0, 0,
   0, 0, 0, 0, 0, 0, 0, 0, 0, 0, 0, 0, 0, 0, 0, 0,
   0, 0, 0, 0, 0, 0, 0, 0, 0, 0, 0, 0, 0, 0, 0, 0,
   0, 0, 0, 0, 0, 0, 0, 0, 0, 0, 0, 0, 0, 0, 0, 0,
   0, 0, 0, 0, 0, 0, 0, 0, 0, 0, 0, 0, 0, 0, 0, 0,
   0, 0, 0, 0, 0, 0, 0, 0, 0, 0, 0, 0, 0, 0, 0, 0,
   0, 0, 0, 0, 0, 0, 0, 0, 0, 0, 0, 0, 0, 0, 0, 0,
   1, 1, 1, 1, 1, 1, 1, 1, 1, 1, 1, 1, 1, 1, 1, 1,
   9, 9, 9, 9, 9, 9, 9, 9, 9, 9, 9, 9, 9, 9, 9, 9,
   7, 7, 7, 7, 7, 7, 7, 7, 7, 7, 7, 7, 7, 7, 7, 7,
   7, 7, 7, 7, 7, 7, 7, 7, 7, 7, 7, 7, 7, 7, 7, 7,
   8, 8, 2, 2, 2, 2, 2, 2, 2, 2, 2, 2, 2, 2, 2, 2,
   2, 2, 2, 2, 2, 2, 2, 2, 2, 2, 2, 2, 2, 2, 2, 2,
   10, 3, 3, 3, 3, 3, 3, 3, 3, 3, 3, 3, 3, 4, 3, 3,
   11, 6, 6, 6, 5, 8, 8, 8, 8, 8, 8, 8, 8, 8, 8, 8]

/-- The 108-entry state-transition table of `decodeUtf8`, indexed by `state + type`. -/
def utf8StateTable : List Nat :=
  [0, 12, 24, 36, 60, 96, 84, 12, 12, 12, 48, 72,
   12, 12, 12, 12, 12, 12, 12, 12, 12, 12, 12, 12,
   12, 0, 12, 12, 12, 12, 12, 0, 12, 0, 12, 12,
   12, 24, 12, 12, 12, 12, 12, 24, 12, 24, 12, 12,
   12, 12, 12, 12, 12, 12, 12, 24, 12, 12, 12, 12,
   12, 24, 12, 12, 12, 12, 12, 12, 12, 24, 12, 12,
   12, 12, 12, 12, 12, 12, 12, 36, 12, 36, 12, 12,
   12, 36, 12, 12, 12, 12, 12, 36, 12, 36, 12, 12,
   12, 36, 12, 12, 12, 12, 12, 12, 12, 12, 12, 12]

/-- `type = typeTable[input[i]]` (the input byte is always < 256). -/
def utf8Type (b : Nat) : Nat := utf8TypeTable.getD b 0

/-- `state = stateTable[state + type]` (the index is always < 108). -/
def utf8State (i : Nat) : Nat := utf8StateTable.getD i 0

/-- Emission of a completed code point, as UTF-16 char codes: a surrogate pair
`[0xd7c0 + (cp >> 10), 0xdc00 | (cp & 0x3ff)]` above 0xFFFF, else the value itself. -/
def utf8Emit (cp : Nat) : List Nat :=
  if cp > 0xffff then [0xd7c0 + (cp >>> 10), 0xdc00 ||| (cp &&& 0x3ff)] else [cp]

/-- The per-byte loop of `decodeUtf8`, carrying the DFA `state` and partial
`codepoint`.  The error branch at the top of an iteration (previous byte drove the
state to 12, or a non-continuation byte arrived mid-sequence) throws in fatal mode,
else emits 0xFFFD, resets the state to 0 and still processes the current byte.
At end of input a non-zero state is a truncated sequence: throw or one 0xFFFD. -/
def decodeUtf8Go (fatal : Bool) (state codepoint : Nat) : List Nat → Except Unit (List Nat × Nat)
  | [] =>
    if state ≠ 0 then
      if fatal then .error () else .ok ([0xfffd], 1)
    else .ok ([], 0)
  | b :: bs =>
    if state = 12 ∨ (state ≠ 0 ∧ b &&& 0xc0 ≠ 0x80) then
      if fatal then .error ()
      else
        -- state := 0, then fall through to process byte b from the initial state
        let t := utf8Type b
        let cp := (0xff >>> t) &&& b
        let state2 := utf8State (0 + t)
        let rest :=
          if state2 ≠ 0 then decodeUtf8Go fatal state2 cp bs
          else (decodeUtf8Go fatal state2 cp bs).map fun r => (utf8Emit cp ++ r.1, r.2)
        rest.map fun r => (0xfffd :: r.1, r.2 + 1)
    else
      let t := utf8Type b
      let cp := if state ≠ 0 then (b &&& 0x3f) ||| (codepoint <<< 6) else (0xff >>> t) &&& b
      let state2 := utf8State (state + t)
      if state2 ≠ 0 then decodeUtf8Go fatal state2 cp bs
      else (decodeUtf8Go fatal state2 cp bs).map fun r => (utf8Emit cp ++ r.1, r.2)

/-- `decodeUtf8(input, fatal, ignoreBOM)`: skip a leading EF BB BF unless
`ignoreBOM`, then run the DFA loop.  The output is the list of UTF-16 char codes
of the result string; the `Nat` counts 0xFFFD substitutions of the non-fatal run. -/
def decodeUtf8 (input : List Nat) (fatal ignoreBOM : Bool) : Except Unit (List Nat × Nat) :=
  let input1 :=
    if ignoreBOM = false ∧ input.take 3 = [0xef, 0xbb, 0xbf] then input.drop 3 else input
  decodeUtf8Go fatal 0 0 input1

/-- The continuation-byte loop of `UTF8Encoder.handler`:
`count` bytes `0x80 | ((codePoint >> 6*(count-1)) & 0x3f)`. -/
def utf8ContBytes (codePoint : Nat) : Nat → List Nat
  | 0 => []
  | count + 1 =>
    (0x80 ||| ((codePoint >>> (6 * count)) &&& 0x3f)) :: utf8ContBytes codePoint count

/-- `UTF8Encoder.handler(codePoint)` on an actual code point: 1–4 bytes, lead byte
`(codePoint >> 6*count) + offset`; out-of-range code points are the `TypeError`
branch. -/
def utf8EncoderHandler (codePoint : Nat) : Except Unit (List Nat) :=
  if codePoint ≤ 0x7f then .ok [codePoint]
  else if 0x80 ≤ codePoint ∧ codePoint ≤ 0x7ff then
    .ok (((codePoint >>> 6) + 0xc0) :: utf8ContBytes codePoint 1)
  else if 0x800 ≤ codePoint ∧ codePoint ≤ 0xffff then
    .ok (((codePoint >>> 12) + 0xe0) :: utf8ContBytes codePoint 2)
  else if 0x10000 ≤ codePoint ∧ codePoint ≤ 0x10ffff then
    .ok (((codePoint >>> 18) + 0xf0) :: utf8ContBytes codePoint 3)
  else .error ()

/-- `TextEncoder.encode` driver: every code point of the input through
`UTF8Encoder.handler`, bytes concatenated. -/
def utf8Encode : List Nat → Except Unit (List Nat)
  | [] => .ok []
  | cp :: cps => do
    let bs ← utf8EncoderHandler cp
    let rest ← utf8Encode cps
    return bs ++ rest

/-! ## UTF-16 decoder (`Utf16ByteDecoder`) -/

/-- The per-byte loop of `Utf16ByteDecoder`, carrying the pending lead byte and
pending high surrogate.  Every code unit equal to 0xFEFF is dropped unless
`ignoreBOM`; surrogate pairs are emitted as the two raw code units; a pending high
surrogate followed by a non-low-surrogate unit is discarded with one
`decoderError` plus the extra value `(unit >> 8) & (unit & 0xff)`. -/
def utf16Go (be fatal ignoreBOM : Bool) (leadByte leadSurrogate : Option Nat) :
    List Nat → Except Unit (List Nat × Nat)
  | [] =>
    if leadByte = none ∧ leadSurrogate = none then .ok ([], 0)
    else if fatal then .error () else .ok ([0xfffd], 1)
  | b :: bs =>
    match leadByte with
    | none => utf16Go be fatal ignoreBOM (some b) leadSurrogate bs
    | some lb =>
      let codeUnit := if be then (lb <<< 8) + b else (b <<< 8) + lb
      if codeUnit = 65279 ∧ ignoreBOM = false then
        utf16Go be fatal ignoreBOM none leadSurrogate bs
      else
        match leadSurrogate with
        | some ls =>
          if 0xDC00 ≤ codeUnit ∧ codeUnit ≤ 0xDFFF then
            (utf16Go be fatal ignoreBOM none none bs).map fun r => (ls :: codeUnit :: r.1, r.2)
          else
            if fatal then .error ()
            else
              let byte1 := codeUnit >>> 8
              let byte2 := codeUnit &&& 0xFF
              (utf16Go be fatal ignoreBOM none none bs).map fun r =>
                (0xfffd :: (byte1 &&& byte2) :: r.1, r.2 + 1)
        | none =>
          if 0xD800 ≤ codeUnit ∧ codeUnit ≤ 0xDBFF then
            utf16Go be fatal ignoreBOM none (some codeUnit) bs
          else if 0xDC00 ≤ codeUnit ∧ codeUnit ≤ 0xDFFF then
            if fatal then .error ()
            else (utf16Go be fatal ignoreBOM none none bs).map fun r => (0xfffd :: r.1, r.2 + 1)
          else (utf16Go be fatal ignoreBOM none none bs).map fun r => (codeUnit :: r.1, r.2)

/-- `Utf16ByteDecoder(bytes, be, fatal, ignoreBOM)`: the loop from empty state plus
the final unpaired-lead-byte / unresolved-surrogate `decoderError`.  (The end check
is part of `utf16Go`'s nil case.) -/
def Utf16ByteDecoder (bytes : List Nat) (be fatal ignoreBOM : Bool) :
    Except Unit (List Nat × Nat) :=
  utf16Go be fatal ignoreBOM none none bytes

/-! ## Big5 decoder (`Big5Decoder`) -/

/-- The pointer computation for a pending lead byte and a trail byte:
`offset = byte < 0x7f ? 0x40 : 0x62`; a pointer exists only for trail bytes in
`[0x40, 0x7e]` or `[0xa1, 0xfe]`, and is `(lead - 0x81) * 157 + (byte - offset)`. -/
def big5Pointer (lead b : Nat) : Option Nat :=
  let offset := if b < 0x7f then 0x40 else 0x62
  if (0x40 ≤ b ∧ b ≤ 0x7e) ∨ (0xa1 ≤ b ∧ b ≤ 0xfe) then
    some ((lead - 0x81) * 157 + (b - offset))
  else none

/-- The per-byte loop of `Big5Decoder`, carrying the pending lead byte (0 = none).
Output elements are `some codePoint` for a pushed number and `none` for a pushed
JS `undefined` (an out-of-range `big5[pointer]` read, which the strict `=== null`
comparison does not catch).  The special pointers 1133/1135 → 202 and
1164/1166 → 234 bypass the table; a null table entry with an ASCII trail byte
rewinds one position (`i--`) so the byte restarts a character. -/
def big5Go (big5 : List (Option Nat)) (fatal : Bool) (lead : Nat) :
    List Nat → Except Unit (List (Option Nat) × Nat)
  | [] =>
    if lead ≠ 0 then (if fatal then .error () else .ok ([some 0xfffd], 1))
    else .ok ([], 0)
  | b :: bs =>
    if lead ≠ 0 then
      let pointer := big5Pointer lead b
      if pointer = some 1133 then (big5Go big5 fatal 0 bs).map fun r => (some 202 :: r.1, r.2)
      else if pointer = some 1135 then
        (big5Go big5 fatal 0 bs).map fun r => (some 202 :: r.1, r.2)
      else if pointer = some 1164 then
        (big5Go big5 fatal 0 bs).map fun r => (some 234 :: r.1, r.2)
      else if pointer = some 1166 then
        (big5Go big5 fatal 0 bs).map fun r => (some 234 :: r.1, r.2)
      else
        match pointer with
        | none =>
          -- code = null (invalid trail byte): rewind when the byte is ASCII
          if b ≤ 0x7f then
            if fatal then .error ()
            else (big5Go big5 fatal 0 (b :: bs)).map fun r => (some 0xfffd :: r.1, r.2 + 1)
          else
            if fatal then .error ()
            else (big5Go big5 fatal 0 bs).map fun r => (some 0xfffd :: r.1, r.2 + 1)
        | some p =>
          match big5.get? p with
          | some none =>
            -- code = null (unmapped table entry): rewind when the byte is ASCII
            if b ≤ 0x7f then
              if fatal then .error ()
              else (big5Go big5 fatal 0 (b :: bs)).map fun r => (some 0xfffd :: r.1, r.2 + 1)
            else
              if fatal then .error ()
              else (big5Go big5 fatal 0 bs).map fun r => (some 0xfffd :: r.1, r.2 + 1)
          | some (some code) => (big5Go big5 fatal 0 bs).map fun r => (some code :: r.1, r.2)
          | none =>
            -- code = undefined (out-of-range read): `code === null` is false, pushed verbatim
            (big5Go big5 fatal 0 bs).map fun r => ((none : Option Nat) :: r.1, r.2)
    else
      if b ≤ 0x7f then (big5Go big5 fatal 0 bs).map fun r => (some b :: r.1, r.2)
      else if 0x81 ≤ b ∧ b ≤ 0xFE then big5Go big5 fatal b bs
      else
        if fatal then .error ()
        else (big5Go big5 fatal 0 bs).map fun r => (some 0xfffd :: r.1, r.2 + 1)
  termination_by l => (l.length, lead)
  decreasing_by
    all_goals simp_wf
    all_goals omega

/-- `Big5Decoder(big5, bytes, fatal)` (the `ignoreBOM` rejection is part of
`textDecode`): the loop from the no-lead state, including the final pending-lead
`decoderError`. -/
def Big5Decoder (big5 : List (Option Nat)) (bytes : List Nat) (fatal : Bool) :
    Except Unit (List (Option Nat) × Nat) :=
  big5Go big5 fatal 0 bytes

/-! ## Single-byte decoder and the generic driver -/

/-- The driver loop specialised to `SingleByteDecoder.handler`: ASCII bytes pass
through, others go through the 128-entry index table (`byte - 0x80`); a missing
entry (`null`/`undefined`, both caught by the loose `== null`) is a `decoderError`. -/
def singleByteGo (index : List (Option Nat)) (fatal : Bool) :
    List Nat → Except Unit (List Nat × Nat)
  | [] => .ok ([], 0)
  | b :: bs =>
    if b ≤ 0x7f then (singleByteGo index fatal bs).map fun r => (b :: r.1, r.2)
    else
      match index.getD (b - 0x80) none with
      | none =>
        if fatal then .error ()
        else (singleByteGo index fatal bs).map fun r => (0xfffd :: r.1, r.2 + 1)
      | some codePoint => (singleByteGo index fatal bs).map fun r => (codePoint :: r.1, r.2)

/-- The BOM removal after the generic driver loop:
`if (output.length > 0 && output[0] === 0xfeff) output.shift()`. -/
def stripBOMCodePoint (output : List Nat) : List Nat :=
  match output with
  | 0xfeff :: rest => rest
  | _ => output

/-- `String.fromCodePoint` on one code point ≤ 0x10FFFF, as UTF-16 char codes
(models the JS builtin used by `codePointsToString`). -/
def codePointToUnits (cp : Nat) : List Nat :=
  if cp ≤ 0xffff then [cp]
  else [0xd800 + ((cp - 0x10000) >>> 10), 0xdc00 + ((cp - 0x10000) &&& 0x3ff)]

/-- `codePointsToString(codePoints)` as UTF-16 char codes. -/
def codePointsToString (codePoints : List Nat) : List Nat :=
  (codePoints.map codePointToUnits).flatten

/-- `String.fromCharCode.apply(null, result)`: each value is taken mod 2^16
(`ToUint16`), models the JS builtin used on the UTF-16 decoder result. -/
def fromCharCodeUnits (xs : List Nat) : List Nat := xs.map (· % 65536)

/-- `String.fromCharCode` on the Big5 result list: a pushed number is taken
mod 2^16, a pushed `undefined` converts to NaN and then to 0. -/
def big5CharUnits (xs : List (Option Nat)) : List Nat :=
  xs.map fun x => match x with | some c => c % 65536 | none => 0

/-! ## Label resolution and the `TextDecoder` entry point -/

/-- The label/canonical-encoding pairs of `encodingMap`, flattened exactly as the
startup loop populates the `encodings` map (`encodings.set(label, key)`). -/
def encodingAliases : List (String × String) :=
 [
  ("unicode-1-1-utf-8", "utf-8"),
  ("unicode11utf8", "utf-8"),
  ("unicode20utf8", "utf-8"),
  ("utf-8", "utf-8"),
  ("utf8", "utf-8"),
  ("x-unicode20utf8", "utf-8"),
  ("866", "ibm866"),
  ("cp866", "ibm866"),
  ("csibm866", "ibm866"),
  ("ibm866", "ibm866"),
  ("csisolatin2", "iso-8859-2"),
  ("iso-8859-2", "iso-8859-2"),
  ("iso-ir-101", "iso-8859-2"),
  ("iso8859-2", "iso-8859-2"),
  ("iso88592", "iso-8859-2"),
  ("iso_8859-2", "iso-8859-2"),
  ("iso_8859-2:1987", "iso-8859-2"),
  ("l2", "iso-8859-2"),
  ("latin2", "iso-8859-2"),
  ("csisolatin3", "iso-8859-3"),
  ("iso-8859-3", "iso-8859-3"),
  ("iso-ir-109", "iso-8859-3"),
  ("iso8859-3", "iso-8859-3"),
  ("iso88593", "iso-8859-3"),
  ("iso_8859-3", "iso-8859-3"),
  ("iso_8859-3:1988", "iso-8859-3"),
  ("l3", "iso-8859-3"),
  ("latin3", "iso-8859-3"),
  ("csisolatin4", "iso-8859-4"),
  ("iso-8859-4", "iso-8859-4"),
  ("iso-ir-110", "iso-8859-4"),
  ("iso8859-4", "iso-8859-4"),
  ("iso88594", "iso-8859-4"),
  ("iso_8859-4", "iso-8859-4"),
  ("iso_8859-4:1988", "iso-8859-4"),
  ("l4", "iso-8859-4"),
  ("latin4", "iso-8859-4"),
  ("csisolatincyrillic", "iso-8859-5"),
  ("cyrillic", "iso-8859-5"),
  ("iso-8859-5", "iso-8859-5"),
  ("iso-ir-144", "iso-8859-5"),
  ("iso8859-5", "iso-8859-5"),
  ("iso88595", "iso-8859-5"),
  ("iso_8859-5", "iso-8859-5"),
  ("iso_8859-5:1988", "iso-8859-5"),
  ("arabic", "iso-8859-6"),
  ("asmo-708", "iso-8859-6"),
  ("csiso88596e", "iso-8859-6"),
  ("csiso88596i", "iso-8859-6"),
  ("csisolatinarabic", "iso-8859-6"),
  ("ecma-114", "iso-8859-6"),
  ("iso-8859-6", "iso-8859-6"),
  ("iso-8859-6-e", "iso-8859-6"),
  ("iso-8859-6-i", "iso-8859-6"),
  ("iso-ir-127", "iso-8859-6"),
  ("iso8859-6", "iso-8859-6"),
  ("iso88596", "iso-8859-6"),
  ("iso_8859-6", "iso-8859-6"),
  ("iso_8859-6:1987", "iso-8859-6"),
  ("csisolatingreek", "iso-8859-7"),
  ("ecma-118", "iso-8859-7"),
  ("elot_928", "iso-8859-7"),
  ("greek", "iso-8859-7"),
  ("greek8", "iso-8859-7"),
  ("iso-8859-7", "iso-8859-7"),
  ("iso-ir-126", "iso-8859-7"),
  ("iso8859-7", "iso-8859-7"),
  ("iso88597", "iso-8859-7"),
  ("iso_8859-7", "iso-8859-7"),
  ("iso_8859-7:1987", "iso-8859-7"),
  ("sun_eu_greek", "iso-8859-7"),
  ("csiso88598e", "iso-8859-8"),
  ("csisolatinhebrew", "iso-8859-8"),
  ("hebrew", "iso-8859-8"),
  ("iso-8859-8", "iso-8859-8"),
  ("iso-8859-8-e", "iso-8859-8"),
  ("iso-ir-138", "iso-8859-8"),
  ("iso8859-8", "iso-8859-8"),
  ("iso88598", "iso-8859-8"),
  ("iso_8859-8", "iso-8859-8"),
  ("iso_8859-8:1988", "iso-8859-8"),
  ("visual", "iso-8859-8"),
  ("csiso88598i", "iso-8859-8-i"),
  ("iso-8859-8-i", "iso-8859-8-i"),
  ("logical", "iso-8859-8-i"),
  ("csisolatin6", "iso-8859-10"),
  ("iso-8859-10", "iso-8859-10"),
  ("iso-ir-157", "iso-8859-10"),
  ("iso8859-10", "iso-8859-10"),
  ("iso885910", "iso-8859-10"),
  ("l6", "iso-8859-10"),
  ("latin6", "iso-8859-10"),
  ("iso-8859-13", "iso-8859-13"),
  ("iso8859-13", "iso-8859-13"),
  ("iso885913", "iso-8859-13"),
  ("iso-8859-14", "iso-8859-14"),
  ("iso8859-14", "iso-8859-14"),
  ("iso885914", "iso-8859-14"),
  ("csisolatin9", "iso-8859-15"),
  ("iso-8859-15", "iso-8859-15"),
  ("iso8859-15", "iso-8859-15"),
  ("iso885915", "iso-8859-15"),
  ("iso_8859-15", "iso-8859-15"),
  ("l9", "iso-8859-15"),
  ("iso-8859-16", "iso-8859-16"),
  ("cskoi8r", "koi8-r"),
  ("koi", "koi8-r"),
  ("koi8", "koi8-r"),
  ("koi8-r", "koi8-r"),
  ("koi8_r", "koi8-r"),
  ("koi8-ru", "koi8-u"),
  ("koi8-u", "koi8-u"),
  ("csmacintosh", "macintosh"),
  ("mac", "macintosh"),
  ("macintosh", "macintosh"),
  ("x-mac-roman", "macintosh"),
  ("dos-874", "windows-874"),
  ("iso-8859-11", "windows-874"),
  ("iso8859-11", "windows-874"),
  ("iso885911", "windows-874"),
  ("tis-620", "windows-874"),
  ("windows-874", "windows-874"),
  ("cp1250", "windows-1250"),
  ("windows-1250", "windows-1250"),
  ("x-cp1250", "windows-1250"),
  ("cp1251", "windows-1251"),
  ("windows-1251", "windows-1251"),
  ("x-cp1251", "windows-1251"),
  ("ansi_x3.4-1968", "windows-1252"),
  ("ascii", "windows-1252"),
  ("cp1252", "windows-1252"),
  ("cp819", "windows-1252"),
  ("csisolatin1", "windows-1252"),
  ("ibm819", "windows-1252"),
  ("iso-8859-1", "windows-1252"),
  ("iso-ir-100", "windows-1252"),
  ("iso8859-1", "windows-1252"),
  ("iso88591", "windows-1252"),
  ("iso_8859-1", "windows-1252"),
  ("iso_8859-1:1987", "windows-1252"),
  ("l1", "windows-1252"),
  ("latin1", "windows-1252"),
  ("us-ascii", "windows-1252"),
  ("windows-1252", "windows-1252"),
  ("x-cp1252", "windows-1252"),
  ("cp1253", "windows-1253"),
  ("windows-1253", "windows-1253"),
  ("x-cp1253", "windows-1253"),
  ("cp1254", "windows-1254"),
  ("csisolatin5", "windows-1254"),
  ("iso-8859-9", "windows-1254"),
  ("iso-ir-148", "windows-1254"),
  ("iso8859-9", "windows-1254"),
  ("iso88599", "windows-1254"),
  ("iso_8859-9", "windows-1254"),
  ("iso_8859-9:1989", "windows-1254"),
  ("l5", "windows-1254"),
  ("latin5", "windows-1254"),
  ("windows-1254", "windows-1254"),
  ("x-cp1254", "windows-1254"),
  ("cp1255", "windows-1255"),
  ("windows-1255", "windows-1255"),
  ("x-cp1255", "windows-1255"),
  ("cp1256", "windows-1256"),
  ("windows-1256", "windows-1256"),
  ("x-cp1256", "windows-1256"),
  ("cp1257", "windows-1257"),
  ("windows-1257", "windows-1257"),
  ("x-cp1257", "windows-1257"),
  ("cp1258", "windows-1258"),
  ("windows-1258", "windows-1258"),
  ("x-cp1258", "windows-1258"),
  ("x-mac-cyrillic", "x-mac-cyrillic"),
  ("x-mac-ukrainian", "x-mac-cyrillic"),
  ("chinese", "gbk"),
  ("csgb2312", "gbk"),
  ("csiso58gb231280", "gbk"),
  ("gb2312", "gbk"),
  ("gb_2312", "gbk"),
  ("gb_2312-80", "gbk"),
  ("gbk", "gbk"),
  ("iso-ir-58", "gbk"),
  ("x-gbk", "gbk"),
  ("gb18030", "gb18030"),
  ("big5", "big5"),
  ("big5-hkscs", "big5"),
  ("cn-big5", "big5"),
  ("csbig5", "big5"),
  ("x-x-big5", "big5"),
  ("unicodefffe", "utf-16be"),
  ("utf-16be", "utf-16be"),
  ("csunicode", "utf-16le"),
  ("iso-10646-ucs-2", "utf-16le"),
  ("ucs-2", "utf-16le"),
  ("unicode", "utf-16le"),
  ("unicodefeff", "utf-16le"),
  ("utf-16", "utf-16le"),
  ("utf-16le", "utf-16le")
 ]

/-- The `whitespace` array `[" ", "\t", "\n", "\f", "\r"]` used by
`trimAsciiWhitespace`. -/
def jsLabelWhitespace (c : Char) : Bool :=
  c = ' ' || c = '\t' || c = '\n' || c = '\x0c' || c = '\r'

/-- `trimAsciiWhitespace(label)`: `start` is the first non-whitespace index (0 when
none is found — an all-whitespace label is returned unchanged), `end` the last
non-whitespace index (`length - 1` when none), result `substring(start, end + 1)`. -/
def trimAsciiWhitespaceList (l : List Char) : List Char :=
  let start := (l.findIdx? (fun c => !(jsLabelWhitespace c))).getD 0
  let stop :=
    match l.reverse.findIdx? (fun c => !(jsLabelWhitespace c)) with
    | some j => l.length - 1 - j
    | none => l.length - 1
  (l.take (stop + 1)).drop start

/-- `String.prototype.toLowerCase` (models the JS builtin on the ASCII range,
which covers every key of the alias table). -/
def asciiLower (c : Char) : Char :=
  if 'A' <= c && c <= 'Z' then Char.ofNat (c.toNat + 32) else c

/-- The alias lookup `encodings.get(_label)`. -/
def lookupAlias (l : String) : Option String :=
  (encodingAliases.find? (fun p => p.1 = l)).map (fun p => p.2)

/-- Label resolution of the `TextDecoder` constructor:
`encodings.get(trimAsciiWhitespace(String(label)).toLowerCase())`. -/
def resolveLabel (label : String) : Option String :=
  lookupAlias (String.mk ((trimAsciiWhitespaceList label.toList).map asciiLower))

inductive DecodeError where
  | invalidLabel
  | internalDecoderMissing
  | ignoreBOMUnsupported
  | decoderErr
  deriving DecidableEq, Repr

/-- `new TextDecoder(label, {fatal, ignoreBOM}).decode(bytes)` with the static
index tables passed as the data environment (`sbIndexes` = `encodingIndexes`
without `"big5"`, `big5Table` = `encodingIndexes.get("big5")`).  The
`Deno.core.decode` fast path for plain UTF-8 is host-external (spec §1: the core
must work correctly without it), so the UTF-8 branch is always `decodeUtf8`. -/
def textDecode (sbIndexes : List (String × List (Option Nat))) (big5Table : List (Option Nat))
    (label : String) (fatal ignoreBOM : Bool) (bytes : List Nat) :
    Except DecodeError (List Nat) :=
  match resolveLabel label with
  | none => .error .invalidLabel
  | some encoding =>
    if (sbIndexes.find? (fun p => p.1 = encoding)).isNone &&
       !(["utf-16le", "utf-16be", "utf-8", "big5"].contains encoding) then
      .error .internalDecoderMissing
    else if encoding = "utf-8" then
      match decodeUtf8 bytes fatal ignoreBOM with
      | .ok r => .ok r.1
      | .error _ => .error .decoderErr
    else if encoding = "utf-16le" || encoding = "utf-16be" then
      match Utf16ByteDecoder bytes (encoding = "utf-16be") fatal ignoreBOM with
      | .ok r => .ok (fromCharCodeUnits r.1)
      | .error _ => .error .decoderErr
    else if encoding = "big5" then
      if ignoreBOM then .error .ignoreBOMUnsupported
      else
        match Big5Decoder big5Table bytes fatal with
        | .ok r => .ok (big5CharUnits r.1)
        | .error _ => .error .decoderErr
    else
      match sbIndexes.find? (fun p => p.1 = encoding) with
      | none => .error .internalDecoderMissing
      | some p =>
        if ignoreBOM then .error .ignoreBOMUnsupported
        else
          match singleByteGo p.2 fatal bytes with
          | .ok r => .ok (codePointsToString (stripBOMCodePoint r.1))
          | .error _ => .error .decoderErr

/-! ## Arithmetic facts about the bit operations -/

theorem land_sixtythree (x : Nat) : x &&& 63 = x % 64 := by
  simpa using Nat.and_pow_two_sub_one_eq_mod x 6

theorem land_255 (x : Nat) : x &&& 255 = x % 256 := by
  simpa using Nat.and_pow_two_sub_one_eq_mod x 8

theorem land_1023 (x : Nat) : x &&& 1023 = x % 1024 := by
  simpa using Nat.and_pow_two_sub_one_eq_mod x 10

theorem shiftLeft_land_shiftLeft (x y n : Nat) : (x <<< n) &&& (y <<< n) = (x &&& y) <<< n := by
  apply Nat.eq_of_testBit_eq
  intro i
  simp only [Nat.testBit_and, Nat.testBit_shiftLeft]
  by_cases h : n ≤ i <;> simp [h]

theorem shiftLeft_lor_lt (a b n : Nat) (h : b < 2 ^ n) : (a <<< n) ||| b = a * 2 ^ n + b := by
  rw [Nat.shiftLeft_eq, Nat.mul_comm]
  exact (Nat.mul_add_lt_is_or h a).symm

theorem lor_shiftLeft_lt (a b n : Nat) (h : b < 2 ^ n) : b ||| (a <<< n) = a * 2 ^ n + b := by
  rw [Nat.lor_comm]
  exact shiftLeft_lor_lt a b n h

/-- Rows 0–99 of the `"big5"` Pointer Table. -/
def big5IndexPart000 : List (Option Nat) :=
 [
  none, none, none, none, none, none, none, none, none, none, none, none, none, none, none, none,
  none, none, none, none, none, none, none, none, none, none, none, none, none, none, none, none,
  none, none, none, none, none, none, none, none, none, none, none, none, none, none, none, none,
  none, none, none, none, none, none, none, none, none, none, none, none, none, none, none, none,
  none, none, none, none, none, none, none, none, none, none, none, none, none, none, none, none,
  none, none, none, none, none, none, none, none, none, none, none, none, none, none, none, none,
  none, none, none, none
 ]

/-- Rows 100–199 of the `"big5"` Pointer Table. -/
def big5IndexPart001 : List (Option Nat) :=
 [
  none, none, none, none, none, none, none, none, none, none, none, none, none, none, none, none,
  none, none, none, none, none, none, none, none, none, none, none, none, none, none, none, none,
  none, none, none, none, none, none, none, none, none, none, none, none, none, none, none, none,
  none, none, none, none, none, none, none, none, none, none, none, none, none, none, none, none,
  none, none, none, none, none, none, none, none, none, none, none, none, none, none, none, none,
  none, none, none, none, none, none, none, none, none, none, none, none, none, none, none, none,
  none, none, none, none
 ]

/-- Rows 200–299 of the `"big5"` Pointer Table. -/
def big5IndexPart002 : List (Option Nat) :=
 [
  none, none, none, none, none, none, none, none, none, none, none, none, none, none, none, none,
  none, none, none, none, none, none, none, none, none, none, none, none, none, none, none, none,
  none, none, none, none, none, none, none, none, none, none, none, none, none, none, none, none,
  none, none, none, none, none, none, none, none, none, none, none, none, none, none, none, none,
  none, none, none, none, none, none, none, none, none, none, none, none, none, none, none, none,
  none, none, none, none, none, none, none, none, none, none, none, none, none, none, none, none,
  none, none, none, none
 ]

/-- Rows 300–399 of the `"big5"` Pointer Table. -/
def big5IndexPart003 : List (Option Nat) :=
 [
  none, none, none, none, none, none, none, none, none, none, none, none, none, none, none, none,
  none, none, none, none, none, none, none, none, none, none, none, none, none, none, none, none,
  none, none, none, none, none, none, none, none, none, none, none, none, none, none, none, none,
  none, none, none, none, none, none, none, none, none, none, none, none, none, none, none, none,
  none, none, none, none, none, none, none, none, none, none, none, none, none, none, none, none,
  none, none, none, none, none, none, none, none, none, none, none, none, none, none, none, none,
  none, none, none, none
 ]

/-- Rows 400–499 of the `"big5"` Pointer Table. -/
def big5IndexPart004 : List (Option Nat) :=
 [
  none, none, none, none, none, none, none, none, none, none, none, none, none, none, none, none,
  none, none, none, none, none, none, none, none, none, none, none, none, none, none, none, none,
  none, none, none, none, none, none, none, none, none, none, none, none, none, none, none, none,
  none, none, none, none, none, none, none, none, none, none, none, none, none, none, none, none,
  none, none, none, none, none, none, none, none, none, none, none, none, none, none, none, none,
  none, none, none, none, none, none, none, none, none, none, none, none, none, none, none, none,
  none, none, none, none
 ]

/-- Rows 500–599 of the `"big5"` Pointer Table. -/
def big5IndexPart005 : List (Option Nat) :=
 [
  none, none, none, none, none, none, none, none, none, none, none, none, none, none, none, none,
  none, none, none, none, none, none, none, none, none, none, none, none, none, none, none, none,
  none, none, none, none, none, none, none, none, none, none, none, none, none, none, none, none,
  none, none, none, none, none, none, none, none, none, none, none, none, none, none, none, none,
  none, none, none, none, none, none, none, none, none, none, none, none, none, none, none, none,
  none, none, none, none, none, none, none, none, none, none, none, none, none, none, none, none,
  none, none, none, none
 ]

/-- Rows 600–699 of the `"big5"` Pointer Table. -/
def big5IndexPart006 : List (Option Nat) :=
 [
  none, none, none, none, none, none, none, none, none, none, none, none, none, none, none, none,
  none, none, none, none, none, none, none, none, none, none, none, none, none, none, none, none,
  none, none, none, none, none, none, none, none, none, none, none, none, none, none, none, none,
  none, none, none, none, none, none, none, none, none, none, none, none, none, none, none, none,
  none, none, none, none, none, none, none, none, none, none, none, none, none, none, none, none,
  none, none, none, none, none, none, none, none, none, none, none, none, none, none, none, none,
  none, none, none, none
 ]

/-- Rows 700–799 of the `"big5"` Pointer Table. -/
def big5IndexPart007 : List (Option Nat) :=
 [
  none, none, none, none, none, none, none, none, none, none, none, none, none, none, none, none,
  none, none, none, none, none, none, none, none, none, none, none, none, none, none, none, none,
  none, none, none, none, none, none, none, none, none, none, none, none, none, none, none, none,
  none, none, none, none, none, none, none, none, none, none, none, none, none, none, none, none,
  none, none, none, none, none, none, none, none, none, none, none, none, none, none, none, none,
  none, none, none, none, none, none, none, none, none, none, none, none, none, none, none, none,
  none, none, none, none
 ]

/-- Rows 800–899 of the `"big5"` Pointer Table. -/
def big5IndexPart008 : List (Option Nat) :=
 [
  none, none, none, none, none, none, none, none, none, none, none, none, none, none, none, none,
  none, none, none, none, none, none, none, none, none, none, none, none, none, none, none, none,
  none, none, none, none, none, none, none, none, none, none, none, none, none, none, none, none,
  none, none, none, none, none, none, none, none, none, none, none, none, none, none, none, none,
  none, none, none, none, none, none, none, none, none, none, none, none, none, none, none, none,
  none, none, none, none, none, none, none, none, none, none, none, none, none, none, none, none,
  none, none, none, none
 ]

/-- Rows 900–999 of the `"big5"` Pointer Table. -/
def big5IndexPart009 : List (Option Nat) :=
 [
  none, none, none, none, none, none, none, none, none, none, none, none, none, none, none, none,
  none, none, none, none, none, none, none, none, none, none, none, none, none, none, none, none,
  none, none, none, none, none, none, none, none, none, none, some 17392, some 19506, some 17923,
  some 17830, some 17784, some 160359, some 19831, some 17843, some 162993, some 19682,
  some 163013, some 15253, some 18230, some 18244, some 19527, some 19520, some 148159,
  some 144919, some 160594, some 159371, some 159954, some 19543, some 172881, some 18255,
  some 17882, some 19589, some 162924, some 19719, some 19108, some 18081, some 158499, some 29221,
  some 154196, some 137827, some 146950, some 147297, some 26189, some 22267, none, some 32149,
  some 22813, some 166841, some 15860, some 38708, some 162799, some 23515, some 138590,
  some 23204, some 13861, some 171696, some 23249, some 23479, some 23804, some 26478, some 34195,
  some 170309, some 29793, some 29853
 ]

/-- Rows 1000–1099 of the `"big5"` Pointer Table. -/
def big5IndexPart010 : List (Option Nat) :=
 [
  some 14453, some 138579, some 145054, some 155681, some 16108, some 153822, some 15093,
  some 31484, some 40855, some 147809, some 166157, some 143850, some 133770, some 143966,
  some 17162, some 33924, some 40854, some 37935, some 18736, some 34323, some 22678, some 38730,
  some 37400, some 31184, some 31282, some 26208, some 27177, some 34973, some 29772, some 31685,
  some 26498, some 31276, some 21071, some 36934, some 13542, some 29636, some 155065, some 29894,
  some 40903, some 22451, some 18735, some 21580, some 16689, some 145038, some 22552, some 31346,
  some 162661, some 35727, some 18094, some 159368, some 16769, some 155033, some 31662,
  some 140476, some 40904, some 140481, some 140489, some 140492, some 40905, some 34052,
  some 144827, some 16564, some 40906, some 17633, some 175615, some 25281, some 28782, some 40907,
  none, none, none, none, none, none, none, none, none, none, none, none, none, none, none, none,
  none, none, none, none, none, none, none, none, none, none, none, none, none, none, none,
  some 12736
 ]

/-- Rows 1100–1199 of the `"big5"` Pointer Table. -/
def big5IndexPart011 : List (Option Nat) :=
 [
  some 12737, some 12738, some 12739, some 12740, some 131340, some 12741, some 131281,
  some 131277, some 12742, some 12743, some 131275, some 139240, some 12744, some 131274,
  some 12745, some 12746, some 12747, some 12748, some 131342, some 12749, some 12750, some 256,
  some 193, some 461, some 192, some 274, some 201, some 282, some 200, some 332, some 211,
  some 465, some 210, none, some 7870, none, some 7872, some 202, some 257, some 225, some 462,
  some 224, some 593, some 275, some 233, some 283, some 232, some 299, some 237, some 464,
  some 236, some 333, some 243, some 466, some 242, some 363, some 250, some 468, some 249,
  some 470, some 472, some 474, some 476, some 252, none, some 7871, none, some 7873, some 234,
  some 609, some 9178, some 9179, none, none, none, none, none, none, none, none, none, none, none,
  none, none, none, none, none, none, none, none, none, none, none, none, none, none, none, none,
  none
 ]

/-- Rows 1200–1299 of the `"big5"` Pointer Table. -/
def big5IndexPart012 : List (Option Nat) :=
 [
  none, none, none, none, none, none, none, none, none, none, none, none, none, none, none, none,
  none, none, none, none, none, none, none, none, none, none, none, none, none, none, none, none,
  none, none, none, none, none, none, none, none, none, none, none, none, none, none, none, none,
  none, none, none, none, none, none, none, none, some 172969, some 135493, none, some 25866, none,
  none, some 20029, some 28381, some 40270, some 37343, none, none, some 161589, some 25745,
  some 20250, some 20264, some 20392, some 20822, some 20852, some 20892, some 20964, some 21153,
  some 21160, some 21307, some 21326, some 21457, some 21464, some 22242, some 22768, some 22788,
  some 22791, some 22834, some 22836, some 23398, some 23454, some 23455, some 23706, some 24198,
  some 24635, some 25993, some 26622, some 26628, some 26725, some 27982
 ]

/-- Rows 1300–1399 of the `"big5"` Pointer Table. -/
def big5IndexPart013 : List (Option Nat) :=
 [
  some 28860, some 30005, some 32420, some 32428, some 32442, some 32455, some 32463, some 32479,
  some 32518, some 32567, some 33402, some 33487, some 33647, some 35270, some 35774, some 35810,
  some 36710, some 36711, some 36718, some 29713, some 31996, some 32205, some 26950, some 31433,
  some 21031, none, none, none, none, some 37260, some 30904, some 37214, some 32956, none,
  some 36107, some 33014, some 133607, none, none, some 32927, some 40647, some 19661, some 40393,
  some 40460, some 19518, some 171510, some 159758, some 40458, some 172339, some 13761, none,
  some 28314, some 33342, some 29977, none, some 18705, some 39532, some 39567, some 40857,
  some 31111, some 164972, some 138698, some 132560, some 142054, some 20004, some 20097,
  some 20096, some 20103, some 20159, some 20203, some 20279, some 13388, some 20413, some 15944,
  some 20483, some 20616, some 13437, some 13459, some 13477, some 20870, some 22789, some 20955,
  some 20988, some 20997, some 20105, some 21113, some 21136, some 21287, some 13767, some 21417,
  some 13649, some 21424, some 13651, some 21442, some 21539, some 13677, some 13682, some 13953,
  some 21651, some 21667
 ]

/-- Rows 1400–1499 of the `"big5"` Pointer Table. -/
def big5IndexPart014 : List (Option Nat) :=
 [
  some 21684, some 21689, some 21712, some 21743, some 21784, some 21795, some 21800, some 13720,
  some 21823, some 13733, some 13759, some 21975, some 13765, some 163204, some 21797, none,
  some 134210, some 134421, some 151851, some 21904, some 142534, some 14828, some 131905,
  some 36422, some 150968, some 169189, some 16467, some 164030, some 30586, some 142392,
  some 14900, some 18389, some 164189, some 158194, some 151018, some 25821, some 134524,
  some 135092, some 134357, some 135412, some 25741, some 36478, some 134806, some 134155,
  some 135012, some 142505, some 164438, some 148691, none, some 134470, some 170573, some 164073,
  some 18420, some 151207, some 142530, some 39602, some 14951, some 169460, some 16365,
  some 13574, some 152263, some 169940, some 161992, some 142660, some 40302, some 38933, none,
  some 17369, some 155813, some 25780, some 21731, some 142668, some 142282, some 135287,
  some 14843, some 135279, some 157402, some 157462, some 162208, some 25834, some 151634,
  some 134211, some 36456, some 139681, some 166732, some 132913, none, some 18443, some 131497,
  some 16378, some 22643, some 142733, none, some 148936, some 132348, some 155799, some 134988,
  some 134550, some 21881, some 16571
 ]

/-- Rows 1500–1599 of the `"big5"` Pointer Table. -/
def big5IndexPart015 : List (Option Nat) :=
 [
  some 17338, none, some 19124, some 141926, some 135325, some 33194, some 39157, some 134556,
  some 25465, some 14846, some 141173, some 36288, some 22177, some 25724, some 15939, none,
  some 173569, some 134665, some 142031, some 142537, none, some 135368, some 145858, some 14738,
  some 14854, some 164507, some 13688, some 155209, some 139463, some 22098, some 134961,
  some 142514, some 169760, some 13500, some 27709, some 151099, none, none, some 161140,
  some 142987, some 139784, some 173659, some 167117, some 134778, some 134196, some 157724,
  some 32659, some 135375, some 141315, some 141625, some 13819, some 152035, some 134796,
  some 135053, some 134826, some 16275, some 134960, some 134471, some 135503, some 134732, none,
  some 134827, some 134057, some 134472, some 135360, some 135485, some 16377, some 140950,
  some 25650, some 135085, some 144372, some 161337, some 142286, some 134526, some 134527,
  some 142417, some 142421, some 14872, some 134808, some 135367, some 134958, some 173618,
  some 158544, some 167122, some 167321, some 167114, some 38314, some 21708, some 33476,
  some 21945, none, some 171715, some 39974, some 39606, some 161630, some 142830, some 28992,
  some 33133, some 33004, some 23580
 ]

/-- Rows 1600–1699 of the `"big5"` Pointer Table. -/
def big5IndexPart016 : List (Option Nat) :=
 [
  some 157042, some 33076, some 14231, some 21343, some 164029, some 37302, some 134906,
  some 134671, some 134775, some 134907, some 13789, some 151019, some 13833, some 134358,
  some 22191, some 141237, some 135369, some 134672, some 134776, some 135288, some 135496,
  some 164359, some 136277, some 134777, some 151120, some 142756, some 23124, some 135197,
  some 135198, some 135413, some 135414, some 22428, some 134673, some 161428, some 164557,
  some 135093, some 134779, some 151934, some 14083, some 135094, some 135552, some 152280,
  some 172733, some 149978, some 137274, some 147831, some 164476, some 22681, some 21096,
  some 13850, some 153405, some 31666, some 23400, some 18432, some 19244, some 40743, some 18919,
  some 39967, some 39821, some 154484, some 143677, some 22011, some 13810, some 22153, some 20008,
  some 22786, some 138177, some 194680, some 38737, some 131206, some 20059, some 20155,
  some 13630, some 23587, some 24401, some 24516, some 14586, some 25164, some 25909, some 27514,
  some 27701, some 27706, some 28780, some 29227, some 20012, some 29357, some 149737, some 32594,
  some 31035, some 31993, some 32595, some 156266, some 13505, none, some 156491, some 32770,
  some 32896, some 157202, some 158033, some 21341
 ]

/-- Rows 1700–1799 of the `"big5"` Pointer Table. -/
def big5IndexPart017 : List (Option Nat) :=
 [
  some 34916, some 35265, some 161970, some 35744, some 36125, some 38021, some 38264, some 38271,
  some 38376, some 167439, some 38886, some 39029, some 39118, some 39134, some 39267, some 170000,
  some 40060, some 40479, some 40644, some 27503, some 63751, some 20023, some 131207, some 38429,
  some 25143, some 38050, none, some 20539, some 28158, some 171123, some 40870, some 15817,
  some 34959, some 147790, some 28791, some 23797, some 19232, some 152013, some 13657,
  some 154928, some 24866, some 166450, some 36775, some 37366, some 29073, some 26393, some 29626,
  some 144001, some 172295, some 15499, some 137600, some 19216, some 30948, some 29698,
  some 20910, some 165647, some 16393, some 27235, some 172730, some 16931, some 34319,
  some 133743, some 31274, some 170311, some 166634, some 38741, some 28749, some 21284,
  some 139390, some 37876, some 30425, some 166371, some 40871, some 30685, some 20131, some 20464,
  some 20668, some 20015, some 20247, some 40872, some 21556, some 32139, some 22674, some 22736,
  some 138678, some 24210, some 24217, some 24514, some 141074, some 25995, some 144377,
  some 26905, some 27203, some 146531, some 27903, none, some 29184, some 148741, some 29580,
  some 16091
 ]

/-- Rows 1800–1899 of the `"big5"` Pointer Table. -/
def big5IndexPart018 : List (Option Nat) :=
 [
  some 150035, some 23317, some 29881, some 35715, some 154788, some 153237, some 31379,
  some 31724, some 31939, some 32364, some 33528, some 34199, some 40873, some 34960, some 40874,
  some 36537, some 40875, some 36815, some 34143, some 39392, some 37409, some 40876, some 167353,
  some 136255, some 16497, some 17058, some 23066, none, none, none, some 39016, some 26475,
  some 17014, some 22333, none, some 34262, some 149883, some 33471, some 160013, some 19585,
  some 159092, some 23931, some 158485, some 159678, some 40877, some 40878, some 23446,
  some 40879, some 26343, some 32347, some 28247, some 31178, some 15752, some 17603, some 143958,
  some 141206, some 17306, some 17718, none, some 23765, some 146202, some 35577, some 23672,
  some 15634, some 144721, some 23928, some 40882, some 29015, some 17752, some 147692,
  some 138787, some 19575, some 14712, some 13386, some 131492, some 158785, some 35532,
  some 20404, some 131641, some 22975, some 33132, some 38998, some 170234, some 24379,
  some 134047, none, some 139713, some 166253, some 16642, some 18107, some 168057, some 16135,
  some 40883, some 172469, some 16632, some 14294, some 18167, some 158790, some 16764,
  some 165554
 ]

/-- Rows 1900–1999 of the `"big5"` Pointer Table. -/
def big5IndexPart019 : List (Option Nat) :=
 [
  some 160767, some 17773, some 14548, some 152730, some 17761, some 17691, some 19849, some 19579,
  some 19830, some 17898, some 16328, some 150287, some 13921, some 17630, some 17597, some 16877,
  some 23870, some 23880, some 23894, some 15868, some 14351, some 23972, some 23993, some 14368,
  some 14392, some 24130, some 24253, some 24357, some 24451, some 14600, some 14612, some 14655,
  some 14669, some 24791, some 24893, some 23781, some 14729, some 25015, some 25017, some 25039,
  some 14776, some 25132, some 25232, some 25317, some 25368, some 14840, some 22193, some 14851,
  some 25570, some 25595, some 25607, some 25690, some 14923, some 25792, some 23829, some 22049,
  some 40863, some 14999, some 25990, some 15037, some 26111, some 26195, some 15090, some 26258,
  some 15138, some 26390, some 15170, some 26532, some 26624, some 15192, some 26698, some 26756,
  some 15218, some 15217, some 15227, some 26889, some 26947, some 29276, some 26980, some 27039,
  some 27013, some 15292, some 27094, some 15325, some 27237, some 27252, some 27249, some 27266,
  some 15340, some 27289, some 15346, some 27307, some 27317, some 27348, some 27382, some 27521,
  some 27585, some 27626, some 27765, some 27818
 ]

/-- Rows 2000–2099 of the `"big5"` Pointer Table. -/
def big5IndexPart020 : List (Option Nat) :=
 [
  some 15563, some 27906, some 27910, some 27942, some 28033, some 15599, some 28068, some 28081,
  some 28181, some 28184, some 28201, some 28294, some 166336, some 28347, some 28386, some 28378,
  some 40831, some 28392, some 28393, some 28452, some 28468, some 15686, some 147265, some 28545,
  some 28606, some 15722, some 15733, some 29111, some 23705, some 15754, some 28716, some 15761,
  some 28752, some 28756, some 28783, some 28799, some 28809, some 131877, some 17345, some 13809,
  some 134872, some 147159, some 22462, some 159443, some 28990, some 153568, some 13902,
  some 27042, some 166889, some 23412, some 31305, some 153825, some 169177, some 31333,
  some 31357, some 154028, some 31419, some 31408, some 31426, some 31427, some 29137, some 156813,
  some 16842, some 31450, some 31453, some 31466, some 16879, some 21682, some 154625, some 31499,
  some 31573, some 31529, some 152334, some 154878, some 31650, some 31599, some 33692,
  some 154548, some 158847, some 31696, some 33825, some 31634, some 31672, some 154912,
  some 15789, some 154725, some 33938, some 31738, some 31750, some 31797, some 154817, some 31812,
  some 31875, some 149634, some 31910, some 26237, some 148856, some 31945, some 31943, some 31974
 ]

/-- Rows 2100–2199 of the `"big5"` Pointer Table. -/
def big5IndexPart021 : List (Option Nat) :=
 [
  some 31860, some 31987, some 31989, some 31950, some 32359, some 17693, some 159300, some 32093,
  some 159446, some 29837, some 32137, some 32171, some 28981, some 32179, some 32210, some 147543,
  some 155689, some 32228, some 15635, some 32245, some 137209, some 32229, some 164717,
  some 32285, some 155937, some 155994, some 32366, some 32402, some 17195, some 37996, some 32295,
  some 32576, some 32577, some 32583, some 31030, some 156368, some 39393, some 32663, some 156497,
  some 32675, some 136801, some 131176, some 17756, some 145254, some 17667, some 164666,
  some 32762, some 156809, some 32773, some 32776, some 32797, some 32808, some 32815, some 172167,
  some 158915, some 32827, some 32828, some 32865, some 141076, some 18825, some 157222,
  some 146915, some 157416, some 26405, some 32935, some 166472, some 33031, some 33050,
  some 22704, some 141046, some 27775, some 156824, some 151480, some 25831, some 136330,
  some 33304, some 137310, some 27219, some 150117, some 150165, some 17530, some 33321,
  some 133901, some 158290, some 146814, some 20473, some 136445, some 34018, some 33634,
  some 158474, some 149927, some 144688, some 137075, some 146936, some 33450, some 26907,
  some 194964, some 16859, some 34123, some 33488
 ]

/-- Rows 2200–2299 of the `"big5"` Pointer Table. -/
def big5IndexPart022 : List (Option Nat) :=
 [
  some 33562, some 134678, some 137140, some 14017, some 143741, some 144730, some 33403,
  some 33506, some 33560, some 147083, some 159139, some 158469, some 158615, some 144846,
  some 15807, some 33565, some 21996, some 33669, some 17675, some 159141, some 33708, some 33729,
  some 33747, some 13438, some 159444, some 27223, some 34138, some 13462, some 159298,
  some 143087, some 33880, some 154596, some 33905, some 15827, some 17636, some 27303, some 33866,
  some 146613, some 31064, some 33960, some 158614, some 159351, some 159299, some 34014,
  some 33807, some 33681, some 17568, some 33939, some 34020, some 154769, some 16960, some 154816,
  some 17731, some 34100, some 23282, some 159385, some 17703, some 34163, some 17686, some 26559,
  some 34326, some 165413, some 165435, some 34241, some 159880, some 34306, some 136578,
  some 159949, some 194994, some 17770, some 34344, some 13896, some 137378, some 21495,
  some 160666, some 34430, some 34673, some 172280, some 34798, some 142375, some 34737,
  some 34778, some 34831, some 22113, some 34412, some 26710, some 17935, some 34885, some 34886,
  some 161248, some 146873, some 161252, some 34910, some 34972, some 18011, some 34996,
  some 34997, some 25537, some 35013, some 30583
 ]

/-- Rows 2300–2399 of the `"big5"` Pointer Table. -/
def big5IndexPart023 : List (Option Nat) :=
 [
  some 161551, some 35207, some 35210, some 35238, some 35241, some 35239, some 35260, some 166437,
  some 35303, some 162084, some 162493, some 35484, some 30611, some 37374, some 35472,
  some 162393, some 31465, some 162618, some 147343, some 18195, some 162616, some 29052,
  some 35596, some 35615, some 152624, some 152933, some 35647, some 35660, some 35661, some 35497,
  some 150138, some 35728, some 35739, some 35503, some 136927, some 17941, some 34895, some 35995,
  some 163156, some 163215, some 195028, some 14117, some 163155, some 36054, some 163224,
  some 163261, some 36114, some 36099, some 137488, some 36059, some 28764, some 36113,
  some 150729, some 16080, some 36215, some 36265, some 163842, some 135188, some 149898,
  some 15228, some 164284, some 160012, some 31463, some 36525, some 36534, some 36547, some 37588,
  some 36633, some 36653, some 164709, some 164882, some 36773, some 37635, some 172703,
  some 133712, some 36787, some 18730, some 166366, some 165181, some 146875, some 24312,
  some 143970, some 36857, some 172052, some 165564, some 165121, some 140069, some 14720,
  some 159447, some 36919, some 165180, some 162494, some 36961, some 165228, some 165387,
  some 37032, some 165651, some 37060, some 165606, some 37038
 ]

/-- Rows 2400–2499 of the `"big5"` Pointer Table. -/
def big5IndexPart024 : List (Option Nat) :=
 [
  some 37117, some 37223, some 15088, some 37289, some 37316, some 31916, some 166195, some 138889,
  some 37390, some 27807, some 37441, some 37474, some 153017, some 37561, some 166598,
  some 146587, some 166668, some 153051, some 134449, some 37676, some 37739, some 166625,
  some 166891, some 28815, some 23235, some 166626, some 166629, some 18789, some 37444,
  some 166892, some 166969, some 166911, some 37747, some 37979, some 36540, some 38277,
  some 38310, some 37926, some 38304, some 28662, some 17081, some 140922, some 165592,
  some 135804, some 146990, some 18911, some 27676, some 38523, some 38550, some 16748, some 38563,
  some 159445, some 25050, some 38582, some 30965, some 166624, some 38589, some 21452, some 18849,
  some 158904, some 131700, some 156688, some 168111, some 168165, some 150225, some 137493,
  some 144138, some 38705, some 34370, some 38710, some 18959, some 17725, some 17797, some 150249,
  some 28789, some 23361, some 38683, some 38748, some 168405, some 38743, some 23370, some 168427,
  some 38751, some 37925, some 20688, some 143543, some 143548, some 38793, some 38815, some 38833,
  some 38846, some 38848, some 38866, some 38880, some 152684, some 38894, some 29724, some 169011,
  some 38911, some 38901
 ]

/-- Rows 2500–2599 of the `"big5"` Pointer Table. -/
def big5IndexPart025 : List (Option Nat) :=
 [
  some 168989, some 162170, some 19153, some 38964, some 38963, some 38987, some 39014, some 15118,
  some 160117, some 15697, some 132656, some 147804, some 153350, some 39114, some 39095,
  some 39112, some 39111, some 19199, some 159015, some 136915, some 21936, some 39137, some 39142,
  some 39148, some 37752, some 39225, some 150057, some 19314, some 170071, some 170245,
  some 39413, some 39436, some 39483, some 39440, some 39512, some 153381, some 14020, some 168113,
  some 170965, some 39648, some 39650, some 170757, some 39668, some 19470, some 39700, some 39725,
  some 165376, some 20532, some 39732, some 158120, some 14531, some 143485, some 39760,
  some 39744, some 171326, some 23109, some 137315, some 39822, some 148043, some 39938,
  some 39935, some 39948, some 171624, some 40404, some 171959, some 172434, some 172459,
  some 172257, some 172323, some 172511, some 40318, some 40323, some 172340, some 40462,
  some 26760, some 40388, some 139611, some 172435, some 172576, some 137531, some 172595,
  some 40249, some 172217, some 172724, some 40592, some 40597, some 40606, some 40610, some 19764,
  some 40618, some 40623, some 148324, some 40641, some 15200, some 14821, some 15645, some 20274,
  some 14270, some 166955, some 40706
 ]

/-- Rows 2600–2699 of the `"big5"` Pointer Table. -/
def big5IndexPart026 : List (Option Nat) :=
 [
  some 40712, some 19350, some 37924, some 159138, some 40727, some 40726, some 40761, some 22175,
  some 22154, some 40773, some 39352, some 168075, some 38898, some 33919, some 40802, some 40809,
  some 31452, some 40846, some 29206, some 19390, some 149877, some 149947, some 29047,
  some 150008, some 148296, some 150097, some 29598, some 166874, some 137466, some 31135,
  some 166270, some 167478, some 37737, some 37875, some 166468, some 37612, some 37761,
  some 37835, some 166252, some 148665, some 29207, some 16107, some 30578, some 31299, some 28880,
  some 148595, some 148472, some 29054, some 137199, some 28835, some 137406, some 144793,
  some 16071, some 137349, some 152623, some 137208, some 14114, some 136955, some 137273,
  some 14049, some 137076, some 137425, some 155467, some 14115, some 136896, some 22363,
  some 150053, some 136190, some 135848, some 136134, some 136374, some 34051, some 145062,
  some 34051, some 33877, some 149908, some 160101, some 146993, some 152924, some 147195,
  some 159826, some 17652, some 145134, some 170397, some 159526, some 26617, some 14131,
  some 15381, some 15847, some 22636, some 137506, some 26640, some 16471, some 145215,
  some 147681, some 147595, some 147727, some 158753, some 21707, some 22174
 ]

/-- Rows 2700–2799 of the `"big5"` Pointer Table. -/
def big5IndexPart027 : List (Option Nat) :=
 [
  some 157361, some 22162, some 135135, some 134056, some 134669, some 37830, some 166675,
  some 37788, some 20216, some 20779, some 14361, some 148534, some 20156, some 132197,
  some 131967, some 20299, some 20362, some 153169, some 23144, some 131499, some 132043,
  some 14745, some 131850, some 132116, some 13365, some 20265, some 131776, some 167603,
  some 131701, some 35546, some 131596, some 20120, some 20685, some 20749, some 20386, some 20227,
  some 150030, some 147082, some 20290, some 20526, some 20588, some 20609, some 20428, some 20453,
  some 20568, some 20732, some 20825, some 20827, some 20829, some 20830, some 28278, some 144789,
  some 147001, some 147135, some 28018, some 137348, some 147081, some 20904, some 20931,
  some 132576, some 17629, some 132259, some 132242, some 132241, some 36218, some 166556,
  some 132878, some 21081, some 21156, some 133235, some 21217, some 37742, some 18042, some 29068,
  some 148364, some 134176, some 149932, some 135396, some 27089, some 134685, some 29817,
  some 16094, some 29849, some 29716, some 29782, some 29592, some 19342, some 150204, some 147597,
  some 21456, some 13700, some 29199, some 147657, some 21940, some 131909, some 21709,
  some 134086, some 22301, some 37469, some 38644
 ]

/-- Rows 2800–2899 of the `"big5"` Pointer Table. -/
def big5IndexPart028 : List (Option Nat) :=
 [
  some 37734, some 22493, some 22413, some 22399, some 13886, some 22731, some 23193, some 166470,
  some 136954, some 137071, some 136976, some 23084, some 22968, some 37519, some 23166,
  some 23247, some 23058, some 153926, some 137715, some 137313, some 148117, some 14069,
  some 27909, some 29763, some 23073, some 155267, some 23169, some 166871, some 132115,
  some 37856, some 29836, some 135939, some 28933, some 18802, some 37896, some 166395, some 37821,
  some 14240, some 23582, some 23710, some 24158, some 24136, some 137622, some 137596,
  some 146158, some 24269, some 23375, some 137475, some 137476, some 14081, some 137376,
  some 14045, some 136958, some 14035, some 33066, some 166471, some 138682, some 144498,
  some 166312, some 24332, some 24334, some 137511, some 137131, some 23147, some 137019,
  some 23364, some 34324, some 161277, some 34912, some 24702, some 141408, some 140843,
  some 24539, some 16056, some 140719, some 140734, some 168072, some 159603, some 25024,
  some 131134, some 131142, some 140827, some 24985, some 24984, some 24693, some 142491,
  some 142599, some 149204, some 168269, some 25713, some 149093, some 142186, some 14889,
  some 142114, some 144464, some 170218, some 142968, some 25399, some 173147, some 25782
 ]

/-- Rows 2900–2999 of the `"big5"` Pointer Table. -/
def big5IndexPart029 : List (Option Nat) :=
 [
  some 25393, some 25553, some 149987, some 142695, some 25252, some 142497, some 25659,
  some 25963, some 26994, some 15348, some 143502, some 144045, some 149897, some 144043,
  some 21773, some 144096, some 137433, some 169023, some 26318, some 144009, some 143795,
  some 15072, some 16784, some 152964, some 166690, some 152975, some 136956, some 152923,
  some 152613, some 30958, some 143619, some 137258, some 143924, some 13412, some 143887,
  some 143746, some 148169, some 26254, some 159012, some 26219, some 19347, some 26160,
  some 161904, some 138731, some 26211, some 144082, some 144097, some 26142, some 153714,
  some 14545, some 145466, some 145340, some 15257, some 145314, some 144382, some 29904,
  some 15254, some 26511, some 149034, some 26806, some 26654, some 15300, some 27326, some 14435,
  some 145365, some 148615, some 27187, some 27218, some 27337, some 27397, some 137490,
  some 25873, some 26776, some 27212, some 15319, some 27258, some 27479, some 147392, some 146586,
  some 37792, some 37618, some 166890, some 166603, some 37513, some 163870, some 166364,
  some 37991, some 28069, some 28427, some 149996, some 28007, some 147327, some 15759, some 28164,
  some 147516, some 23101, some 28170, some 22599, some 27940, some 30786
 ]

/-- Rows 3000–3099 of the `"big5"` Pointer Table. -/
def big5IndexPart030 : List (Option Nat) :=
 [
  some 28987, some 148250, some 148086, some 28913, some 29264, some 29319, some 29332,
  some 149391, some 149285, some 20857, some 150180, some 132587, some 29818, some 147192,
  some 144991, some 150090, some 149783, some 155617, some 16134, some 16049, some 150239,
  some 166947, some 147253, some 24743, some 16115, some 29900, some 29756, some 37767, some 29751,
  some 17567, some 159210, some 17745, some 30083, some 16227, some 150745, some 150790,
  some 16216, some 30037, some 30323, some 173510, some 15129, some 29800, some 166604,
  some 149931, some 149902, some 15099, some 15821, some 150094, some 16127, some 149957,
  some 149747, some 37370, some 22322, some 37698, some 166627, some 137316, some 20703,
  some 152097, some 152039, some 30584, some 143922, some 30478, some 30479, some 30587,
  some 149143, some 145281, some 14942, some 149744, some 29752, some 29851, some 16063,
  some 150202, some 150215, some 16584, some 150166, some 156078, some 37639, some 152961,
  some 30750, some 30861, some 30856, some 30930, some 29648, some 31065, some 161601, some 153315,
  some 16654, some 31131, some 33942, some 31141, some 27181, some 147194, some 31290, some 31220,
  some 16750, some 136934, some 16690, some 37429, some 31217, some 134476
 ]

/-- Rows 3100–3199 of the `"big5"` Pointer Table. -/
def big5IndexPart031 : List (Option Nat) :=
 [
  some 149900, some 131737, some 146874, some 137070, some 13719, some 21867, some 13680,
  some 13994, some 131540, some 134157, some 31458, some 23129, some 141045, some 154287,
  some 154268, some 23053, some 131675, some 30960, some 23082, some 154566, some 31486,
  some 16889, some 31837, some 31853, some 16913, some 154547, some 155324, some 155302,
  some 31949, some 150009, some 137136, some 31886, some 31868, some 31918, some 27314, some 32220,
  some 32263, some 32211, some 32590, some 156257, some 155996, some 162632, some 32151,
  some 155266, some 17002, some 158581, some 133398, some 26582, some 131150, some 144847,
  some 22468, some 156690, some 156664, some 149858, some 32733, some 31527, some 133164,
  some 154345, some 154947, some 31500, some 155150, some 39398, some 34373, some 39523,
  some 27164, some 144447, some 14818, some 150007, some 157101, some 39455, some 157088,
  some 33920, some 160039, some 158929, some 17642, some 33079, some 17410, some 32966, some 33033,
  some 33090, some 157620, some 39107, some 158274, some 33378, some 33381, some 158289,
  some 33875, some 159143, some 34320, some 160283, some 23174, some 16767, some 137280,
  some 23339, some 137377, some 23268, some 137432, some 34464, some 195004, some 146831
 ]

/-- Rows 3200–3299 of the `"big5"` Pointer Table. -/
def big5IndexPart032 : List (Option Nat) :=
 [
  some 34861, some 160802, some 23042, some 34926, some 20293, some 34951, some 35007, some 35046,
  some 35173, some 35149, some 153219, some 35156, some 161669, some 161668, some 166901,
  some 166873, some 166812, some 166393, some 16045, some 33955, some 18165, some 18127,
  some 14322, some 35389, some 35356, some 169032, some 24397, some 37419, some 148100, some 26068,
  some 28969, some 28868, some 137285, some 40301, some 35999, some 36073, some 163292, some 22938,
  some 30659, some 23024, some 17262, some 14036, some 36394, some 36519, some 150537, some 36656,
  some 36682, some 17140, some 27736, some 28603, some 140065, some 18587, some 28537, some 28299,
  some 137178, some 39913, some 14005, some 149807, some 37051, some 37015, some 21873, some 18694,
  some 37307, some 37892, some 166475, some 16482, some 166652, some 37927, some 166941,
  some 166971, some 34021, some 35371, some 38297, some 38311, some 38295, some 38294, some 167220,
  some 29765, some 16066, some 149759, some 150082, some 148458, some 16103, some 143909,
  some 38543, some 167655, some 167526, some 167525, some 16076, some 149997, some 150136,
  some 147438, some 29714, some 29803, some 16124, some 38721, some 168112, some 26695, some 18973,
  some 168083
 ]

/-- Rows 3300–3399 of the `"big5"` Pointer Table. -/
def big5IndexPart033 : List (Option Nat) :=
 [
  some 153567, some 38749, some 37736, some 166281, some 166950, some 166703, some 156606,
  some 37562, some 23313, some 35689, some 18748, some 29689, some 147995, some 38811, some 38769,
  some 39224, some 134950, some 24001, some 166853, some 150194, some 38943, some 169178,
  some 37622, some 169431, some 37349, some 17600, some 166736, some 150119, some 166756,
  some 39132, some 166469, some 16128, some 37418, some 18725, some 33812, some 39227, some 39245,
  some 162566, some 15869, some 39323, some 19311, some 39338, some 39516, some 166757,
  some 153800, some 27279, some 39457, some 23294, some 39471, some 170225, some 19344,
  some 170312, some 39356, some 19389, some 19351, some 37757, some 22642, some 135938, some 22562,
  some 149944, some 136424, some 30788, some 141087, some 146872, some 26821, some 15741,
  some 37976, some 14631, some 24912, some 141185, some 141675, some 24839, some 40015, some 40019,
  some 40059, some 39989, some 39952, some 39807, some 39887, some 171565, some 39839, some 172533,
  some 172286, some 40225, some 19630, some 147716, some 40472, some 19632, some 40204,
  some 172468, some 172269, some 172275, some 170287, some 40357, some 33981, some 159250,
  some 159711, some 158594, some 34300, some 17715
 ]

/-- Rows 3400–3499 of the `"big5"` Pointer Table. -/
def big5IndexPart034 : List (Option Nat) :=
 [
  some 159140, some 159364, some 159216, some 33824, some 34286, some 159232, some 145367,
  some 155748, some 31202, some 144796, some 144960, some 18733, some 149982, some 15714,
  some 37851, some 37566, some 37704, some 131775, some 30905, some 37495, some 37965, some 20452,
  some 13376, some 36964, some 152925, some 30781, some 30804, some 30902, some 30795, some 137047,
  some 143817, some 149825, some 13978, some 20338, some 28634, some 28633, some 28702, some 28702,
  some 21524, some 147893, some 22459, some 22771, some 22410, some 40214, some 22487, some 28980,
  some 13487, some 147884, some 29163, some 158784, some 151447, some 23336, some 137141,
  some 166473, some 24844, some 23246, some 23051, some 17084, some 148616, some 14124, some 19323,
  some 166396, some 37819, some 37816, some 137430, some 134941, some 33906, some 158912,
  some 136211, some 148218, some 142374, some 148417, some 22932, some 146871, some 157505,
  some 32168, some 155995, some 155812, some 149945, some 149899, some 166394, some 37605,
  some 29666, some 16105, some 29876, some 166755, some 137375, some 16097, some 150195,
  some 27352, some 29683, some 29691, some 16086, some 150078, some 150164, some 137177,
  some 150118, some 132007, some 136228, some 149989
 ]

/-- Rows 3500–3599 of the `"big5"` Pointer Table. -/
def big5IndexPart035 : List (Option Nat) :=
 [
  some 29768, some 149782, some 28837, some 149878, some 37508, some 29670, some 37727,
  some 132350, some 37681, some 166606, some 166422, some 37766, some 166887, some 153045,
  some 18741, some 166530, some 29035, some 149827, some 134399, some 22180, some 132634,
  some 134123, some 134328, some 21762, some 31172, some 137210, some 32254, some 136898,
  some 150096, some 137298, some 17710, some 37889, some 14090, some 166592, some 149933,
  some 22960, some 137407, some 137347, some 160900, some 23201, some 14050, some 146779,
  some 14000, some 37471, some 23161, some 166529, some 137314, some 37748, some 15565,
  some 133812, some 19094, some 14730, some 20724, some 15721, some 15692, some 136092, some 29045,
  some 17147, some 164376, some 28175, some 168164, some 17643, some 27991, some 163407,
  some 28775, some 27823, some 15574, some 147437, some 146989, some 28162, some 28428, some 15727,
  some 132085, some 30033, some 14012, some 13512, some 18048, some 16090, some 18545, some 22980,
  some 37486, some 18750, some 36673, some 166940, some 158656, some 22546, some 22472, some 14038,
  some 136274, some 28926, some 148322, some 150129, some 143331, some 135856, some 140221,
  some 26809, some 26983, some 136088, some 144613, some 162804
 ]

/-- Rows 3600–3699 of the `"big5"` Pointer Table. -/
def big5IndexPart036 : List (Option Nat) :=
 [
  some 145119, some 166531, some 145366, some 144378, some 150687, some 27162, some 145069,
  some 158903, some 33854, some 17631, some 17614, some 159014, some 159057, some 158850,
  some 159710, some 28439, some 160009, some 33597, some 137018, some 33773, some 158848,
  some 159827, some 137179, some 22921, some 23170, some 137139, some 23137, some 23153,
  some 137477, some 147964, some 14125, some 23023, some 137020, some 14023, some 29070,
  some 37776, some 26266, some 148133, some 23150, some 23083, some 148115, some 27179,
  some 147193, some 161590, some 148571, some 148170, some 28957, some 148057, some 166369,
  some 20400, some 159016, some 23746, some 148686, some 163405, some 148413, some 27148,
  some 148054, some 135940, some 28838, some 28979, some 148457, some 15781, some 27871,
  some 194597, some 150095, some 32357, some 23019, some 23855, some 15859, some 24412,
  some 150109, some 137183, some 32164, some 33830, some 21637, some 146170, some 144128,
  some 131604, some 22398, some 133333, some 132633, some 16357, some 139166, some 172726,
  some 28675, some 168283, some 23920, some 29583, some 31955, some 166489, some 168992,
  some 20424, some 32743, some 29389, some 29456, some 162548, some 29496, some 29497, some 153334,
  some 29505
 ]

/-- Rows 3700–3799 of the `"big5"` Pointer Table. -/
def big5IndexPart037 : List (Option Nat) :=
 [
  some 29512, some 16041, some 162584, some 36972, some 29173, some 149746, some 29665, some 33270,
  some 16074, some 30476, some 16081, some 27810, some 22269, some 29721, some 29726, some 29727,
  some 16098, some 16112, some 16116, some 16122, some 29907, some 16142, some 16211, some 30018,
  some 30061, some 30066, some 30093, some 16252, some 30152, some 30172, some 16320, some 30285,
  some 16343, some 30324, some 16348, some 30330, some 151388, some 29064, some 22051, some 35200,
  some 22633, some 16413, some 30531, some 16441, some 26465, some 16453, some 13787, some 30616,
  some 16490, some 16495, some 23646, some 30654, some 30667, some 22770, some 30744, some 28857,
  some 30748, some 16552, some 30777, some 30791, some 30801, some 30822, some 33864, some 152885,
  some 31027, some 26627, some 31026, some 16643, some 16649, some 31121, some 31129, some 36795,
  some 31238, some 36796, some 16743, some 31377, some 16818, some 31420, some 33401, some 16836,
  some 31439, some 31451, some 16847, some 20001, some 31586, some 31596, some 31611, some 31762,
  some 31771, some 16992, some 17018, some 31867, some 31900, some 17036, some 31928, some 17044,
  some 31981, some 36755, some 28864, some 134351
 ]

/-- Rows 3800–3899 of the `"big5"` Pointer Table. -/
def big5IndexPart038 : List (Option Nat) :=
 [
  some 32207, some 32212, some 32208, some 32253, some 32686, some 32692, some 29343, some 17303,
  some 32800, some 32805, some 31545, some 32814, some 32817, some 32852, some 15820, some 22452,
  some 28832, some 32951, some 33001, some 17389, some 33036, some 29482, some 33038, some 33042,
  some 30048, some 33044, some 17409, some 15161, some 33110, some 33113, some 33114, some 17427,
  some 22586, some 33148, some 33156, some 17445, some 33171, some 17453, some 33189, some 22511,
  some 33217, some 33252, some 33364, some 17551, some 33446, some 33398, some 33482, some 33496,
  some 33535, some 17584, some 33623, some 38505, some 27018, some 33797, some 28917, some 33892,
  some 24803, some 33928, some 17668, some 33982, some 34017, some 34040, some 34064, some 34104,
  some 34130, some 17723, some 34159, some 34160, some 34272, some 17783, some 34418, some 34450,
  some 34482, some 34543, some 38469, some 34699, some 17926, some 17943, some 34990, some 35071,
  some 35108, some 35143, some 35217, some 162151, some 35369, some 35384, some 35476, some 35508,
  some 35921, some 36052, some 36082, some 36124, some 18328, some 22623, some 36291, some 18413,
  some 20206, some 36410, some 21976, some 22356
 ]

/-- Rows 3900–3999 of the `"big5"` Pointer Table. -/
def big5IndexPart039 : List (Option Nat) :=
 [
  some 36465, some 22005, some 36528, some 18487, some 36558, some 36578, some 36580, some 36589,
  some 36594, some 36791, some 36801, some 36810, some 36812, some 36915, some 39364, some 18605,
  some 39136, some 37395, some 18718, some 37416, some 37464, some 37483, some 37553, some 37550,
  some 37567, some 37603, some 37611, some 37619, some 37620, some 37629, some 37699, some 37764,
  some 37805, some 18757, some 18769, some 40639, some 37911, some 21249, some 37917, some 37933,
  some 37950, some 18794, some 37972, some 38009, some 38189, some 38306, some 18855, some 38388,
  some 38451, some 18917, some 26528, some 18980, some 38720, some 18997, some 38834, some 38850,
  some 22100, some 19172, some 24808, some 39097, some 19225, some 39153, some 22596, some 39182,
  some 39193, some 20916, some 39196, some 39223, some 39234, some 39261, some 39266, some 19312,
  some 39365, some 19357, some 39484, some 39695, some 31363, some 39785, some 39809, some 39901,
  some 39921, some 39924, some 19565, some 39968, some 14191, some 138178, some 40265, some 39994,
  some 40702, some 22096, some 40339, some 40381, some 40384, some 40444, some 38134, some 36790,
  some 40571, some 40620, some 40625, some 40637
 ]

/-- Rows 4000–4099 of the `"big5"` Pointer Table. -/
def big5IndexPart040 : List (Option Nat) :=
 [
  some 40646, some 38108, some 40674, some 40689, some 40696, some 31432, some 40772, some 131220,
  some 131767, some 132000, some 26906, some 38083, some 22956, some 132311, some 22592,
  some 38081, some 14265, some 132565, some 132629, some 132726, some 136890, some 22359,
  some 29043, some 133826, some 133837, some 134079, some 21610, some 194619, some 134091,
  some 21662, some 134139, some 134203, some 134227, some 134245, some 134268, some 24807,
  some 134285, some 22138, some 134325, some 134365, some 134381, some 134511, some 134578,
  some 134600, some 26965, some 39983, some 34725, some 134660, some 134670, some 134871,
  some 135056, some 134957, some 134771, some 23584, some 135100, some 24075, some 135260,
  some 135247, some 135286, some 26398, some 135291, some 135304, some 135318, some 13895,
  some 135359, some 135379, some 135471, some 135483, some 21348, some 33965, some 135907,
  some 136053, some 135990, some 35713, some 136567, some 136729, some 137155, some 137159,
  some 20088, some 28859, some 137261, some 137578, some 137773, some 137797, some 138282,
  some 138352, some 138412, some 138952, some 25283, some 138965, some 139029, some 29080,
  some 26709, some 139333, some 27113, some 14024, some 139900, some 140247, some 140282,
  some 141098
 ]

/-- Rows 4100–4199 of the `"big5"` Pointer Table. -/
def big5IndexPart041 : List (Option Nat) :=
 [
  some 141425, some 141647, some 33533, some 141671, some 141715, some 142037, some 35237,
  some 142056, some 36768, some 142094, some 38840, some 142143, some 38983, some 39613,
  some 142412, none, some 142472, some 142519, some 154600, some 142600, some 142610, some 142775,
  some 142741, some 142914, some 143220, some 143308, some 143411, some 143462, some 144159,
  some 144350, some 24497, some 26184, some 26303, some 162425, some 144743, some 144883,
  some 29185, some 149946, some 30679, some 144922, some 145174, some 32391, some 131910,
  some 22709, some 26382, some 26904, some 146087, some 161367, some 155618, some 146961,
  some 147129, some 161278, some 139418, some 18640, some 19128, some 147737, some 166554,
  some 148206, some 148237, some 147515, some 148276, some 148374, some 150085, some 132554,
  some 20946, some 132625, some 22943, some 138920, some 15294, some 146687, some 148484,
  some 148694, some 22408, some 149108, some 14747, some 149295, some 165352, some 170441,
  some 14178, some 139715, some 35678, some 166734, some 39382, some 149522, some 149755,
  some 150037, some 29193, some 150208, some 134264, some 22885, some 151205, some 151430,
  some 132985, some 36570, some 151596, some 21135, some 22335, some 29041, some 152217,
  some 152601
 ]

/-- Rows 4200–4299 of the `"big5"` Pointer Table. -/
def big5IndexPart042 : List (Option Nat) :=
 [
  some 147274, some 150183, some 21948, some 152646, some 152686, some 158546, some 37332,
  some 13427, some 152895, some 161330, some 152926, some 18200, some 152930, some 152934,
  some 153543, some 149823, some 153693, some 20582, some 13563, some 144332, some 24798,
  some 153859, some 18300, some 166216, some 154286, some 154505, some 154630, some 138640,
  some 22433, some 29009, some 28598, some 155906, some 162834, some 36950, some 156082,
  some 151450, some 35682, some 156674, some 156746, some 23899, some 158711, some 36662,
  some 156804, some 137500, some 35562, some 150006, some 156808, some 147439, some 156946,
  some 19392, some 157119, some 157365, some 141083, some 37989, some 153569, some 24981,
  some 23079, some 194765, some 20411, some 22201, some 148769, some 157436, some 20074,
  some 149812, some 38486, some 28047, some 158909, some 13848, some 35191, some 157593,
  some 157806, some 156689, some 157790, some 29151, some 157895, some 31554, some 168128,
  some 133649, some 157990, some 37124, some 158009, some 31301, some 40432, some 158202,
  some 39462, some 158253, some 13919, some 156777, some 131105, some 31107, some 158260,
  some 158555, some 23852, some 144665, some 33743, some 158621, some 18128, some 158884,
  some 30011, some 34917
 ]

/-- Rows 4300–4399 of the `"big5"` Pointer Table. -/
def big5IndexPart043 : List (Option Nat) :=
 [
  some 159150, some 22710, some 14108, some 140685, some 159819, some 160205, some 15444,
  some 160384, some 160389, some 37505, some 139642, some 160395, some 37680, some 160486,
  some 149968, some 27705, some 38047, some 160848, some 134904, some 34855, some 35061,
  some 141606, some 164979, some 137137, some 28344, some 150058, some 137248, some 14756,
  some 14009, some 23568, some 31203, some 17727, some 26294, some 171181, some 170148, some 35139,
  some 161740, some 161880, some 22230, some 16607, some 136714, some 14753, some 145199,
  some 164072, some 136133, some 29101, some 33638, some 162269, some 168360, some 23143,
  some 19639, some 159919, some 166315, some 162301, some 162314, some 162571, some 163174,
  some 147834, some 31555, some 31102, some 163849, some 28597, some 172767, some 27139,
  some 164632, some 21410, some 159239, some 37823, some 26678, some 38749, some 164207,
  some 163875, some 158133, some 136173, some 143919, some 163912, some 23941, some 166960,
  some 163971, some 22293, some 38947, some 166217, some 23979, some 149896, some 26046,
  some 27093, some 21458, some 150181, some 147329, some 15377, some 26422, some 163984,
  some 164084, some 164142, some 139169, some 164175, some 164233, some 164271, some 164378,
  some 164614
 ]

/-- Rows 4400–4499 of the `"big5"` Pointer Table. -/
def big5IndexPart044 : List (Option Nat) :=
 [
  some 164655, some 164746, some 13770, some 164968, some 165546, some 18682, some 25574,
  some 166230, some 30728, some 37461, some 166328, some 17394, some 166375, some 17375,
  some 166376, some 166726, some 166868, some 23032, some 166921, some 36619, some 167877,
  some 168172, some 31569, some 168208, some 168252, some 15863, some 168286, some 150218,
  some 36816, some 29327, some 22155, some 169191, some 169449, some 169392, some 169400,
  some 169778, some 170193, some 170313, some 170346, some 170435, some 170536, some 170766,
  some 171354, some 171419, some 32415, some 171768, some 171811, some 19620, some 38215,
  some 172691, some 29090, some 172799, some 19857, some 36882, some 173515, some 19868,
  some 134300, some 36798, some 21953, some 36794, some 140464, some 36793, some 150163,
  some 17673, some 32383, some 28502, some 27313, some 20202, some 13540, some 166700, some 161949,
  some 14138, some 36480, some 137205, some 163876, some 166764, some 166809, some 162366,
  some 157359, some 15851, some 161365, some 146615, some 153141, some 153942, some 20122,
  some 155265, some 156248, some 22207, some 134765, some 36366, some 23405, some 147080,
  some 150686, some 25566, some 25296, some 137206, some 137339, some 25904, some 22061,
  some 154698
 ]

/-- Rows 4500–4599 of the `"big5"` Pointer Table. -/
def big5IndexPart045 : List (Option Nat) :=
 [
  some 21530, some 152337, some 15814, some 171416, some 19581, some 22050, some 22046, some 32585,
  some 155352, some 22901, some 146752, some 34672, some 19996, some 135146, some 134473,
  some 145082, some 33047, some 40286, some 36120, some 30267, some 40005, some 30286, some 30649,
  some 37701, some 21554, some 33096, some 33527, some 22053, some 33074, some 33816, some 32957,
  some 21994, some 31074, some 22083, some 21526, some 134813, some 13774, some 22021, some 22001,
  some 26353, some 164578, some 13869, some 30004, some 22000, some 21946, some 21655, some 21874,
  some 134209, some 134294, some 24272, some 151880, some 134774, some 142434, some 134818,
  some 40619, some 32090, some 21982, some 135285, some 25245, some 38765, some 21652, some 36045,
  some 29174, some 37238, some 25596, some 25529, some 25598, some 21865, some 142147, some 40050,
  some 143027, some 20890, some 13535, some 134567, some 20903, some 21581, some 21790, some 21779,
  some 30310, some 36397, some 157834, some 30129, some 32950, some 34820, some 34694, some 35015,
  some 33206, some 33820, some 135361, some 17644, some 29444, some 149254, some 23440, some 33547,
  some 157843, some 22139, some 141044, some 163119, some 147875, some 163187
 ]

/-- Rows 4600–4699 of the `"big5"` Pointer Table. -/
def big5IndexPart046 : List (Option Nat) :=
 [
  some 159440, some 160438, some 37232, some 135641, some 37384, some 146684, some 173737,
  some 134828, some 134905, some 29286, some 138402, some 18254, some 151490, some 163833,
  some 135147, some 16634, some 40029, some 25887, some 142752, some 18675, some 149472,
  some 171388, some 135148, some 134666, some 24674, some 161187, some 135149, none, some 155720,
  some 135559, some 29091, some 32398, some 40272, some 19994, some 19972, some 13687, some 23309,
  some 27826, some 21351, some 13996, some 14812, some 21373, some 13989, some 149016, some 22682,
  some 150382, some 33325, some 21579, some 22442, some 154261, some 133497, none, some 14930,
  some 140389, some 29556, some 171692, some 19721, some 39917, some 146686, some 171824,
  some 19547, some 151465, some 169374, some 171998, some 33884, some 146870, some 160434,
  some 157619, some 145184, some 25390, some 32037, some 147191, some 146988, some 14890,
  some 36872, some 21196, some 15988, some 13946, some 17897, some 132238, some 30272, some 23280,
  some 134838, some 30842, some 163630, some 22695, some 16575, some 22140, some 39819, some 23924,
  some 30292, some 173108, some 40581, some 19681, some 30201, some 14331, some 24857, some 143578,
  some 148466, none
 ]

/-- Rows 4700–4799 of the `"big5"` Pointer Table. -/
def big5IndexPart047 : List (Option Nat) :=
 [
  some 22109, some 135849, some 22439, some 149859, some 171526, some 21044, some 159918,
  some 13741, some 27722, some 40316, some 31830, some 39737, some 22494, some 137068, some 23635,
  some 25811, some 169168, some 156469, some 160100, some 34477, some 134440, some 159010,
  some 150242, some 134513, none, some 20990, some 139023, some 23950, some 38659, some 138705,
  some 40577, some 36940, some 31519, some 39682, some 23761, some 31651, some 25192, some 25397,
  some 39679, some 31695, some 39722, some 31870, some 39726, some 31810, some 31878, some 39957,
  some 31740, some 39689, some 40727, some 39963, some 149822, some 40794, some 21875, some 23491,
  some 20477, some 40600, some 20466, some 21088, some 15878, some 21201, some 22375, some 20566,
  some 22967, some 24082, some 38856, some 40363, some 36700, some 21609, some 38836, some 39232,
  some 38842, some 21292, some 24880, some 26924, some 21466, some 39946, some 40194, some 19515,
  some 38465, some 27008, some 20646, some 30022, some 137069, some 39386, some 21107, none,
  some 37209, some 38529, some 37212, none, some 37201, some 167575, some 25471, some 159011,
  some 27338, some 22033, some 37262, some 30074, some 25221, some 132092
 ]

/-- Rows 4800–4899 of the `"big5"` Pointer Table. -/
def big5IndexPart048 : List (Option Nat) :=
 [
  some 29519, some 31856, some 154657, some 146685, none, some 149785, some 30422, some 39837,
  some 20010, some 134356, some 33726, some 34882, none, some 23626, some 27072, some 20717,
  some 22394, some 21023, some 24053, some 20174, some 27697, some 131570, some 20281, some 21660,
  some 21722, some 21146, some 36226, some 13822, some 24332, some 13811, none, some 27474,
  some 37244, some 40869, some 39831, some 38958, some 39092, some 39610, some 40616, some 40580,
  some 29050, some 31508, none, some 27642, some 34840, some 32632, none, some 22048, some 173642,
  some 36471, some 40787, none, some 36308, some 36431, some 40476, some 36353, some 25218,
  some 164733, some 36392, some 36469, some 31443, some 150135, some 31294, some 30936, some 27882,
  some 35431, some 30215, some 166490, some 40742, some 27854, some 34774, some 30147, some 172722,
  some 30803, some 194624, some 36108, some 29410, some 29553, some 35629, some 29442, some 29937,
  some 36075, some 150203, some 34351, some 24506, some 34976, some 17591, none, some 137275,
  some 159237, none, some 35454, some 140571, none, some 24829, some 30311, some 39639, some 40260,
  some 37742, some 39823
 ]

/-- Rows 4900–4999 of the `"big5"` Pointer Table. -/
def big5IndexPart049 : List (Option Nat) :=
 [
  some 34805, none, some 34831, some 36087, some 29484, some 38689, some 39856, some 13782,
  some 29362, some 19463, some 31825, some 39242, some 155993, some 24921, some 19460, some 40598,
  some 24957, none, some 22367, some 24943, some 25254, some 25145, some 25294, some 14940,
  some 25058, some 21418, some 144373, some 25444, some 26626, some 13778, some 23895, some 166850,
  some 36826, some 167481, none, some 20697, some 138566, some 30982, some 21298, some 38456,
  some 134971, some 16485, none, some 30718, none, some 31938, some 155418, some 31962, some 31277,
  some 32870, some 32867, some 32077, some 29957, some 29938, some 35220, some 33306, some 26380,
  some 32866, some 160902, some 32859, some 29936, some 33027, some 30500, some 35209, some 157644,
  some 30035, some 159441, some 34729, some 34766, some 33224, some 34700, some 35401, some 36013,
  some 35651, some 30507, some 29944, some 34010, some 13877, some 27058, some 36262, none,
  some 35241, some 29800, some 28089, some 34753, some 147473, some 29927, some 15835, some 29046,
  some 24740, some 24988, some 15569, some 29026, some 24695, none, some 32625, some 166701,
  some 29264, some 24809, some 19326
 ]

/-- Rows 5000–5099 of the `"big5"` Pointer Table. -/
def big5IndexPart050 : List (Option Nat) :=
 [
  some 21024, some 15384, some 146631, some 155351, some 161366, some 152881, some 137540,
  some 135934, some 170243, some 159196, some 159917, some 23745, some 156077, some 166415,
  some 145015, some 131310, some 157766, some 151310, some 17762, some 23327, some 156492,
  some 40784, some 40614, some 156267, some 12288, some 65292, some 12289, some 12290, some 65294,
  some 8231, some 65307, some 65306, some 65311, some 65281, some 65072, some 8230, some 8229,
  some 65104, some 65105, some 65106, some 183, some 65108, some 65109, some 65110, some 65111,
  some 65372, some 8211, some 65073, some 8212, some 65075, some 9588, some 65076, some 65103,
  some 65288, some 65289, some 65077, some 65078, some 65371, some 65373, some 65079, some 65080,
  some 12308, some 12309, some 65081, some 65082, some 12304, some 12305, some 65083, some 65084,
  some 12298, some 12299, some 65085, some 65086, some 12296, some 12297, some 65087, some 65088,
  some 12300, some 12301, some 65089, some 65090, some 12302, some 12303, some 65091, some 65092,
  some 65113, some 65114, some 65115, some 65116, some 65117, some 65118, some 8216, some 8217,
  some 8220, some 8221, some 12317, some 12318, some 8245, some 8242, some 65283
 ]

/-- Rows 5100–5199 of the `"big5"` Pointer Table. -/
def big5IndexPart051 : List (Option Nat) :=
 [
  some 65286, some 65290, some 8251, some 167, some 12291, some 9675, some 9679, some 9651,
  some 9650, some 9678, some 9734, some 9733, some 9671, some 9670, some 9633, some 9632,
  some 9661, some 9660, some 12963, some 8453, some 175, some 65507, some 65343, some 717,
  some 65097, some 65098, some 65101, some 65102, some 65099, some 65100, some 65119, some 65120,
  some 65121, some 65291, some 65293, some 215, some 247, some 177, some 8730, some 65308,
  some 65310, some 65309, some 8806, some 8807, some 8800, some 8734, some 8786, some 8801,
  some 65122, some 65123, some 65124, some 65125, some 65126, some 65374, some 8745, some 8746,
  some 8869, some 8736, some 8735, some 8895, some 13266, some 13265, some 8747, some 8750,
  some 8757, some 8756, some 9792, some 9794, some 8853, some 8857, some 8593, some 8595,
  some 8592, some 8594, some 8598, some 8599, some 8601, some 8600, some 8741, some 8739,
  some 65295, some 65340, some 8725, some 65128, some 65284, some 65509, some 12306, some 65504,
  some 65505, some 65285, some 65312, some 8451, some 8457, some 65129, some 65130, some 65131,
  some 13269, some 13212, some 13213, some 13214
 ]

/-- Rows 5200–5299 of the `"big5"` Pointer Table. -/
def big5IndexPart052 : List (Option Nat) :=
 [
  some 13262, some 13217, some 13198, some 13199, some 13252, some 176, some 20825, some 20827,
  some 20830, some 20829, some 20833, some 20835, some 21991, some 29929, some 31950, some 9601,
  some 9602, some 9603, some 9604, some 9605, some 9606, some 9607, some 9608, some 9615,
  some 9614, some 9613, some 9612, some 9611, some 9610, some 9609, some 9532, some 9524,
  some 9516, some 9508, some 9500, some 9620, some 9472, some 9474, some 9621, some 9484,
  some 9488, some 9492, some 9496, some 9581, some 9582, some 9584, some 9583, some 9552,
  some 9566, some 9578, some 9569, some 9698, some 9699, some 9701, some 9700, some 9585,
  some 9586, some 9587, some 65296, some 65297, some 65298, some 65299, some 65300, some 65301,
  some 65302, some 65303, some 65304, some 65305, some 8544, some 8545, some 8546, some 8547,
  some 8548, some 8549, some 8550, some 8551, some 8552, some 8553, some 12321, some 12322,
  some 12323, some 12324, some 12325, some 12326, some 12327, some 12328, some 12329, some 21313,
  some 21316, some 21317, some 65313, some 65314, some 65315, some 65316, some 65317, some 65318,
  some 65319, some 65320, some 65321, some 65322
 ]

/-- Rows 5300–5399 of the `"big5"` Pointer Table. -/
def big5IndexPart053 : List (Option Nat) :=
 [
  some 65323, some 65324, some 65325, some 65326, some 65327, some 65328, some 65329, some 65330,
  some 65331, some 65332, some 65333, some 65334, some 65335, some 65336, some 65337, some 65338,
  some 65345, some 65346, some 65347, some 65348, some 65349, some 65350, some 65351, some 65352,
  some 65353, some 65354, some 65355, some 65356, some 65357, some 65358, some 65359, some 65360,
  some 65361, some 65362, some 65363, some 65364, some 65365, some 65366, some 65367, some 65368,
  some 65369, some 65370, some 913, some 914, some 915, some 916, some 917, some 918, some 919,
  some 920, some 921, some 922, some 923, some 924, some 925, some 926, some 927, some 928,
  some 929, some 931, some 932, some 933, some 934, some 935, some 936, some 937, some 945,
  some 946, some 947, some 948, some 949, some 950, some 951, some 952, some 953, some 954,
  some 955, some 956, some 957, some 958, some 959, some 960, some 961, some 963, some 964,
  some 965, some 966, some 967, some 968, some 969, some 12549, some 12550, some 12551, some 12552,
  some 12553, some 12554, some 12555, some 12556, some 12557, some 12558
 ]

/-- Rows 5400–5499 of the `"big5"` Pointer Table. -/
def big5IndexPart054 : List (Option Nat) :=
 [
  some 12559, some 12560, some 12561, some 12562, some 12563, some 12564, some 12565, some 12566,
  some 12567, some 12568, some 12569, some 12570, some 12571, some 12572, some 12573, some 12574,
  some 12575, some 12576, some 12577, some 12578, some 12579, some 12580, some 12581, some 12582,
  some 12583, some 12584, some 12585, some 729, some 713, some 714, some 711, some 715, some 9216,
  some 9217, some 9218, some 9219, some 9220, some 9221, some 9222, some 9223, some 9224,
  some 9225, some 9226, some 9227, some 9228, some 9229, some 9230, some 9231, some 9232,
  some 9233, some 9234, some 9235, some 9236, some 9237, some 9238, some 9239, some 9240,
  some 9241, some 9242, some 9243, some 9244, some 9245, some 9246, some 9247, some 9249,
  some 8364, none, none, none, none, none, none, none, none, none, none, none, none, none, none,
  none, none, none, none, none, none, none, none, none, none, none, none, none, none, none,
  some 19968, some 20057, some 19969, some 19971, some 20035
 ]

/-- Rows 5500–5599 of the `"big5"` Pointer Table. -/
def big5IndexPart055 : List (Option Nat) :=
 [
  some 20061, some 20102, some 20108, some 20154, some 20799, some 20837, some 20843, some 20960,
  some 20992, some 20993, some 21147, some 21269, some 21313, some 21340, some 21448, some 19977,
  some 19979, some 19976, some 19978, some 20011, some 20024, some 20961, some 20037, some 20040,
  some 20063, some 20062, some 20110, some 20129, some 20800, some 20995, some 21242, some 21315,
  some 21449, some 21475, some 22303, some 22763, some 22805, some 22823, some 22899, some 23376,
  some 23377, some 23379, some 23544, some 23567, some 23586, some 23608, some 23665, some 24029,
  some 24037, some 24049, some 24050, some 24051, some 24062, some 24178, some 24318, some 24331,
  some 24339, some 25165, some 19985, some 19984, some 19981, some 20013, some 20016, some 20025,
  some 20043, some 23609, some 20104, some 20113, some 20117, some 20114, some 20116, some 20130,
  some 20161, some 20160, some 20163, some 20166, some 20167, some 20173, some 20170, some 20171,
  some 20164, some 20803, some 20801, some 20839, some 20845, some 20846, some 20844, some 20887,
  some 20982, some 20998, some 20999, some 21000, some 21243, some 21246, some 21247, some 21270,
  some 21305, some 21320, some 21319, some 21317
 ]

/-- Rows 5600–5699 of the `"big5"` Pointer Table. -/
def big5IndexPart056 : List (Option Nat) :=
 [
  some 21342, some 21380, some 21451, some 21450, some 21453, some 22764, some 22825, some 22827,
  some 22826, some 22829, some 23380, some 23569, some 23588, some 23610, some 23663, some 24052,
  some 24187, some 24319, some 24340, some 24341, some 24515, some 25096, some 25142, some 25163,
  some 25166, some 25903, some 25991, some 26007, some 26020, some 26041, some 26085, some 26352,
  some 26376, some 26408, some 27424, some 27490, some 27513, some 27595, some 27604, some 27611,
  some 27663, some 27700, some 28779, some 29226, some 29238, some 29243, some 29255, some 29273,
  some 29275, some 29356, some 29579, some 19993, some 19990, some 19989, some 19988, some 19992,
  some 20027, some 20045, some 20047, some 20046, some 20197, some 20184, some 20180, some 20181,
  some 20182, some 20183, some 20195, some 20196, some 20185, some 20190, some 20805, some 20804,
  some 20873, some 20874, some 20908, some 20985, some 20986, some 20984, some 21002, some 21152,
  some 21151, some 21253, some 21254, some 21271, some 21277, some 20191, some 21322, some 21321,
  some 21345, some 21344, some 21359, some 21358, some 21435, some 21487, some 21476, some 21491,
  some 21484, some 21486, some 21481, some 21480
 ]

/-- Rows 5700–5799 of the `"big5"` Pointer Table. -/
def big5IndexPart057 : List (Option Nat) :=
 [
  some 21500, some 21496, some 21493, some 21483, some 21478, some 21482, some 21490, some 21489,
  some 21488, some 21477, some 21485, some 21499, some 22235, some 22234, some 22806, some 22830,
  some 22833, some 22900, some 22902, some 23381, some 23427, some 23612, some 24040, some 24039,
  some 24038, some 24066, some 24067, some 24179, some 24188, some 24321, some 24344, some 24343,
  some 24517, some 25098, some 25171, some 25172, some 25170, some 25169, some 26021, some 26086,
  some 26414, some 26412, some 26410, some 26411, some 26413, some 27491, some 27597, some 27665,
  some 27664, some 27704, some 27713, some 27712, some 27710, some 29359, some 29572, some 29577,
  some 29916, some 29926, some 29976, some 29983, some 29992, some 29993, some 30000, some 30001,
  some 30002, some 30003, some 30091, some 30333, some 30382, some 30399, some 30446, some 30683,
  some 30690, some 30707, some 31034, some 31166, some 31348, some 31435, some 19998, some 19999,
  some 20050, some 20051, some 20073, some 20121, some 20132, some 20134, some 20133, some 20223,
  some 20233, some 20249, some 20234, some 20245, some 20237, some 20240, some 20241, some 20239,
  some 20210, some 20214, some 20219, some 20208
 ]

/-- Rows 5800–5899 of the `"big5"` Pointer Table. -/
def big5IndexPart058 : List (Option Nat) :=
 [
  some 20211, some 20221, some 20225, some 20235, some 20809, some 20807, some 20806, some 20808,
  some 20840, some 20849, some 20877, some 20912, some 21015, some 21009, some 21010, some 21006,
  some 21014, some 21155, some 21256, some 21281, some 21280, some 21360, some 21361, some 21513,
  some 21519, some 21516, some 21514, some 21520, some 21505, some 21515, some 21508, some 21521,
  some 21517, some 21512, some 21507, some 21518, some 21510, some 21522, some 22240, some 22238,
  some 22237, some 22323, some 22320, some 22312, some 22317, some 22316, some 22319, some 22313,
  some 22809, some 22810, some 22839, some 22840, some 22916, some 22904, some 22915, some 22909,
  some 22905, some 22914, some 22913, some 23383, some 23384, some 23431, some 23432, some 23429,
  some 23433, some 23546, some 23574, some 23673, some 24030, some 24070, some 24182, some 24180,
  some 24335, some 24347, some 24537, some 24534, some 25102, some 25100, some 25101, some 25104,
  some 25187, some 25179, some 25176, some 25910, some 26089, some 26088, some 26092, some 26093,
  some 26354, some 26355, some 26377, some 26429, some 26420, some 26417, some 26421, some 27425,
  some 27492, some 27515, some 27670, some 27741
 ]

/-- Rows 5900–5999 of the `"big5"` Pointer Table. -/
def big5IndexPart059 : List (Option Nat) :=
 [
  some 27735, some 27737, some 27743, some 27744, some 27728, some 27733, some 27745, some 27739,
  some 27725, some 27726, some 28784, some 29279, some 29277, some 30334, some 31481, some 31859,
  some 31992, some 32566, some 32650, some 32701, some 32769, some 32771, some 32780, some 32786,
  some 32819, some 32895, some 32905, some 32907, some 32908, some 33251, some 33258, some 33267,
  some 33276, some 33292, some 33307, some 33311, some 33390, some 33394, some 33406, some 34411,
  some 34880, some 34892, some 34915, some 35199, some 38433, some 20018, some 20136, some 20301,
  some 20303, some 20295, some 20311, some 20318, some 20276, some 20315, some 20309, some 20272,
  some 20304, some 20305, some 20285, some 20282, some 20280, some 20291, some 20308, some 20284,
  some 20294, some 20323, some 20316, some 20320, some 20271, some 20302, some 20278, some 20313,
  some 20317, some 20296, some 20314, some 20812, some 20811, some 20813, some 20853, some 20918,
  some 20919, some 21029, some 21028, some 21033, some 21034, some 21032, some 21163, some 21161,
  some 21162, some 21164, some 21283, some 21363, some 21365, some 21533, some 21549, some 21534,
  some 21566, some 21542, some 21582, some 21543
 ]

/-- Rows 6000–6099 of the `"big5"` Pointer Table. -/
def big5IndexPart060 : List (Option Nat) :=
 [
  some 21574, some 21571, some 21555, some 21576, some 21570, some 21531, some 21545, some 21578,
  some 21561, some 21563, some 21560, some 21550, some 21557, some 21558, some 21536, some 21564,
  some 21568, some 21553, some 21547, some 21535, some 21548, some 22250, some 22256, some 22244,
  some 22251, some 22346, some 22353, some 22336, some 22349, some 22343, some 22350, some 22334,
  some 22352, some 22351, some 22331, some 22767, some 22846, some 22941, some 22930, some 22952,
  some 22942, some 22947, some 22937, some 22934, some 22925, some 22948, some 22931, some 22922,
  some 22949, some 23389, some 23388, some 23386, some 23387, some 23436, some 23435, some 23439,
  some 23596, some 23616, some 23617, some 23615, some 23614, some 23696, some 23697, some 23700,
  some 23692, some 24043, some 24076, some 24207, some 24199, some 24202, some 24311, some 24324,
  some 24351, some 24420, some 24418, some 24439, some 24441, some 24536, some 24524, some 24535,
  some 24525, some 24561, some 24555, some 24568, some 24554, some 25106, some 25105, some 25220,
  some 25239, some 25238, some 25216, some 25206, some 25225, some 25197, some 25226, some 25212,
  some 25214, some 25209, some 25203, some 25234
 ]

/-- Rows 6100–6199 of the `"big5"` Pointer Table. -/
def big5IndexPart061 : List (Option Nat) :=
 [
  some 25199, some 25240, some 25198, some 25237, some 25235, some 25233, some 25222, some 25913,
  some 25915, some 25912, some 26097, some 26356, some 26463, some 26446, some 26447, some 26448,
  some 26449, some 26460, some 26454, some 26462, some 26441, some 26438, some 26464, some 26451,
  some 26455, some 27493, some 27599, some 27714, some 27742, some 27801, some 27777, some 27784,
  some 27785, some 27781, some 27803, some 27754, some 27770, some 27792, some 27760, some 27788,
  some 27752, some 27798, some 27794, some 27773, some 27779, some 27762, some 27774, some 27764,
  some 27782, some 27766, some 27789, some 27796, some 27800, some 27778, some 28790, some 28796,
  some 28797, some 28792, some 29282, some 29281, some 29280, some 29380, some 29378, some 29590,
  some 29996, some 29995, some 30007, some 30008, some 30338, some 30447, some 30691, some 31169,
  some 31168, some 31167, some 31350, some 31995, some 32597, some 32918, some 32915, some 32925,
  some 32920, some 32923, some 32922, some 32946, some 33391, some 33426, some 33419, some 33421,
  some 35211, some 35282, some 35328, some 35895, some 35910, some 35925, some 35997, some 36196,
  some 36208, some 36275, some 36523, some 36554
 ]

/-- Rows 6200–6299 of the `"big5"` Pointer Table. -/
def big5IndexPart062 : List (Option Nat) :=
 [
  some 36763, some 36784, some 36802, some 36806, some 36805, some 36804, some 24033, some 37009,
  some 37026, some 37034, some 37030, some 37027, some 37193, some 37318, some 37324, some 38450,
  some 38446, some 38449, some 38442, some 38444, some 20006, some 20054, some 20083, some 20107,
  some 20123, some 20126, some 20139, some 20140, some 20335, some 20381, some 20365, some 20339,
  some 20351, some 20332, some 20379, some 20363, some 20358, some 20355, some 20336, some 20341,
  some 20360, some 20329, some 20347, some 20374, some 20350, some 20367, some 20369, some 20346,
  some 20820, some 20818, some 20821, some 20841, some 20855, some 20854, some 20856, some 20925,
  some 20989, some 21051, some 21048, some 21047, some 21050, some 21040, some 21038, some 21046,
  some 21057, some 21182, some 21179, some 21330, some 21332, some 21331, some 21329, some 21350,
  some 21367, some 21368, some 21369, some 21462, some 21460, some 21463, some 21619, some 21621,
  some 21654, some 21624, some 21653, some 21632, some 21627, some 21623, some 21636, some 21650,
  some 21638, some 21628, some 21648, some 21617, some 21622, some 21644, some 21658, some 21602,
  some 21608, some 21643, some 21629, some 21646
 ]

/-- Rows 6300–6399 of the `"big5"` Pointer Table. -/
def big5IndexPart063 : List (Option Nat) :=
 [
  some 22266, some 22403, some 22391, some 22378, some 22377, some 22369, some 22374, some 22372,
  some 22396, some 22812, some 22857, some 22855, some 22856, some 22852, some 22868, some 22974,
  some 22971, some 22996, some 22969, some 22958, some 22993, some 22982, some 22992, some 22989,
  some 22987, some 22995, some 22986, some 22959, some 22963, some 22994, some 22981, some 23391,
  some 23396, some 23395, some 23447, some 23450, some 23448, some 23452, some 23449, some 23451,
  some 23578, some 23624, some 23621, some 23622, some 23735, some 23713, some 23736, some 23721,
  some 23723, some 23729, some 23731, some 24088, some 24090, some 24086, some 24085, some 24091,
  some 24081, some 24184, some 24218, some 24215, some 24220, some 24213, some 24214, some 24310,
  some 24358, some 24359, some 24361, some 24448, some 24449, some 24447, some 24444, some 24541,
  some 24544, some 24573, some 24565, some 24575, some 24591, some 24596, some 24623, some 24629,
  some 24598, some 24618, some 24597, some 24609, some 24615, some 24617, some 24619, some 24603,
  some 25110, some 25109, some 25151, some 25150, some 25152, some 25215, some 25289, some 25292,
  some 25284, some 25279, some 25282, some 25273
 ]

/-- Rows 6400–6499 of the `"big5"` Pointer Table. -/
def big5IndexPart064 : List (Option Nat) :=
 [
  some 25298, some 25307, some 25259, some 25299, some 25300, some 25291, some 25288, some 25256,
  some 25277, some 25276, some 25296, some 25305, some 25287, some 25293, some 25269, some 25306,
  some 25265, some 25304, some 25302, some 25303, some 25286, some 25260, some 25294, some 25918,
  some 26023, some 26044, some 26106, some 26132, some 26131, some 26124, some 26118, some 26114,
  some 26126, some 26112, some 26127, some 26133, some 26122, some 26119, some 26381, some 26379,
  some 26477, some 26507, some 26517, some 26481, some 26524, some 26483, some 26487, some 26503,
  some 26525, some 26519, some 26479, some 26480, some 26495, some 26505, some 26494, some 26512,
  some 26485, some 26522, some 26515, some 26492, some 26474, some 26482, some 27427, some 27494,
  some 27495, some 27519, some 27667, some 27675, some 27875, some 27880, some 27891, some 27825,
  some 27852, some 27877, some 27827, some 27837, some 27838, some 27836, some 27874, some 27819,
  some 27861, some 27859, some 27832, some 27844, some 27833, some 27841, some 27822, some 27863,
  some 27845, some 27889, some 27839, some 27835, some 27873, some 27867, some 27850, some 27820,
  some 27887, some 27868, some 27862, some 27872
 ]

/-- Rows 6500–6599 of the `"big5"` Pointer Table. -/
def big5IndexPart065 : List (Option Nat) :=
 [
  some 28821, some 28814, some 28818, some 28810, some 28825, some 29228, some 29229, some 29240,
  some 29256, some 29287, some 29289, some 29376, some 29390, some 29401, some 29399, some 29392,
  some 29609, some 29608, some 29599, some 29611, some 29605, some 30013, some 30109, some 30105,
  some 30106, some 30340, some 30402, some 30450, some 30452, some 30693, some 30717, some 31038,
  some 31040, some 31041, some 31177, some 31176, some 31354, some 31353, some 31482, some 31998,
  some 32596, some 32652, some 32651, some 32773, some 32954, some 32933, some 32930, some 32945,
  some 32929, some 32939, some 32937, some 32948, some 32938, some 32943, some 33253, some 33278,
  some 33293, some 33459, some 33437, some 33433, some 33453, some 33469, some 33439, some 33465,
  some 33457, some 33452, some 33445, some 33455, some 33464, some 33443, some 33456, some 33470,
  some 33463, some 34382, some 34417, some 21021, some 34920, some 36555, some 36814, some 36820,
  some 36817, some 37045, some 37048, some 37041, some 37046, some 37319, some 37329, some 38263,
  some 38272, some 38428, some 38464, some 38463, some 38459, some 38468, some 38466, some 38585,
  some 38632, some 38738, some 38750, some 20127
 ]

/-- Rows 6600–6699 of the `"big5"` Pointer Table. -/
def big5IndexPart066 : List (Option Nat) :=
 [
  some 20141, some 20142, some 20449, some 20405, some 20399, some 20415, some 20448, some 20433,
  some 20431, some 20445, some 20419, some 20406, some 20440, some 20447, some 20426, some 20439,
  some 20398, some 20432, some 20420, some 20418, some 20442, some 20430, some 20446, some 20407,
  some 20823, some 20882, some 20881, some 20896, some 21070, some 21059, some 21066, some 21069,
  some 21068, some 21067, some 21063, some 21191, some 21193, some 21187, some 21185, some 21261,
  some 21335, some 21371, some 21402, some 21467, some 21676, some 21696, some 21672, some 21710,
  some 21705, some 21688, some 21670, some 21683, some 21703, some 21698, some 21693, some 21674,
  some 21697, some 21700, some 21704, some 21679, some 21675, some 21681, some 21691, some 21673,
  some 21671, some 21695, some 22271, some 22402, some 22411, some 22432, some 22435, some 22434,
  some 22478, some 22446, some 22419, some 22869, some 22865, some 22863, some 22862, some 22864,
  some 23004, some 23000, some 23039, some 23011, some 23016, some 23043, some 23013, some 23018,
  some 23002, some 23014, some 23041, some 23035, some 23401, some 23459, some 23462, some 23460,
  some 23458, some 23461, some 23553, some 23630
 ]

/-- Rows 6700–6799 of the `"big5"` Pointer Table. -/
def big5IndexPart067 : List (Option Nat) :=
 [
  some 23631, some 23629, some 23627, some 23769, some 23762, some 24055, some 24093, some 24101,
  some 24095, some 24189, some 24224, some 24230, some 24314, some 24328, some 24365, some 24421,
  some 24456, some 24453, some 24458, some 24459, some 24455, some 24460, some 24457, some 24594,
  some 24605, some 24608, some 24613, some 24590, some 24616, some 24653, some 24688, some 24680,
  some 24674, some 24646, some 24643, some 24684, some 24683, some 24682, some 24676, some 25153,
  some 25308, some 25366, some 25353, some 25340, some 25325, some 25345, some 25326, some 25341,
  some 25351, some 25329, some 25335, some 25327, some 25324, some 25342, some 25332, some 25361,
  some 25346, some 25919, some 25925, some 26027, some 26045, some 26082, some 26149, some 26157,
  some 26144, some 26151, some 26159, some 26143, some 26152, some 26161, some 26148, some 26359,
  some 26623, some 26579, some 26609, some 26580, some 26576, some 26604, some 26550, some 26543,
  some 26613, some 26601, some 26607, some 26564, some 26577, some 26548, some 26586, some 26597,
  some 26552, some 26575, some 26590, some 26611, some 26544, some 26585, some 26594, some 26589,
  some 26578, some 27498, some 27523, some 27526
 ]

/-- Rows 6800–6899 of the `"big5"` Pointer Table. -/
def big5IndexPart068 : List (Option Nat) :=
 [
  some 27573, some 27602, some 27607, some 27679, some 27849, some 27915, some 27954, some 27946,
  some 27969, some 27941, some 27916, some 27953, some 27934, some 27927, some 27963, some 27965,
  some 27966, some 27958, some 27931, some 27893, some 27961, some 27943, some 27960, some 27945,
  some 27950, some 27957, some 27918, some 27947, some 28843, some 28858, some 28851, some 28844,
  some 28847, some 28845, some 28856, some 28846, some 28836, some 29232, some 29298, some 29295,
  some 29300, some 29417, some 29408, some 29409, some 29623, some 29642, some 29627, some 29618,
  some 29645, some 29632, some 29619, some 29978, some 29997, some 30031, some 30028, some 30030,
  some 30027, some 30123, some 30116, some 30117, some 30114, some 30115, some 30328, some 30342,
  some 30343, some 30344, some 30408, some 30406, some 30403, some 30405, some 30465, some 30457,
  some 30456, some 30473, some 30475, some 30462, some 30460, some 30471, some 30684, some 30722,
  some 30740, some 30732, some 30733, some 31046, some 31049, some 31048, some 31047, some 31161,
  some 31162, some 31185, some 31186, some 31179, some 31359, some 31361, some 31487, some 31485,
  some 31869, some 32002, some 32005, some 32000
 ]

/-- Rows 6900–6999 of the `"big5"` Pointer Table. -/
def big5IndexPart069 : List (Option Nat) :=
 [
  some 32009, some 32007, some 32004, some 32006, some 32568, some 32654, some 32703, some 32772,
  some 32784, some 32781, some 32785, some 32822, some 32982, some 32997, some 32986, some 32963,
  some 32964, some 32972, some 32993, some 32987, some 32974, some 32990, some 32996, some 32989,
  some 33268, some 33314, some 33511, some 33539, some 33541, some 33507, some 33499, some 33510,
  some 33540, some 33509, some 33538, some 33545, some 33490, some 33495, some 33521, some 33537,
  some 33500, some 33492, some 33489, some 33502, some 33491, some 33503, some 33519, some 33542,
  some 34384, some 34425, some 34427, some 34426, some 34893, some 34923, some 35201, some 35284,
  some 35336, some 35330, some 35331, some 35998, some 36000, some 36212, some 36211, some 36276,
  some 36557, some 36556, some 36848, some 36838, some 36834, some 36842, some 36837, some 36845,
  some 36843, some 36836, some 36840, some 37066, some 37070, some 37057, some 37059, some 37195,
  some 37194, some 37325, some 38274, some 38480, some 38475, some 38476, some 38477, some 38754,
  some 38761, some 38859, some 38893, some 38899, some 38913, some 39080, some 39131, some 39135,
  some 39318, some 39321, some 20056, some 20147
 ]

/-- Rows 7000–7099 of the `"big5"` Pointer Table. -/
def big5IndexPart070 : List (Option Nat) :=
 [
  some 20492, some 20493, some 20515, some 20463, some 20518, some 20517, some 20472, some 20521,
  some 20502, some 20486, some 20540, some 20511, some 20506, some 20498, some 20497, some 20474,
  some 20480, some 20500, some 20520, some 20465, some 20513, some 20491, some 20505, some 20504,
  some 20467, some 20462, some 20525, some 20522, some 20478, some 20523, some 20489, some 20860,
  some 20900, some 20901, some 20898, some 20941, some 20940, some 20934, some 20939, some 21078,
  some 21084, some 21076, some 21083, some 21085, some 21290, some 21375, some 21407, some 21405,
  some 21471, some 21736, some 21776, some 21761, some 21815, some 21756, some 21733, some 21746,
  some 21766, some 21754, some 21780, some 21737, some 21741, some 21729, some 21769, some 21742,
  some 21738, some 21734, some 21799, some 21767, some 21757, some 21775, some 22275, some 22276,
  some 22466, some 22484, some 22475, some 22467, some 22537, some 22799, some 22871, some 22872,
  some 22874, some 23057, some 23064, some 23068, some 23071, some 23067, some 23059, some 23020,
  some 23072, some 23075, some 23081, some 23077, some 23052, some 23049, some 23403, some 23640,
  some 23472, some 23475, some 23478, some 23476
 ]

/-- Rows 7100–7199 of the `"big5"` Pointer Table. -/
def big5IndexPart071 : List (Option Nat) :=
 [
  some 23470, some 23477, some 23481, some 23480, some 23556, some 23633, some 23637, some 23632,
  some 23789, some 23805, some 23803, some 23786, some 23784, some 23792, some 23798, some 23809,
  some 23796, some 24046, some 24109, some 24107, some 24235, some 24237, some 24231, some 24369,
  some 24466, some 24465, some 24464, some 24665, some 24675, some 24677, some 24656, some 24661,
  some 24685, some 24681, some 24687, some 24708, some 24735, some 24730, some 24717, some 24724,
  some 24716, some 24709, some 24726, some 25159, some 25331, some 25352, some 25343, some 25422,
  some 25406, some 25391, some 25429, some 25410, some 25414, some 25423, some 25417, some 25402,
  some 25424, some 25405, some 25386, some 25387, some 25384, some 25421, some 25420, some 25928,
  some 25929, some 26009, some 26049, some 26053, some 26178, some 26185, some 26191, some 26179,
  some 26194, some 26188, some 26181, some 26177, some 26360, some 26388, some 26389, some 26391,
  some 26657, some 26680, some 26696, some 26694, some 26707, some 26681, some 26690, some 26708,
  some 26665, some 26803, some 26647, some 26700, some 26705, some 26685, some 26612, some 26704,
  some 26688, some 26684, some 26691, some 26666
 ]

/-- Rows 7200–7299 of the `"big5"` Pointer Table. -/
def big5IndexPart072 : List (Option Nat) :=
 [
  some 26693, some 26643, some 26648, some 26689, some 27530, some 27529, some 27575, some 27683,
  some 27687, some 27688, some 27686, some 27684, some 27888, some 28010, some 28053, some 28040,
  some 28039, some 28006, some 28024, some 28023, some 27993, some 28051, some 28012, some 28041,
  some 28014, some 27994, some 28020, some 28009, some 28044, some 28042, some 28025, some 28037,
  some 28005, some 28052, some 28874, some 28888, some 28900, some 28889, some 28872, some 28879,
  some 29241, some 29305, some 29436, some 29433, some 29437, some 29432, some 29431, some 29574,
  some 29677, some 29705, some 29678, some 29664, some 29674, some 29662, some 30036, some 30045,
  some 30044, some 30042, some 30041, some 30142, some 30149, some 30151, some 30130, some 30131,
  some 30141, some 30140, some 30137, some 30146, some 30136, some 30347, some 30384, some 30410,
  some 30413, some 30414, some 30505, some 30495, some 30496, some 30504, some 30697, some 30768,
  some 30759, some 30776, some 30749, some 30772, some 30775, some 30757, some 30765, some 30752,
  some 30751, some 30770, some 31061, some 31056, some 31072, some 31071, some 31062, some 31070,
  some 31069, some 31063, some 31066, some 31204
 ]

/-- Rows 7300–7399 of the `"big5"` Pointer Table. -/
def big5IndexPart073 : List (Option Nat) :=
 [
  some 31203, some 31207, some 31199, some 31206, some 31209, some 31192, some 31364, some 31368,
  some 31449, some 31494, some 31505, some 31881, some 32033, some 32023, some 32011, some 32010,
  some 32032, some 32034, some 32020, some 32016, some 32021, some 32026, some 32028, some 32013,
  some 32025, some 32027, some 32570, some 32607, some 32660, some 32709, some 32705, some 32774,
  some 32792, some 32789, some 32793, some 32791, some 32829, some 32831, some 33009, some 33026,
  some 33008, some 33029, some 33005, some 33012, some 33030, some 33016, some 33011, some 33032,
  some 33021, some 33034, some 33020, some 33007, some 33261, some 33260, some 33280, some 33296,
  some 33322, some 33323, some 33320, some 33324, some 33467, some 33579, some 33618, some 33620,
  some 33610, some 33592, some 33616, some 33609, some 33589, some 33588, some 33615, some 33586,
  some 33593, some 33590, some 33559, some 33600, some 33585, some 33576, some 33603, some 34388,
  some 34442, some 34474, some 34451, some 34468, some 34473, some 34444, some 34467, some 34460,
  some 34928, some 34935, some 34945, some 34946, some 34941, some 34937, some 35352, some 35344,
  some 35342, some 35340, some 35349, some 35338
 ]

/-- Rows 7400–7499 of the `"big5"` Pointer Table. -/
def big5IndexPart074 : List (Option Nat) :=
 [
  some 35351, some 35347, some 35350, some 35343, some 35345, some 35912, some 35962, some 35961,
  some 36001, some 36002, some 36215, some 36524, some 36562, some 36564, some 36559, some 36785,
  some 36865, some 36870, some 36855, some 36864, some 36858, some 36852, some 36867, some 36861,
  some 36869, some 36856, some 37013, some 37089, some 37085, some 37090, some 37202, some 37197,
  some 37196, some 37336, some 37341, some 37335, some 37340, some 37337, some 38275, some 38498,
  some 38499, some 38497, some 38491, some 38493, some 38500, some 38488, some 38494, some 38587,
  some 39138, some 39340, some 39592, some 39640, some 39717, some 39730, some 39740, some 20094,
  some 20602, some 20605, some 20572, some 20551, some 20547, some 20556, some 20570, some 20553,
  some 20581, some 20598, some 20558, some 20565, some 20597, some 20596, some 20599, some 20559,
  some 20495, some 20591, some 20589, some 20828, some 20885, some 20976, some 21098, some 21103,
  some 21202, some 21209, some 21208, some 21205, some 21264, some 21263, some 21273, some 21311,
  some 21312, some 21310, some 21443, some 26364, some 21830, some 21866, some 21862, some 21828,
  some 21854, some 21857, some 21827, some 21834
 ]

/-- Rows 7500–7599 of the `"big5"` Pointer Table. -/
def big5IndexPart075 : List (Option Nat) :=
 [
  some 21809, some 21846, some 21839, some 21845, some 21807, some 21860, some 21816, some 21806,
  some 21852, some 21804, some 21859, some 21811, some 21825, some 21847, some 22280, some 22283,
  some 22281, some 22495, some 22533, some 22538, some 22534, some 22496, some 22500, some 22522,
  some 22530, some 22581, some 22519, some 22521, some 22816, some 22882, some 23094, some 23105,
  some 23113, some 23142, some 23146, some 23104, some 23100, some 23138, some 23130, some 23110,
  some 23114, some 23408, some 23495, some 23493, some 23492, some 23490, some 23487, some 23494,
  some 23561, some 23560, some 23559, some 23648, some 23644, some 23645, some 23815, some 23814,
  some 23822, some 23835, some 23830, some 23842, some 23825, some 23849, some 23828, some 23833,
  some 23844, some 23847, some 23831, some 24034, some 24120, some 24118, some 24115, some 24119,
  some 24247, some 24248, some 24246, some 24245, some 24254, some 24373, some 24375, some 24407,
  some 24428, some 24425, some 24427, some 24471, some 24473, some 24478, some 24472, some 24481,
  some 24480, some 24476, some 24703, some 24739, some 24713, some 24736, some 24744, some 24779,
  some 24756, some 24806, some 24765, some 24773
 ]

/-- Rows 7600–7699 of the `"big5"` Pointer Table. -/
def big5IndexPart076 : List (Option Nat) :=
 [
  some 24763, some 24757, some 24796, some 24764, some 24792, some 24789, some 24774, some 24799,
  some 24760, some 24794, some 24775, some 25114, some 25115, some 25160, some 25504, some 25511,
  some 25458, some 25494, some 25506, some 25509, some 25463, some 25447, some 25496, some 25514,
  some 25457, some 25513, some 25481, some 25475, some 25499, some 25451, some 25512, some 25476,
  some 25480, some 25497, some 25505, some 25516, some 25490, some 25487, some 25472, some 25467,
  some 25449, some 25448, some 25466, some 25949, some 25942, some 25937, some 25945, some 25943,
  some 21855, some 25935, some 25944, some 25941, some 25940, some 26012, some 26011, some 26028,
  some 26063, some 26059, some 26060, some 26062, some 26205, some 26202, some 26212, some 26216,
  some 26214, some 26206, some 26361, some 21207, some 26395, some 26753, some 26799, some 26786,
  some 26771, some 26805, some 26751, some 26742, some 26801, some 26791, some 26775, some 26800,
  some 26755, some 26820, some 26797, some 26758, some 26757, some 26772, some 26781, some 26792,
  some 26783, some 26785, some 26754, some 27442, some 27578, some 27627, some 27628, some 27691,
  some 28046, some 28092, some 28147, some 28121
 ]

/-- Rows 7700–7799 of the `"big5"` Pointer Table. -/
def big5IndexPart077 : List (Option Nat) :=
 [
  some 28082, some 28129, some 28108, some 28132, some 28155, some 28154, some 28165, some 28103,
  some 28107, some 28079, some 28113, some 28078, some 28126, some 28153, some 28088, some 28151,
  some 28149, some 28101, some 28114, some 28186, some 28085, some 28122, some 28139, some 28120,
  some 28138, some 28145, some 28142, some 28136, some 28102, some 28100, some 28074, some 28140,
  some 28095, some 28134, some 28921, some 28937, some 28938, some 28925, some 28911, some 29245,
  some 29309, some 29313, some 29468, some 29467, some 29462, some 29459, some 29465, some 29575,
  some 29701, some 29706, some 29699, some 29702, some 29694, some 29709, some 29920, some 29942,
  some 29943, some 29980, some 29986, some 30053, some 30054, some 30050, some 30064, some 30095,
  some 30164, some 30165, some 30133, some 30154, some 30157, some 30350, some 30420, some 30418,
  some 30427, some 30519, some 30526, some 30524, some 30518, some 30520, some 30522, some 30827,
  some 30787, some 30798, some 31077, some 31080, some 31085, some 31227, some 31378, some 31381,
  some 31520, some 31528, some 31515, some 31532, some 31526, some 31513, some 31518, some 31534,
  some 31890, some 31895, some 31893, some 32070
 ]

/-- Rows 7800–7899 of the `"big5"` Pointer Table. -/
def big5IndexPart078 : List (Option Nat) :=
 [
  some 32067, some 32113, some 32046, some 32057, some 32060, some 32064, some 32048, some 32051,
  some 32068, some 32047, some 32066, some 32050, some 32049, some 32573, some 32670, some 32666,
  some 32716, some 32718, some 32722, some 32796, some 32842, some 32838, some 33071, some 33046,
  some 33059, some 33067, some 33065, some 33072, some 33060, some 33282, some 33333, some 33335,
  some 33334, some 33337, some 33678, some 33694, some 33688, some 33656, some 33698, some 33686,
  some 33725, some 33707, some 33682, some 33674, some 33683, some 33673, some 33696, some 33655,
  some 33659, some 33660, some 33670, some 33703, some 34389, some 24426, some 34503, some 34496,
  some 34486, some 34500, some 34485, some 34502, some 34507, some 34481, some 34479, some 34505,
  some 34899, some 34974, some 34952, some 34987, some 34962, some 34966, some 34957, some 34955,
  some 35219, some 35215, some 35370, some 35357, some 35363, some 35365, some 35377, some 35373,
  some 35359, some 35355, some 35362, some 35913, some 35930, some 36009, some 36012, some 36011,
  some 36008, some 36010, some 36007, some 36199, some 36198, some 36286, some 36282, some 36571,
  some 36575, some 36889, some 36877, some 36890
 ]

/-- Rows 7900–7999 of the `"big5"` Pointer Table. -/
def big5IndexPart079 : List (Option Nat) :=
 [
  some 36887, some 36899, some 36895, some 36893, some 36880, some 36885, some 36894, some 36896,
  some 36879, some 36898, some 36886, some 36891, some 36884, some 37096, some 37101, some 37117,
  some 37207, some 37326, some 37365, some 37350, some 37347, some 37351, some 37357, some 37353,
  some 38281, some 38506, some 38517, some 38515, some 38520, some 38512, some 38516, some 38518,
  some 38519, some 38508, some 38592, some 38634, some 38633, some 31456, some 31455, some 38914,
  some 38915, some 39770, some 40165, some 40565, some 40575, some 40613, some 40635, some 20642,
  some 20621, some 20613, some 20633, some 20625, some 20608, some 20630, some 20632, some 20634,
  some 26368, some 20977, some 21106, some 21108, some 21109, some 21097, some 21214, some 21213,
  some 21211, some 21338, some 21413, some 21883, some 21888, some 21927, some 21884, some 21898,
  some 21917, some 21912, some 21890, some 21916, some 21930, some 21908, some 21895, some 21899,
  some 21891, some 21939, some 21934, some 21919, some 21822, some 21938, some 21914, some 21947,
  some 21932, some 21937, some 21886, some 21897, some 21931, some 21913, some 22285, some 22575,
  some 22570, some 22580, some 22564, some 22576
 ]

/-- Rows 8000–8099 of the `"big5"` Pointer Table. -/
def big5IndexPart080 : List (Option Nat) :=
 [
  some 22577, some 22561, some 22557, some 22560, some 22777, some 22778, some 22880, some 23159,
  some 23194, some 23167, some 23186, some 23195, some 23207, some 23411, some 23409, some 23506,
  some 23500, some 23507, some 23504, some 23562, some 23563, some 23601, some 23884, some 23888,
  some 23860, some 23879, some 24061, some 24133, some 24125, some 24128, some 24131, some 24190,
  some 24266, some 24257, some 24258, some 24260, some 24380, some 24429, some 24489, some 24490,
  some 24488, some 24785, some 24801, some 24754, some 24758, some 24800, some 24860, some 24867,
  some 24826, some 24853, some 24816, some 24827, some 24820, some 24936, some 24817, some 24846,
  some 24822, some 24841, some 24832, some 24850, some 25119, some 25161, some 25507, some 25484,
  some 25551, some 25536, some 25577, some 25545, some 25542, some 25549, some 25554, some 25571,
  some 25552, some 25569, some 25558, some 25581, some 25582, some 25462, some 25588, some 25578,
  some 25563, some 25682, some 25562, some 25593, some 25950, some 25958, some 25954, some 25955,
  some 26001, some 26000, some 26031, some 26222, some 26224, some 26228, some 26230, some 26223,
  some 26257, some 26234, some 26238, some 26231
 ]

/-- Rows 8100–8199 of the `"big5"` Pointer Table. -/
def big5IndexPart081 : List (Option Nat) :=
 [
  some 26366, some 26367, some 26399, some 26397, some 26874, some 26837, some 26848, some 26840,
  some 26839, some 26885, some 26847, some 26869, some 26862, some 26855, some 26873, some 26834,
  some 26866, some 26851, some 26827, some 26829, some 26893, some 26898, some 26894, some 26825,
  some 26842, some 26990, some 26875, some 27454, some 27450, some 27453, some 27544, some 27542,
  some 27580, some 27631, some 27694, some 27695, some 27692, some 28207, some 28216, some 28244,
  some 28193, some 28210, some 28263, some 28234, some 28192, some 28197, some 28195, some 28187,
  some 28251, some 28248, some 28196, some 28246, some 28270, some 28205, some 28198, some 28271,
  some 28212, some 28237, some 28218, some 28204, some 28227, some 28189, some 28222, some 28363,
  some 28297, some 28185, some 28238, some 28259, some 28228, some 28274, some 28265, some 28255,
  some 28953, some 28954, some 28966, some 28976, some 28961, some 28982, some 29038, some 28956,
  some 29260, some 29316, some 29312, some 29494, some 29477, some 29492, some 29481, some 29754,
  some 29738, some 29747, some 29730, some 29733, some 29749, some 29750, some 29748, some 29743,
  some 29723, some 29734, some 29736, some 29989
 ]

/-- Rows 8200–8299 of the `"big5"` Pointer Table. -/
def big5IndexPart082 : List (Option Nat) :=
 [
  some 29990, some 30059, some 30058, some 30178, some 30171, some 30179, some 30169, some 30168,
  some 30174, some 30176, some 30331, some 30332, some 30358, some 30355, some 30388, some 30428,
  some 30543, some 30701, some 30813, some 30828, some 30831, some 31245, some 31240, some 31243,
  some 31237, some 31232, some 31384, some 31383, some 31382, some 31461, some 31459, some 31561,
  some 31574, some 31558, some 31568, some 31570, some 31572, some 31565, some 31563, some 31567,
  some 31569, some 31903, some 31909, some 32094, some 32080, some 32104, some 32085, some 32043,
  some 32110, some 32114, some 32097, some 32102, some 32098, some 32112, some 32115, some 21892,
  some 32724, some 32725, some 32779, some 32850, some 32901, some 33109, some 33108, some 33099,
  some 33105, some 33102, some 33081, some 33094, some 33086, some 33100, some 33107, some 33140,
  some 33298, some 33308, some 33769, some 33795, some 33784, some 33805, some 33760, some 33733,
  some 33803, some 33729, some 33775, some 33777, some 33780, some 33879, some 33802, some 33776,
  some 33804, some 33740, some 33789, some 33778, some 33738, some 33848, some 33806, some 33796,
  some 33756, some 33799, some 33748, some 33759
 ]

/-- Rows 8300–8399 of the `"big5"` Pointer Table. -/
def big5IndexPart083 : List (Option Nat) :=
 [
  some 34395, some 34527, some 34521, some 34541, some 34516, some 34523, some 34532, some 34512,
  some 34526, some 34903, some 35009, some 35010, some 34993, some 35203, some 35222, some 35387,
  some 35424, some 35413, some 35422, some 35388, some 35393, some 35412, some 35419, some 35408,
  some 35398, some 35380, some 35386, some 35382, some 35414, some 35937, some 35970, some 36015,
  some 36028, some 36019, some 36029, some 36033, some 36027, some 36032, some 36020, some 36023,
  some 36022, some 36031, some 36024, some 36234, some 36229, some 36225, some 36302, some 36317,
  some 36299, some 36314, some 36305, some 36300, some 36315, some 36294, some 36603, some 36600,
  some 36604, some 36764, some 36910, some 36917, some 36913, some 36920, some 36914, some 36918,
  some 37122, some 37109, some 37129, some 37118, some 37219, some 37221, some 37327, some 37396,
  some 37397, some 37411, some 37385, some 37406, some 37389, some 37392, some 37383, some 37393,
  some 38292, some 38287, some 38283, some 38289, some 38291, some 38290, some 38286, some 38538,
  some 38542, some 38539, some 38525, some 38533, some 38534, some 38541, some 38514, some 38532,
  some 38593, some 38597, some 38596, some 38598
 ]

/-- Rows 8400–8499 of the `"big5"` Pointer Table. -/
def big5IndexPart084 : List (Option Nat) :=
 [
  some 38599, some 38639, some 38642, some 38860, some 38917, some 38918, some 38920, some 39143,
  some 39146, some 39151, some 39145, some 39154, some 39149, some 39342, some 39341, some 40643,
  some 40653, some 40657, some 20098, some 20653, some 20661, some 20658, some 20659, some 20677,
  some 20670, some 20652, some 20663, some 20667, some 20655, some 20679, some 21119, some 21111,
  some 21117, some 21215, some 21222, some 21220, some 21218, some 21219, some 21295, some 21983,
  some 21992, some 21971, some 21990, some 21966, some 21980, some 21959, some 21969, some 21987,
  some 21988, some 21999, some 21978, some 21985, some 21957, some 21958, some 21989, some 21961,
  some 22290, some 22291, some 22622, some 22609, some 22616, some 22615, some 22618, some 22612,
  some 22635, some 22604, some 22637, some 22602, some 22626, some 22610, some 22603, some 22887,
  some 23233, some 23241, some 23244, some 23230, some 23229, some 23228, some 23219, some 23234,
  some 23218, some 23913, some 23919, some 24140, some 24185, some 24265, some 24264, some 24338,
  some 24409, some 24492, some 24494, some 24858, some 24847, some 24904, some 24863, some 24819,
  some 24859, some 24825, some 24833, some 24840
 ]

/-- Rows 8500–8599 of the `"big5"` Pointer Table. -/
def big5IndexPart085 : List (Option Nat) :=
 [
  some 24910, some 24908, some 24900, some 24909, some 24894, some 24884, some 24871, some 24845,
  some 24838, some 24887, some 25121, some 25122, some 25619, some 25662, some 25630, some 25642,
  some 25645, some 25661, some 25644, some 25615, some 25628, some 25620, some 25613, some 25654,
  some 25622, some 25623, some 25606, some 25964, some 26015, some 26032, some 26263, some 26249,
  some 26247, some 26248, some 26262, some 26244, some 26264, some 26253, some 26371, some 27028,
  some 26989, some 26970, some 26999, some 26976, some 26964, some 26997, some 26928, some 27010,
  some 26954, some 26984, some 26987, some 26974, some 26963, some 27001, some 27014, some 26973,
  some 26979, some 26971, some 27463, some 27506, some 27584, some 27583, some 27603, some 27645,
  some 28322, some 28335, some 28371, some 28342, some 28354, some 28304, some 28317, some 28359,
  some 28357, some 28325, some 28312, some 28348, some 28346, some 28331, some 28369, some 28310,
  some 28316, some 28356, some 28372, some 28330, some 28327, some 28340, some 29006, some 29017,
  some 29033, some 29028, some 29001, some 29031, some 29020, some 29036, some 29030, some 29004,
  some 29029, some 29022, some 28998, some 29032
 ]

/-- Rows 8600–8699 of the `"big5"` Pointer Table. -/
def big5IndexPart086 : List (Option Nat) :=
 [
  some 29014, some 29242, some 29266, some 29495, some 29509, some 29503, some 29502, some 29807,
  some 29786, some 29781, some 29791, some 29790, some 29761, some 29759, some 29785, some 29787,
  some 29788, some 30070, some 30072, some 30208, some 30192, some 30209, some 30194, some 30193,
  some 30202, some 30207, some 30196, some 30195, some 30430, some 30431, some 30555, some 30571,
  some 30566, some 30558, some 30563, some 30585, some 30570, some 30572, some 30556, some 30565,
  some 30568, some 30562, some 30702, some 30862, some 30896, some 30871, some 30872, some 30860,
  some 30857, some 30844, some 30865, some 30867, some 30847, some 31098, some 31103, some 31105,
  some 33836, some 31165, some 31260, some 31258, some 31264, some 31252, some 31263, some 31262,
  some 31391, some 31392, some 31607, some 31680, some 31584, some 31598, some 31591, some 31921,
  some 31923, some 31925, some 32147, some 32121, some 32145, some 32129, some 32143, some 32091,
  some 32622, some 32617, some 32618, some 32626, some 32681, some 32680, some 32676, some 32854,
  some 32856, some 32902, some 32900, some 33137, some 33136, some 33144, some 33125, some 33134,
  some 33139, some 33131, some 33145, some 33146
 ]

/-- Rows 8700–8799 of the `"big5"` Pointer Table. -/
def big5IndexPart087 : List (Option Nat) :=
 [
  some 33126, some 33285, some 33351, some 33922, some 33911, some 33853, some 33841, some 33909,
  some 33894, some 33899, some 33865, some 33900, some 33883, some 33852, some 33845, some 33889,
  some 33891, some 33897, some 33901, some 33862, some 34398, some 34396, some 34399, some 34553,
  some 34579, some 34568, some 34567, some 34560, some 34558, some 34555, some 34562, some 34563,
  some 34566, some 34570, some 34905, some 35039, some 35028, some 35033, some 35036, some 35032,
  some 35037, some 35041, some 35018, some 35029, some 35026, some 35228, some 35299, some 35435,
  some 35442, some 35443, some 35430, some 35433, some 35440, some 35463, some 35452, some 35427,
  some 35488, some 35441, some 35461, some 35437, some 35426, some 35438, some 35436, some 35449,
  some 35451, some 35390, some 35432, some 35938, some 35978, some 35977, some 36042, some 36039,
  some 36040, some 36036, some 36018, some 36035, some 36034, some 36037, some 36321, some 36319,
  some 36328, some 36335, some 36339, some 36346, some 36330, some 36324, some 36326, some 36530,
  some 36611, some 36617, some 36606, some 36618, some 36767, some 36786, some 36939, some 36938,
  some 36947, some 36930, some 36948, some 36924
 ]

/-- Rows 8800–8899 of the `"big5"` Pointer Table. -/
def big5IndexPart088 : List (Option Nat) :=
 [
  some 36949, some 36944, some 36935, some 36943, some 36942, some 36941, some 36945, some 36926,
  some 36929, some 37138, some 37143, some 37228, some 37226, some 37225, some 37321, some 37431,
  some 37463, some 37432, some 37437, some 37440, some 37438, some 37467, some 37451, some 37476,
  some 37457, some 37428, some 37449, some 37453, some 37445, some 37433, some 37439, some 37466,
  some 38296, some 38552, some 38548, some 38549, some 38605, some 38603, some 38601, some 38602,
  some 38647, some 38651, some 38649, some 38646, some 38742, some 38772, some 38774, some 38928,
  some 38929, some 38931, some 38922, some 38930, some 38924, some 39164, some 39156, some 39165,
  some 39166, some 39347, some 39345, some 39348, some 39649, some 40169, some 40578, some 40718,
  some 40723, some 40736, some 20711, some 20718, some 20709, some 20694, some 20717, some 20698,
  some 20693, some 20687, some 20689, some 20721, some 20686, some 20713, some 20834, some 20979,
  some 21123, some 21122, some 21297, some 21421, some 22014, some 22016, some 22043, some 22039,
  some 22013, some 22036, some 22022, some 22025, some 22029, some 22030, some 22007, some 22038,
  some 22047, some 22024, some 22032, some 22006
 ]

/-- Rows 8900–8999 of the `"big5"` Pointer Table. -/
def big5IndexPart089 : List (Option Nat) :=
 [
  some 22296, some 22294, some 22645, some 22654, some 22659, some 22675, some 22666, some 22649,
  some 22661, some 22653, some 22781, some 22821, some 22818, some 22820, some 22890, some 22889,
  some 23265, some 23270, some 23273, some 23255, some 23254, some 23256, some 23267, some 23413,
  some 23518, some 23527, some 23521, some 23525, some 23526, some 23528, some 23522, some 23524,
  some 23519, some 23565, some 23650, some 23940, some 23943, some 24155, some 24163, some 24149,
  some 24151, some 24148, some 24275, some 24278, some 24330, some 24390, some 24432, some 24505,
  some 24903, some 24895, some 24907, some 24951, some 24930, some 24931, some 24927, some 24922,
  some 24920, some 24949, some 25130, some 25735, some 25688, some 25684, some 25764, some 25720,
  some 25695, some 25722, some 25681, some 25703, some 25652, some 25709, some 25723, some 25970,
  some 26017, some 26071, some 26070, some 26274, some 26280, some 26269, some 27036, some 27048,
  some 27029, some 27073, some 27054, some 27091, some 27083, some 27035, some 27063, some 27067,
  some 27051, some 27060, some 27088, some 27085, some 27053, some 27084, some 27046, some 27075,
  some 27043, some 27465, some 27468, some 27699
 ]

/-- Rows 9000–9099 of the `"big5"` Pointer Table. -/
def big5IndexPart090 : List (Option Nat) :=
 [
  some 28467, some 28436, some 28414, some 28435, some 28404, some 28457, some 28478, some 28448,
  some 28460, some 28431, some 28418, some 28450, some 28415, some 28399, some 28422, some 28465,
  some 28472, some 28466, some 28451, some 28437, some 28459, some 28463, some 28552, some 28458,
  some 28396, some 28417, some 28402, some 28364, some 28407, some 29076, some 29081, some 29053,
  some 29066, some 29060, some 29074, some 29246, some 29330, some 29334, some 29508, some 29520,
  some 29796, some 29795, some 29802, some 29808, some 29805, some 29956, some 30097, some 30247,
  some 30221, some 30219, some 30217, some 30227, some 30433, some 30435, some 30596, some 30589,
  some 30591, some 30561, some 30913, some 30879, some 30887, some 30899, some 30889, some 30883,
  some 31118, some 31119, some 31117, some 31278, some 31281, some 31402, some 31401, some 31469,
  some 31471, some 31649, some 31637, some 31627, some 31605, some 31639, some 31645, some 31636,
  some 31631, some 31672, some 31623, some 31620, some 31929, some 31933, some 31934, some 32187,
  some 32176, some 32156, some 32189, some 32190, some 32160, some 32202, some 32180, some 32178,
  some 32177, some 32186, some 32162, some 32191
 ]

/-- Rows 9100–9199 of the `"big5"` Pointer Table. -/
def big5IndexPart091 : List (Option Nat) :=
 [
  some 32181, some 32184, some 32173, some 32210, some 32199, some 32172, some 32624, some 32736,
  some 32737, some 32735, some 32862, some 32858, some 32903, some 33104, some 33152, some 33167,
  some 33160, some 33162, some 33151, some 33154, some 33255, some 33274, some 33287, some 33300,
  some 33310, some 33355, some 33993, some 33983, some 33990, some 33988, some 33945, some 33950,
  some 33970, some 33948, some 33995, some 33976, some 33984, some 34003, some 33936, some 33980,
  some 34001, some 33994, some 34623, some 34588, some 34619, some 34594, some 34597, some 34612,
  some 34584, some 34645, some 34615, some 34601, some 35059, some 35074, some 35060, some 35065,
  some 35064, some 35069, some 35048, some 35098, some 35055, some 35494, some 35468, some 35486,
  some 35491, some 35469, some 35489, some 35475, some 35492, some 35498, some 35493, some 35496,
  some 35480, some 35473, some 35482, some 35495, some 35946, some 35981, some 35980, some 36051,
  some 36049, some 36050, some 36203, some 36249, some 36245, some 36348, some 36628, some 36626,
  some 36629, some 36627, some 36771, some 36960, some 36952, some 36956, some 36963, some 36953,
  some 36958, some 36962, some 36957, some 36955
 ]

/-- Rows 9200–9299 of the `"big5"` Pointer Table. -/
def big5IndexPart092 : List (Option Nat) :=
 [
  some 37145, some 37144, some 37150, some 37237, some 37240, some 37239, some 37236, some 37496,
  some 37504, some 37509, some 37528, some 37526, some 37499, some 37523, some 37532, some 37544,
  some 37500, some 37521, some 38305, some 38312, some 38313, some 38307, some 38309, some 38308,
  some 38553, some 38556, some 38555, some 38604, some 38610, some 38656, some 38780, some 38789,
  some 38902, some 38935, some 38936, some 39087, some 39089, some 39171, some 39173, some 39180,
  some 39177, some 39361, some 39599, some 39600, some 39654, some 39745, some 39746, some 40180,
  some 40182, some 40179, some 40636, some 40763, some 40778, some 20740, some 20736, some 20731,
  some 20725, some 20729, some 20738, some 20744, some 20745, some 20741, some 20956, some 21127,
  some 21128, some 21129, some 21133, some 21130, some 21232, some 21426, some 22062, some 22075,
  some 22073, some 22066, some 22079, some 22068, some 22057, some 22099, some 22094, some 22103,
  some 22132, some 22070, some 22063, some 22064, some 22656, some 22687, some 22686, some 22707,
  some 22684, some 22702, some 22697, some 22694, some 22893, some 23305, some 23291, some 23307,
  some 23285, some 23308, some 23304, some 23534
 ]

/-- Rows 9300–9399 of the `"big5"` Pointer Table. -/
def big5IndexPart093 : List (Option Nat) :=
 [
  some 23532, some 23529, some 23531, some 23652, some 23653, some 23965, some 23956, some 24162,
  some 24159, some 24161, some 24290, some 24282, some 24287, some 24285, some 24291, some 24288,
  some 24392, some 24433, some 24503, some 24501, some 24950, some 24935, some 24942, some 24925,
  some 24917, some 24962, some 24956, some 24944, some 24939, some 24958, some 24999, some 24976,
  some 25003, some 24974, some 25004, some 24986, some 24996, some 24980, some 25006, some 25134,
  some 25705, some 25711, some 25721, some 25758, some 25778, some 25736, some 25744, some 25776,
  some 25765, some 25747, some 25749, some 25769, some 25746, some 25774, some 25773, some 25771,
  some 25754, some 25772, some 25753, some 25762, some 25779, some 25973, some 25975, some 25976,
  some 26286, some 26283, some 26292, some 26289, some 27171, some 27167, some 27112, some 27137,
  some 27166, some 27161, some 27133, some 27169, some 27155, some 27146, some 27123, some 27138,
  some 27141, some 27117, some 27153, some 27472, some 27470, some 27556, some 27589, some 27590,
  some 28479, some 28540, some 28548, some 28497, some 28518, some 28500, some 28550, some 28525,
  some 28507, some 28536, some 28526, some 28558
 ]

/-- Rows 9400–9499 of the `"big5"` Pointer Table. -/
def big5IndexPart094 : List (Option Nat) :=
 [
  some 28538, some 28528, some 28516, some 28567, some 28504, some 28373, some 28527, some 28512,
  some 28511, some 29087, some 29100, some 29105, some 29096, some 29270, some 29339, some 29518,
  some 29527, some 29801, some 29835, some 29827, some 29822, some 29824, some 30079, some 30240,
  some 30249, some 30239, some 30244, some 30246, some 30241, some 30242, some 30362, some 30394,
  some 30436, some 30606, some 30599, some 30604, some 30609, some 30603, some 30923, some 30917,
  some 30906, some 30922, some 30910, some 30933, some 30908, some 30928, some 31295, some 31292,
  some 31296, some 31293, some 31287, some 31291, some 31407, some 31406, some 31661, some 31665,
  some 31684, some 31668, some 31686, some 31687, some 31681, some 31648, some 31692, some 31946,
  some 32224, some 32244, some 32239, some 32251, some 32216, some 32236, some 32221, some 32232,
  some 32227, some 32218, some 32222, some 32233, some 32158, some 32217, some 32242, some 32249,
  some 32629, some 32631, some 32687, some 32745, some 32806, some 33179, some 33180, some 33181,
  some 33184, some 33178, some 33176, some 34071, some 34109, some 34074, some 34030, some 34092,
  some 34093, some 34067, some 34065, some 34083
 ]

/-- Rows 9500–9599 of the `"big5"` Pointer Table. -/
def big5IndexPart095 : List (Option Nat) :=
 [
  some 34081, some 34068, some 34028, some 34085, some 34047, some 34054, some 34690, some 34676,
  some 34678, some 34656, some 34662, some 34680, some 34664, some 34649, some 34647, some 34636,
  some 34643, some 34907, some 34909, some 35088, some 35079, some 35090, some 35091, some 35093,
  some 35082, some 35516, some 35538, some 35527, some 35524, some 35477, some 35531, some 35576,
  some 35506, some 35529, some 35522, some 35519, some 35504, some 35542, some 35533, some 35510,
  some 35513, some 35547, some 35916, some 35918, some 35948, some 36064, some 36062, some 36070,
  some 36068, some 36076, some 36077, some 36066, some 36067, some 36060, some 36074, some 36065,
  some 36205, some 36255, some 36259, some 36395, some 36368, some 36381, some 36386, some 36367,
  some 36393, some 36383, some 36385, some 36382, some 36538, some 36637, some 36635, some 36639,
  some 36649, some 36646, some 36650, some 36636, some 36638, some 36645, some 36969, some 36974,
  some 36968, some 36973, some 36983, some 37168, some 37165, some 37159, some 37169, some 37255,
  some 37257, some 37259, some 37251, some 37573, some 37563, some 37559, some 37610, some 37548,
  some 37604, some 37569, some 37555, some 37564
 ]

/-- Rows 9600–9699 of the `"big5"` Pointer Table. -/
def big5IndexPart096 : List (Option Nat) :=
 [
  some 37586, some 37575, some 37616, some 37554, some 38317, some 38321, some 38660, some 38662,
  some 38663, some 38665, some 38752, some 38797, some 38795, some 38799, some 38945, some 38955,
  some 38940, some 39091, some 39178, some 39187, some 39186, some 39192, some 39389, some 39376,
  some 39391, some 39387, some 39377, some 39381, some 39378, some 39385, some 39607, some 39662,
  some 39663, some 39719, some 39749, some 39748, some 39799, some 39791, some 40198, some 40201,
  some 40195, some 40617, some 40638, some 40654, some 22696, some 40786, some 20754, some 20760,
  some 20756, some 20752, some 20757, some 20864, some 20906, some 20957, some 21137, some 21139,
  some 21235, some 22105, some 22123, some 22137, some 22121, some 22116, some 22136, some 22122,
  some 22120, some 22117, some 22129, some 22127, some 22124, some 22114, some 22134, some 22721,
  some 22718, some 22727, some 22725, some 22894, some 23325, some 23348, some 23416, some 23536,
  some 23566, some 24394, some 25010, some 24977, some 25001, some 24970, some 25037, some 25014,
  some 25022, some 25034, some 25032, some 25136, some 25797, some 25793, some 25803, some 25787,
  some 25788, some 25818, some 25796, some 25799
 ]

/-- Rows 9700–9799 of the `"big5"` Pointer Table. -/
def big5IndexPart097 : List (Option Nat) :=
 [
  some 25794, some 25805, some 25791, some 25810, some 25812, some 25790, some 25972, some 26310,
  some 26313, some 26297, some 26308, some 26311, some 26296, some 27197, some 27192, some 27194,
  some 27225, some 27243, some 27224, some 27193, some 27204, some 27234, some 27233, some 27211,
  some 27207, some 27189, some 27231, some 27208, some 27481, some 27511, some 27653, some 28610,
  some 28593, some 28577, some 28611, some 28580, some 28609, some 28583, some 28595, some 28608,
  some 28601, some 28598, some 28582, some 28576, some 28596, some 29118, some 29129, some 29136,
  some 29138, some 29128, some 29141, some 29113, some 29134, some 29145, some 29148, some 29123,
  some 29124, some 29544, some 29852, some 29859, some 29848, some 29855, some 29854, some 29922,
  some 29964, some 29965, some 30260, some 30264, some 30266, some 30439, some 30437, some 30624,
  some 30622, some 30623, some 30629, some 30952, some 30938, some 30956, some 30951, some 31142,
  some 31309, some 31310, some 31302, some 31308, some 31307, some 31418, some 31705, some 31761,
  some 31689, some 31716, some 31707, some 31713, some 31721, some 31718, some 31957, some 31958,
  some 32266, some 32273, some 32264, some 32283
 ]

/-- Rows 9800–9899 of the `"big5"` Pointer Table. -/
def big5IndexPart098 : List (Option Nat) :=
 [
  some 32291, some 32286, some 32285, some 32265, some 32272, some 32633, some 32690, some 32752,
  some 32753, some 32750, some 32808, some 33203, some 33193, some 33192, some 33275, some 33288,
  some 33368, some 33369, some 34122, some 34137, some 34120, some 34152, some 34153, some 34115,
  some 34121, some 34157, some 34154, some 34142, some 34691, some 34719, some 34718, some 34722,
  some 34701, some 34913, some 35114, some 35122, some 35109, some 35115, some 35105, some 35242,
  some 35238, some 35558, some 35578, some 35563, some 35569, some 35584, some 35548, some 35559,
  some 35566, some 35582, some 35585, some 35586, some 35575, some 35565, some 35571, some 35574,
  some 35580, some 35947, some 35949, some 35987, some 36084, some 36420, some 36401, some 36404,
  some 36418, some 36409, some 36405, some 36667, some 36655, some 36664, some 36659, some 36776,
  some 36774, some 36981, some 36980, some 36984, some 36978, some 36988, some 36986, some 37172,
  some 37266, some 37664, some 37686, some 37624, some 37683, some 37679, some 37666, some 37628,
  some 37675, some 37636, some 37658, some 37648, some 37670, some 37665, some 37653, some 37678,
  some 37657, some 38331, some 38567, some 38568
 ]

/-- Rows 9900–9999 of the `"big5"` Pointer Table. -/
def big5IndexPart099 : List (Option Nat) :=
 [
  some 38570, some 38613, some 38670, some 38673, some 38678, some 38669, some 38675, some 38671,
  some 38747, some 38748, some 38758, some 38808, some 38960, some 38968, some 38971, some 38967,
  some 38957, some 38969, some 38948, some 39184, some 39208, some 39198, some 39195, some 39201,
  some 39194, some 39405, some 39394, some 39409, some 39608, some 39612, some 39675, some 39661,
  some 39720, some 39825, some 40213, some 40227, some 40230, some 40232, some 40210, some 40219,
  some 40664, some 40660, some 40845, some 40860, some 20778, some 20767, some 20769, some 20786,
  some 21237, some 22158, some 22144, some 22160, some 22149, some 22151, some 22159, some 22741,
  some 22739, some 22737, some 22734, some 23344, some 23338, some 23332, some 23418, some 23607,
  some 23656, some 23996, some 23994, some 23997, some 23992, some 24171, some 24396, some 24509,
  some 25033, some 25026, some 25031, some 25062, some 25035, some 25138, some 25140, some 25806,
  some 25802, some 25816, some 25824, some 25840, some 25830, some 25836, some 25841, some 25826,
  some 25837, some 25986, some 25987, some 26329, some 26326, some 27264, some 27284, some 27268,
  some 27298, some 27292, some 27355, some 27299
 ]

/-- Rows 10000–10099 of the `"big5"` Pointer Table. -/
def big5IndexPart100 : List (Option Nat) :=
 [
  some 27262, some 27287, some 27280, some 27296, some 27484, some 27566, some 27610, some 27656,
  some 28632, some 28657, some 28639, some 28640, some 28635, some 28644, some 28651, some 28655,
  some 28544, some 28652, some 28641, some 28649, some 28629, some 28654, some 28656, some 29159,
  some 29151, some 29166, some 29158, some 29157, some 29165, some 29164, some 29172, some 29152,
  some 29237, some 29254, some 29552, some 29554, some 29865, some 29872, some 29862, some 29864,
  some 30278, some 30274, some 30284, some 30442, some 30643, some 30634, some 30640, some 30636,
  some 30631, some 30637, some 30703, some 30967, some 30970, some 30964, some 30959, some 30977,
  some 31143, some 31146, some 31319, some 31423, some 31751, some 31757, some 31742, some 31735,
  some 31756, some 31712, some 31968, some 31964, some 31966, some 31970, some 31967, some 31961,
  some 31965, some 32302, some 32318, some 32326, some 32311, some 32306, some 32323, some 32299,
  some 32317, some 32305, some 32325, some 32321, some 32308, some 32313, some 32328, some 32309,
  some 32319, some 32303, some 32580, some 32755, some 32764, some 32881, some 32882, some 32880,
  some 32879, some 32883, some 33222, some 33219
 ]

/-- Rows 10100–10199 of the `"big5"` Pointer Table. -/
def big5IndexPart101 : List (Option Nat) :=
 [
  some 33210, some 33218, some 33216, some 33215, some 33213, some 33225, some 33214, some 33256,
  some 33289, some 33393, some 34218, some 34180, some 34174, some 34204, some 34193, some 34196,
  some 34223, some 34203, some 34183, some 34216, some 34186, some 34407, some 34752, some 34769,
  some 34739, some 34770, some 34758, some 34731, some 34747, some 34746, some 34760, some 34763,
  some 35131, some 35126, some 35140, some 35128, some 35133, some 35244, some 35598, some 35607,
  some 35609, some 35611, some 35594, some 35616, some 35613, some 35588, some 35600, some 35905,
  some 35903, some 35955, some 36090, some 36093, some 36092, some 36088, some 36091, some 36264,
  some 36425, some 36427, some 36424, some 36426, some 36676, some 36670, some 36674, some 36677,
  some 36671, some 36991, some 36989, some 36996, some 36993, some 36994, some 36992, some 37177,
  some 37283, some 37278, some 37276, some 37709, some 37762, some 37672, some 37749, some 37706,
  some 37733, some 37707, some 37656, some 37758, some 37740, some 37723, some 37744, some 37722,
  some 37716, some 38346, some 38347, some 38348, some 38344, some 38342, some 38577, some 38584,
  some 38614, some 38684, some 38686, some 38816
 ]

/-- Rows 10200–10299 of the `"big5"` Pointer Table. -/
def big5IndexPart102 : List (Option Nat) :=
 [
  some 38867, some 38982, some 39094, some 39221, some 39425, some 39423, some 39854, some 39851,
  some 39850, some 39853, some 40251, some 40255, some 40587, some 40655, some 40670, some 40668,
  some 40669, some 40667, some 40766, some 40779, some 21474, some 22165, some 22190, some 22745,
  some 22744, some 23352, some 24413, some 25059, some 25139, some 25844, some 25842, some 25854,
  some 25862, some 25850, some 25851, some 25847, some 26039, some 26332, some 26406, some 27315,
  some 27308, some 27331, some 27323, some 27320, some 27330, some 27310, some 27311, some 27487,
  some 27512, some 27567, some 28681, some 28683, some 28670, some 28678, some 28666, some 28689,
  some 28687, some 29179, some 29180, some 29182, some 29176, some 29559, some 29557, some 29863,
  some 29887, some 29973, some 30294, some 30296, some 30290, some 30653, some 30655, some 30651,
  some 30652, some 30990, some 31150, some 31329, some 31330, some 31328, some 31428, some 31429,
  some 31787, some 31783, some 31786, some 31774, some 31779, some 31777, some 31975, some 32340,
  some 32341, some 32350, some 32346, some 32353, some 32338, some 32345, some 32584, some 32761,
  some 32763, some 32887, some 32886, some 33229
 ]

/-- Rows 10300–10399 of the `"big5"` Pointer Table. -/
def big5IndexPart103 : List (Option Nat) :=
 [
  some 33231, some 33290, some 34255, some 34217, some 34253, some 34256, some 34249, some 34224,
  some 34234, some 34233, some 34214, some 34799, some 34796, some 34802, some 34784, some 35206,
  some 35250, some 35316, some 35624, some 35641, some 35628, some 35627, some 35920, some 36101,
  some 36441, some 36451, some 36454, some 36452, some 36447, some 36437, some 36544, some 36681,
  some 36685, some 36999, some 36995, some 37000, some 37291, some 37292, some 37328, some 37780,
  some 37770, some 37782, some 37794, some 37811, some 37806, some 37804, some 37808, some 37784,
  some 37786, some 37783, some 38356, some 38358, some 38352, some 38357, some 38626, some 38620,
  some 38617, some 38619, some 38622, some 38692, some 38819, some 38822, some 38829, some 38905,
  some 38989, some 38991, some 38988, some 38990, some 38995, some 39098, some 39230, some 39231,
  some 39229, some 39214, some 39333, some 39438, some 39617, some 39683, some 39686, some 39759,
  some 39758, some 39757, some 39882, some 39881, some 39933, some 39880, some 39872, some 40273,
  some 40285, some 40288, some 40672, some 40725, some 40748, some 20787, some 22181, some 22750,
  some 22751, some 22754, some 23541, some 40848
 ]

/-- Rows 10400–10499 of the `"big5"` Pointer Table. -/
def big5IndexPart104 : List (Option Nat) :=
 [
  some 24300, some 25074, some 25079, some 25078, some 25077, some 25856, some 25871, some 26336,
  some 26333, some 27365, some 27357, some 27354, some 27347, some 28699, some 28703, some 28712,
  some 28698, some 28701, some 28693, some 28696, some 29190, some 29197, some 29272, some 29346,
  some 29560, some 29562, some 29885, some 29898, some 29923, some 30087, some 30086, some 30303,
  some 30305, some 30663, some 31001, some 31153, some 31339, some 31337, some 31806, some 31807,
  some 31800, some 31805, some 31799, some 31808, some 32363, some 32365, some 32377, some 32361,
  some 32362, some 32645, some 32371, some 32694, some 32697, some 32696, some 33240, some 34281,
  some 34269, some 34282, some 34261, some 34276, some 34277, some 34295, some 34811, some 34821,
  some 34829, some 34809, some 34814, some 35168, some 35167, some 35158, some 35166, some 35649,
  some 35676, some 35672, some 35657, some 35674, some 35662, some 35663, some 35654, some 35673,
  some 36104, some 36106, some 36476, some 36466, some 36487, some 36470, some 36460, some 36474,
  some 36468, some 36692, some 36686, some 36781, some 37002, some 37003, some 37297, some 37294,
  some 37857, some 37841, some 37855, some 37827
 ]

/-- Rows 10500–10599 of the `"big5"` Pointer Table. -/
def big5IndexPart105 : List (Option Nat) :=
 [
  some 37832, some 37852, some 37853, some 37846, some 37858, some 37837, some 37848, some 37860,
  some 37847, some 37864, some 38364, some 38580, some 38627, some 38698, some 38695, some 38753,
  some 38876, some 38907, some 39006, some 39000, some 39003, some 39100, some 39237, some 39241,
  some 39446, some 39449, some 39693, some 39912, some 39911, some 39894, some 39899, some 40329,
  some 40289, some 40306, some 40298, some 40300, some 40594, some 40599, some 40595, some 40628,
  some 21240, some 22184, some 22199, some 22198, some 22196, some 22204, some 22756, some 23360,
  some 23363, some 23421, some 23542, some 24009, some 25080, some 25082, some 25880, some 25876,
  some 25881, some 26342, some 26407, some 27372, some 28734, some 28720, some 28722, some 29200,
  some 29563, some 29903, some 30306, some 30309, some 31014, some 31018, some 31020, some 31019,
  some 31431, some 31478, some 31820, some 31811, some 31821, some 31983, some 31984, some 36782,
  some 32381, some 32380, some 32386, some 32588, some 32768, some 33242, some 33382, some 34299,
  some 34297, some 34321, some 34298, some 34310, some 34315, some 34311, some 34314, some 34836,
  some 34837, some 35172, some 35258, some 35320
 ]

/-- Rows 10600–10699 of the `"big5"` Pointer Table. -/
def big5IndexPart106 : List (Option Nat) :=
 [
  some 35696, some 35692, some 35686, some 35695, some 35679, some 35691, some 36111, some 36109,
  some 36489, some 36481, some 36485, some 36482, some 37300, some 37323, some 37912, some 37891,
  some 37885, some 38369, some 38704, some 39108, some 39250, some 39249, some 39336, some 39467,
  some 39472, some 39479, some 39477, some 39955, some 39949, some 40569, some 40629, some 40680,
  some 40751, some 40799, some 40803, some 40801, some 20791, some 20792, some 22209, some 22208,
  some 22210, some 22804, some 23660, some 24013, some 25084, some 25086, some 25885, some 25884,
  some 26005, some 26345, some 27387, some 27396, some 27386, some 27570, some 28748, some 29211,
  some 29351, some 29910, some 29908, some 30313, some 30675, some 31824, some 32399, some 32396,
  some 32700, some 34327, some 34349, some 34330, some 34851, some 34850, some 34849, some 34847,
  some 35178, some 35180, some 35261, some 35700, some 35703, some 35709, some 36115, some 36490,
  some 36493, some 36491, some 36703, some 36783, some 37306, some 37934, some 37939, some 37941,
  some 37946, some 37944, some 37938, some 37931, some 38370, some 38712, some 38713, some 38706,
  some 38911, some 39015, some 39013, some 39255
 ]

/-- Rows 10700–10799 of the `"big5"` Pointer Table. -/
def big5IndexPart107 : List (Option Nat) :=
 [
  some 39493, some 39491, some 39488, some 39486, some 39631, some 39764, some 39761, some 39981,
  some 39973, some 40367, some 40372, some 40386, some 40376, some 40605, some 40687, some 40729,
  some 40796, some 40806, some 40807, some 20796, some 20795, some 22216, some 22218, some 22217,
  some 23423, some 24020, some 24018, some 24398, some 25087, some 25892, some 27402, some 27489,
  some 28753, some 28760, some 29568, some 29924, some 30090, some 30318, some 30316, some 31155,
  some 31840, some 31839, some 32894, some 32893, some 33247, some 35186, some 35183, some 35324,
  some 35712, some 36118, some 36119, some 36497, some 36499, some 36705, some 37192, some 37956,
  some 37969, some 37970, some 38717, some 38718, some 38851, some 38849, some 39019, some 39253,
  some 39509, some 39501, some 39634, some 39706, some 40009, some 39985, some 39998, some 39995,
  some 40403, some 40407, some 40756, some 40812, some 40810, some 40852, some 22220, some 24022,
  some 25088, some 25891, some 25899, some 25898, some 26348, some 27408, some 29914, some 31434,
  some 31844, some 31843, some 31845, some 32403, some 32406, some 32404, some 33250, some 34360,
  some 34367, some 34865, some 35722, some 37008
 ]

/-- Rows 10800–10899 of the `"big5"` Pointer Table. -/
def big5IndexPart108 : List (Option Nat) :=
 [
  some 37007, some 37987, some 37984, some 37988, some 38760, some 39023, some 39260, some 39514,
  some 39515, some 39511, some 39635, some 39636, some 39633, some 40020, some 40023, some 40022,
  some 40421, some 40607, some 40692, some 22225, some 22761, some 25900, some 28766, some 30321,
  some 30322, some 30679, some 32592, some 32648, some 34870, some 34873, some 34914, some 35731,
  some 35730, some 35734, some 33399, some 36123, some 37312, some 37994, some 38722, some 38728,
  some 38724, some 38854, some 39024, some 39519, some 39714, some 39768, some 40031, some 40441,
  some 40442, some 40572, some 40573, some 40711, some 40823, some 40818, some 24307, some 27414,
  some 28771, some 31852, some 31854, some 34875, some 35264, some 36513, some 37313, some 38002,
  some 38000, some 39025, some 39262, some 39638, some 39715, some 40652, some 28772, some 30682,
  some 35738, some 38007, some 38857, some 39522, some 39525, some 32412, some 35740, some 36522,
  some 37317, some 38013, some 38014, some 38012, some 40055, some 40056, some 40695, some 35924,
  some 38015, some 40474, some 29224, some 39530, some 39729, some 40475, some 40478, some 31858,
  some 9312, some 9313, some 9314, some 9315
 ]

/-- Rows 10900–10999 of the `"big5"` Pointer Table. -/
def big5IndexPart109 : List (Option Nat) :=
 [
  some 9316, some 9317, some 9318, some 9319, some 9320, some 9321, some 9332, some 9333,
  some 9334, some 9335, some 9336, some 9337, some 9338, some 9339, some 9340, some 9341,
  some 8560, some 8561, some 8562, some 8563, some 8564, some 8565, some 8566, some 8567,
  some 8568, some 8569, some 20022, some 20031, some 20101, some 20128, some 20866, some 20886,
  some 20907, some 21241, some 21304, some 21353, some 21430, some 22794, some 23424, some 24027,
  some 12083, some 24191, some 24308, some 24400, some 24417, some 25908, some 26080, some 30098,
  some 30326, some 36789, some 38582, some 168, some 710, some 12541, some 12542, some 12445,
  some 12446, some 12291, some 20189, some 12293, some 12294, some 12295, some 12540, some 65339,
  some 65341, some 10045, some 12353, some 12354, some 12355, some 12356, some 12357, some 12358,
  some 12359, some 12360, some 12361, some 12362, some 12363, some 12364, some 12365, some 12366,
  some 12367, some 12368, some 12369, some 12370, some 12371, some 12372, some 12373, some 12374,
  some 12375, some 12376, some 12377, some 12378, some 12379, some 12380, some 12381, some 12382,
  some 12383, some 12384, some 12385, some 12386
 ]

/-- Rows 11000–11099 of the `"big5"` Pointer Table. -/
def big5IndexPart110 : List (Option Nat) :=
 [
  some 12387, some 12388, some 12389, some 12390, some 12391, some 12392, some 12393, some 12394,
  some 12395, some 12396, some 12397, some 12398, some 12399, some 12400, some 12401, some 12402,
  some 12403, some 12404, some 12405, some 12406, some 12407, some 12408, some 12409, some 12410,
  some 12411, some 12412, some 12413, some 12414, some 12415, some 12416, some 12417, some 12418,
  some 12419, some 12420, some 12421, some 12422, some 12423, some 12424, some 12425, some 12426,
  some 12427, some 12428, some 12429, some 12430, some 12431, some 12432, some 12433, some 12434,
  some 12435, some 12449, some 12450, some 12451, some 12452, some 12453, some 12454, some 12455,
  some 12456, some 12457, some 12458, some 12459, some 12460, some 12461, some 12462, some 12463,
  some 12464, some 12465, some 12466, some 12467, some 12468, some 12469, some 12470, some 12471,
  some 12472, some 12473, some 12474, some 12475, some 12476, some 12477, some 12478, some 12479,
  some 12480, some 12481, some 12482, some 12483, some 12484, some 12485, some 12486, some 12487,
  some 12488, some 12489, some 12490, some 12491, some 12492, some 12493, some 12494, some 12495,
  some 12496, some 12497, some 12498, some 12499
 ]

/-- Rows 11100–11199 of the `"big5"` Pointer Table. -/
def big5IndexPart111 : List (Option Nat) :=
 [
  some 12500, some 12501, some 12502, some 12503, some 12504, some 12505, some 12506, some 12507,
  some 12508, some 12509, some 12510, some 12511, some 12512, some 12513, some 12514, some 12515,
  some 12516, some 12517, some 12518, some 12519, some 12520, some 12521, some 12522, some 12523,
  some 12524, some 12525, some 12526, some 12527, some 12528, some 12529, some 12530, some 12531,
  some 12532, some 12533, some 12534, some 1040, some 1041, some 1042, some 1043, some 1044,
  some 1045, some 1025, some 1046, some 1047, some 1048, some 1049, some 1050, some 1051,
  some 1052, some 1053, some 1054, some 1055, some 1056, some 1057, some 1058, some 1059,
  some 1060, some 1061, some 1062, some 1063, some 1064, some 1065, some 1066, some 1067,
  some 1068, some 1069, some 1070, some 1071, some 1072, some 1073, some 1074, some 1075,
  some 1076, some 1077, some 1105, some 1078, some 1079, some 1080, some 1081, some 1082,
  some 1083, some 1084, some 1085, some 1086, some 1087, some 1088, some 1089, some 1090,
  some 1091, some 1092, some 1093, some 1094, some 1095, some 1096, some 1097, some 1098,
  some 1099, some 1100, some 1101, some 1102
 ]

/-- Rows 11200–11299 of the `"big5"` Pointer Table. -/
def big5IndexPart112 : List (Option Nat) :=
 [
  some 1103, some 8679, some 8632, some 8633, some 12751, some 131276, some 20058, some 131210,
  some 20994, some 17553, some 40880, some 20872, some 40881, some 161287, none, none, none, none,
  none, none, none, none, none, none, none, none, none, none, none, none, none, none, none, none,
  none, none, none, none, none, none, none, none, none, none, none, none, none, none, none, none,
  none, none, none, none, some 65506, some 65508, some 65287, some 65282, some 12849, some 8470,
  some 8481, some 12443, some 12444, some 11904, some 11908, some 11910, some 11911, some 11912,
  some 11914, some 11916, some 11917, some 11925, some 11932, some 11933, some 11941, some 11943,
  some 11946, some 11948, some 11950, some 11958, some 11964, some 11966, some 11974, some 11978,
  some 11980, some 11981, some 11983, some 11990, some 11991, some 11998, some 12003, none, none,
  none, some 643, some 592, some 603, some 596, some 629, some 339
 ]

/-- Rows 11300–11399 of the `"big5"` Pointer Table. -/
def big5IndexPart113 : List (Option Nat) :=
 [
  some 248, some 331, some 650, some 618, some 20034, some 20060, some 20981, some 21274,
  some 21378, some 19975, some 19980, some 20039, some 20109, some 22231, some 64012, some 23662,
  some 24435, some 19983, some 20871, some 19982, some 20014, some 20115, some 20162, some 20169,
  some 20168, some 20888, some 21244, some 21356, some 21433, some 22304, some 22787, some 22828,
  some 23568, some 24063, some 26081, some 27571, some 27596, some 27668, some 29247, some 20017,
  some 20028, some 20200, some 20188, some 20201, some 20193, some 20189, some 20186, some 21004,
  some 21276, some 21324, some 22306, some 22307, some 22807, some 22831, some 23425, some 23428,
  some 23570, some 23611, some 23668, some 23667, some 24068, some 24192, some 24194, some 24521,
  some 25097, some 25168, some 27669, some 27702, some 27715, some 27711, some 27707, some 29358,
  some 29360, some 29578, some 31160, some 32906, some 38430, some 20238, some 20248, some 20268,
  some 20213, some 20244, some 20209, some 20224, some 20215, some 20232, some 20253, some 20226,
  some 20229, some 20258, some 20243, some 20228, some 20212, some 20242, some 20913, some 21011,
  some 21001, some 21008, some 21158, some 21282
 ]

/-- Rows 11400–11499 of the `"big5"` Pointer Table. -/
def big5IndexPart114 : List (Option Nat) :=
 [
  some 21279, some 21325, some 21386, some 21511, some 22241, some 22239, some 22318, some 22314,
  some 22324, some 22844, some 22912, some 22908, some 22917, some 22907, some 22910, some 22903,
  some 22911, some 23382, some 23573, some 23589, some 23676, some 23674, some 23675, some 23678,
  some 24031, some 24181, some 24196, some 24322, some 24346, some 24436, some 24533, some 24532,
  some 24527, some 25180, some 25182, some 25188, some 25185, some 25190, some 25186, some 25177,
  some 25184, some 25178, some 25189, some 26095, some 26094, some 26430, some 26425, some 26424,
  some 26427, some 26426, some 26431, some 26428, some 26419, some 27672, some 27718, some 27730,
  some 27740, some 27727, some 27722, some 27732, some 27723, some 27724, some 28785, some 29278,
  some 29364, some 29365, some 29582, some 29994, some 30335, some 31349, some 32593, some 33400,
  some 33404, some 33408, some 33405, some 33407, some 34381, some 35198, some 37017, some 37015,
  some 37016, some 37019, some 37012, some 38434, some 38436, some 38432, some 38435, some 20310,
  some 20283, some 20322, some 20297, some 20307, some 20324, some 20286, some 20327, some 20306,
  some 20319, some 20289, some 20312, some 20269
 ]

/-- Rows 11500–11599 of the `"big5"` Pointer Table. -/
def big5IndexPart115 : List (Option Nat) :=
 [
  some 20275, some 20287, some 20321, some 20879, some 20921, some 21020, some 21022, some 21025,
  some 21165, some 21166, some 21257, some 21347, some 21362, some 21390, some 21391, some 21552,
  some 21559, some 21546, some 21588, some 21573, some 21529, some 21532, some 21541, some 21528,
  some 21565, some 21583, some 21569, some 21544, some 21540, some 21575, some 22254, some 22247,
  some 22245, some 22337, some 22341, some 22348, some 22345, some 22347, some 22354, some 22790,
  some 22848, some 22950, some 22936, some 22944, some 22935, some 22926, some 22946, some 22928,
  some 22927, some 22951, some 22945, some 23438, some 23442, some 23592, some 23594, some 23693,
  some 23695, some 23688, some 23691, some 23689, some 23698, some 23690, some 23686, some 23699,
  some 23701, some 24032, some 24074, some 24078, some 24203, some 24201, some 24204, some 24200,
  some 24205, some 24325, some 24349, some 24440, some 24438, some 24530, some 24529, some 24528,
  some 24557, some 24552, some 24558, some 24563, some 24545, some 24548, some 24547, some 24570,
  some 24559, some 24567, some 24571, some 24576, some 24564, some 25146, some 25219, some 25228,
  some 25230, some 25231, some 25236, some 25223
 ]

/-- Rows 11600–11699 of the `"big5"` Pointer Table. -/
def big5IndexPart116 : List (Option Nat) :=
 [
  some 25201, some 25211, some 25210, some 25200, some 25217, some 25224, some 25207, some 25213,
  some 25202, some 25204, some 25911, some 26096, some 26100, some 26099, some 26098, some 26101,
  some 26437, some 26439, some 26457, some 26453, some 26444, some 26440, some 26461, some 26445,
  some 26458, some 26443, some 27600, some 27673, some 27674, some 27768, some 27751, some 27755,
  some 27780, some 27787, some 27791, some 27761, some 27759, some 27753, some 27802, some 27757,
  some 27783, some 27797, some 27804, some 27750, some 27763, some 27749, some 27771, some 27790,
  some 28788, some 28794, some 29283, some 29375, some 29373, some 29379, some 29382, some 29377,
  some 29370, some 29381, some 29589, some 29591, some 29587, some 29588, some 29586, some 30010,
  some 30009, some 30100, some 30101, some 30337, some 31037, some 32820, some 32917, some 32921,
  some 32912, some 32914, some 32924, some 33424, some 33423, some 33413, some 33422, some 33425,
  some 33427, some 33418, some 33411, some 33412, some 35960, some 36809, some 36799, some 37023,
  some 37025, some 37029, some 37022, some 37031, some 37024, some 38448, some 38440, some 38447,
  some 38445, some 20019, some 20376, some 20348
 ]

/-- Rows 11700–11799 of the `"big5"` Pointer Table. -/
def big5IndexPart117 : List (Option Nat) :=
 [
  some 20357, some 20349, some 20352, some 20359, some 20342, some 20340, some 20361, some 20356,
  some 20343, some 20300, some 20375, some 20330, some 20378, some 20345, some 20353, some 20344,
  some 20368, some 20380, some 20372, some 20382, some 20370, some 20354, some 20373, some 20331,
  some 20334, some 20894, some 20924, some 20926, some 21045, some 21042, some 21043, some 21062,
  some 21041, some 21180, some 21258, some 21259, some 21308, some 21394, some 21396, some 21639,
  some 21631, some 21633, some 21649, some 21634, some 21640, some 21611, some 21626, some 21630,
  some 21605, some 21612, some 21620, some 21606, some 21645, some 21615, some 21601, some 21600,
  some 21656, some 21603, some 21607, some 21604, some 22263, some 22265, some 22383, some 22386,
  some 22381, some 22379, some 22385, some 22384, some 22390, some 22400, some 22389, some 22395,
  some 22387, some 22388, some 22370, some 22376, some 22397, some 22796, some 22853, some 22965,
  some 22970, some 22991, some 22990, some 22962, some 22988, some 22977, some 22966, some 22972,
  some 22979, some 22998, some 22961, some 22973, some 22976, some 22984, some 22964, some 22983,
  some 23394, some 23397, some 23443, some 23445
 ]

/-- Rows 11800–11899 of the `"big5"` Pointer Table. -/
def big5IndexPart118 : List (Option Nat) :=
 [
  some 23620, some 23623, some 23726, some 23716, some 23712, some 23733, some 23727, some 23720,
  some 23724, some 23711, some 23715, some 23725, some 23714, some 23722, some 23719, some 23709,
  some 23717, some 23734, some 23728, some 23718, some 24087, some 24084, some 24089, some 24360,
  some 24354, some 24355, some 24356, some 24404, some 24450, some 24446, some 24445, some 24542,
  some 24549, some 24621, some 24614, some 24601, some 24626, some 24587, some 24628, some 24586,
  some 24599, some 24627, some 24602, some 24606, some 24620, some 24610, some 24589, some 24592,
  some 24622, some 24595, some 24593, some 24588, some 24585, some 24604, some 25108, some 25149,
  some 25261, some 25268, some 25297, some 25278, some 25258, some 25270, some 25290, some 25262,
  some 25267, some 25263, some 25275, some 25257, some 25264, some 25272, some 25917, some 26024,
  some 26043, some 26121, some 26108, some 26116, some 26130, some 26120, some 26107, some 26115,
  some 26123, some 26125, some 26117, some 26109, some 26129, some 26128, some 26358, some 26378,
  some 26501, some 26476, some 26510, some 26514, some 26486, some 26491, some 26520, some 26502,
  some 26500, some 26484, some 26509, some 26508
 ]

/-- Rows 11900–11999 of the `"big5"` Pointer Table. -/
def big5IndexPart119 : List (Option Nat) :=
 [
  some 26490, some 26527, some 26513, some 26521, some 26499, some 26493, some 26497, some 26488,
  some 26489, some 26516, some 27429, some 27520, some 27518, some 27614, some 27677, some 27795,
  some 27884, some 27883, some 27886, some 27865, some 27830, some 27860, some 27821, some 27879,
  some 27831, some 27856, some 27842, some 27834, some 27843, some 27846, some 27885, some 27890,
  some 27858, some 27869, some 27828, some 27786, some 27805, some 27776, some 27870, some 27840,
  some 27952, some 27853, some 27847, some 27824, some 27897, some 27855, some 27881, some 27857,
  some 28820, some 28824, some 28805, some 28819, some 28806, some 28804, some 28817, some 28822,
  some 28802, some 28826, some 28803, some 29290, some 29398, some 29387, some 29400, some 29385,
  some 29404, some 29394, some 29396, some 29402, some 29388, some 29393, some 29604, some 29601,
  some 29613, some 29606, some 29602, some 29600, some 29612, some 29597, some 29917, some 29928,
  some 30015, some 30016, some 30014, some 30092, some 30104, some 30383, some 30451, some 30449,
  some 30448, some 30453, some 30712, some 30716, some 30713, some 30715, some 30714, some 30711,
  some 31042, some 31039, some 31173, some 31352
 ]

/-- Rows 12000–12099 of the `"big5"` Pointer Table. -/
def big5IndexPart120 : List (Option Nat) :=
 [
  some 31355, some 31483, some 31861, some 31997, some 32821, some 32911, some 32942, some 32931,
  some 32952, some 32949, some 32941, some 33312, some 33440, some 33472, some 33451, some 33434,
  some 33432, some 33435, some 33461, some 33447, some 33454, some 33468, some 33438, some 33466,
  some 33460, some 33448, some 33441, some 33449, some 33474, some 33444, some 33475, some 33462,
  some 33442, some 34416, some 34415, some 34413, some 34414, some 35926, some 36818, some 36811,
  some 36819, some 36813, some 36822, some 36821, some 36823, some 37042, some 37044, some 37039,
  some 37043, some 37040, some 38457, some 38461, some 38460, some 38458, some 38467, some 20429,
  some 20421, some 20435, some 20402, some 20425, some 20427, some 20417, some 20436, some 20444,
  some 20441, some 20411, some 20403, some 20443, some 20423, some 20438, some 20410, some 20416,
  some 20409, some 20460, some 21060, some 21065, some 21184, some 21186, some 21309, some 21372,
  some 21399, some 21398, some 21401, some 21400, some 21690, some 21665, some 21677, some 21669,
  some 21711, some 21699, some 33549, some 21687, some 21678, some 21718, some 21686, some 21701,
  some 21702, some 21664, some 21616, some 21692
 ]

/-- Rows 12100–12199 of the `"big5"` Pointer Table. -/
def big5IndexPart121 : List (Option Nat) :=
 [
  some 21666, some 21694, some 21618, some 21726, some 21680, some 22453, some 22430, some 22431,
  some 22436, some 22412, some 22423, some 22429, some 22427, some 22420, some 22424, some 22415,
  some 22425, some 22437, some 22426, some 22421, some 22772, some 22797, some 22867, some 23009,
  some 23006, some 23022, some 23040, some 23025, some 23005, some 23034, some 23037, some 23036,
  some 23030, some 23012, some 23026, some 23031, some 23003, some 23017, some 23027, some 23029,
  some 23008, some 23038, some 23028, some 23021, some 23464, some 23628, some 23760, some 23768,
  some 23756, some 23767, some 23755, some 23771, some 23774, some 23770, some 23753, some 23751,
  some 23754, some 23766, some 23763, some 23764, some 23759, some 23752, some 23750, some 23758,
  some 23775, some 23800, some 24057, some 24097, some 24098, some 24099, some 24096, some 24100,
  some 24240, some 24228, some 24226, some 24219, some 24227, some 24229, some 24327, some 24366,
  some 24406, some 24454, some 24631, some 24633, some 24660, some 24690, some 24670, some 24645,
  some 24659, some 24647, some 24649, some 24667, some 24652, some 24640, some 24642, some 24671,
  some 24612, some 24644, some 24664, some 24678
 ]

/-- Rows 12200–12299 of the `"big5"` Pointer Table. -/
def big5IndexPart122 : List (Option Nat) :=
 [
  some 24686, some 25154, some 25155, some 25295, some 25357, some 25355, some 25333, some 25358,
  some 25347, some 25323, some 25337, some 25359, some 25356, some 25336, some 25334, some 25344,
  some 25363, some 25364, some 25338, some 25365, some 25339, some 25328, some 25921, some 25923,
  some 26026, some 26047, some 26166, some 26145, some 26162, some 26165, some 26140, some 26150,
  some 26146, some 26163, some 26155, some 26170, some 26141, some 26164, some 26169, some 26158,
  some 26383, some 26384, some 26561, some 26610, some 26568, some 26554, some 26588, some 26555,
  some 26616, some 26584, some 26560, some 26551, some 26565, some 26603, some 26596, some 26591,
  some 26549, some 26573, some 26547, some 26615, some 26614, some 26606, some 26595, some 26562,
  some 26553, some 26574, some 26599, some 26608, some 26546, some 26620, some 26566, some 26605,
  some 26572, some 26542, some 26598, some 26587, some 26618, some 26569, some 26570, some 26563,
  some 26602, some 26571, some 27432, some 27522, some 27524, some 27574, some 27606, some 27608,
  some 27616, some 27680, some 27681, some 27944, some 27956, some 27949, some 27935, some 27964,
  some 27967, some 27922, some 27914, some 27866
 ]

/-- Rows 12300–12399 of the `"big5"` Pointer Table. -/
def big5IndexPart123 : List (Option Nat) :=
 [
  some 27955, some 27908, some 27929, some 27962, some 27930, some 27921, some 27904, some 27933,
  some 27970, some 27905, some 27928, some 27959, some 27907, some 27919, some 27968, some 27911,
  some 27936, some 27948, some 27912, some 27938, some 27913, some 27920, some 28855, some 28831,
  some 28862, some 28849, some 28848, some 28833, some 28852, some 28853, some 28841, some 29249,
  some 29257, some 29258, some 29292, some 29296, some 29299, some 29294, some 29386, some 29412,
  some 29416, some 29419, some 29407, some 29418, some 29414, some 29411, some 29573, some 29644,
  some 29634, some 29640, some 29637, some 29625, some 29622, some 29621, some 29620, some 29675,
  some 29631, some 29639, some 29630, some 29635, some 29638, some 29624, some 29643, some 29932,
  some 29934, some 29998, some 30023, some 30024, some 30119, some 30122, some 30329, some 30404,
  some 30472, some 30467, some 30468, some 30469, some 30474, some 30455, some 30459, some 30458,
  some 30695, some 30696, some 30726, some 30737, some 30738, some 30725, some 30736, some 30735,
  some 30734, some 30729, some 30723, some 30739, some 31050, some 31052, some 31051, some 31045,
  some 31044, some 31189, some 31181, some 31183
 ]

/-- Rows 12400–12499 of the `"big5"` Pointer Table. -/
def big5IndexPart124 : List (Option Nat) :=
 [
  some 31190, some 31182, some 31360, some 31358, some 31441, some 31488, some 31489, some 31866,
  some 31864, some 31865, some 31871, some 31872, some 31873, some 32003, some 32008, some 32001,
  some 32600, some 32657, some 32653, some 32702, some 32775, some 32782, some 32783, some 32788,
  some 32823, some 32984, some 32967, some 32992, some 32977, some 32968, some 32962, some 32976,
  some 32965, some 32995, some 32985, some 32988, some 32970, some 32981, some 32969, some 32975,
  some 32983, some 32998, some 32973, some 33279, some 33313, some 33428, some 33497, some 33534,
  some 33529, some 33543, some 33512, some 33536, some 33493, some 33594, some 33515, some 33494,
  some 33524, some 33516, some 33505, some 33522, some 33525, some 33548, some 33531, some 33526,
  some 33520, some 33514, some 33508, some 33504, some 33530, some 33523, some 33517, some 34423,
  some 34420, some 34428, some 34419, some 34881, some 34894, some 34919, some 34922, some 34921,
  some 35283, some 35332, some 35335, some 36210, some 36835, some 36833, some 36846, some 36832,
  some 37105, some 37053, some 37055, some 37077, some 37061, some 37054, some 37063, some 37067,
  some 37064, some 37332, some 37331, some 38484
 ]

/-- Rows 12500–12599 of the `"big5"` Pointer Table. -/
def big5IndexPart125 : List (Option Nat) :=
 [
  some 38479, some 38481, some 38483, some 38474, some 38478, some 20510, some 20485, some 20487,
  some 20499, some 20514, some 20528, some 20507, some 20469, some 20468, some 20531, some 20535,
  some 20524, some 20470, some 20471, some 20503, some 20508, some 20512, some 20519, some 20533,
  some 20527, some 20529, some 20494, some 20826, some 20884, some 20883, some 20938, some 20932,
  some 20933, some 20936, some 20942, some 21089, some 21082, some 21074, some 21086, some 21087,
  some 21077, some 21090, some 21197, some 21262, some 21406, some 21798, some 21730, some 21783,
  some 21778, some 21735, some 21747, some 21732, some 21786, some 21759, some 21764, some 21768,
  some 21739, some 21777, some 21765, some 21745, some 21770, some 21755, some 21751, some 21752,
  some 21728, some 21774, some 21763, some 21771, some 22273, some 22274, some 22476, some 22578,
  some 22485, some 22482, some 22458, some 22470, some 22461, some 22460, some 22456, some 22454,
  some 22463, some 22471, some 22480, some 22457, some 22465, some 22798, some 22858, some 23065,
  some 23062, some 23085, some 23086, some 23061, some 23055, some 23063, some 23050, some 23070,
  some 23091, some 23404, some 23463, some 23469
 ]

/-- Rows 12600–12699 of the `"big5"` Pointer Table. -/
def big5IndexPart126 : List (Option Nat) :=
 [
  some 23468, some 23555, some 23638, some 23636, some 23788, some 23807, some 23790, some 23793,
  some 23799, some 23808, some 23801, some 24105, some 24104, some 24232, some 24238, some 24234,
  some 24236, some 24371, some 24368, some 24423, some 24669, some 24666, some 24679, some 24641,
  some 24738, some 24712, some 24704, some 24722, some 24705, some 24733, some 24707, some 24725,
  some 24731, some 24727, some 24711, some 24732, some 24718, some 25113, some 25158, some 25330,
  some 25360, some 25430, some 25388, some 25412, some 25413, some 25398, some 25411, some 25572,
  some 25401, some 25419, some 25418, some 25404, some 25385, some 25409, some 25396, some 25432,
  some 25428, some 25433, some 25389, some 25415, some 25395, some 25434, some 25425, some 25400,
  some 25431, some 25408, some 25416, some 25930, some 25926, some 26054, some 26051, some 26052,
  some 26050, some 26186, some 26207, some 26183, some 26193, some 26386, some 26387, some 26655,
  some 26650, some 26697, some 26674, some 26675, some 26683, some 26699, some 26703, some 26646,
  some 26673, some 26652, some 26677, some 26667, some 26669, some 26671, some 26702, some 26692,
  some 26676, some 26653, some 26642, some 26644
 ]

/-- Rows 12700–12799 of the `"big5"` Pointer Table. -/
def big5IndexPart127 : List (Option Nat) :=
 [
  some 26662, some 26664, some 26670, some 26701, some 26682, some 26661, some 26656, some 27436,
  some 27439, some 27437, some 27441, some 27444, some 27501, some 32898, some 27528, some 27622,
  some 27620, some 27624, some 27619, some 27618, some 27623, some 27685, some 28026, some 28003,
  some 28004, some 28022, some 27917, some 28001, some 28050, some 27992, some 28002, some 28013,
  some 28015, some 28049, some 28045, some 28143, some 28031, some 28038, some 27998, some 28007,
  some 28000, some 28055, some 28016, some 28028, some 27999, some 28034, some 28056, some 27951,
  some 28008, some 28043, some 28030, some 28032, some 28036, some 27926, some 28035, some 28027,
  some 28029, some 28021, some 28048, some 28892, some 28883, some 28881, some 28893, some 28875,
  some 32569, some 28898, some 28887, some 28882, some 28894, some 28896, some 28884, some 28877,
  some 28869, some 28870, some 28871, some 28890, some 28878, some 28897, some 29250, some 29304,
  some 29303, some 29302, some 29440, some 29434, some 29428, some 29438, some 29430, some 29427,
  some 29435, some 29441, some 29651, some 29657, some 29669, some 29654, some 29628, some 29671,
  some 29667, some 29673, some 29660, some 29650
 ]

/-- Rows 12800–12899 of the `"big5"` Pointer Table. -/
def big5IndexPart128 : List (Option Nat) :=
 [
  some 29659, some 29652, some 29661, some 29658, some 29655, some 29656, some 29672, some 29918,
  some 29919, some 29940, some 29941, some 29985, some 30043, some 30047, some 30128, some 30145,
  some 30139, some 30148, some 30144, some 30143, some 30134, some 30138, some 30346, some 30409,
  some 30493, some 30491, some 30480, some 30483, some 30482, some 30499, some 30481, some 30485,
  some 30489, some 30490, some 30498, some 30503, some 30755, some 30764, some 30754, some 30773,
  some 30767, some 30760, some 30766, some 30763, some 30753, some 30761, some 30771, some 30762,
  some 30769, some 31060, some 31067, some 31055, some 31068, some 31059, some 31058, some 31057,
  some 31211, some 31212, some 31200, some 31214, some 31213, some 31210, some 31196, some 31198,
  some 31197, some 31366, some 31369, some 31365, some 31371, some 31372, some 31370, some 31367,
  some 31448, some 31504, some 31492, some 31507, some 31493, some 31503, some 31496, some 31498,
  some 31502, some 31497, some 31506, some 31876, some 31889, some 31882, some 31884, some 31880,
  some 31885, some 31877, some 32030, some 32029, some 32017, some 32014, some 32024, some 32022,
  some 32019, some 32031, some 32018, some 32015
 ]

/-- Rows 12900–12999 of the `"big5"` Pointer Table. -/
def big5IndexPart129 : List (Option Nat) :=
 [
  some 32012, some 32604, some 32609, some 32606, some 32608, some 32605, some 32603, some 32662,
  some 32658, some 32707, some 32706, some 32704, some 32790, some 32830, some 32825, some 33018,
  some 33010, some 33017, some 33013, some 33025, some 33019, some 33024, some 33281, some 33327,
  some 33317, some 33587, some 33581, some 33604, some 33561, some 33617, some 33573, some 33622,
  some 33599, some 33601, some 33574, some 33564, some 33570, some 33602, some 33614, some 33563,
  some 33578, some 33544, some 33596, some 33613, some 33558, some 33572, some 33568, some 33591,
  some 33583, some 33577, some 33607, some 33605, some 33612, some 33619, some 33566, some 33580,
  some 33611, some 33575, some 33608, some 34387, some 34386, some 34466, some 34472, some 34454,
  some 34445, some 34449, some 34462, some 34439, some 34455, some 34438, some 34443, some 34458,
  some 34437, some 34469, some 34457, some 34465, some 34471, some 34453, some 34456, some 34446,
  some 34461, some 34448, some 34452, some 34883, some 34884, some 34925, some 34933, some 34934,
  some 34930, some 34944, some 34929, some 34943, some 34927, some 34947, some 34942, some 34932,
  some 34940, some 35346, some 35911, some 35927
 ]

/-- Rows 13000–13099 of the `"big5"` Pointer Table. -/
def big5IndexPart130 : List (Option Nat) :=
 [
  some 35963, some 36004, some 36003, some 36214, some 36216, some 36277, some 36279, some 36278,
  some 36561, some 36563, some 36862, some 36853, some 36866, some 36863, some 36859, some 36868,
  some 36860, some 36854, some 37078, some 37088, some 37081, some 37082, some 37091, some 37087,
  some 37093, some 37080, some 37083, some 37079, some 37084, some 37092, some 37200, some 37198,
  some 37199, some 37333, some 37346, some 37338, some 38492, some 38495, some 38588, some 39139,
  some 39647, some 39727, some 20095, some 20592, some 20586, some 20577, some 20574, some 20576,
  some 20563, some 20555, some 20573, some 20594, some 20552, some 20557, some 20545, some 20571,
  some 20554, some 20578, some 20501, some 20549, some 20575, some 20585, some 20587, some 20579,
  some 20580, some 20550, some 20544, some 20590, some 20595, some 20567, some 20561, some 20944,
  some 21099, some 21101, some 21100, some 21102, some 21206, some 21203, some 21293, some 21404,
  some 21877, some 21878, some 21820, some 21837, some 21840, some 21812, some 21802, some 21841,
  some 21858, some 21814, some 21813, some 21808, some 21842, some 21829, some 21772, some 21810,
  some 21861, some 21838, some 21817, some 21832
 ]

/-- Rows 13100–13199 of the `"big5"` Pointer Table. -/
def big5IndexPart131 : List (Option Nat) :=
 [
  some 21805, some 21819, some 21824, some 21835, some 22282, some 22279, some 22523, some 22548,
  some 22498, some 22518, some 22492, some 22516, some 22528, some 22509, some 22525, some 22536,
  some 22520, some 22539, some 22515, some 22479, some 22535, some 22510, some 22499, some 22514,
  some 22501, some 22508, some 22497, some 22542, some 22524, some 22544, some 22503, some 22529,
  some 22540, some 22513, some 22505, some 22512, some 22541, some 22532, some 22876, some 23136,
  some 23128, some 23125, some 23143, some 23134, some 23096, some 23093, some 23149, some 23120,
  some 23135, some 23141, some 23148, some 23123, some 23140, some 23127, some 23107, some 23133,
  some 23122, some 23108, some 23131, some 23112, some 23182, some 23102, some 23117, some 23097,
  some 23116, some 23152, some 23145, some 23111, some 23121, some 23126, some 23106, some 23132,
  some 23410, some 23406, some 23489, some 23488, some 23641, some 23838, some 23819, some 23837,
  some 23834, some 23840, some 23820, some 23848, some 23821, some 23846, some 23845, some 23823,
  some 23856, some 23826, some 23843, some 23839, some 23854, some 24126, some 24116, some 24241,
  some 24244, some 24249, some 24242, some 24243
 ]

/-- Rows 13200–13299 of the `"big5"` Pointer Table. -/
def big5IndexPart132 : List (Option Nat) :=
 [
  some 24374, some 24376, some 24475, some 24470, some 24479, some 24714, some 24720, some 24710,
  some 24766, some 24752, some 24762, some 24787, some 24788, some 24783, some 24804, some 24793,
  some 24797, some 24776, some 24753, some 24795, some 24759, some 24778, some 24767, some 24771,
  some 24781, some 24768, some 25394, some 25445, some 25482, some 25474, some 25469, some 25533,
  some 25502, some 25517, some 25501, some 25495, some 25515, some 25486, some 25455, some 25479,
  some 25488, some 25454, some 25519, some 25461, some 25500, some 25453, some 25518, some 25468,
  some 25508, some 25403, some 25503, some 25464, some 25477, some 25473, some 25489, some 25485,
  some 25456, some 25939, some 26061, some 26213, some 26209, some 26203, some 26201, some 26204,
  some 26210, some 26392, some 26745, some 26759, some 26768, some 26780, some 26733, some 26734,
  some 26798, some 26795, some 26966, some 26735, some 26787, some 26796, some 26793, some 26741,
  some 26740, some 26802, some 26767, some 26743, some 26770, some 26748, some 26731, some 26738,
  some 26794, some 26752, some 26737, some 26750, some 26779, some 26774, some 26763, some 26784,
  some 26761, some 26788, some 26744, some 26747
 ]

/-- Rows 13300–13399 of the `"big5"` Pointer Table. -/
def big5IndexPart133 : List (Option Nat) :=
 [
  some 26769, some 26764, some 26762, some 26749, some 27446, some 27443, some 27447, some 27448,
  some 27537, some 27535, some 27533, some 27534, some 27532, some 27690, some 28096, some 28075,
  some 28084, some 28083, some 28276, some 28076, some 28137, some 28130, some 28087, some 28150,
  some 28116, some 28160, some 28104, some 28128, some 28127, some 28118, some 28094, some 28133,
  some 28124, some 28125, some 28123, some 28148, some 28106, some 28093, some 28141, some 28144,
  some 28090, some 28117, some 28098, some 28111, some 28105, some 28112, some 28146, some 28115,
  some 28157, some 28119, some 28109, some 28131, some 28091, some 28922, some 28941, some 28919,
  some 28951, some 28916, some 28940, some 28912, some 28932, some 28915, some 28944, some 28924,
  some 28927, some 28934, some 28947, some 28928, some 28920, some 28918, some 28939, some 28930,
  some 28942, some 29310, some 29307, some 29308, some 29311, some 29469, some 29463, some 29447,
  some 29457, some 29464, some 29450, some 29448, some 29439, some 29455, some 29470, some 29576,
  some 29686, some 29688, some 29685, some 29700, some 29697, some 29693, some 29703, some 29696,
  some 29690, some 29692, some 29695, some 29708
 ]

/-- Rows 13400–13499 of the `"big5"` Pointer Table. -/
def big5IndexPart134 : List (Option Nat) :=
 [
  some 29707, some 29684, some 29704, some 30052, some 30051, some 30158, some 30162, some 30159,
  some 30155, some 30156, some 30161, some 30160, some 30351, some 30345, some 30419, some 30521,
  some 30511, some 30509, some 30513, some 30514, some 30516, some 30515, some 30525, some 30501,
  some 30523, some 30517, some 30792, some 30802, some 30793, some 30797, some 30794, some 30796,
  some 30758, some 30789, some 30800, some 31076, some 31079, some 31081, some 31082, some 31075,
  some 31083, some 31073, some 31163, some 31226, some 31224, some 31222, some 31223, some 31375,
  some 31380, some 31376, some 31541, some 31559, some 31540, some 31525, some 31536, some 31522,
  some 31524, some 31539, some 31512, some 31530, some 31517, some 31537, some 31531, some 31533,
  some 31535, some 31538, some 31544, some 31514, some 31523, some 31892, some 31896, some 31894,
  some 31907, some 32053, some 32061, some 32056, some 32054, some 32058, some 32069, some 32044,
  some 32041, some 32065, some 32071, some 32062, some 32063, some 32074, some 32059, some 32040,
  some 32611, some 32661, some 32668, some 32669, some 32667, some 32714, some 32715, some 32717,
  some 32720, some 32721, some 32711, some 32719
 ]

/-- Rows 13500–13599 of the `"big5"` Pointer Table. -/
def big5IndexPart135 : List (Option Nat) :=
 [
  some 32713, some 32799, some 32798, some 32795, some 32839, some 32835, some 32840, some 33048,
  some 33061, some 33049, some 33051, some 33069, some 33055, some 33068, some 33054, some 33057,
  some 33045, some 33063, some 33053, some 33058, some 33297, some 33336, some 33331, some 33338,
  some 33332, some 33330, some 33396, some 33680, some 33699, some 33704, some 33677, some 33658,
  some 33651, some 33700, some 33652, some 33679, some 33665, some 33685, some 33689, some 33653,
  some 33684, some 33705, some 33661, some 33667, some 33676, some 33693, some 33691, some 33706,
  some 33675, some 33662, some 33701, some 33711, some 33672, some 33687, some 33712, some 33663,
  some 33702, some 33671, some 33710, some 33654, some 33690, some 34393, some 34390, some 34495,
  some 34487, some 34498, some 34497, some 34501, some 34490, some 34480, some 34504, some 34489,
  some 34483, some 34488, some 34508, some 34484, some 34491, some 34492, some 34499, some 34493,
  some 34494, some 34898, some 34953, some 34965, some 34984, some 34978, some 34986, some 34970,
  some 34961, some 34977, some 34975, some 34968, some 34983, some 34969, some 34971, some 34967,
  some 34980, some 34988, some 34956, some 34963
 ]

/-- Rows 13600–13699 of the `"big5"` Pointer Table. -/
def big5IndexPart136 : List (Option Nat) :=
 [
  some 34958, some 35202, some 35286, some 35289, some 35285, some 35376, some 35367, some 35372,
  some 35358, some 35897, some 35899, some 35932, some 35933, some 35965, some 36005, some 36221,
  some 36219, some 36217, some 36284, some 36290, some 36281, some 36287, some 36289, some 36568,
  some 36574, some 36573, some 36572, some 36567, some 36576, some 36577, some 36900, some 36875,
  some 36881, some 36892, some 36876, some 36897, some 37103, some 37098, some 37104, some 37108,
  some 37106, some 37107, some 37076, some 37099, some 37100, some 37097, some 37206, some 37208,
  some 37210, some 37203, some 37205, some 37356, some 37364, some 37361, some 37363, some 37368,
  some 37348, some 37369, some 37354, some 37355, some 37367, some 37352, some 37358, some 38266,
  some 38278, some 38280, some 38524, some 38509, some 38507, some 38513, some 38511, some 38591,
  some 38762, some 38916, some 39141, some 39319, some 20635, some 20629, some 20628, some 20638,
  some 20619, some 20643, some 20611, some 20620, some 20622, some 20637, some 20584, some 20636,
  some 20626, some 20610, some 20615, some 20831, some 20948, some 21266, some 21265, some 21412,
  some 21415, some 21905, some 21928, some 21925
 ]

/-- Rows 13700–13799 of the `"big5"` Pointer Table. -/
def big5IndexPart137 : List (Option Nat) :=
 [
  some 21933, some 21879, some 22085, some 21922, some 21907, some 21896, some 21903, some 21941,
  some 21889, some 21923, some 21906, some 21924, some 21885, some 21900, some 21926, some 21887,
  some 21909, some 21921, some 21902, some 22284, some 22569, some 22583, some 22553, some 22558,
  some 22567, some 22563, some 22568, some 22517, some 22600, some 22565, some 22556, some 22555,
  some 22579, some 22591, some 22582, some 22574, some 22585, some 22584, some 22573, some 22572,
  some 22587, some 22881, some 23215, some 23188, some 23199, some 23162, some 23202, some 23198,
  some 23160, some 23206, some 23164, some 23205, some 23212, some 23189, some 23214, some 23095,
  some 23172, some 23178, some 23191, some 23171, some 23179, some 23209, some 23163, some 23165,
  some 23180, some 23196, some 23183, some 23187, some 23197, some 23530, some 23501, some 23499,
  some 23508, some 23505, some 23498, some 23502, some 23564, some 23600, some 23863, some 23875,
  some 23915, some 23873, some 23883, some 23871, some 23861, some 23889, some 23886, some 23893,
  some 23859, some 23866, some 23890, some 23869, some 23857, some 23897, some 23874, some 23865,
  some 23881, some 23864, some 23868, some 23858
 ]

/-- Rows 13800–13899 of the `"big5"` Pointer Table. -/
def big5IndexPart138 : List (Option Nat) :=
 [
  some 23862, some 23872, some 23877, some 24132, some 24129, some 24408, some 24486, some 24485,
  some 24491, some 24777, some 24761, some 24780, some 24802, some 24782, some 24772, some 24852,
  some 24818, some 24842, some 24854, some 24837, some 24821, some 24851, some 24824, some 24828,
  some 24830, some 24769, some 24835, some 24856, some 24861, some 24848, some 24831, some 24836,
  some 24843, some 25162, some 25492, some 25521, some 25520, some 25550, some 25573, some 25576,
  some 25583, some 25539, some 25757, some 25587, some 25546, some 25568, some 25590, some 25557,
  some 25586, some 25589, some 25697, some 25567, some 25534, some 25565, some 25564, some 25540,
  some 25560, some 25555, some 25538, some 25543, some 25548, some 25547, some 25544, some 25584,
  some 25559, some 25561, some 25906, some 25959, some 25962, some 25956, some 25948, some 25960,
  some 25957, some 25996, some 26013, some 26014, some 26030, some 26064, some 26066, some 26236,
  some 26220, some 26235, some 26240, some 26225, some 26233, some 26218, some 26226, some 26369,
  some 26892, some 26835, some 26884, some 26844, some 26922, some 26860, some 26858, some 26865,
  some 26895, some 26838, some 26871, some 26859
 ]

/-- Rows 13900–13999 of the `"big5"` Pointer Table. -/
def big5IndexPart139 : List (Option Nat) :=
 [
  some 26852, some 26870, some 26899, some 26896, some 26867, some 26849, some 26887, some 26828,
  some 26888, some 26992, some 26804, some 26897, some 26863, some 26822, some 26900, some 26872,
  some 26832, some 26877, some 26876, some 26856, some 26891, some 26890, some 26903, some 26830,
  some 26824, some 26845, some 26846, some 26854, some 26868, some 26833, some 26886, some 26836,
  some 26857, some 26901, some 26917, some 26823, some 27449, some 27451, some 27455, some 27452,
  some 27540, some 27543, some 27545, some 27541, some 27581, some 27632, some 27634, some 27635,
  some 27696, some 28156, some 28230, some 28231, some 28191, some 28233, some 28296, some 28220,
  some 28221, some 28229, some 28258, some 28203, some 28223, some 28225, some 28253, some 28275,
  some 28188, some 28211, some 28235, some 28224, some 28241, some 28219, some 28163, some 28206,
  some 28254, some 28264, some 28252, some 28257, some 28209, some 28200, some 28256, some 28273,
  some 28267, some 28217, some 28194, some 28208, some 28243, some 28261, some 28199, some 28280,
  some 28260, some 28279, some 28245, some 28281, some 28242, some 28262, some 28213, some 28214,
  some 28250, some 28960, some 28958, some 28975
 ]

/-- Rows 14000–14099 of the `"big5"` Pointer Table. -/
def big5IndexPart140 : List (Option Nat) :=
 [
  some 28923, some 28974, some 28977, some 28963, some 28965, some 28962, some 28978, some 28959,
  some 28968, some 28986, some 28955, some 29259, some 29274, some 29320, some 29321, some 29318,
  some 29317, some 29323, some 29458, some 29451, some 29488, some 29474, some 29489, some 29491,
  some 29479, some 29490, some 29485, some 29478, some 29475, some 29493, some 29452, some 29742,
  some 29740, some 29744, some 29739, some 29718, some 29722, some 29729, some 29741, some 29745,
  some 29732, some 29731, some 29725, some 29737, some 29728, some 29746, some 29947, some 29999,
  some 30063, some 30060, some 30183, some 30170, some 30177, some 30182, some 30173, some 30175,
  some 30180, some 30167, some 30357, some 30354, some 30426, some 30534, some 30535, some 30532,
  some 30541, some 30533, some 30538, some 30542, some 30539, some 30540, some 30686, some 30700,
  some 30816, some 30820, some 30821, some 30812, some 30829, some 30833, some 30826, some 30830,
  some 30832, some 30825, some 30824, some 30814, some 30818, some 31092, some 31091, some 31090,
  some 31088, some 31234, some 31242, some 31235, some 31244, some 31236, some 31385, some 31462,
  some 31460, some 31562, some 31547, some 31556
 ]

/-- Rows 14100–14199 of the `"big5"` Pointer Table. -/
def big5IndexPart141 : List (Option Nat) :=
 [
  some 31560, some 31564, some 31566, some 31552, some 31576, some 31557, some 31906, some 31902,
  some 31912, some 31905, some 32088, some 32111, some 32099, some 32083, some 32086, some 32103,
  some 32106, some 32079, some 32109, some 32092, some 32107, some 32082, some 32084, some 32105,
  some 32081, some 32095, some 32078, some 32574, some 32575, some 32613, some 32614, some 32674,
  some 32672, some 32673, some 32727, some 32849, some 32847, some 32848, some 33022, some 32980,
  some 33091, some 33098, some 33106, some 33103, some 33095, some 33085, some 33101, some 33082,
  some 33254, some 33262, some 33271, some 33272, some 33273, some 33284, some 33340, some 33341,
  some 33343, some 33397, some 33595, some 33743, some 33785, some 33827, some 33728, some 33768,
  some 33810, some 33767, some 33764, some 33788, some 33782, some 33808, some 33734, some 33736,
  some 33771, some 33763, some 33727, some 33793, some 33757, some 33765, some 33752, some 33791,
  some 33761, some 33739, some 33742, some 33750, some 33781, some 33737, some 33801, some 33807,
  some 33758, some 33809, some 33798, some 33730, some 33779, some 33749, some 33786, some 33735,
  some 33745, some 33770, some 33811, some 33731
 ]

/-- Rows 14200–14299 of the `"big5"` Pointer Table. -/
def big5IndexPart142 : List (Option Nat) :=
 [
  some 33772, some 33774, some 33732, some 33787, some 33751, some 33762, some 33819, some 33755,
  some 33790, some 34520, some 34530, some 34534, some 34515, some 34531, some 34522, some 34538,
  some 34525, some 34539, some 34524, some 34540, some 34537, some 34519, some 34536, some 34513,
  some 34888, some 34902, some 34901, some 35002, some 35031, some 35001, some 35000, some 35008,
  some 35006, some 34998, some 35004, some 34999, some 35005, some 34994, some 35073, some 35017,
  some 35221, some 35224, some 35223, some 35293, some 35290, some 35291, some 35406, some 35405,
  some 35385, some 35417, some 35392, some 35415, some 35416, some 35396, some 35397, some 35410,
  some 35400, some 35409, some 35402, some 35404, some 35407, some 35935, some 35969, some 35968,
  some 36026, some 36030, some 36016, some 36025, some 36021, some 36228, some 36224, some 36233,
  some 36312, some 36307, some 36301, some 36295, some 36310, some 36316, some 36303, some 36309,
  some 36313, some 36296, some 36311, some 36293, some 36591, some 36599, some 36602, some 36601,
  some 36582, some 36590, some 36581, some 36597, some 36583, some 36584, some 36598, some 36587,
  some 36593, some 36588, some 36596, some 36585
 ]

/-- Rows 14300–14399 of the `"big5"` Pointer Table. -/
def big5IndexPart143 : List (Option Nat) :=
 [
  some 36909, some 36916, some 36911, some 37126, some 37164, some 37124, some 37119, some 37116,
  some 37128, some 37113, some 37115, some 37121, some 37120, some 37127, some 37125, some 37123,
  some 37217, some 37220, some 37215, some 37218, some 37216, some 37377, some 37386, some 37413,
  some 37379, some 37402, some 37414, some 37391, some 37388, some 37376, some 37394, some 37375,
  some 37373, some 37382, some 37380, some 37415, some 37378, some 37404, some 37412, some 37401,
  some 37399, some 37381, some 37398, some 38267, some 38285, some 38284, some 38288, some 38535,
  some 38526, some 38536, some 38537, some 38531, some 38528, some 38594, some 38600, some 38595,
  some 38641, some 38640, some 38764, some 38768, some 38766, some 38919, some 39081, some 39147,
  some 40166, some 40697, some 20099, some 20100, some 20150, some 20669, some 20671, some 20678,
  some 20654, some 20676, some 20682, some 20660, some 20680, some 20674, some 20656, some 20673,
  some 20666, some 20657, some 20683, some 20681, some 20662, some 20664, some 20951, some 21114,
  some 21112, some 21115, some 21116, some 21955, some 21979, some 21964, some 21968, some 21963,
  some 21962, some 21981, some 21952, some 21972
 ]

/-- Rows 14400–14499 of the `"big5"` Pointer Table. -/
def big5IndexPart144 : List (Option Nat) :=
 [
  some 21956, some 21993, some 21951, some 21970, some 21901, some 21967, some 21973, some 21986,
  some 21974, some 21960, some 22002, some 21965, some 21977, some 21954, some 22292, some 22611,
  some 22632, some 22628, some 22607, some 22605, some 22601, some 22639, some 22613, some 22606,
  some 22621, some 22617, some 22629, some 22619, some 22589, some 22627, some 22641, some 22780,
  some 23239, some 23236, some 23243, some 23226, some 23224, some 23217, some 23221, some 23216,
  some 23231, some 23240, some 23227, some 23238, some 23223, some 23232, some 23242, some 23220,
  some 23222, some 23245, some 23225, some 23184, some 23510, some 23512, some 23513, some 23583,
  some 23603, some 23921, some 23907, some 23882, some 23909, some 23922, some 23916, some 23902,
  some 23912, some 23911, some 23906, some 24048, some 24143, some 24142, some 24138, some 24141,
  some 24139, some 24261, some 24268, some 24262, some 24267, some 24263, some 24384, some 24495,
  some 24493, some 24823, some 24905, some 24906, some 24875, some 24901, some 24886, some 24882,
  some 24878, some 24902, some 24879, some 24911, some 24873, some 24896, some 25120, some 37224,
  some 25123, some 25125, some 25124, some 25541
 ]

/-- Rows 14500–14599 of the `"big5"` Pointer Table. -/
def big5IndexPart145 : List (Option Nat) :=
 [
  some 25585, some 25579, some 25616, some 25618, some 25609, some 25632, some 25636, some 25651,
  some 25667, some 25631, some 25621, some 25624, some 25657, some 25655, some 25634, some 25635,
  some 25612, some 25638, some 25648, some 25640, some 25665, some 25653, some 25647, some 25610,
  some 25626, some 25664, some 25637, some 25639, some 25611, some 25575, some 25627, some 25646,
  some 25633, some 25614, some 25967, some 26002, some 26067, some 26246, some 26252, some 26261,
  some 26256, some 26251, some 26250, some 26265, some 26260, some 26232, some 26400, some 26982,
  some 26975, some 26936, some 26958, some 26978, some 26993, some 26943, some 26949, some 26986,
  some 26937, some 26946, some 26967, some 26969, some 27002, some 26952, some 26953, some 26933,
  some 26988, some 26931, some 26941, some 26981, some 26864, some 27000, some 26932, some 26985,
  some 26944, some 26991, some 26948, some 26998, some 26968, some 26945, some 26996, some 26956,
  some 26939, some 26955, some 26935, some 26972, some 26959, some 26961, some 26930, some 26962,
  some 26927, some 27003, some 26940, some 27462, some 27461, some 27459, some 27458, some 27464,
  some 27457, some 27547, some 64013, some 27643
 ]

/-- Rows 14600–14699 of the `"big5"` Pointer Table. -/
def big5IndexPart146 : List (Option Nat) :=
 [
  some 27644, some 27641, some 27639, some 27640, some 28315, some 28374, some 28360, some 28303,
  some 28352, some 28319, some 28307, some 28308, some 28320, some 28337, some 28345, some 28358,
  some 28370, some 28349, some 28353, some 28318, some 28361, some 28343, some 28336, some 28365,
  some 28326, some 28367, some 28338, some 28350, some 28355, some 28380, some 28376, some 28313,
  some 28306, some 28302, some 28301, some 28324, some 28321, some 28351, some 28339, some 28368,
  some 28362, some 28311, some 28334, some 28323, some 28999, some 29012, some 29010, some 29027,
  some 29024, some 28993, some 29021, some 29026, some 29042, some 29048, some 29034, some 29025,
  some 28994, some 29016, some 28995, some 29003, some 29040, some 29023, some 29008, some 29011,
  some 28996, some 29005, some 29018, some 29263, some 29325, some 29324, some 29329, some 29328,
  some 29326, some 29500, some 29506, some 29499, some 29498, some 29504, some 29514, some 29513,
  some 29764, some 29770, some 29771, some 29778, some 29777, some 29783, some 29760, some 29775,
  some 29776, some 29774, some 29762, some 29766, some 29773, some 29780, some 29921, some 29951,
  some 29950, some 29949, some 29981, some 30073
 ]

/-- Rows 14700–14799 of the `"big5"` Pointer Table. -/
def big5IndexPart147 : List (Option Nat) :=
 [
  some 30071, some 27011, some 30191, some 30223, some 30211, some 30199, some 30206, some 30204,
  some 30201, some 30200, some 30224, some 30203, some 30198, some 30189, some 30197, some 30205,
  some 30361, some 30389, some 30429, some 30549, some 30559, some 30560, some 30546, some 30550,
  some 30554, some 30569, some 30567, some 30548, some 30553, some 30573, some 30688, some 30855,
  some 30874, some 30868, some 30863, some 30852, some 30869, some 30853, some 30854, some 30881,
  some 30851, some 30841, some 30873, some 30848, some 30870, some 30843, some 31100, some 31106,
  some 31101, some 31097, some 31249, some 31256, some 31257, some 31250, some 31255, some 31253,
  some 31266, some 31251, some 31259, some 31248, some 31395, some 31394, some 31390, some 31467,
  some 31590, some 31588, some 31597, some 31604, some 31593, some 31602, some 31589, some 31603,
  some 31601, some 31600, some 31585, some 31608, some 31606, some 31587, some 31922, some 31924,
  some 31919, some 32136, some 32134, some 32128, some 32141, some 32127, some 32133, some 32122,
  some 32142, some 32123, some 32131, some 32124, some 32140, some 32148, some 32132, some 32125,
  some 32146, some 32621, some 32619, some 32615
 ]

/-- Rows 14800–14899 of the `"big5"` Pointer Table. -/
def big5IndexPart148 : List (Option Nat) :=
 [
  some 32616, some 32620, some 32678, some 32677, some 32679, some 32731, some 32732, some 32801,
  some 33124, some 33120, some 33143, some 33116, some 33129, some 33115, some 33122, some 33138,
  some 26401, some 33118, some 33142, some 33127, some 33135, some 33092, some 33121, some 33309,
  some 33353, some 33348, some 33344, some 33346, some 33349, some 34033, some 33855, some 33878,
  some 33910, some 33913, some 33935, some 33933, some 33893, some 33873, some 33856, some 33926,
  some 33895, some 33840, some 33869, some 33917, some 33882, some 33881, some 33908, some 33907,
  some 33885, some 34055, some 33886, some 33847, some 33850, some 33844, some 33914, some 33859,
  some 33912, some 33842, some 33861, some 33833, some 33753, some 33867, some 33839, some 33858,
  some 33837, some 33887, some 33904, some 33849, some 33870, some 33868, some 33874, some 33903,
  some 33989, some 33934, some 33851, some 33863, some 33846, some 33843, some 33896, some 33918,
  some 33860, some 33835, some 33888, some 33876, some 33902, some 33872, some 34571, some 34564,
  some 34551, some 34572, some 34554, some 34518, some 34549, some 34637, some 34552, some 34574,
  some 34569, some 34561, some 34550, some 34573
 ]

/-- Rows 14900–14999 of the `"big5"` Pointer Table. -/
def big5IndexPart149 : List (Option Nat) :=
 [
  some 34565, some 35030, some 35019, some 35021, some 35022, some 35038, some 35035, some 35034,
  some 35020, some 35024, some 35205, some 35227, some 35295, some 35301, some 35300, some 35297,
  some 35296, some 35298, some 35292, some 35302, some 35446, some 35462, some 35455, some 35425,
  some 35391, some 35447, some 35458, some 35460, some 35445, some 35459, some 35457, some 35444,
  some 35450, some 35900, some 35915, some 35914, some 35941, some 35940, some 35942, some 35974,
  some 35972, some 35973, some 36044, some 36200, some 36201, some 36241, some 36236, some 36238,
  some 36239, some 36237, some 36243, some 36244, some 36240, some 36242, some 36336, some 36320,
  some 36332, some 36337, some 36334, some 36304, some 36329, some 36323, some 36322, some 36327,
  some 36338, some 36331, some 36340, some 36614, some 36607, some 36609, some 36608, some 36613,
  some 36615, some 36616, some 36610, some 36619, some 36946, some 36927, some 36932, some 36937,
  some 36925, some 37136, some 37133, some 37135, some 37137, some 37142, some 37140, some 37131,
  some 37134, some 37230, some 37231, some 37448, some 37458, some 37424, some 37434, some 37478,
  some 37427, some 37477, some 37470, some 37507
 ]

/-- Rows 15000–15099 of the `"big5"` Pointer Table. -/
def big5IndexPart150 : List (Option Nat) :=
 [
  some 37422, some 37450, some 37446, some 37485, some 37484, some 37455, some 37472, some 37479,
  some 37487, some 37430, some 37473, some 37488, some 37425, some 37460, some 37475, some 37456,
  some 37490, some 37454, some 37459, some 37452, some 37462, some 37426, some 38303, some 38300,
  some 38302, some 38299, some 38546, some 38547, some 38545, some 38551, some 38606, some 38650,
  some 38653, some 38648, some 38645, some 38771, some 38775, some 38776, some 38770, some 38927,
  some 38925, some 38926, some 39084, some 39158, some 39161, some 39343, some 39346, some 39344,
  some 39349, some 39597, some 39595, some 39771, some 40170, some 40173, some 40167, some 40576,
  some 40701, some 20710, some 20692, some 20695, some 20712, some 20723, some 20699, some 20714,
  some 20701, some 20708, some 20691, some 20716, some 20720, some 20719, some 20707, some 20704,
  some 20952, some 21120, some 21121, some 21225, some 21227, some 21296, some 21420, some 22055,
  some 22037, some 22028, some 22034, some 22012, some 22031, some 22044, some 22017, some 22035,
  some 22018, some 22010, some 22045, some 22020, some 22015, some 22009, some 22665, some 22652,
  some 22672, some 22680, some 22662, some 22657
 ]

/-- Rows 15100–15199 of the `"big5"` Pointer Table. -/
def big5IndexPart151 : List (Option Nat) :=
 [
  some 22655, some 22644, some 22667, some 22650, some 22663, some 22673, some 22670, some 22646,
  some 22658, some 22664, some 22651, some 22676, some 22671, some 22782, some 22891, some 23260,
  some 23278, some 23269, some 23253, some 23274, some 23258, some 23277, some 23275, some 23283,
  some 23266, some 23264, some 23259, some 23276, some 23262, some 23261, some 23257, some 23272,
  some 23263, some 23415, some 23520, some 23523, some 23651, some 23938, some 23936, some 23933,
  some 23942, some 23930, some 23937, some 23927, some 23946, some 23945, some 23944, some 23934,
  some 23932, some 23949, some 23929, some 23935, some 24152, some 24153, some 24147, some 24280,
  some 24273, some 24279, some 24270, some 24284, some 24277, some 24281, some 24274, some 24276,
  some 24388, some 24387, some 24431, some 24502, some 24876, some 24872, some 24897, some 24926,
  some 24945, some 24947, some 24914, some 24915, some 24946, some 24940, some 24960, some 24948,
  some 24916, some 24954, some 24923, some 24933, some 24891, some 24938, some 24929, some 24918,
  some 25129, some 25127, some 25131, some 25643, some 25677, some 25691, some 25693, some 25716,
  some 25718, some 25714, some 25715, some 25725
 ]

/-- Rows 15200–15299 of the `"big5"` Pointer Table. -/
def big5IndexPart152 : List (Option Nat) :=
 [
  some 25717, some 25702, some 25766, some 25678, some 25730, some 25694, some 25692, some 25675,
  some 25683, some 25696, some 25680, some 25727, some 25663, some 25708, some 25707, some 25689,
  some 25701, some 25719, some 25971, some 26016, some 26273, some 26272, some 26271, some 26373,
  some 26372, some 26402, some 27057, some 27062, some 27081, some 27040, some 27086, some 27030,
  some 27056, some 27052, some 27068, some 27025, some 27033, some 27022, some 27047, some 27021,
  some 27049, some 27070, some 27055, some 27071, some 27076, some 27069, some 27044, some 27092,
  some 27065, some 27082, some 27034, some 27087, some 27059, some 27027, some 27050, some 27041,
  some 27038, some 27097, some 27031, some 27024, some 27074, some 27061, some 27045, some 27078,
  some 27466, some 27469, some 27467, some 27550, some 27551, some 27552, some 27587, some 27588,
  some 27646, some 28366, some 28405, some 28401, some 28419, some 28453, some 28408, some 28471,
  some 28411, some 28462, some 28425, some 28494, some 28441, some 28442, some 28455, some 28440,
  some 28475, some 28434, some 28397, some 28426, some 28470, some 28531, some 28409, some 28398,
  some 28461, some 28480, some 28464, some 28476
 ]

/-- Rows 15300–15399 of the `"big5"` Pointer Table. -/
def big5IndexPart153 : List (Option Nat) :=
 [
  some 28469, some 28395, some 28423, some 28430, some 28483, some 28421, some 28413, some 28406,
  some 28473, some 28444, some 28412, some 28474, some 28447, some 28429, some 28446, some 28424,
  some 28449, some 29063, some 29072, some 29065, some 29056, some 29061, some 29058, some 29071,
  some 29051, some 29062, some 29057, some 29079, some 29252, some 29267, some 29335, some 29333,
  some 29331, some 29507, some 29517, some 29521, some 29516, some 29794, some 29811, some 29809,
  some 29813, some 29810, some 29799, some 29806, some 29952, some 29954, some 29955, some 30077,
  some 30096, some 30230, some 30216, some 30220, some 30229, some 30225, some 30218, some 30228,
  some 30392, some 30593, some 30588, some 30597, some 30594, some 30574, some 30592, some 30575,
  some 30590, some 30595, some 30898, some 30890, some 30900, some 30893, some 30888, some 30846,
  some 30891, some 30878, some 30885, some 30880, some 30892, some 30882, some 30884, some 31128,
  some 31114, some 31115, some 31126, some 31125, some 31124, some 31123, some 31127, some 31112,
  some 31122, some 31120, some 31275, some 31306, some 31280, some 31279, some 31272, some 31270,
  some 31400, some 31403, some 31404, some 31470
 ]

/-- Rows 15400–15499 of the `"big5"` Pointer Table. -/
def big5IndexPart154 : List (Option Nat) :=
 [
  some 31624, some 31644, some 31626, some 31633, some 31632, some 31638, some 31629, some 31628,
  some 31643, some 31630, some 31621, some 31640, some 21124, some 31641, some 31652, some 31618,
  some 31931, some 31935, some 31932, some 31930, some 32167, some 32183, some 32194, some 32163,
  some 32170, some 32193, some 32192, some 32197, some 32157, some 32206, some 32196, some 32198,
  some 32203, some 32204, some 32175, some 32185, some 32150, some 32188, some 32159, some 32166,
  some 32174, some 32169, some 32161, some 32201, some 32627, some 32738, some 32739, some 32741,
  some 32734, some 32804, some 32861, some 32860, some 33161, some 33158, some 33155, some 33159,
  some 33165, some 33164, some 33163, some 33301, some 33943, some 33956, some 33953, some 33951,
  some 33978, some 33998, some 33986, some 33964, some 33966, some 33963, some 33977, some 33972,
  some 33985, some 33997, some 33962, some 33946, some 33969, some 34000, some 33949, some 33959,
  some 33979, some 33954, some 33940, some 33991, some 33996, some 33947, some 33961, some 33967,
  some 33960, some 34006, some 33944, some 33974, some 33999, some 33952, some 34007, some 34004,
  some 34002, some 34011, some 33968, some 33937
 ]

/-- Rows 15500–15599 of the `"big5"` Pointer Table. -/
def big5IndexPart155 : List (Option Nat) :=
 [
  some 34401, some 34611, some 34595, some 34600, some 34667, some 34624, some 34606, some 34590,
  some 34593, some 34585, some 34587, some 34627, some 34604, some 34625, some 34622, some 34630,
  some 34592, some 34610, some 34602, some 34605, some 34620, some 34578, some 34618, some 34609,
  some 34613, some 34626, some 34598, some 34599, some 34616, some 34596, some 34586, some 34608,
  some 34577, some 35063, some 35047, some 35057, some 35058, some 35066, some 35070, some 35054,
  some 35068, some 35062, some 35067, some 35056, some 35052, some 35051, some 35229, some 35233,
  some 35231, some 35230, some 35305, some 35307, some 35304, some 35499, some 35481, some 35467,
  some 35474, some 35471, some 35478, some 35901, some 35944, some 35945, some 36053, some 36047,
  some 36055, some 36246, some 36361, some 36354, some 36351, some 36365, some 36349, some 36362,
  some 36355, some 36359, some 36358, some 36357, some 36350, some 36352, some 36356, some 36624,
  some 36625, some 36622, some 36621, some 37155, some 37148, some 37152, some 37154, some 37151,
  some 37149, some 37146, some 37156, some 37153, some 37147, some 37242, some 37234, some 37241,
  some 37235, some 37541, some 37540, some 37494
 ]

/-- Rows 15600–15699 of the `"big5"` Pointer Table. -/
def big5IndexPart156 : List (Option Nat) :=
 [
  some 37531, some 37498, some 37536, some 37524, some 37546, some 37517, some 37542, some 37530,
  some 37547, some 37497, some 37527, some 37503, some 37539, some 37614, some 37518, some 37506,
  some 37525, some 37538, some 37501, some 37512, some 37537, some 37514, some 37510, some 37516,
  some 37529, some 37543, some 37502, some 37511, some 37545, some 37533, some 37515, some 37421,
  some 38558, some 38561, some 38655, some 38744, some 38781, some 38778, some 38782, some 38787,
  some 38784, some 38786, some 38779, some 38788, some 38785, some 38783, some 38862, some 38861,
  some 38934, some 39085, some 39086, some 39170, some 39168, some 39175, some 39325, some 39324,
  some 39363, some 39353, some 39355, some 39354, some 39362, some 39357, some 39367, some 39601,
  some 39651, some 39655, some 39742, some 39743, some 39776, some 39777, some 39775, some 40177,
  some 40178, some 40181, some 40615, some 20735, some 20739, some 20784, some 20728, some 20742,
  some 20743, some 20726, some 20734, some 20747, some 20748, some 20733, some 20746, some 21131,
  some 21132, some 21233, some 21231, some 22088, some 22082, some 22092, some 22069, some 22081,
  some 22090, some 22089, some 22086, some 22104
 ]

/-- Rows 15700–15799 of the `"big5"` Pointer Table. -/
def big5IndexPart157 : List (Option Nat) :=
 [
  some 22106, some 22080, some 22067, some 22077, some 22060, some 22078, some 22072, some 22058,
  some 22074, some 22298, some 22699, some 22685, some 22705, some 22688, some 22691, some 22703,
  some 22700, some 22693, some 22689, some 22783, some 23295, some 23284, some 23293, some 23287,
  some 23286, some 23299, some 23288, some 23298, some 23289, some 23297, some 23303, some 23301,
  some 23311, some 23655, some 23961, some 23959, some 23967, some 23954, some 23970, some 23955,
  some 23957, some 23968, some 23964, some 23969, some 23962, some 23966, some 24169, some 24157,
  some 24160, some 24156, some 32243, some 24283, some 24286, some 24289, some 24393, some 24498,
  some 24971, some 24963, some 24953, some 25009, some 25008, some 24994, some 24969, some 24987,
  some 24979, some 25007, some 25005, some 24991, some 24978, some 25002, some 24993, some 24973,
  some 24934, some 25011, some 25133, some 25710, some 25712, some 25750, some 25760, some 25733,
  some 25751, some 25756, some 25743, some 25739, some 25738, some 25740, some 25763, some 25759,
  some 25704, some 25777, some 25752, some 25974, some 25978, some 25977, some 25979, some 26034,
  some 26035, some 26293, some 26288, some 26281
 ]

/-- Rows 15800–15899 of the `"big5"` Pointer Table. -/
def big5IndexPart158 : List (Option Nat) :=
 [
  some 26290, some 26295, some 26282, some 26287, some 27136, some 27142, some 27159, some 27109,
  some 27128, some 27157, some 27121, some 27108, some 27168, some 27135, some 27116, some 27106,
  some 27163, some 27165, some 27134, some 27175, some 27122, some 27118, some 27156, some 27127,
  some 27111, some 27200, some 27144, some 27110, some 27131, some 27149, some 27132, some 27115,
  some 27145, some 27140, some 27160, some 27173, some 27151, some 27126, some 27174, some 27143,
  some 27124, some 27158, some 27473, some 27557, some 27555, some 27554, some 27558, some 27649,
  some 27648, some 27647, some 27650, some 28481, some 28454, some 28542, some 28551, some 28614,
  some 28562, some 28557, some 28553, some 28556, some 28514, some 28495, some 28549, some 28506,
  some 28566, some 28534, some 28524, some 28546, some 28501, some 28530, some 28498, some 28496,
  some 28503, some 28564, some 28563, some 28509, some 28416, some 28513, some 28523, some 28541,
  some 28519, some 28560, some 28499, some 28555, some 28521, some 28543, some 28565, some 28515,
  some 28535, some 28522, some 28539, some 29106, some 29103, some 29083, some 29104, some 29088,
  some 29082, some 29097, some 29109, some 29085
 ]

/-- Rows 15900–15999 of the `"big5"` Pointer Table. -/
def big5IndexPart159 : List (Option Nat) :=
 [
  some 29093, some 29086, some 29092, some 29089, some 29098, some 29084, some 29095, some 29107,
  some 29336, some 29338, some 29528, some 29522, some 29534, some 29535, some 29536, some 29533,
  some 29531, some 29537, some 29530, some 29529, some 29538, some 29831, some 29833, some 29834,
  some 29830, some 29825, some 29821, some 29829, some 29832, some 29820, some 29817, some 29960,
  some 29959, some 30078, some 30245, some 30238, some 30233, some 30237, some 30236, some 30243,
  some 30234, some 30248, some 30235, some 30364, some 30365, some 30366, some 30363, some 30605,
  some 30607, some 30601, some 30600, some 30925, some 30907, some 30927, some 30924, some 30929,
  some 30926, some 30932, some 30920, some 30915, some 30916, some 30921, some 31130, some 31137,
  some 31136, some 31132, some 31138, some 31131, some 27510, some 31289, some 31410, some 31412,
  some 31411, some 31671, some 31691, some 31678, some 31660, some 31694, some 31663, some 31673,
  some 31690, some 31669, some 31941, some 31944, some 31948, some 31947, some 32247, some 32219,
  some 32234, some 32231, some 32215, some 32225, some 32259, some 32250, some 32230, some 32246,
  some 32241, some 32240, some 32238, some 32223
 ]

/-- Rows 16000–16099 of the `"big5"` Pointer Table. -/
def big5IndexPart160 : List (Option Nat) :=
 [
  some 32630, some 32684, some 32688, some 32685, some 32749, some 32747, some 32746, some 32748,
  some 32742, some 32744, some 32868, some 32871, some 33187, some 33183, some 33182, some 33173,
  some 33186, some 33177, some 33175, some 33302, some 33359, some 33363, some 33362, some 33360,
  some 33358, some 33361, some 34084, some 34107, some 34063, some 34048, some 34089, some 34062,
  some 34057, some 34061, some 34079, some 34058, some 34087, some 34076, some 34043, some 34091,
  some 34042, some 34056, some 34060, some 34036, some 34090, some 34034, some 34069, some 34039,
  some 34027, some 34035, some 34044, some 34066, some 34026, some 34025, some 34070, some 34046,
  some 34088, some 34077, some 34094, some 34050, some 34045, some 34078, some 34038, some 34097,
  some 34086, some 34023, some 34024, some 34032, some 34031, some 34041, some 34072, some 34080,
  some 34096, some 34059, some 34073, some 34095, some 34402, some 34646, some 34659, some 34660,
  some 34679, some 34785, some 34675, some 34648, some 34644, some 34651, some 34642, some 34657,
  some 34650, some 34641, some 34654, some 34669, some 34666, some 34640, some 34638, some 34655,
  some 34653, some 34671, some 34668, some 34682
 ]

/-- Rows 16100–16199 of the `"big5"` Pointer Table. -/
def big5IndexPart161 : List (Option Nat) :=
 [
  some 34670, some 34652, some 34661, some 34639, some 34683, some 34677, some 34658, some 34663,
  some 34665, some 34906, some 35077, some 35084, some 35092, some 35083, some 35095, some 35096,
  some 35097, some 35078, some 35094, some 35089, some 35086, some 35081, some 35234, some 35236,
  some 35235, some 35309, some 35312, some 35308, some 35535, some 35526, some 35512, some 35539,
  some 35537, some 35540, some 35541, some 35515, some 35543, some 35518, some 35520, some 35525,
  some 35544, some 35523, some 35514, some 35517, some 35545, some 35902, some 35917, some 35983,
  some 36069, some 36063, some 36057, some 36072, some 36058, some 36061, some 36071, some 36256,
  some 36252, some 36257, some 36251, some 36384, some 36387, some 36389, some 36388, some 36398,
  some 36373, some 36379, some 36374, some 36369, some 36377, some 36390, some 36391, some 36372,
  some 36370, some 36376, some 36371, some 36380, some 36375, some 36378, some 36652, some 36644,
  some 36632, some 36634, some 36640, some 36643, some 36630, some 36631, some 36979, some 36976,
  some 36975, some 36967, some 36971, some 37167, some 37163, some 37161, some 37162, some 37170,
  some 37158, some 37166, some 37253, some 37254
 ]

/-- Rows 16200–16299 of the `"big5"` Pointer Table. -/
def big5IndexPart162 : List (Option Nat) :=
 [
  some 37258, some 37249, some 37250, some 37252, some 37248, some 37584, some 37571, some 37572,
  some 37568, some 37593, some 37558, some 37583, some 37617, some 37599, some 37592, some 37609,
  some 37591, some 37597, some 37580, some 37615, some 37570, some 37608, some 37578, some 37576,
  some 37582, some 37606, some 37581, some 37589, some 37577, some 37600, some 37598, some 37607,
  some 37585, some 37587, some 37557, some 37601, some 37574, some 37556, some 38268, some 38316,
  some 38315, some 38318, some 38320, some 38564, some 38562, some 38611, some 38661, some 38664,
  some 38658, some 38746, some 38794, some 38798, some 38792, some 38864, some 38863, some 38942,
  some 38941, some 38950, some 38953, some 38952, some 38944, some 38939, some 38951, some 39090,
  some 39176, some 39162, some 39185, some 39188, some 39190, some 39191, some 39189, some 39388,
  some 39373, some 39375, some 39379, some 39380, some 39374, some 39369, some 39382, some 39384,
  some 39371, some 39383, some 39372, some 39603, some 39660, some 39659, some 39667, some 39666,
  some 39665, some 39750, some 39747, some 39783, some 39796, some 39793, some 39782, some 39798,
  some 39797, some 39792, some 39784, some 39780
 ]

/-- Rows 16300–16399 of the `"big5"` Pointer Table. -/
def big5IndexPart163 : List (Option Nat) :=
 [
  some 39788, some 40188, some 40186, some 40189, some 40191, some 40183, some 40199, some 40192,
  some 40185, some 40187, some 40200, some 40197, some 40196, some 40579, some 40659, some 40719,
  some 40720, some 20764, some 20755, some 20759, some 20762, some 20753, some 20958, some 21300,
  some 21473, some 22128, some 22112, some 22126, some 22131, some 22118, some 22115, some 22125,
  some 22130, some 22110, some 22135, some 22300, some 22299, some 22728, some 22717, some 22729,
  some 22719, some 22714, some 22722, some 22716, some 22726, some 23319, some 23321, some 23323,
  some 23329, some 23316, some 23315, some 23312, some 23318, some 23336, some 23322, some 23328,
  some 23326, some 23535, some 23980, some 23985, some 23977, some 23975, some 23989, some 23984,
  some 23982, some 23978, some 23976, some 23986, some 23981, some 23983, some 23988, some 24167,
  some 24168, some 24166, some 24175, some 24297, some 24295, some 24294, some 24296, some 24293,
  some 24395, some 24508, some 24989, some 25000, some 24982, some 25029, some 25012, some 25030,
  some 25025, some 25036, some 25018, some 25023, some 25016, some 24972, some 25815, some 25814,
  some 25808, some 25807, some 25801, some 25789
 ]

/-- Rows 16400–16499 of the `"big5"` Pointer Table. -/
def big5IndexPart164 : List (Option Nat) :=
 [
  some 25737, some 25795, some 25819, some 25843, some 25817, some 25907, some 25983, some 25980,
  some 26018, some 26312, some 26302, some 26304, some 26314, some 26315, some 26319, some 26301,
  some 26299, some 26298, some 26316, some 26403, some 27188, some 27238, some 27209, some 27239,
  some 27186, some 27240, some 27198, some 27229, some 27245, some 27254, some 27227, some 27217,
  some 27176, some 27226, some 27195, some 27199, some 27201, some 27242, some 27236, some 27216,
  some 27215, some 27220, some 27247, some 27241, some 27232, some 27196, some 27230, some 27222,
  some 27221, some 27213, some 27214, some 27206, some 27477, some 27476, some 27478, some 27559,
  some 27562, some 27563, some 27592, some 27591, some 27652, some 27651, some 27654, some 28589,
  some 28619, some 28579, some 28615, some 28604, some 28622, some 28616, some 28510, some 28612,
  some 28605, some 28574, some 28618, some 28584, some 28676, some 28581, some 28590, some 28602,
  some 28588, some 28586, some 28623, some 28607, some 28600, some 28578, some 28617, some 28587,
  some 28621, some 28591, some 28594, some 28592, some 29125, some 29122, some 29119, some 29112,
  some 29142, some 29120, some 29121, some 29131
 ]

/-- Rows 16500–16599 of the `"big5"` Pointer Table. -/
def big5IndexPart165 : List (Option Nat) :=
 [
  some 29140, some 29130, some 29127, some 29135, some 29117, some 29144, some 29116, some 29126,
  some 29146, some 29147, some 29341, some 29342, some 29545, some 29542, some 29543, some 29548,
  some 29541, some 29547, some 29546, some 29823, some 29850, some 29856, some 29844, some 29842,
  some 29845, some 29857, some 29963, some 30080, some 30255, some 30253, some 30257, some 30269,
  some 30259, some 30268, some 30261, some 30258, some 30256, some 30395, some 30438, some 30618,
  some 30621, some 30625, some 30620, some 30619, some 30626, some 30627, some 30613, some 30617,
  some 30615, some 30941, some 30953, some 30949, some 30954, some 30942, some 30947, some 30939,
  some 30945, some 30946, some 30957, some 30943, some 30944, some 31140, some 31300, some 31304,
  some 31303, some 31414, some 31416, some 31413, some 31409, some 31415, some 31710, some 31715,
  some 31719, some 31709, some 31701, some 31717, some 31706, some 31720, some 31737, some 31700,
  some 31722, some 31714, some 31708, some 31723, some 31704, some 31711, some 31954, some 31956,
  some 31959, some 31952, some 31953, some 32274, some 32289, some 32279, some 32268, some 32287,
  some 32288, some 32275, some 32270, some 32284
 ]

/-- Rows 16600–16699 of the `"big5"` Pointer Table. -/
def big5IndexPart166 : List (Option Nat) :=
 [
  some 32277, some 32282, some 32290, some 32267, some 32271, some 32278, some 32269, some 32276,
  some 32293, some 32292, some 32579, some 32635, some 32636, some 32634, some 32689, some 32751,
  some 32810, some 32809, some 32876, some 33201, some 33190, some 33198, some 33209, some 33205,
  some 33195, some 33200, some 33196, some 33204, some 33202, some 33207, some 33191, some 33266,
  some 33365, some 33366, some 33367, some 34134, some 34117, some 34155, some 34125, some 34131,
  some 34145, some 34136, some 34112, some 34118, some 34148, some 34113, some 34146, some 34116,
  some 34129, some 34119, some 34147, some 34110, some 34139, some 34161, some 34126, some 34158,
  some 34165, some 34133, some 34151, some 34144, some 34188, some 34150, some 34141, some 34132,
  some 34149, some 34156, some 34403, some 34405, some 34404, some 34715, some 34703, some 34711,
  some 34707, some 34706, some 34696, some 34689, some 34710, some 34712, some 34681, some 34695,
  some 34723, some 34693, some 34704, some 34705, some 34717, some 34692, some 34708, some 34716,
  some 34714, some 34697, some 35102, some 35110, some 35120, some 35117, some 35118, some 35111,
  some 35121, some 35106, some 35113, some 35107
 ]

/-- Rows 16700–16799 of the `"big5"` Pointer Table. -/
def big5IndexPart167 : List (Option Nat) :=
 [
  some 35119, some 35116, some 35103, some 35313, some 35552, some 35554, some 35570, some 35572,
  some 35573, some 35549, some 35604, some 35556, some 35551, some 35568, some 35528, some 35550,
  some 35553, some 35560, some 35583, some 35567, some 35579, some 35985, some 35986, some 35984,
  some 36085, some 36078, some 36081, some 36080, some 36083, some 36204, some 36206, some 36261,
  some 36263, some 36403, some 36414, some 36408, some 36416, some 36421, some 36406, some 36412,
  some 36413, some 36417, some 36400, some 36415, some 36541, some 36662, some 36654, some 36661,
  some 36658, some 36665, some 36663, some 36660, some 36982, some 36985, some 36987, some 36998,
  some 37114, some 37171, some 37173, some 37174, some 37267, some 37264, some 37265, some 37261,
  some 37263, some 37671, some 37662, some 37640, some 37663, some 37638, some 37647, some 37754,
  some 37688, some 37692, some 37659, some 37667, some 37650, some 37633, some 37702, some 37677,
  some 37646, some 37645, some 37579, some 37661, some 37626, some 37669, some 37651, some 37625,
  some 37623, some 37684, some 37634, some 37668, some 37631, some 37673, some 37689, some 37685,
  some 37674, some 37652, some 37644, some 37643
 ]

/-- Rows 16800–16899 of the `"big5"` Pointer Table. -/
def big5IndexPart168 : List (Option Nat) :=
 [
  some 37630, some 37641, some 37632, some 37627, some 37654, some 38332, some 38349, some 38334,
  some 38329, some 38330, some 38326, some 38335, some 38325, some 38333, some 38569, some 38612,
  some 38667, some 38674, some 38672, some 38809, some 38807, some 38804, some 38896, some 38904,
  some 38965, some 38959, some 38962, some 39204, some 39199, some 39207, some 39209, some 39326,
  some 39406, some 39404, some 39397, some 39396, some 39408, some 39395, some 39402, some 39401,
  some 39399, some 39609, some 39615, some 39604, some 39611, some 39670, some 39674, some 39673,
  some 39671, some 39731, some 39808, some 39813, some 39815, some 39804, some 39806, some 39803,
  some 39810, some 39827, some 39826, some 39824, some 39802, some 39829, some 39805, some 39816,
  some 40229, some 40215, some 40224, some 40222, some 40212, some 40233, some 40221, some 40216,
  some 40226, some 40208, some 40217, some 40223, some 40584, some 40582, some 40583, some 40622,
  some 40621, some 40661, some 40662, some 40698, some 40722, some 40765, some 20774, some 20773,
  some 20770, some 20772, some 20768, some 20777, some 21236, some 22163, some 22156, some 22157,
  some 22150, some 22148, some 22147, some 22142
 ]

/-- Rows 16900–16999 of the `"big5"` Pointer Table. -/
def big5IndexPart169 : List (Option Nat) :=
 [
  some 22146, some 22143, some 22145, some 22742, some 22740, some 22735, some 22738, some 23341,
  some 23333, some 23346, some 23331, some 23340, some 23335, some 23334, some 23343, some 23342,
  some 23419, some 23537, some 23538, some 23991, some 24172, some 24170, some 24510, some 24507,
  some 25027, some 25013, some 25020, some 25063, some 25056, some 25061, some 25060, some 25064,
  some 25054, some 25839, some 25833, some 25827, some 25835, some 25828, some 25832, some 25985,
  some 25984, some 26038, some 26074, some 26322, some 27277, some 27286, some 27265, some 27301,
  some 27273, some 27295, some 27291, some 27297, some 27294, some 27271, some 27283, some 27278,
  some 27285, some 27267, some 27304, some 27300, some 27281, some 27263, some 27302, some 27290,
  some 27269, some 27276, some 27282, some 27483, some 27565, some 27657, some 28620, some 28585,
  some 28660, some 28628, some 28643, some 28636, some 28653, some 28647, some 28646, some 28638,
  some 28658, some 28637, some 28642, some 28648, some 29153, some 29169, some 29160, some 29170,
  some 29156, some 29168, some 29154, some 29555, some 29550, some 29551, some 29847, some 29874,
  some 29867, some 29840, some 29866, some 29869
 ]

/-- Rows 17000–17099 of the `"big5"` Pointer Table. -/
def big5IndexPart170 : List (Option Nat) :=
 [
  some 29873, some 29861, some 29871, some 29968, some 29969, some 29970, some 29967, some 30084,
  some 30275, some 30280, some 30281, some 30279, some 30372, some 30441, some 30645, some 30635,
  some 30642, some 30647, some 30646, some 30644, some 30641, some 30632, some 30704, some 30963,
  some 30973, some 30978, some 30971, some 30972, some 30962, some 30981, some 30969, some 30974,
  some 30980, some 31147, some 31144, some 31324, some 31323, some 31318, some 31320, some 31316,
  some 31322, some 31422, some 31424, some 31425, some 31749, some 31759, some 31730, some 31744,
  some 31743, some 31739, some 31758, some 31732, some 31755, some 31731, some 31746, some 31753,
  some 31747, some 31745, some 31736, some 31741, some 31750, some 31728, some 31729, some 31760,
  some 31754, some 31976, some 32301, some 32316, some 32322, some 32307, some 38984, some 32312,
  some 32298, some 32329, some 32320, some 32327, some 32297, some 32332, some 32304, some 32315,
  some 32310, some 32324, some 32314, some 32581, some 32639, some 32638, some 32637, some 32756,
  some 32754, some 32812, some 33211, some 33220, some 33228, some 33226, some 33221, some 33223,
  some 33212, some 33257, some 33371, some 33370
 ]

/-- Rows 17100–17199 of the `"big5"` Pointer Table. -/
def big5IndexPart171 : List (Option Nat) :=
 [
  some 33372, some 34179, some 34176, some 34191, some 34215, some 34197, some 34208, some 34187,
  some 34211, some 34171, some 34212, some 34202, some 34206, some 34167, some 34172, some 34185,
  some 34209, some 34170, some 34168, some 34135, some 34190, some 34198, some 34182, some 34189,
  some 34201, some 34205, some 34177, some 34210, some 34178, some 34184, some 34181, some 34169,
  some 34166, some 34200, some 34192, some 34207, some 34408, some 34750, some 34730, some 34733,
  some 34757, some 34736, some 34732, some 34745, some 34741, some 34748, some 34734, some 34761,
  some 34755, some 34754, some 34764, some 34743, some 34735, some 34756, some 34762, some 34740,
  some 34742, some 34751, some 34744, some 34749, some 34782, some 34738, some 35125, some 35123,
  some 35132, some 35134, some 35137, some 35154, some 35127, some 35138, some 35245, some 35247,
  some 35246, some 35314, some 35315, some 35614, some 35608, some 35606, some 35601, some 35589,
  some 35595, some 35618, some 35599, some 35602, some 35605, some 35591, some 35597, some 35592,
  some 35590, some 35612, some 35603, some 35610, some 35919, some 35952, some 35954, some 35953,
  some 35951, some 35989, some 35988, some 36089
 ]

/-- Rows 17200–17299 of the `"big5"` Pointer Table. -/
def big5IndexPart172 : List (Option Nat) :=
 [
  some 36207, some 36430, some 36429, some 36435, some 36432, some 36428, some 36423, some 36675,
  some 36672, some 36997, some 36990, some 37176, some 37274, some 37282, some 37275, some 37273,
  some 37279, some 37281, some 37277, some 37280, some 37793, some 37763, some 37807, some 37732,
  some 37718, some 37703, some 37756, some 37720, some 37724, some 37750, some 37705, some 37712,
  some 37713, some 37728, some 37741, some 37775, some 37708, some 37738, some 37753, some 37719,
  some 37717, some 37714, some 37711, some 37745, some 37751, some 37755, some 37729, some 37726,
  some 37731, some 37735, some 37760, some 37710, some 37721, some 38343, some 38336, some 38345,
  some 38339, some 38341, some 38327, some 38574, some 38576, some 38572, some 38688, some 38687,
  some 38680, some 38685, some 38681, some 38810, some 38817, some 38812, some 38814, some 38813,
  some 38869, some 38868, some 38897, some 38977, some 38980, some 38986, some 38985, some 38981,
  some 38979, some 39205, some 39211, some 39212, some 39210, some 39219, some 39218, some 39215,
  some 39213, some 39217, some 39216, some 39320, some 39331, some 39329, some 39426, some 39418,
  some 39412, some 39415, some 39417, some 39416
 ]

/-- Rows 17300–17399 of the `"big5"` Pointer Table. -/
def big5IndexPart173 : List (Option Nat) :=
 [
  some 39414, some 39419, some 39421, some 39422, some 39420, some 39427, some 39614, some 39678,
  some 39677, some 39681, some 39676, some 39752, some 39834, some 39848, some 39838, some 39835,
  some 39846, some 39841, some 39845, some 39844, some 39814, some 39842, some 39840, some 39855,
  some 40243, some 40257, some 40295, some 40246, some 40238, some 40239, some 40241, some 40248,
  some 40240, some 40261, some 40258, some 40259, some 40254, some 40247, some 40256, some 40253,
  some 32757, some 40237, some 40586, some 40585, some 40589, some 40624, some 40648, some 40666,
  some 40699, some 40703, some 40740, some 40739, some 40738, some 40788, some 40864, some 20785,
  some 20781, some 20782, some 22168, some 22172, some 22167, some 22170, some 22173, some 22169,
  some 22896, some 23356, some 23657, some 23658, some 24000, some 24173, some 24174, some 25048,
  some 25055, some 25069, some 25070, some 25073, some 25066, some 25072, some 25067, some 25046,
  some 25065, some 25855, some 25860, some 25853, some 25848, some 25857, some 25859, some 25852,
  some 26004, some 26075, some 26330, some 26331, some 26328, some 27333, some 27321, some 27325,
  some 27361, some 27334, some 27322, some 27318
 ]

/-- Rows 17400–17499 of the `"big5"` Pointer Table. -/
def big5IndexPart174 : List (Option Nat) :=
 [
  some 27319, some 27335, some 27316, some 27309, some 27486, some 27593, some 27659, some 28679,
  some 28684, some 28685, some 28673, some 28677, some 28692, some 28686, some 28671, some 28672,
  some 28667, some 28710, some 28668, some 28663, some 28682, some 29185, some 29183, some 29177,
  some 29187, some 29181, some 29558, some 29880, some 29888, some 29877, some 29889, some 29886,
  some 29878, some 29883, some 29890, some 29972, some 29971, some 30300, some 30308, some 30297,
  some 30288, some 30291, some 30295, some 30298, some 30374, some 30397, some 30444, some 30658,
  some 30650, some 30975, some 30988, some 30995, some 30996, some 30985, some 30992, some 30994,
  some 30993, some 31149, some 31148, some 31327, some 31772, some 31785, some 31769, some 31776,
  some 31775, some 31789, some 31773, some 31782, some 31784, some 31778, some 31781, some 31792,
  some 32348, some 32336, some 32342, some 32355, some 32344, some 32354, some 32351, some 32337,
  some 32352, some 32343, some 32339, some 32693, some 32691, some 32759, some 32760, some 32885,
  some 33233, some 33234, some 33232, some 33375, some 33374, some 34228, some 34246, some 34240,
  some 34243, some 34242, some 34227, some 34229
 ]

/-- Rows 17500–17599 of the `"big5"` Pointer Table. -/
def big5IndexPart175 : List (Option Nat) :=
 [
  some 34237, some 34247, some 34244, some 34239, some 34251, some 34254, some 34248, some 34245,
  some 34225, some 34230, some 34258, some 34340, some 34232, some 34231, some 34238, some 34409,
  some 34791, some 34790, some 34786, some 34779, some 34795, some 34794, some 34789, some 34783,
  some 34803, some 34788, some 34772, some 34780, some 34771, some 34797, some 34776, some 34787,
  some 34724, some 34775, some 34777, some 34817, some 34804, some 34792, some 34781, some 35155,
  some 35147, some 35151, some 35148, some 35142, some 35152, some 35153, some 35145, some 35626,
  some 35623, some 35619, some 35635, some 35632, some 35637, some 35655, some 35631, some 35644,
  some 35646, some 35633, some 35621, some 35639, some 35622, some 35638, some 35630, some 35620,
  some 35643, some 35645, some 35642, some 35906, some 35957, some 35993, some 35992, some 35991,
  some 36094, some 36100, some 36098, some 36096, some 36444, some 36450, some 36448, some 36439,
  some 36438, some 36446, some 36453, some 36455, some 36443, some 36442, some 36449, some 36445,
  some 36457, some 36436, some 36678, some 36679, some 36680, some 36683, some 37160, some 37178,
  some 37179, some 37182, some 37288, some 37285
 ]

/-- Rows 17600–17699 of the `"big5"` Pointer Table. -/
def big5IndexPart176 : List (Option Nat) :=
 [
  some 37287, some 37295, some 37290, some 37813, some 37772, some 37778, some 37815, some 37787,
  some 37789, some 37769, some 37799, some 37774, some 37802, some 37790, some 37798, some 37781,
  some 37768, some 37785, some 37791, some 37773, some 37809, some 37777, some 37810, some 37796,
  some 37800, some 37812, some 37795, some 37797, some 38354, some 38355, some 38353, some 38579,
  some 38615, some 38618, some 24002, some 38623, some 38616, some 38621, some 38691, some 38690,
  some 38693, some 38828, some 38830, some 38824, some 38827, some 38820, some 38826, some 38818,
  some 38821, some 38871, some 38873, some 38870, some 38872, some 38906, some 38992, some 38993,
  some 38994, some 39096, some 39233, some 39228, some 39226, some 39439, some 39435, some 39433,
  some 39437, some 39428, some 39441, some 39434, some 39429, some 39431, some 39430, some 39616,
  some 39644, some 39688, some 39684, some 39685, some 39721, some 39733, some 39754, some 39756,
  some 39755, some 39879, some 39878, some 39875, some 39871, some 39873, some 39861, some 39864,
  some 39891, some 39862, some 39876, some 39865, some 39869, some 40284, some 40275, some 40271,
  some 40266, some 40283, some 40267, some 40281
 ]

/-- Rows 17700–17799 of the `"big5"` Pointer Table. -/
def big5IndexPart177 : List (Option Nat) :=
 [
  some 40278, some 40268, some 40279, some 40274, some 40276, some 40287, some 40280, some 40282,
  some 40590, some 40588, some 40671, some 40705, some 40704, some 40726, some 40741, some 40747,
  some 40746, some 40745, some 40744, some 40780, some 40789, some 20788, some 20789, some 21142,
  some 21239, some 21428, some 22187, some 22189, some 22182, some 22183, some 22186, some 22188,
  some 22746, some 22749, some 22747, some 22802, some 23357, some 23358, some 23359, some 24003,
  some 24176, some 24511, some 25083, some 25863, some 25872, some 25869, some 25865, some 25868,
  some 25870, some 25988, some 26078, some 26077, some 26334, some 27367, some 27360, some 27340,
  some 27345, some 27353, some 27339, some 27359, some 27356, some 27344, some 27371, some 27343,
  some 27341, some 27358, some 27488, some 27568, some 27660, some 28697, some 28711, some 28704,
  some 28694, some 28715, some 28705, some 28706, some 28707, some 28713, some 28695, some 28708,
  some 28700, some 28714, some 29196, some 29194, some 29191, some 29186, some 29189, some 29349,
  some 29350, some 29348, some 29347, some 29345, some 29899, some 29893, some 29879, some 29891,
  some 29974, some 30304, some 30665, some 30666
 ]

/-- Rows 17800–17899 of the `"big5"` Pointer Table. -/
def big5IndexPart178 : List (Option Nat) :=
 [
  some 30660, some 30705, some 31005, some 31003, some 31009, some 31004, some 30999, some 31006,
  some 31152, some 31335, some 31336, some 31795, some 31804, some 31801, some 31788, some 31803,
  some 31980, some 31978, some 32374, some 32373, some 32376, some 32368, some 32375, some 32367,
  some 32378, some 32370, some 32372, some 32360, some 32587, some 32586, some 32643, some 32646,
  some 32695, some 32765, some 32766, some 32888, some 33239, some 33237, some 33380, some 33377,
  some 33379, some 34283, some 34289, some 34285, some 34265, some 34273, some 34280, some 34266,
  some 34263, some 34284, some 34290, some 34296, some 34264, some 34271, some 34275, some 34268,
  some 34257, some 34288, some 34278, some 34287, some 34270, some 34274, some 34816, some 34810,
  some 34819, some 34806, some 34807, some 34825, some 34828, some 34827, some 34822, some 34812,
  some 34824, some 34815, some 34826, some 34818, some 35170, some 35162, some 35163, some 35159,
  some 35169, some 35164, some 35160, some 35165, some 35161, some 35208, some 35255, some 35254,
  some 35318, some 35664, some 35656, some 35658, some 35648, some 35667, some 35670, some 35668,
  some 35659, some 35669, some 35665, some 35650
 ]

/-- Rows 17900–17999 of the `"big5"` Pointer Table. -/
def big5IndexPart179 : List (Option Nat) :=
 [
  some 35666, some 35671, some 35907, some 35959, some 35958, some 35994, some 36102, some 36103,
  some 36105, some 36268, some 36266, some 36269, some 36267, some 36461, some 36472, some 36467,
  some 36458, some 36463, some 36475, some 36546, some 36690, some 36689, some 36687, some 36688,
  some 36691, some 36788, some 37184, some 37183, some 37296, some 37293, some 37854, some 37831,
  some 37839, some 37826, some 37850, some 37840, some 37881, some 37868, some 37836, some 37849,
  some 37801, some 37862, some 37834, some 37844, some 37870, some 37859, some 37845, some 37828,
  some 37838, some 37824, some 37842, some 37863, some 38269, some 38362, some 38363, some 38625,
  some 38697, some 38699, some 38700, some 38696, some 38694, some 38835, some 38839, some 38838,
  some 38877, some 38878, some 38879, some 39004, some 39001, some 39005, some 38999, some 39103,
  some 39101, some 39099, some 39102, some 39240, some 39239, some 39235, some 39334, some 39335,
  some 39450, some 39445, some 39461, some 39453, some 39460, some 39451, some 39458, some 39456,
  some 39463, some 39459, some 39454, some 39452, some 39444, some 39618, some 39691, some 39690,
  some 39694, some 39692, some 39735, some 39914
 ]

/-- Rows 18000–18099 of the `"big5"` Pointer Table. -/
def big5IndexPart180 : List (Option Nat) :=
 [
  some 39915, some 39904, some 39902, some 39908, some 39910, some 39906, some 39920, some 39892,
  some 39895, some 39916, some 39900, some 39897, some 39909, some 39893, some 39905, some 39898,
  some 40311, some 40321, some 40330, some 40324, some 40328, some 40305, some 40320, some 40312,
  some 40326, some 40331, some 40332, some 40317, some 40299, some 40308, some 40309, some 40304,
  some 40297, some 40325, some 40307, some 40315, some 40322, some 40303, some 40313, some 40319,
  some 40327, some 40296, some 40596, some 40593, some 40640, some 40700, some 40749, some 40768,
  some 40769, some 40781, some 40790, some 40791, some 40792, some 21303, some 22194, some 22197,
  some 22195, some 22755, some 23365, some 24006, some 24007, some 24302, some 24303, some 24512,
  some 24513, some 25081, some 25879, some 25878, some 25877, some 25875, some 26079, some 26344,
  some 26339, some 26340, some 27379, some 27376, some 27370, some 27368, some 27385, some 27377,
  some 27374, some 27375, some 28732, some 28725, some 28719, some 28727, some 28724, some 28721,
  some 28738, some 28728, some 28735, some 28730, some 28729, some 28736, some 28731, some 28723,
  some 28737, some 29203, some 29204, some 29352
 ]

/-- Rows 18100–18199 of the `"big5"` Pointer Table. -/
def big5IndexPart181 : List (Option Nat) :=
 [
  some 29565, some 29564, some 29882, some 30379, some 30378, some 30398, some 30445, some 30668,
  some 30670, some 30671, some 30669, some 30706, some 31013, some 31011, some 31015, some 31016,
  some 31012, some 31017, some 31154, some 31342, some 31340, some 31341, some 31479, some 31817,
  some 31816, some 31818, some 31815, some 31813, some 31982, some 32379, some 32382, some 32385,
  some 32384, some 32698, some 32767, some 32889, some 33243, some 33241, some 33291, some 33384,
  some 33385, some 34338, some 34303, some 34305, some 34302, some 34331, some 34304, some 34294,
  some 34308, some 34313, some 34309, some 34316, some 34301, some 34841, some 34832, some 34833,
  some 34839, some 34835, some 34838, some 35171, some 35174, some 35257, some 35319, some 35680,
  some 35690, some 35677, some 35688, some 35683, some 35685, some 35687, some 35693, some 36270,
  some 36486, some 36488, some 36484, some 36697, some 36694, some 36695, some 36693, some 36696,
  some 36698, some 37005, some 37187, some 37185, some 37303, some 37301, some 37298, some 37299,
  some 37899, some 37907, some 37883, some 37920, some 37903, some 37908, some 37886, some 37909,
  some 37904, some 37928, some 37913, some 37901
 ]

/-- Rows 18200–18299 of the `"big5"` Pointer Table. -/
def big5IndexPart182 : List (Option Nat) :=
 [
  some 37877, some 37888, some 37879, some 37895, some 37902, some 37910, some 37906, some 37882,
  some 37897, some 37880, some 37898, some 37887, some 37884, some 37900, some 37878, some 37905,
  some 37894, some 38366, some 38368, some 38367, some 38702, some 38703, some 38841, some 38843,
  some 38909, some 38910, some 39008, some 39010, some 39011, some 39007, some 39105, some 39106,
  some 39248, some 39246, some 39257, some 39244, some 39243, some 39251, some 39474, some 39476,
  some 39473, some 39468, some 39466, some 39478, some 39465, some 39470, some 39480, some 39469,
  some 39623, some 39626, some 39622, some 39696, some 39698, some 39697, some 39947, some 39944,
  some 39927, some 39941, some 39954, some 39928, some 40000, some 39943, some 39950, some 39942,
  some 39959, some 39956, some 39945, some 40351, some 40345, some 40356, some 40349, some 40338,
  some 40344, some 40336, some 40347, some 40352, some 40340, some 40348, some 40362, some 40343,
  some 40353, some 40346, some 40354, some 40360, some 40350, some 40355, some 40383, some 40361,
  some 40342, some 40358, some 40359, some 40601, some 40603, some 40602, some 40677, some 40676,
  some 40679, some 40678, some 40752, some 40750
 ]

/-- Rows 18300–18399 of the `"big5"` Pointer Table. -/
def big5IndexPart183 : List (Option Nat) :=
 [
  some 40795, some 40800, some 40798, some 40797, some 40793, some 40849, some 20794, some 20793,
  some 21144, some 21143, some 22211, some 22205, some 22206, some 23368, some 23367, some 24011,
  some 24015, some 24305, some 25085, some 25883, some 27394, some 27388, some 27395, some 27384,
  some 27392, some 28739, some 28740, some 28746, some 28744, some 28745, some 28741, some 28742,
  some 29213, some 29210, some 29209, some 29566, some 29975, some 30314, some 30672, some 31021,
  some 31025, some 31023, some 31828, some 31827, some 31986, some 32394, some 32391, some 32392,
  some 32395, some 32390, some 32397, some 32589, some 32699, some 32816, some 33245, some 34328,
  some 34346, some 34342, some 34335, some 34339, some 34332, some 34329, some 34343, some 34350,
  some 34337, some 34336, some 34345, some 34334, some 34341, some 34857, some 34845, some 34843,
  some 34848, some 34852, some 34844, some 34859, some 34890, some 35181, some 35177, some 35182,
  some 35179, some 35322, some 35705, some 35704, some 35653, some 35706, some 35707, some 36112,
  some 36116, some 36271, some 36494, some 36492, some 36702, some 36699, some 36701, some 37190,
  some 37188, some 37189, some 37305, some 37951
 ]

/-- Rows 18400–18499 of the `"big5"` Pointer Table. -/
def big5IndexPart184 : List (Option Nat) :=
 [
  some 37947, some 37942, some 37929, some 37949, some 37948, some 37936, some 37945, some 37930,
  some 37943, some 37932, some 37952, some 37937, some 38373, some 38372, some 38371, some 38709,
  some 38714, some 38847, some 38881, some 39012, some 39113, some 39110, some 39104, some 39256,
  some 39254, some 39481, some 39485, some 39494, some 39492, some 39490, some 39489, some 39482,
  some 39487, some 39629, some 39701, some 39703, some 39704, some 39702, some 39738, some 39762,
  some 39979, some 39965, some 39964, some 39980, some 39971, some 39976, some 39977, some 39972,
  some 39969, some 40375, some 40374, some 40380, some 40385, some 40391, some 40394, some 40399,
  some 40382, some 40389, some 40387, some 40379, some 40373, some 40398, some 40377, some 40378,
  some 40364, some 40392, some 40369, some 40365, some 40396, some 40371, some 40397, some 40370,
  some 40570, some 40604, some 40683, some 40686, some 40685, some 40731, some 40728, some 40730,
  some 40753, some 40782, some 40805, some 40804, some 40850, some 20153, some 22214, some 22213,
  some 22219, some 22897, some 23371, some 23372, some 24021, some 24017, some 24306, some 25889,
  some 25888, some 25894, some 25890, some 27403
 ]

/-- Rows 18500–18599 of the `"big5"` Pointer Table. -/
def big5IndexPart185 : List (Option Nat) :=
 [
  some 27400, some 27401, some 27661, some 28757, some 28758, some 28759, some 28754, some 29214,
  some 29215, some 29353, some 29567, some 29912, some 29909, some 29913, some 29911, some 30317,
  some 30381, some 31029, some 31156, some 31344, some 31345, some 31831, some 31836, some 31833,
  some 31835, some 31834, some 31988, some 31985, some 32401, some 32591, some 32647, some 33246,
  some 33387, some 34356, some 34357, some 34355, some 34348, some 34354, some 34358, some 34860,
  some 34856, some 34854, some 34858, some 34853, some 35185, some 35263, some 35262, some 35323,
  some 35710, some 35716, some 35714, some 35718, some 35717, some 35711, some 36117, some 36501,
  some 36500, some 36506, some 36498, some 36496, some 36502, some 36503, some 36704, some 36706,
  some 37191, some 37964, some 37968, some 37962, some 37963, some 37967, some 37959, some 37957,
  some 37960, some 37961, some 37958, some 38719, some 38883, some 39018, some 39017, some 39115,
  some 39252, some 39259, some 39502, some 39507, some 39508, some 39500, some 39503, some 39496,
  some 39498, some 39497, some 39506, some 39504, some 39632, some 39705, some 39723, some 39739,
  some 39766, some 39765, some 40006, some 40008
 ]

/-- Rows 18600–18699 of the `"big5"` Pointer Table. -/
def big5IndexPart186 : List (Option Nat) :=
 [
  some 39999, some 40004, some 39993, some 39987, some 40001, some 39996, some 39991, some 39988,
  some 39986, some 39997, some 39990, some 40411, some 40402, some 40414, some 40410, some 40395,
  some 40400, some 40412, some 40401, some 40415, some 40425, some 40409, some 40408, some 40406,
  some 40437, some 40405, some 40413, some 40630, some 40688, some 40757, some 40755, some 40754,
  some 40770, some 40811, some 40853, some 40866, some 20797, some 21145, some 22760, some 22759,
  some 22898, some 23373, some 24024, some 34863, some 24399, some 25089, some 25091, some 25092,
  some 25897, some 25893, some 26006, some 26347, some 27409, some 27410, some 27407, some 27594,
  some 28763, some 28762, some 29218, some 29570, some 29569, some 29571, some 30320, some 30676,
  some 31847, some 31846, some 32405, some 33388, some 34362, some 34368, some 34361, some 34364,
  some 34353, some 34363, some 34366, some 34864, some 34866, some 34862, some 34867, some 35190,
  some 35188, some 35187, some 35326, some 35724, some 35726, some 35723, some 35720, some 35909,
  some 36121, some 36504, some 36708, some 36707, some 37308, some 37986, some 37973, some 37981,
  some 37975, some 37982, some 38852, some 38853
 ]

/-- Rows 18700–18799 of the `"big5"` Pointer Table. -/
def big5IndexPart187 : List (Option Nat) :=
 [
  some 38912, some 39510, some 39513, some 39710, some 39711, some 39712, some 40018, some 40024,
  some 40016, some 40010, some 40013, some 40011, some 40021, some 40025, some 40012, some 40014,
  some 40443, some 40439, some 40431, some 40419, some 40427, some 40440, some 40420, some 40438,
  some 40417, some 40430, some 40422, some 40434, some 40432, some 40418, some 40428, some 40436,
  some 40435, some 40424, some 40429, some 40642, some 40656, some 40690, some 40691, some 40710,
  some 40732, some 40760, some 40759, some 40758, some 40771, some 40783, some 40817, some 40816,
  some 40814, some 40815, some 22227, some 22221, some 23374, some 23661, some 25901, some 26349,
  some 26350, some 27411, some 28767, some 28769, some 28765, some 28768, some 29219, some 29915,
  some 29925, some 30677, some 31032, some 31159, some 31158, some 31850, some 32407, some 32649,
  some 33389, some 34371, some 34872, some 34871, some 34869, some 34891, some 35732, some 35733,
  some 36510, some 36511, some 36512, some 36509, some 37310, some 37309, some 37314, some 37995,
  some 37992, some 37993, some 38629, some 38726, some 38723, some 38727, some 38855, some 38885,
  some 39518, some 39637, some 39769, some 40035
 ]

/-- Rows 18800–18899 of the `"big5"` Pointer Table. -/
def big5IndexPart188 : List (Option Nat) :=
 [
  some 40039, some 40038, some 40034, some 40030, some 40032, some 40450, some 40446, some 40455,
  some 40451, some 40454, some 40453, some 40448, some 40449, some 40457, some 40447, some 40445,
  some 40452, some 40608, some 40734, some 40774, some 40820, some 40821, some 40822, some 22228,
  some 25902, some 26040, some 27416, some 27417, some 27415, some 27418, some 28770, some 29222,
  some 29354, some 30680, some 30681, some 31033, some 31849, some 31851, some 31990, some 32410,
  some 32408, some 32411, some 32409, some 33248, some 33249, some 34374, some 34375, some 34376,
  some 35193, some 35194, some 35196, some 35195, some 35327, some 35736, some 35737, some 36517,
  some 36516, some 36515, some 37998, some 37997, some 37999, some 38001, some 38003, some 38729,
  some 39026, some 39263, some 40040, some 40046, some 40045, some 40459, some 40461, some 40464,
  some 40463, some 40466, some 40465, some 40609, some 40693, some 40713, some 40775, some 40824,
  some 40827, some 40826, some 40825, some 22302, some 28774, some 31855, some 34876, some 36274,
  some 36518, some 37315, some 38004, some 38008, some 38006, some 38005, some 39520, some 40052,
  some 40051, some 40049, some 40053, some 40468
 ]

/-- Rows 18900–18999 of the `"big5"` Pointer Table. -/
def big5IndexPart189 : List (Option Nat) :=
 [
  some 40467, some 40694, some 40714, some 40868, some 28776, some 28773, some 31991, some 34410,
  some 34878, some 34877, some 34879, some 35742, some 35996, some 36521, some 36553, some 38731,
  some 39027, some 39028, some 39116, some 39265, some 39339, some 39524, some 39526, some 39527,
  some 39716, some 40469, some 40471, some 40776, some 25095, some 27422, some 29223, some 34380,
  some 36520, some 38018, some 38016, some 38017, some 39529, some 39528, some 39726, some 40473,
  some 29225, some 34379, some 35743, some 38019, some 40057, some 40631, some 30325, some 39531,
  some 40058, some 40477, some 28777, some 28778, some 40612, some 40830, some 40777, some 40856,
  some 30849, some 37561, some 35023, some 22715, some 24658, some 31911, some 23290, some 9556,
  some 9574, some 9559, some 9568, some 9580, some 9571, some 9562, some 9577, some 9565,
  some 9554, some 9572, some 9557, some 9566, some 9578, some 9569, some 9560, some 9575,
  some 9563, some 9555, some 9573, some 9558, some 9567, some 9579, some 9570, some 9561,
  some 9576, some 9564, some 9553, some 9552, some 9581, some 9582, some 9584, some 9583,
  some 65517, some 132423, some 37595, some 132575
 ]

/-- Rows 19000–19099 of the `"big5"` Pointer Table. -/
def big5IndexPart190 : List (Option Nat) :=
 [
  some 147397, some 34124, some 17077, some 29679, some 20917, some 13897, some 149826,
  some 166372, some 37700, some 137691, some 33518, some 146632, some 30780, some 26436,
  some 25311, some 149811, some 166314, some 131744, some 158643, some 135941, some 20395,
  some 140525, some 20488, some 159017, some 162436, some 144896, some 150193, some 140563,
  some 20521, some 131966, some 24484, some 131968, some 131911, some 28379, some 132127,
  some 20605, some 20737, some 13434, some 20750, some 39020, some 14147, some 33814, some 149924,
  some 132231, some 20832, some 144308, some 20842, some 134143, some 139516, some 131813,
  some 140592, some 132494, some 143923, some 137603, some 23426, some 34685, some 132531,
  some 146585, some 20914, some 20920, some 40244, some 20937, some 20943, some 20945, some 15580,
  some 20947, some 150182, some 20915, some 20962, some 21314, some 20973, some 33741, some 26942,
  some 145197, some 24443, some 21003, some 21030, some 21052, some 21173, some 21079, some 21140,
  some 21177, some 21189, some 31765, some 34114, some 21216, some 34317, some 158483, some 21253,
  some 166622, some 21833, some 28377, some 147328, some 133460, some 147436, some 21299,
  some 21316, some 134114, some 27851, some 136998
 ]

/-- Rows 19100–19199 of the `"big5"` Pointer Table. -/
def big5IndexPart191 : List (Option Nat) :=
 [
  some 26651, some 29653, some 24650, some 16042, some 14540, some 136936, some 29149, some 17570,
  some 21357, some 21364, some 165547, some 21374, some 21375, some 136598, some 136723,
  some 30694, some 21395, some 166555, some 21408, some 21419, some 21422, some 29607, some 153458,
  some 16217, some 29596, some 21441, some 21445, some 27721, some 20041, some 22526, some 21465,
  some 15019, some 134031, some 21472, some 147435, some 142755, some 21494, some 134263,
  some 21523, some 28793, some 21803, some 26199, some 27995, some 21613, some 158547, some 134516,
  some 21853, some 21647, some 21668, some 18342, some 136973, some 134877, some 15796,
  some 134477, some 166332, some 140952, some 21831, some 19693, some 21551, some 29719,
  some 21894, some 21929, some 22021, some 137431, some 147514, some 17746, some 148533,
  some 26291, some 135348, some 22071, some 26317, some 144010, some 26276, some 26285, some 22093,
  some 22095, some 30961, some 22257, some 38791, some 21502, some 22272, some 22255, some 22253,
  some 166758, some 13859, some 135759, some 22342, some 147877, some 27758, some 28811,
  some 22338, some 14001, some 158846, some 22502, some 136214, some 22531, some 136276,
  some 148323, some 22566, some 150517
 ]

/-- Rows 19200–19299 of the `"big5"` Pointer Table. -/
def big5IndexPart192 : List (Option Nat) :=
 [
  some 22620, some 22698, some 13665, some 22752, some 22748, some 135740, some 22779, some 23551,
  some 22339, some 172368, some 148088, some 37843, some 13729, some 22815, some 26790, some 14019,
  some 28249, some 136766, some 23076, some 21843, some 136850, some 34053, some 22985,
  some 134478, some 158849, some 159018, some 137180, some 23001, some 137211, some 137138,
  some 159142, some 28017, some 137256, some 136917, some 23033, some 159301, some 23211,
  some 23139, some 14054, some 149929, some 23159, some 14088, some 23190, some 29797, some 23251,
  some 159649, some 140628, some 15749, some 137489, some 14130, some 136888, some 24195,
  some 21200, some 23414, some 25992, some 23420, some 162318, some 16388, some 18525, some 131588,
  some 23509, some 24928, some 137780, some 154060, some 132517, some 23539, some 23453,
  some 19728, some 23557, some 138052, some 23571, some 29646, some 23572, some 138405,
  some 158504, some 23625, some 18653, some 23685, some 23785, some 23791, some 23947, some 138745,
  some 138807, some 23824, some 23832, some 23878, some 138916, some 23738, some 24023, some 33532,
  some 14381, some 149761, some 139337, some 139635, some 33415, some 14390, some 15298,
  some 24110, some 27274, some 24181
 ]

/-- Rows 19300–19399 of the `"big5"` Pointer Table. -/
def big5IndexPart193 : List (Option Nat) :=
 [
  some 24186, some 148668, some 134355, some 21414, some 20151, some 24272, some 21416,
  some 137073, some 24073, some 24308, some 164994, some 24313, some 24315, some 14496, some 24316,
  some 26686, some 37915, some 24333, some 131521, some 194708, some 15070, some 18606,
  some 135994, some 24378, some 157832, some 140240, some 24408, some 140401, some 24419,
  some 38845, some 159342, some 24434, some 37696, some 166454, some 24487, some 23990, some 15711,
  some 152144, some 139114, some 159992, some 140904, some 37334, some 131742, some 166441,
  some 24625, some 26245, some 137335, some 14691, some 15815, some 13881, some 22416, some 141236,
  some 31089, some 15936, some 24734, some 24740, some 24755, some 149890, some 149903,
  some 162387, some 29860, some 20705, some 23200, some 24932, some 33828, some 24898, some 194726,
  some 159442, some 24961, some 20980, some 132694, some 24967, some 23466, some 147383,
  some 141407, some 25043, some 166813, some 170333, some 25040, some 14642, some 141696,
  some 141505, some 24611, some 24924, some 25886, some 25483, some 131352, some 25285,
  some 137072, some 25301, some 142861, some 25452, some 149983, some 14871, some 25656,
  some 25592, some 136078, some 137212, some 25744, some 28554
 ]

/-- Rows 19400–19499 of the `"big5"` Pointer Table. -/
def big5IndexPart194 : List (Option Nat) :=
 [
  some 142902, some 38932, some 147596, some 153373, some 25825, some 25829, some 38011,
  some 14950, some 25658, some 14935, some 25933, some 28438, some 150056, some 150051, some 25989,
  some 25965, some 25951, some 143486, some 26037, some 149824, some 19255, some 26065, some 16600,
  some 137257, some 26080, some 26083, some 24543, some 144384, some 26136, some 143863,
  some 143864, some 26180, some 143780, some 143781, some 26187, some 134773, some 26215,
  some 152038, some 26227, some 26228, some 138813, some 143921, some 165364, some 143816,
  some 152339, some 30661, some 141559, some 39332, some 26370, some 148380, some 150049,
  some 15147, some 27130, some 145346, some 26462, some 26471, some 26466, some 147917,
  some 168173, some 26583, some 17641, some 26658, some 28240, some 37436, some 26625, some 144358,
  some 159136, some 26717, some 144495, some 27105, some 27147, some 166623, some 26995,
  some 26819, some 144845, some 26881, some 26880, some 15666, some 14849, some 144956, some 15232,
  some 26540, some 26977, some 166474, some 17148, some 26934, some 27032, some 15265, some 132041,
  some 33635, some 20624, some 27129, some 144985, some 139562, some 27205, some 145155,
  some 27293, some 15347, some 26545, some 27336
 ]

/-- Rows 19500–19599 of the `"big5"` Pointer Table. -/
def big5IndexPart195 : List (Option Nat) :=
 [
  some 168348, some 15373, some 27421, some 133411, some 24798, some 27445, some 27508,
  some 141261, some 28341, some 146139, some 132021, some 137560, some 14144, some 21537,
  some 146266, some 27617, some 147196, some 27612, some 27703, some 140427, some 149745,
  some 158545, some 27738, some 33318, some 27769, some 146876, some 17605, some 146877,
  some 147876, some 149772, some 149760, some 146633, some 14053, some 15595, some 134450,
  some 39811, some 143865, some 140433, some 32655, some 26679, some 159013, some 159137,
  some 159211, some 28054, some 27996, some 28284, some 28420, some 149887, some 147589,
  some 159346, some 34099, some 159604, some 20935, some 27804, some 28189, some 33838,
  some 166689, some 28207, some 146991, some 29779, some 147330, some 31180, some 28239,
  some 23185, some 143435, some 28664, some 14093, some 28573, some 146992, some 28410,
  some 136343, some 147517, some 17749, some 37872, some 28484, some 28508, some 15694, some 28532,
  some 168304, some 15675, some 28575, some 147780, some 28627, some 147601, some 147797,
  some 147513, some 147440, some 147380, some 147775, some 20959, some 147798, some 147799,
  some 147776, some 156125, some 28747, some 28798, some 28839, some 28801, some 28876, some 28885
 ]

/-- Rows 19600–19699 of the `"big5"` Pointer Table. -/
def big5IndexPart196 : List (Option Nat) :=
 [
  some 28886, some 28895, some 16644, some 15848, some 29108, some 29078, some 148087, some 28971,
  some 28997, some 23176, some 29002, some 29038, some 23708, some 148325, some 29007, some 37730,
  some 148161, some 28972, some 148570, some 150055, some 150050, some 29114, some 166888,
  some 28861, some 29198, some 37954, some 29205, some 22801, some 37955, some 29220, some 37697,
  some 153093, some 29230, some 29248, some 149876, some 26813, some 29269, some 29271, some 15957,
  some 143428, some 26637, some 28477, some 29314, some 29482, some 29483, some 149539,
  some 165931, some 18669, some 165892, some 29480, some 29486, some 29647, some 29610,
  some 134202, some 158254, some 29641, some 29769, some 147938, some 136935, some 150052,
  some 26147, some 14021, some 149943, some 149901, some 150011, some 29687, some 29717,
  some 26883, some 150054, some 29753, some 132547, some 16087, some 29788, some 141485,
  some 29792, some 167602, some 29767, some 29668, some 29814, some 33721, some 29804, some 14128,
  some 29812, some 37873, some 27180, some 29826, some 18771, some 150156, some 147807,
  some 150137, some 166799, some 23366, some 166915, some 137374, some 29896, some 137608,
  some 29966, some 29929, some 29982, some 167641
 ]

/-- Rows 19700–19781 of the `"big5"` Pointer Table. -/
def big5IndexPart197 : List (Option Nat) :=
 [
  some 137803, some 23511, some 167596, some 37765, some 30029, some 30026, some 30055, some 30062,
  some 151426, some 16132, some 150803, some 30094, some 29789, some 30110, some 30132, some 30210,
  some 30252, some 30289, some 30287, some 30319, some 30326, some 156661, some 30352, some 33263,
  some 14328, some 157969, some 157966, some 30369, some 30373, some 30391, some 30412,
  some 159647, some 33890, some 151709, some 151933, some 138780, some 30494, some 30502,
  some 30528, some 25775, some 152096, some 30552, some 144044, some 30639, some 166244,
  some 166248, some 136897, some 30708, some 30729, some 136054, some 150034, some 26826,
  some 30895, some 30919, some 30931, some 38565, some 31022, some 153056, some 30935, some 31028,
  some 30897, some 161292, some 36792, some 34948, some 166699, some 155779, some 140828,
  some 31110, some 35072, some 26882, some 31104, some 153687, some 31133, some 162617, some 31036,
  some 31145, some 28202, some 160038, some 16040, some 31174, some 168205, some 31188
 ]

/-- The `encodingIndexes` entry for `"big5"`: the Pointer Table (19782 entries,
`null` modelled as `none`), split into parts only to keep elaboration fast. -/
def big5Index : List (Option Nat) :=
  List.flatten
   [big5IndexPart000,
    big5IndexPart001,
    big5IndexPart002,
    big5IndexPart003,
    big5IndexPart004,
    big5IndexPart005,
    big5IndexPart006,
    big5IndexPart007,
    big5IndexPart008,
    big5IndexPart009,
    big5IndexPart010,
    big5IndexPart011,
    big5IndexPart012,
    big5IndexPart013,
    big5IndexPart014,
    big5IndexPart015,
    big5IndexPart016,
    big5IndexPart017,
    big5IndexPart018,
    big5IndexPart019,
    big5IndexPart020,
    big5IndexPart021,
    big5IndexPart022,
    big5IndexPart023,
    big5IndexPart024,
    big5IndexPart025,
    big5IndexPart026,
    big5IndexPart027,
    big5IndexPart028,
    big5IndexPart029,
    big5IndexPart030,
    big5IndexPart031,
    big5IndexPart032,
    big5IndexPart033,
    big5IndexPart034,
    big5IndexPart035,
    big5IndexPart036,
    big5IndexPart037,
    big5IndexPart038,
    big5IndexPart039,
    big5IndexPart040,
    big5IndexPart041,
    big5IndexPart042,
    big5IndexPart043,
    big5IndexPart044,
    big5IndexPart045,
    big5IndexPart046,
    big5IndexPart047,
    big5IndexPart048,
    big5IndexPart049,
    big5IndexPart050,
    big5IndexPart051,
    big5IndexPart052,
    big5IndexPart053,
    big5IndexPart054,
    big5IndexPart055,
    big5IndexPart056,
    big5IndexPart057,
    big5IndexPart058,
    big5IndexPart059,
    big5IndexPart060,
    big5IndexPart061,
    big5IndexPart062,
    big5IndexPart063,
    big5IndexPart064,
    big5IndexPart065,
    big5IndexPart066,
    big5IndexPart067,
    big5IndexPart068,
    big5IndexPart069,
    big5IndexPart070,
    big5IndexPart071,
    big5IndexPart072,
    big5IndexPart073,
    big5IndexPart074,
    big5IndexPart075,
    big5IndexPart076,
    big5IndexPart077,
    big5IndexPart078,
    big5IndexPart079,
    big5IndexPart080,
    big5IndexPart081,
    big5IndexPart082,
    big5IndexPart083,
    big5IndexPart084,
    big5IndexPart085,
    big5IndexPart086,
    big5IndexPart087,
    big5IndexPart088,
    big5IndexPart089,
    big5IndexPart090,
    big5IndexPart091,
    big5IndexPart092,
    big5IndexPart093,
    big5IndexPart094,
    big5IndexPart095,
    big5IndexPart096,
    big5IndexPart097,
    big5IndexPart098,
    big5IndexPart099,
    big5IndexPart100,
    big5IndexPart101,
    big5IndexPart102,
    big5IndexPart103,
    big5IndexPart104,
    big5IndexPart105,
    big5IndexPart106,
    big5IndexPart107,
    big5IndexPart108,
    big5IndexPart109,
    big5IndexPart110,
    big5IndexPart111,
    big5IndexPart112,
    big5IndexPart113,
    big5IndexPart114,
    big5IndexPart115,
    big5IndexPart116,
    big5IndexPart117,
    big5IndexPart118,
    big5IndexPart119,
    big5IndexPart120,
    big5IndexPart121,
    big5IndexPart122,
    big5IndexPart123,
    big5IndexPart124,
    big5IndexPart125,
    big5IndexPart126,
    big5IndexPart127,
    big5IndexPart128,
    big5IndexPart129,
    big5IndexPart130,
    big5IndexPart131,
    big5IndexPart132,
    big5IndexPart133,
    big5IndexPart134,
    big5IndexPart135,
    big5IndexPart136,
    big5IndexPart137,
    big5IndexPart138,
    big5IndexPart139,
    big5IndexPart140,
    big5IndexPart141,
    big5IndexPart142,
    big5IndexPart143,
    big5IndexPart144,
    big5IndexPart145,
    big5IndexPart146,
    big5IndexPart147,
    big5IndexPart148,
    big5IndexPart149,
    big5IndexPart150,
    big5IndexPart151,
    big5IndexPart152,
    big5IndexPart153,
    big5IndexPart154,
    big5IndexPart155,
    big5IndexPart156,
    big5IndexPart157,
    big5IndexPart158,
    big5IndexPart159,
    big5IndexPart160,
    big5IndexPart161,
    big5IndexPart162,
    big5IndexPart163,
    big5IndexPart164,
    big5IndexPart165,
    big5IndexPart166,
    big5IndexPart167,
    big5IndexPart168,
    big5IndexPart169,
    big5IndexPart170,
    big5IndexPart171,
    big5IndexPart172,
    big5IndexPart173,
    big5IndexPart174,
    big5IndexPart175,
    big5IndexPart176,
    big5IndexPart177,
    big5IndexPart178,
    big5IndexPart179,
    big5IndexPart180,
    big5IndexPart181,
    big5IndexPart182,
    big5IndexPart183,
    big5IndexPart184,
    big5IndexPart185,
    big5IndexPart186,
    big5IndexPart187,
    big5IndexPart188,
    big5IndexPart189,
    big5IndexPart190,
    big5IndexPart191,
    big5IndexPart192,
    big5IndexPart193,
    big5IndexPart194,
    big5IndexPart195,
    big5IndexPart196,
    big5IndexPart197]

/-- The `encodingIndexes` entry for `"windows-1252"` (used as a concrete witness
instance of a single-byte index table). -/
def windows1252Index : List (Option Nat) :=
 [
  some 8364, some 129, some 8218, some 402, some 8222, some 8230, some 8224, some 8225,
  some 710, some 8240, some 352, some 8249, some 338, some 141, some 381, some 143, some 144,
  some 8216, some 8217, some 8220, some 8221, some 8226, some 8211, some 8212, some 732,
  some 8482, some 353, some 8250, some 339, some 157, some 382, some 376, some 160, some 161,
  some 162, some 163, some 164, some 165, some 166, some 167, some 168, some 169, some 170,
  some 171, some 172, some 173, some 174, some 175, some 176, some 177, some 178, some 179,
  some 180, some 181, some 182, some 183, some 184, some 185, some 186, some 187, some 188,
  some 189, some 190, some 191, some 192, some 193, some 194, some 195, some 196, some 197,
  some 198, some 199, some 200, some 201, some 202, some 203, some 204, some 205, some 206,
  some 207, some 208, some 209, some 210, some 211, some 212, some 213, some 214, some 215,
  some 216, some 217, some 218, some 219, some 220, some 221, some 222, some 223, some 224,
  some 225, some 226, some 227, some 228, some 229, some 230, some 231, some 232, some 233,
  some 234, some 235, some 236, some 237, some 238, some 239, some 240, some 241, some 242,
  some 243, some 244, some 245, some 246, some 247, some 248, some 249, some 250, some 251,
  some 252, some 253, some 254, some 255
 ]


/-! ## C9: `btoa` Latin-1 error contract -/

theorem btoaBytes_ok (s : List Nat) (h : ∀ c ∈ s, c ≤ 0xff) : btoaBytes s = .ok s := by
  induction s with
  | nil => rfl
  | cons c cs ih =>
    have hc : ¬ c > 0xff := by
      have := h c (List.mem_cons_self c cs)
      omega
    simp only [btoaBytes, if_neg hc, ih (fun x hx => h x (List.mem_cons_of_mem c hx))]
    rfl

theorem btoaBytes_err (s : List Nat) (h : ∃ c ∈ s, 0xff < c) : btoaBytes s = .error () := by
  induction s with
  | nil => simp at h
  | cons c cs ih =>
    by_cases hc : c > 0xff
    · simp [btoaBytes, hc]
    · obtain ⟨x, hx, hgt⟩ := h
      rcases List.mem_cons.mp hx with rfl | hmem
      · omega
      · simp [btoaBytes, hc, ih ⟨x, hmem, hgt⟩, Except.map]

/-- C9: `btoa` raises a `TypeError` if and only if some char code of its input
exceeds 0xFF; otherwise it treats each char code as a byte and returns the
Base64 encoding of that byte sequence. -/
theorem claimC9_btoa_latin1_contract :
    ∀ s : List Nat,
      (btoa s = .error () ↔ ∃ c ∈ s, 0xff < c) ∧
      ((∀ c ∈ s, c ≤ 0xff) → btoa s = .ok (fromByteArray s)) := by
  intro s
  constructor
  · constructor
    · intro herr
      by_contra hno
      push_neg at hno
      have : btoa s = .ok (fromByteArray s) := by
        unfold btoa
        rw [btoaBytes_ok s (fun c hc => hno c hc)]
        rfl
      rw [this] at herr
      exact Except.noConfusion herr
    · intro hex
      unfold btoa
      rw [btoaBytes_err s hex]
      rfl
  · intro hall
    unfold btoa
    rw [btoaBytes_ok s hall]
    rfl

theorem claimC9_witness :
    (∀ c ∈ [72, 105, 33], c ≤ 0xff) ∧ btoa [72, 105, 33] = .ok (fromByteArray [72, 105, 33]) :=
  ⟨by decide, (claimC9_btoa_latin1_contract [72, 105, 33]).2 (by decide)⟩


/-! ## C3: `atob` validation -/

/-- `true` exactly on `Except.error`. -/
def isErr {ε α : Type} (x : Except ε α) : Bool :=
  match x with
  | .error _ => true
  | .ok _ => false

/-- The character set `[A-Za-z0-9+/_-]` that the spec claims `atob` accepts
(modelled from the spec's words; the implementation's validation regex accepts
only `[+/0-9A-Za-z]`). -/
def b64AllowedSpec (c : Nat) : Bool :=
  b64Allowed c || c = 45 || c = 95

theorem getLens_ok_of_mod (b : List Nat) (h : b.length % 4 = 0) :
    getLens b = .ok ((b.findIdx? (· = 61)).getD b.length,
      if (b.findIdx? (· = 61)).getD b.length = b.length then 0
      else 4 - ((b.findIdx? (· = 61)).getD b.length) % 4) := by
  unfold getLens
  rw [if_neg (by omega)]

theorem toByteArray_ok_of_mod (b : List Nat) (h : b.length % 4 = 0) :
    ∃ out, toByteArray b = .ok out := by
  unfold toByteArray
  rw [getLens_ok_of_mod b h]
  exact ⟨_, rfl⟩

theorem atob_ok_of_valid (s : List Nat)
    (hrem : (atobStripped s).length % 4 ≠ 1)
    (hall : (atobStripped s).any (fun c => !(b64Allowed c)) = false) :
    ∃ out, atob s = .ok out := by
  have hcondB : (decide ((atobStripped s).length % 4 = 1) ||
      (atobStripped s).any (fun c => !(b64Allowed c))) = false := by
    rw [Bool.or_eq_false_iff]
    exact ⟨decide_eq_false hrem, hall⟩
  have hlen :
      ((if (atobStripped s).length % 4 > 0 then
          atobStripped s ++ List.replicate (4 - (atobStripped s).length % 4) 61
        else atobStripped s)).length % 4 = 0 := by
    split
    · simp only [List.length_append, List.length_replicate]
      omega
    · omega
  obtain ⟨out, hout⟩ := toByteArray_ok_of_mod _ hlen
  exact ⟨out, by simp only [atob, hcondB, Bool.false_eq_true, if_false, hout]⟩

/-- Counterexample to C3 as stated: the input `"AA--"` consists only of characters
of the claimed set `[A-Za-z0-9+/_-]` and has remainder 0 after stripping, so the
claim predicts acceptance, yet `atob` raises `InvalidCharacterError`: the
validation regex `[^+/0-9A-Za-z]` rejects the URL-safe characters. -/
theorem claimC3_counterexample :
    atob [65, 65, 45, 45] = .error .invalidChar ∧
    ([65, 65, 45, 45] : List Nat).all (fun c => b64AllowedSpec c) = true ∧
    (atobStripped [65, 65, 45, 45]).length % 4 = 0 ∧
    revLookup 45 = 62 ∧ revLookup 95 = 63 := by
  refine ⟨?_, by decide, by decide, by decide, by decide⟩
  decide

/-- C3 (amended): `atob` raises `InvalidCharacterError` if and only if, after
stripping ASCII whitespace and — only when the remaining length is a multiple of
4 — up to two trailing `'='`, the remaining length mod 4 equals 1 or some
character lies outside `[A-Za-z0-9+/]`.  The URL-safe aliases `'-'` → 62 and
`'_'` → 63 are present in the decode table `revLookup` but are unreachable
through `atob`, whose validation rejects them.  No other error is raised. -/
theorem claimC3_atob_validation :
    ∀ s : List Nat,
      (isErr (atob s) = true ↔
        ((atobStripped s).length % 4 = 1 ∨
          (atobStripped s).any (fun c => !(b64Allowed c)) = true)) ∧
      atob s ≠ .error .invalidLength ∧
      revLookup 45 = 62 ∧ revLookup 95 = 63 := by
  intro s
  by_cases hc : (atobStripped s).length % 4 = 1 ∨
      (atobStripped s).any (fun c => !(b64Allowed c)) = true
  · have herr : atob s = .error .invalidChar := by
      unfold atob
      rw [if_pos]
      rcases hc with h | h
      · simp [h]
      · simp [h]
    refine ⟨⟨fun _ => hc, fun _ => by rw [herr]; rfl⟩, by rw [herr]; simp, by decide, by decide⟩
  · push_neg at hc
    obtain ⟨h1, h2⟩ := hc
    have h2' : (atobStripped s).any (fun c => !(b64Allowed c)) = false := by
      cases h : (atobStripped s).any (fun c => !(b64Allowed c))
      · rfl
      · exact absurd h h2
    obtain ⟨out, hout⟩ := atob_ok_of_valid s h1 h2'
    refine ⟨⟨fun hE => ?_, fun h => ?_⟩, by rw [hout]; simp, by decide, by decide⟩
    · rw [hout] at hE
      simp [isErr] at hE
    · rcases h with h | h
      · exact absurd h h1
      · exact absurd h h2

/-! ## C5, C6, C10: Big5 decoder behaviour -/

theorem except_map_map {ε α β γ : Type} (f : α → β) (g : β → γ) (x : Except ε α) :
    (x.map f).map g = x.map (fun a => g (f a)) := by
  cases x <;> rfl

/-- Shared helper: a pending lead with special-case pointer 1133/1135 emits 202
regardless of the table. -/
theorem big5_step_202 (table : List (Option Nat)) (fatal : Bool) (lead b : Nat) (bs : List Nat)
    (hlead : lead ≠ 0)
    (hp : big5Pointer lead b = some 1133 ∨ big5Pointer lead b = some 1135) :
    big5Go table fatal lead (b :: bs) =
      (big5Go table fatal 0 bs).map fun r => (some 202 :: r.1, r.2) := by
  rcases hp with hp | hp <;>
    simp [big5Go, hlead, hp]

/-- Shared helper: a pending lead with special-case pointer 1164/1166 emits 234
regardless of the table. -/
theorem big5_step_234 (table : List (Option Nat)) (fatal : Bool) (lead b : Nat) (bs : List Nat)
    (hlead : lead ≠ 0)
    (hp : big5Pointer lead b = some 1164 ∨ big5Pointer lead b = some 1166) :
    big5Go table fatal lead (b :: bs) =
      (big5Go table fatal 0 bs).map fun r => (some 234 :: r.1, r.2) := by
  rcases hp with hp | hp <;>
    simp [big5Go, hlead, hp]

/-- Shared helper: `Decode([0x88, 0x62], "big5")` hits pointer 1133. -/
theorem big5_decode_8862 (fatal : Bool) :
    Big5Decoder big5Index [0x88, 0x62] fatal = .ok ([some 202], 0) := by
  unfold Big5Decoder
  have h1 : big5Go big5Index fatal 0 [0x88, 0x62] = big5Go big5Index fatal 0x88 [0x62] := by
    simp [big5Go]
  rw [h1, big5_step_202 big5Index fatal 0x88 0x62 [] (by decide) (Or.inl (by decide))]
  simp [big5Go, Except.map]

/-- C5: pointers 1133/1135 emit U+00CA (202) and 1164/1166 emit U+00EA (234)
before (and independent of) any Pointer-Table lookup, and
`Decode([0x88, 0x62], "big5")` is the one-character string U+00CA. -/
theorem claimC5_big5_special_pointers :
    (∀ (table : List (Option Nat)) (fatal : Bool) (lead b : Nat) (bs : List Nat),
      lead ≠ 0 →
      (big5Pointer lead b = some 1133 ∨ big5Pointer lead b = some 1135) →
      big5Go table fatal lead (b :: bs) =
        (big5Go table fatal 0 bs).map fun r => (some 202 :: r.1, r.2)) ∧
    (∀ (table : List (Option Nat)) (fatal : Bool) (lead b : Nat) (bs : List Nat),
      lead ≠ 0 →
      (big5Pointer lead b = some 1164 ∨ big5Pointer lead b = some 1166) →
      big5Go table fatal lead (b :: bs) =
        (big5Go table fatal 0 bs).map fun r => (some 234 :: r.1, r.2)) ∧
    (∀ (sbIndexes : List (String × List (Option Nat))) (fatal : Bool),
      textDecode sbIndexes big5Index "big5" fatal false [0x88, 0x62] = .ok [202]) := by
  refine ⟨big5_step_202, big5_step_234, ?_⟩
  intro sbIndexes fatal
  have hres : resolveLabel "big5" = some "big5" := by decide
  simp [textDecode, hres, big5_decode_8862 fatal, big5CharUnits]

theorem claimC5_witness :
    (0x88 : Nat) ≠ 0 ∧ big5Pointer 0x88 0x62 = some 1133 ∧
    big5Go ([] : List (Option Nat)) false 0x88 [0x62] =
      (big5Go ([] : List (Option Nat)) false 0 []).map fun r => (some 202 :: r.1, r.2) :=
  ⟨by decide, by decide,
    (claimC5_big5_special_pointers).1 [] false 0x88 0x62 [] (by decide) (Or.inl (by decide))⟩

/-- Counterexample to C6 as stated: in the shipped Pointer Table the entry at
pointer 1133 is null and the trail byte 0x62 is ASCII, yet
`Decode([0x88, 0x62], "big5")` emits the override code point 202 — there is no
rewind and no `decoderError`, because the special-case pointers bypass the table
lookup before the null check. -/
theorem claimC6_counterexample :
    big5Index.get? 1133 = some none ∧
    big5Pointer 0x88 0x62 = some 1133 ∧
    (0x62 : Nat) ≤ 0x7f ∧
    Big5Decoder big5Index [0x88, 0x62] false = .ok ([some 202], 0) ∧
    (Except.ok ([some 202], 0) : Except Unit (List (Option Nat) × Nat)) ≠
      .ok ([some 0xfffd, some 0x62], 1) := by
  refine ⟨by rfl, by decide, by decide, big5_decode_8862 false, by decide⟩

/-- C6 (amended): whenever a lead byte is pending, the computed pointer exists and
is not one of the special-case overrides (1133, 1135, 1164, 1166 — those bypass
the table), and the table entry for it is null, then an ASCII trail byte is
re-processed as the start of a new character after one `decoderError` (non-fatal
output U+FFFD followed by the byte's own decoding), while a non-ASCII trail byte
yields the `decoderError` alone. -/
theorem claimC6_big5_ascii_rewind :
    ∀ (table : List (Option Nat)) (lead b : Nat) (bs : List Nat) (p : Nat),
      lead ≠ 0 →
      big5Pointer lead b = some p →
      p ≠ 1133 → p ≠ 1135 → p ≠ 1164 → p ≠ 1166 →
      table.get? p = some none →
      (b ≤ 0x7f →
        big5Go table false lead (b :: bs) =
          (big5Go table false 0 bs).map fun r => (some 0xfffd :: some b :: r.1, r.2 + 1)) ∧
      (0x7f < b →
        big5Go table false lead (b :: bs) =
          (big5Go table false 0 bs).map fun r => (some 0xfffd :: r.1, r.2 + 1)) := by
  intro table lead b bs p hlead hp h1133 h1135 h1164 h1166 hnull
  have hnull' : table[p]? = some none := by
    rw [← List.get?_eq_getElem?]
    exact hnull
  constructor
  · intro hascii
    have hstep : big5Go table false lead (b :: bs) =
        (big5Go table false 0 (b :: bs)).map fun r => (some 0xfffd :: r.1, r.2 + 1) := by
      simp [big5Go, hlead, hp, h1133, h1135, h1164, h1166, hascii]
      rw [hnull']
    have hinner : big5Go table false 0 (b :: bs) =
        (big5Go table false 0 bs).map fun r => (some b :: r.1, r.2) := by
      simp [big5Go, hascii]
    rw [hstep, hinner, except_map_map]
  · intro hnon
    have hnascii : ¬ (b ≤ 0x7f) := by omega
    simp [big5Go, hlead, hp, h1133, h1135, h1164, h1166, hnascii]
    rw [hnull']

theorem claimC6_witness :
    (0x81 : Nat) ≠ 0 ∧ big5Pointer 0x81 0x40 = some 0 ∧
    ([none] : List (Option Nat)).get? 0 = some none ∧
    big5Go [none] false 0x81 [0x40] =
      (big5Go [none] false 0 []).map fun r => (some 0xfffd :: some 0x40 :: r.1, r.2 + 1) :=
  ⟨by decide, by decide, by decide,
    (claimC6_big5_ascii_rewind [none] 0x81 0x40 [] 0 (by decide) (by decide) (by decide)
      (by decide) (by decide) (by decide) (by decide)).1 (by decide)⟩

/-- C10: the Big5 decode path builds its string with `String.fromCharCode`, so
every emitted code point lands in the output reduced mod 2^16 as a single char
code (never expanded to a surrogate pair: the string has exactly one unit per
decoder output element), and the `"big5"` branch of `TextDecoder.decode` returns
exactly that string. -/
theorem claimC10_big5_fromCharCode :
    ∀ (table : List (Option Nat)) (fatal : Bool) (bytes : List Nat)
      (out : List (Option Nat)) (n i cp : Nat),
      Big5Decoder table bytes fatal = .ok (out, n) →
      out.get? i = some (some cp) →
      (big5CharUnits out).get? i = some (cp % 65536) ∧
      (big5CharUnits out).length = out.length ∧
      (∀ sbIndexes, textDecode sbIndexes table "big5" fatal false bytes =
        .ok (big5CharUnits out)) := by
  intro table fatal bytes out n i cp hdec hget
  refine ⟨?_, by simp [big5CharUnits], ?_⟩
  · unfold big5CharUnits
    rw [List.get?_map, hget]
    rfl
  · intro sbIndexes
    have hres : resolveLabel "big5" = some "big5" := by decide
    simp [textDecode, hres, hdec]

theorem claimC10_witness :
    Big5Decoder [some 119070] [0x81, 0x40] false = .ok ([some 119070], 0) ∧
    ([some 119070] : List (Option Nat)).get? 0 = some (some 119070) ∧
    (big5CharUnits [some 119070]).get? 0 = some (119070 % 65536) ∧
    (119070 : Nat) % 65536 = 53534 := by
  have hdec : Big5Decoder [some 119070] [0x81, 0x40] false = .ok ([some 119070], 0) := by
    unfold Big5Decoder
    have h1 : big5Go [some 119070] false 0 [0x81, 0x40] =
        big5Go [some 119070] false 0x81 [0x40] := by
      simp [big5Go]
    rw [h1]
    simp [big5Go, big5Pointer, Except.map]
  exact ⟨hdec,  by decide,
    (claimC10_big5_fromCharCode [some 119070] false [0x81, 0x40] [some 119070] 0 0 119070
      hdec (by decide)).1, by decide⟩

/-! ## C4: UTF-16 high surrogate followed by a non-low-surrogate unit -/

/-- Counterexample to C4 as stated: with big-endian input `[D8 00, FE FF]` the
pending high surrogate 0xD800 is followed by the code unit 0xFEFF, which is not a
low surrogate — yet the decoder drops that unit as a BOM (`ignoreBOM` unset) and
keeps the surrogate pending; the output is a single U+FFFD from the end-of-input
check, without the extra value `(unit >> 8) & (unit & 0xFF)` (= 0xFE) the claim
requires. -/
theorem claimC4_counterexample :
    Utf16ByteDecoder [0xD8, 0x00, 0xFE, 0xFF] true false false = .ok ([0xfffd], 1) ∧
    ¬ (0xDC00 ≤ 0xFEFF ∧ (0xFEFF : Nat) ≤ 0xDFFF) ∧
    (Except.ok ([0xfffd], 1) : Except Unit (List Nat × Nat)) ≠ .ok ([0xfffd, 0xfe], 1) := by
  refine ⟨by decide, by decide, by decide⟩

/-- C4 (amended): whenever a pending high surrogate is followed by a code unit
that is neither a low surrogate (0xDC00..0xDFFF) nor a BOM dropped by the decoder
(0xFEFF with `ignoreBOM` unset), the pending high surrogate is discarded and the
non-fatal decoder emits one `decoderError` result (U+FFFD) followed by the
additional value `(unit >> 8) & (unit & 0xFF)`. -/
theorem claimC4_utf16_discarded_surrogate :
    ∀ (be ignoreBOM : Bool) (hs b1 b2 u : Nat) (bs : List Nat),
      u = (if be = true then (b1 <<< 8) + b2 else (b2 <<< 8) + b1) →
      ¬ (0xDC00 ≤ u ∧ u ≤ 0xDFFF) →
      ¬ (u = 65279 ∧ ignoreBOM = false) →
      utf16Go be false ignoreBOM none (some hs) (b1 :: b2 :: bs) =
        (utf16Go be false ignoreBOM none none bs).map fun r =>
          (0xfffd :: ((u >>> 8) &&& (u &&& 0xFF)) :: r.1, r.2 + 1) := by
  intro be ignoreBOM hs b1 b2 u bs hu hlow hbom
  subst hu
  simp only [utf16Go]
  rw [if_neg hbom, if_neg hlow]
  rfl

theorem claimC4_witness :
    ((0xD841 : Nat) = (if (true : Bool) = true then (0xD8 : Nat) <<< 8 + 0x41
        else (0x41 : Nat) <<< 8 + 0xD8)) ∧
    ¬ ((0xDC00 : Nat) ≤ 0xD841 ∧ (0xD841 : Nat) ≤ 0xDFFF) ∧
    utf16Go true false false none (some 0xD800) [0xD8, 0x41] =
      (utf16Go true false false none none []).map fun r =>
        (0xfffd :: ((0xD841 >>> 8) &&& (0xD841 &&& 0xFF)) :: r.1, r.2 + 1) :=
  ⟨by decide, by decide,
    claimC4_utf16_discarded_surrogate true false 0xD800 0xD8 0x41 0xD841 []
      (by decide) (by decide) (by decide)⟩

/-! ## C8: label resolution -/

/-- Trimming as the spec words it: drop ASCII whitespace from both ends
(reference definition for comparison with `trimAsciiWhitespaceList`). -/
def trimSpecList (l : List Char) : List Char :=
  ((l.dropWhile jsLabelWhitespace).reverse.dropWhile jsLabelWhitespace).reverse

theorem dropWhile_eq_drop_of_findIdx? {α : Type} (q : α → Bool) :
    ∀ (l : List α) (j : Nat), l.findIdx? (fun c => !(q c)) = some j →
      l.dropWhile q = l.drop j := by
  intro l
  induction l with
  | nil => intro j h; simp at h
  | cons c t ih =>
    intro j h
    rw [List.findIdx?_cons] at h
    by_cases hc : q c
    · have hnc : (!(q c)) = false := by simp [hc]
      rw [if_neg (by simp [hnc]), List.findIdx?_start_succ] at h
      obtain ⟨j', hj', rfl⟩ := Option.map_eq_some'.mp h
      rw [List.dropWhile_cons_of_pos hc, List.drop_succ_cons]
      exact ih j' (by simpa using hj')
    · have hnc : (!(q c)) = true := by simp [hc]
      rw [if_pos (by simp [hnc])] at h
      have hj0 : j = 0 := (Option.some.injEq 0 j).mp h |>.symm
      subst hj0
      rw [List.dropWhile_cons_of_neg hc, List.drop_zero]

theorem findIdx?_take_of_lt {α : Type} (P : α → Bool) (r : List α) (j m : Nat)
    (h : r.findIdx? P = some j) (hj : j < m) : (r.take m).findIdx? P = some j := by
  rw [List.findIdx?_eq_some_iff_getElem] at h ⊢
  obtain ⟨hlen, hP, hmin⟩ := h
  have hlen' : j < (r.take m).length := by
    simp
    omega
  refine ⟨hlen', ?_, ?_⟩
  · simpa [List.getElem_take] using hP
  · intro j' hj'
    have := hmin j' hj'
    simpa [List.getElem_take] using this

theorem trimAscii_eq_trimSpec (l : List Char)
    (hex : l.any (fun c => !(jsLabelWhitespace c)) = true) :
    trimAsciiWhitespaceList l = trimSpecList l := by
  have hsome : (l.findIdx? (fun c => !(jsLabelWhitespace c))).isSome := by
    rw [List.findIdx?_isSome]
    exact hex
  obtain ⟨s, hs⟩ := Option.isSome_iff_exists.mp hsome
  have hsomer : (l.reverse.findIdx? (fun c => !(jsLabelWhitespace c))).isSome := by
    rw [List.findIdx?_isSome, List.any_reverse]
    exact hex
  obtain ⟨j, hj⟩ := Option.isSome_iff_exists.mp hsomer
  obtain ⟨hslen, hsP, hsmin⟩ := List.findIdx?_eq_some_iff_getElem.mp hs
  obtain ⟨hjlen', hjP, hjmin⟩ := List.findIdx?_eq_some_iff_getElem.mp hj
  have hjlen : j < l.length := by simpa using hjlen'
  have hsj : s + j + 1 ≤ l.length := by
    by_contra hcon
    push_neg at hcon
    have hrs : l.length - 1 - s < j := by omega
    have hcontr := hjmin (l.length - 1 - s) hrs
    apply hcontr
    rw [List.getElem_reverse]
    have hidx : l.length - 1 - (l.length - 1 - s) = s := by omega
    simp only [hidx]
    exact hsP
  have hdrop : l.dropWhile jsLabelWhitespace = l.drop s :=
    dropWhile_eq_drop_of_findIdx? _ l s hs
  have h1 : l.drop s = l.rtake (l.length - s) := by
    unfold List.rtake
    congr 1
    omega
  have hrevA : (l.drop s).reverse = l.reverse.take (l.length - s) := by
    rw [h1, List.rtake_eq_reverse_take_reverse, List.reverse_reverse]
  have hjm : j < l.length - s := by omega
  have htake : (l.reverse.take (l.length - s)).findIdx? (fun c => !(jsLabelWhitespace c)) =
      some j := findIdx?_take_of_lt _ l.reverse j (l.length - s) hj hjm
  have hdrop2 : (l.drop s).reverse.dropWhile jsLabelWhitespace = (l.drop s).reverse.drop j := by
    apply dropWhile_eq_drop_of_findIdx?
    rw [hrevA]
    exact htake
  have hspec : trimSpecList l = (l.drop s).take (l.length - s - j) := by
    unfold trimSpecList
    rw [hdrop, hdrop2, ← List.rdrop_eq_reverse_drop_reverse]
    unfold List.rdrop
    congr 1
    simp
  have hascii : trimAsciiWhitespaceList l = (l.take (l.length - j)).drop s := by
    unfold trimAsciiWhitespaceList
    rw [hs, hj]
    simp only [Option.getD_some]
    have harith : l.length - 1 - j + 1 = l.length - j := by omega
    rw [harith]
  rw [hascii, hspec]
  have hsplit : l.length - j = s + (l.length - j - s) := by omega
  rw [hsplit, ← List.take_drop]
  congr 1
  omega
theorem map_id_of_mem {α : Type} (f : α → α) :
    ∀ (l : List α), (∀ c ∈ l, f c = c) → l.map f = l := by
  intro l
  induction l with
  | nil => intro _; rfl
  | cons c t ih =>
    intro h
    rw [List.map_cons, h c (List.mem_cons_self c t),
      ih (fun x hx => h x (List.mem_cons_of_mem c hx))]

/-- Every key of the alias table contains a non-whitespace character. -/
theorem aliasKeys_have_nonws :
    encodingAliases.all (fun p => p.1.toList.any (fun c => !(jsLabelWhitespace c))) = true := by
  decide

theorem lookupAlias_none_of_allws (m : List Char)
    (hall : ∀ c ∈ m, jsLabelWhitespace c = true) :
    lookupAlias (String.mk m) = none := by
  unfold lookupAlias
  rw [show (encodingAliases.find? (fun p => p.1 = String.mk m)) = none from ?_]
  · rfl
  · rw [List.find?_eq_none]
    intro pair hp heq
    have hkey := List.all_eq_true.mp aliasKeys_have_nonws pair hp
    have heqB : pair.1 = String.mk m := by simpa using heq
    have hdata : pair.1.toList = m := by
      rw [heqB]
      rfl
    rw [hdata] at hkey
    obtain ⟨c, hc, hcw⟩ := List.any_eq_true.mp hkey
    rw [hall c hc] at hcw
    simp at hcw

theorem trimAscii_allws (l : List Char)
    (hall : ∀ c ∈ l, jsLabelWhitespace c = true) :
    trimAsciiWhitespaceList l = l := by
  unfold trimAsciiWhitespaceList
  have hfix : l.findIdx? (fun c => !(jsLabelWhitespace c)) = none := by
    rw [List.findIdx?_eq_none_iff]
    intro x hx
    simp [hall x hx]
  have hfixr : l.reverse.findIdx? (fun c => !(jsLabelWhitespace c)) = none := by
    rw [List.findIdx?_eq_none_iff]
    intro x hx
    simp [hall x (List.mem_reverse.mp hx)]
  rw [hfix, hfixr]
  simp only [Option.getD_none]
  have hle : l.length ≤ l.length - 1 + 1 := by omega
  rw [List.drop_zero, List.take_of_length_le hle]

/-- C8: label resolution trims ASCII space/tab/newline/form-feed/carriage-return
from both ends, lower-cases, and looks the result up in the alias table (for every
label, `resolveLabel` equals lookup of the lower-cased spec-trim — in the
all-whitespace corner the untrimmed lookup fails exactly like the trimmed one);
`Resolve(" UTF-8 ") = "utf-8"`, `Resolve("latin1") = "windows-1252"`, and decoding
with an unresolvable label fails regardless of the input bytes. -/
theorem claimC8_label_resolution :
    (∀ label : String, resolveLabel label =
      lookupAlias (String.mk ((trimSpecList label.toList).map asciiLower))) ∧
    resolveLabel " UTF-8 " = some "utf-8" ∧
    resolveLabel "latin1" = some "windows-1252" ∧
    (∀ (sbIndexes : List (String × List (Option Nat))) (big5Table : List (Option Nat))
       (label : String) (fatal ignoreBOM : Bool) (bytes : List Nat),
      resolveLabel label = none →
      textDecode sbIndexes big5Table label fatal ignoreBOM bytes = .error .invalidLabel) := by
  refine ⟨?_, by decide, by decide, ?_⟩
  · intro label
    by_cases hex : label.toList.any (fun c => !(jsLabelWhitespace c)) = true
    · unfold resolveLabel
      rw [trimAscii_eq_trimSpec label.toList hex]
    · have hall : ∀ c ∈ label.toList, jsLabelWhitespace c = true := by
        intro c hc
        by_contra hw
        exact hex (List.any_eq_true.mpr ⟨c, hc, by simp [hw]⟩)
      have htrim : trimAsciiWhitespaceList label.toList = label.toList :=
        trimAscii_allws label.toList hall
      have htrimspec : trimSpecList label.toList = [] := by
        unfold trimSpecList
        have hdw : label.toList.dropWhile jsLabelWhitespace = [] := by
          rw [List.dropWhile_eq_nil_iff]
          intro x hx
          exact hall x hx
        rw [hdw]
        rfl
      unfold resolveLabel
      rw [htrim, htrimspec]
      have hmap : label.toList.map asciiLower = label.toList := by
        apply map_id_of_mem
        intro c hc
        have hw := hall c hc
        unfold asciiLower
        rw [if_neg]
        intro hAZ
        simp only [jsLabelWhitespace] at hw
        rcases (by simpa using hw :
            (((c = ' ' ∨ c = '\t') ∨ c = '\n') ∨ c = '\x0c') ∨ c = '\x0d')
          with (((rfl | rfl) | rfl) | rfl) | rfl <;> revert hAZ <;> decide
      rw [hmap]
      rw [show List.map asciiLower [] = ([] : List Char) from rfl]
      rw [lookupAlias_none_of_allws label.toList hall,
        lookupAlias_none_of_allws [] (by intro c hc; simp at hc)]
  · intro sbIndexes big5Table label fatal ignoreBOM bytes h
    unfold textDecode
    rw [h]

theorem claimC8_witness :
    resolveLabel "not-a-real-encoding" = none ∧
    textDecode [] [] "not-a-real-encoding" false false [0, 1, 2] = .error .invalidLabel :=
  ⟨by decide,
    claimC8_label_resolution.2.2.2 [] [] "not-a-real-encoding" false false [0, 1, 2] (by decide)⟩

/-! ## C1: the `decoderError` contract of every decoder

Each decoder family is proved to satisfy:
* the non-fatal run always returns `.ok (out, n)` where `n` counts the
  `decoderError` invocations (one U+FFFD substitution each) — the formalisation
  of "the input contains a malformed or unmappable sequence" is `0 < n`;
* the fatal run throws iff `0 < n` (and an `Except.error` carries no output);
* when `n = 0` the fatal run returns the same complete output.
-/

/-- The C1 contract of a pair of (non-fatal, fatal) decoder results. -/
def ErrContract {X : Type} (recF recT : Except Unit (List X × Nat)) : Prop :=
  ∃ out n, recF = .ok (out, n) ∧ (recT = .error () ↔ 0 < n) ∧
    (n = 0 → recT = .ok (out, n))

theorem errContract_step_plain {X : Type} {recF recT : Except Unit (List X × Nat)}
    (g : List X → List X) (h : ErrContract recF recT) :
    ErrContract (recF.map fun r => (g r.1, r.2)) (recT.map fun r => (g r.1, r.2)) := by
  obtain ⟨out, n, h1, h2, h3⟩ := h
  refine ⟨g out, n, by rw [h1]; rfl, ?_, ?_⟩
  · cases recT with
    | error e => simpa [Except.map] using h2
    | ok v => simp [Except.map]; simpa using h2
  · intro hn
    rw [h3 hn]
    rfl

theorem errContract_step_err {X : Type} {recF recT : Except Unit (List X × Nat)}
    (g : List X → List X) (h : ErrContract recF recT) :
    ErrContract (recF.map fun r => (g r.1, r.2 + 1)) (.error ()) := by
  obtain ⟨out, n, h1, h2, h3⟩ := h
  exact ⟨g out, n + 1, by rw [h1]; rfl, by simp, by omega⟩

theorem errContract_ok {X : Type} (out : List X) :
    ErrContract (Except.ok (out, 0)) (Except.ok (out, 0)) :=
  ⟨out, 0, rfl, by simp, fun _ => rfl⟩

theorem singleByteGo_contract (index : List (Option Nat)) :
    ∀ bytes : List Nat, ErrContract (singleByteGo index false bytes) (singleByteGo index true bytes) := by
  intro bytes
  induction bytes with
  | nil => exact errContract_ok []
  | cons b bs ih =>
    by_cases hb : b ≤ 0x7f
    · simpa [singleByteGo, hb] using errContract_step_plain (b :: ·) ih
    · cases hidx : index[b - 0x80]?.getD none with
      | none =>
        simpa [singleByteGo, hb, hidx] using errContract_step_err (0xfffd :: ·) ih
      | some cp =>
        simpa [singleByteGo, hb, hidx] using errContract_step_plain (cp :: ·) ih

theorem utf16Go_contract (be ignoreBOM : Bool) :
    ∀ (bytes : List Nat) (lb ls : Option Nat),
      ErrContract (utf16Go be false ignoreBOM lb ls bytes) (utf16Go be true ignoreBOM lb ls bytes) := by
  intro bytes
  induction bytes with
  | nil =>
    intro lb ls
    by_cases h : lb = none ∧ ls = none
    · simpa [utf16Go, h] using errContract_ok ([] : List Nat)
    · refine ⟨[0xfffd], 1, ?_, ?_, by omega⟩ <;> simp [utf16Go, h]
  | cons b bs ih =>
    intro lb ls
    cases lb with
    | none => simpa [utf16Go] using ih (some b) ls
    | some lbv =>
      simp only [utf16Go]
      set u := (if be = true then (lbv <<< 8) + b else (b <<< 8) + lbv) with hu
      by_cases hbom : u = 65279 ∧ ignoreBOM = false
      · simpa [hbom] using ih none ls
      · rw [if_neg hbom, if_neg hbom]
        cases ls with
        | some hs =>
          by_cases hlow : 0xDC00 ≤ u ∧ u ≤ 0xDFFF
          · simpa [hlow] using
              errContract_step_plain (fun x => hs :: u :: x) (ih none none)
          · simpa [hlow] using
              errContract_step_err (fun x => 0xfffd :: ((u >>> 8) &&& (u &&& 0xFF)) :: x)
                (ih none none)
        | none =>
          by_cases hhigh : 0xD800 ≤ u ∧ u ≤ 0xDBFF
          · simpa [hhigh] using ih none (some u)
          · by_cases hlow : 0xDC00 ≤ u ∧ u ≤ 0xDFFF
            · simpa [hhigh, hlow] using errContract_step_err (fun x => 0xfffd :: x) (ih none none)
            · simpa [hhigh, hlow] using errContract_step_plain (fun x => u :: x) (ih none none)
theorem big5Go_contract (table : List (Option Nat)) :
    ∀ (bytes : List Nat) (lead : Nat),
      ErrContract (big5Go table false lead bytes) (big5Go table true lead bytes) := by
  intro bytes
  induction bytes with
  | nil =>
    intro lead
    by_cases h : lead ≠ 0
    · refine ⟨[some 0xfffd], 1, ?_, ?_, by omega⟩ <;> simp [big5Go, h]
    · simpa [big5Go, h] using errContract_ok ([] : List (Option Nat))
  | cons b bs ih =>
    intro lead
    by_cases hlead : lead ≠ 0
    · by_cases h1 : big5Pointer lead b = some 1133
      · simpa [big5Go, hlead, h1] using errContract_step_plain (some 202 :: ·) (ih 0)
      · by_cases h2 : big5Pointer lead b = some 1135
        · simpa [big5Go, hlead, h1, h2] using errContract_step_plain (some 202 :: ·) (ih 0)
        · by_cases h3 : big5Pointer lead b = some 1164
          · simpa [big5Go, hlead, h1, h2, h3] using errContract_step_plain (some 234 :: ·) (ih 0)
          · by_cases h4 : big5Pointer lead b = some 1166
            · simpa [big5Go, hlead, h1, h2, h3, h4] using
                errContract_step_plain (some 234 :: ·) (ih 0)
            · cases hp : big5Pointer lead b with
              | none =>
                by_cases hascii : b ≤ 0x7f
                · have hstep : big5Go table false lead (b :: bs) =
                      (big5Go table false 0 (b :: bs)).map
                        fun r => (some 0xfffd :: r.1, r.2 + 1) := by
                    simp [big5Go, hlead, h1, h2, h3, h4, hp, hascii]
                  have htstep : big5Go table true lead (b :: bs) = .error () := by
                    simp [big5Go, hlead, h1, h2, h3, h4, hp, hascii]
                  have hrw : big5Go table false 0 (b :: bs) =
                      (big5Go table false 0 bs).map fun r => (some b :: r.1, r.2) := by
                    simp [big5Go, hascii]
                  rw [hstep, htstep, hrw, except_map_map]
                  exact errContract_step_err (fun x => some 0xfffd :: some b :: x) (ih 0)
                · simpa [big5Go, hlead, h1, h2, h3, h4, hp, hascii] using
                    errContract_step_err (fun x => some 0xfffd :: x) (ih 0)
              | some pv =>
                have g1 : pv ≠ 1133 := by rintro rfl; exact h1 hp
                have g2 : pv ≠ 1135 := by rintro rfl; exact h2 hp
                have g3 : pv ≠ 1164 := by rintro rfl; exact h3 hp
                have g4 : pv ≠ 1166 := by rintro rfl; exact h4 hp
                cases hentry : table[pv]? with
                | none =>
                  have hstep : ∀ f, big5Go table f lead (b :: bs) =
                      (big5Go table f 0 bs).map fun r => ((none : Option Nat) :: r.1, r.2) := by
                    intro f
                    simp [big5Go, hlead, g1, g2, g3, g4, hp]
                    rw [hentry]
                  rw [hstep false, hstep true]
                  exact errContract_step_plain ((none : Option Nat) :: ·) (ih 0)
                | some entry =>
                  cases entry with
                  | none =>
                    by_cases hascii : b ≤ 0x7f
                    · have hstep : big5Go table false lead (b :: bs) =
                          (big5Go table false 0 (b :: bs)).map
                            fun r => (some 0xfffd :: r.1, r.2 + 1) := by
                        simp [big5Go, hlead, g1, g2, g3, g4, hp, hascii]
                        rw [hentry]
                      have htstep : big5Go table true lead (b :: bs) = .error () := by
                        simp [big5Go, hlead, g1, g2, g3, g4, hp, hascii]
                        rw [hentry]
                      have hrw : big5Go table false 0 (b :: bs) =
                          (big5Go table false 0 bs).map fun r => (some b :: r.1, r.2) := by
                        simp [big5Go, hascii]
                      rw [hstep, htstep, hrw, except_map_map]
                      exact errContract_step_err (fun x => some 0xfffd :: some b :: x) (ih 0)
                    · have hstep : big5Go table false lead (b :: bs) =
                          (big5Go table false 0 bs).map
                            fun r => (some 0xfffd :: r.1, r.2 + 1) := by
                        simp [big5Go, hlead, g1, g2, g3, g4, hp, hascii]
                        rw [hentry]
                      have htstep : big5Go table true lead (b :: bs) = .error () := by
                        simp [big5Go, hlead, g1, g2, g3, g4, hp, hascii]
                        rw [hentry]
                      rw [hstep, htstep]
                      exact errContract_step_err (fun x => some 0xfffd :: x) (ih 0)
                  | some code =>
                    have hstep : ∀ f, big5Go table f lead (b :: bs) =
                        (big5Go table f 0 bs).map fun r => (some code :: r.1, r.2) := by
                      intro f
                      simp [big5Go, hlead, g1, g2, g3, g4, hp]
                      rw [hentry]
                    rw [hstep false, hstep true]
                    exact errContract_step_plain (some code :: ·) (ih 0)
    · by_cases hb : b ≤ 0x7f
      · simpa [big5Go, hlead, hb] using errContract_step_plain (some b :: ·) (ih 0)
      · by_cases hrange : 0x81 ≤ b ∧ b ≤ 0xFE
        · simpa [big5Go, hlead, hb, hrange] using ih b
        · simpa [big5Go, hlead, hb, hrange] using
            errContract_step_err (fun x => some 0xfffd :: x) (ih 0)
theorem decodeUtf8Go_contract :
    ∀ (bytes : List Nat) (st cp : Nat),
      ErrContract (decodeUtf8Go false st cp bytes) (decodeUtf8Go true st cp bytes) := by
  intro bytes
  induction bytes with
  | nil =>
    intro st cp
    by_cases h : st ≠ 0
    · refine ⟨[0xfffd], 1, ?_, ?_, by omega⟩ <;> simp [decodeUtf8Go, h]
    · simpa [decodeUtf8Go, h] using errContract_ok ([] : List Nat)
  | cons b bs ih =>
    intro st cp
    by_cases herr : st = 12 ∨ (st ≠ 0 ∧ b &&& 0xc0 ≠ 0x80)
    · by_cases hst2 : utf8State (utf8Type b) = 0
      · have hstep : decodeUtf8Go false st cp (b :: bs) =
            ((decodeUtf8Go false (utf8State (utf8Type b)) ((0xff >>> utf8Type b) &&& b) bs).map
              fun r => (utf8Emit ((0xff >>> utf8Type b) &&& b) ++ r.1, r.2)).map
                fun r => (0xfffd :: r.1, r.2 + 1) := by
          simp [decodeUtf8Go, herr, hst2]
        have htstep : decodeUtf8Go true st cp (b :: bs) = .error () := by
          simp [decodeUtf8Go, herr]
        rw [hstep, htstep, except_map_map]
        exact errContract_step_err
          (fun x => 0xfffd :: (utf8Emit ((0xff >>> utf8Type b) &&& b) ++ x)) (ih _ _)
      · have hstep : decodeUtf8Go false st cp (b :: bs) =
            (decodeUtf8Go false (utf8State (utf8Type b)) ((0xff >>> utf8Type b) &&& b) bs).map
              fun r => (0xfffd :: r.1, r.2 + 1) := by
          simp [decodeUtf8Go, herr, hst2]
        have htstep : decodeUtf8Go true st cp (b :: bs) = .error () := by
          simp [decodeUtf8Go, herr]
        rw [hstep, htstep]
        exact errContract_step_err (fun x => 0xfffd :: x) (ih _ _)
    · by_cases hst2 : utf8State (st + utf8Type b) = 0
      · have hstep : ∀ f, decodeUtf8Go f st cp (b :: bs) =
            (decodeUtf8Go f (utf8State (st + utf8Type b))
              (if st ≠ 0 then (b &&& 0x3f) ||| (cp <<< 6) else (0xff >>> utf8Type b) &&& b) bs).map
              fun r =>
                (utf8Emit (if st ≠ 0 then (b &&& 0x3f) ||| (cp <<< 6)
                  else (0xff >>> utf8Type b) &&& b) ++ r.1, r.2) := by
          intro f
          simp [decodeUtf8Go, herr, hst2]
        rw [hstep false, hstep true]
        exact errContract_step_plain
          (fun x => utf8Emit (if st ≠ 0 then (b &&& 0x3f) ||| (cp <<< 6)
            else (0xff >>> utf8Type b) &&& b) ++ x) (ih _ _)
      · have hstep : ∀ f, decodeUtf8Go f st cp (b :: bs) =
            decodeUtf8Go f (utf8State (st + utf8Type b))
              (if st ≠ 0 then (b &&& 0x3f) ||| (cp <<< 6) else (0xff >>> utf8Type b) &&& b) bs := by
          intro f
          simp [decodeUtf8Go, herr, hst2]
        rw [hstep false, hstep true]
        exact ih _ _
theorem decodeUtf8_contract (bytes : List Nat) (ignoreBOM : Bool) :
    ErrContract (decodeUtf8 bytes false ignoreBOM) (decodeUtf8 bytes true ignoreBOM) := by
  unfold decodeUtf8
  exact decodeUtf8Go_contract _ 0 0

theorem Utf16ByteDecoder_contract (bytes : List Nat) (be ignoreBOM : Bool) :
    ErrContract (Utf16ByteDecoder bytes be false ignoreBOM)
      (Utf16ByteDecoder bytes be true ignoreBOM) :=
  utf16Go_contract be ignoreBOM bytes none none

theorem Big5Decoder_contract (table : List (Option Nat)) (bytes : List Nat) :
    ErrContract (Big5Decoder table bytes false) (Big5Decoder table bytes true) :=
  big5Go_contract table bytes 0

theorem not_error_of_contract {X : Type} {recF recT : Except Unit (List X × Nat)}
    (h : ErrContract recF recT) (a : Unit) : recF ≠ .error a := by
  obtain ⟨o, n, hF, _, _⟩ := h
  rw [hF]
  exact fun c => Except.noConfusion c

/-- C1: for every decoder family and input, the non-fatal run never raises and
returns a complete output together with the number `n` of `decoderError`
substitutions (one U+FFFD per malformed position); the fatal run raises exactly
when `n > 0` (`Except.error` carries no partial output) and returns the identical
complete output when `n = 0`; moreover the whole non-fatal `decode` pipeline never
surfaces a decoder error for any label, mode or byte input. -/
theorem claimC1_decode_error_contract :
    (∀ (bytes : List Nat) (ignoreBOM : Bool),
      ErrContract (decodeUtf8 bytes false ignoreBOM) (decodeUtf8 bytes true ignoreBOM)) ∧
    (∀ (bytes : List Nat) (be ignoreBOM : Bool),
      ErrContract (Utf16ByteDecoder bytes be false ignoreBOM)
        (Utf16ByteDecoder bytes be true ignoreBOM)) ∧
    (∀ (table : List (Option Nat)) (bytes : List Nat),
      ErrContract (Big5Decoder table bytes false) (Big5Decoder table bytes true)) ∧
    (∀ (index : List (Option Nat)) (bytes : List Nat),
      ErrContract (singleByteGo index false bytes) (singleByteGo index true bytes)) ∧
    (∀ (sbIndexes : List (String × List (Option Nat))) (big5Table : List (Option Nat))
       (label : String) (ignoreBOM : Bool) (bytes : List Nat),
      textDecode sbIndexes big5Table label false ignoreBOM bytes ≠ .error .decoderErr) := by
  refine ⟨decodeUtf8_contract, Utf16ByteDecoder_contract, Big5Decoder_contract,
    singleByteGo_contract, ?_⟩
  intro sb bt label iB bytes h
  unfold textDecode at h
  repeat' split at h
  all_goals try simp at h
  all_goals try (rename_i heq; exact not_error_of_contract (decodeUtf8_contract bytes iB) _ heq)
  all_goals try (rename_i heq; exact not_error_of_contract (Utf16ByteDecoder_contract bytes _ iB) _ heq)
  all_goals try (rename_i heq; exact not_error_of_contract (Big5Decoder_contract bt bytes) _ heq)
  all_goals try (rename_i heq; exact not_error_of_contract (singleByteGo_contract _ bytes) _ heq)

theorem claimC1_witness :
    (∃ out n, decodeUtf8 [0x61, 0xff] false false = .ok (out, n) ∧
      (decodeUtf8 [0x61, 0xff] true false = .error () ↔ 0 < n) ∧
      (n = 0 → decodeUtf8 [0x61, 0xff] true false = .ok (out, n))) ∧
    textDecode [] [] "utf-8" false false [0x61, 0xff] ≠ .error .decoderErr :=
  ⟨claimC1_decode_error_contract.1 [0x61, 0xff] false,
    claimC1_decode_error_contract.2.2.2.2 [] [] "utf-8" false [0x61, 0xff]⟩

/-! ## C7: Base64 round trip -/

/-- Structural form of `encodeChunk`: the encoded triplets of a 3-aligned list. -/
def encB : List Nat → List Nat
  | a :: b :: c :: rest =>
    tripletToBase64 (((a <<< 16) &&& 0xff0000) + ((b <<< 8) &&& 0xff00) + (c &&& 0xff)) ++
      encB rest
  | _ => []

theorem lor_eq_add_of_lt (x y k : Nat) (hx : x % 2 ^ k = 0) (hy : y < 2 ^ k) :
    x ||| y = x + y := by
  have hxx : x = 2 ^ k * (x / 2 ^ k) := by
    conv_lhs => rw [← Nat.div_add_mod x (2 ^ k)]
    omega
  rw [hxx]
  exact (Nat.mul_add_lt_is_or hy _).symm

theorem encodeChunk_append (u : List Nat) :
    ∀ (d a b c : Nat), b - a = d → a ≤ b → b ≤ c → 3 ∣ (b - a) →
      encodeChunk u a c = encodeChunk u a b ++ encodeChunk u b c := by
  intro d
  induction d using Nat.strong_induction_on with
  | _ d ih =>
    intro a b c hd hab hbc hdvd
    by_cases hlt : a < b
    · have h3 : a + 3 ≤ b := by omega
      rw [show encodeChunk u a c = _ ++ encodeChunk u (a + 3) c from by
        rw [encodeChunk]
        rw [dif_pos (by omega)]]
      rw [show encodeChunk u a b = _ ++ encodeChunk u (a + 3) b from by
        rw [encodeChunk]
        rw [dif_pos (by omega)]]
      rw [List.append_assoc]
      congr 1
      exact ih (b - (a + 3)) (by omega) (a + 3) b c rfl (by omega) hbc (by omega)
    · have hab' : a = b := by omega
      subst hab'
      rw [show encodeChunk u a a = [] from by rw [encodeChunk]; rw [dif_neg (by omega)]]
      rfl

theorem b64ChunkLoop_eq (u : List Nat) :
    ∀ (d i len2 : Nat), len2 - i = d → b64ChunkLoop u i len2 = encodeChunk u i len2 := by
  intro d
  induction d using Nat.strong_induction_on with
  | _ d ih =>
    intro i len2 hd
    by_cases hlt : i < len2
    · rw [b64ChunkLoop, dif_pos hlt]
      by_cases hbig : i + 16383 > len2
      · rw [if_pos hbig]
        rw [show b64ChunkLoop u (i + 16383) len2 = encodeChunk u (i + 16383) len2 from
          ih (len2 - (i + 16383)) (by omega) _ _ rfl]
        rw [show encodeChunk u (i + 16383) len2 = [] from by
          rw [encodeChunk]; rw [dif_neg (by omega)]]
        simp
      · rw [if_neg hbig]
        rw [show b64ChunkLoop u (i + 16383) len2 = encodeChunk u (i + 16383) len2 from
          ih (len2 - (i + 16383)) (by omega) _ _ rfl]
        exact (encodeChunk_append u 16383 i (i + 16383) len2 (by omega) (by omega) (by omega)
          (by omega)).symm
    · rw [b64ChunkLoop, dif_neg hlt, encodeChunk, dif_neg hlt]

theorem getD_eq_getElem_of_lt {u : List Nat} {a : Nat} (h : a < u.length) :
    u.getD a 0 = u[a] := by
  rw [List.getD_eq_getElem?_getD, List.getElem?_eq_getElem h]
  rfl

theorem encodeChunk_eq_encB (u : List Nat) :
    ∀ (d a b : Nat), b - a = d → b ≤ u.length → 3 ∣ (b - a) →
      encodeChunk u a b = encB ((u.drop a).take (b - a)) := by
  intro d
  induction d using Nat.strong_induction_on with
  | _ d ih =>
    intro a b hd hb hdvd
    by_cases hlt : a < b
    · have h3 : a + 3 ≤ b := by omega
      have ha0 : a < u.length := by omega
      have ha1 : a + 1 < u.length := by omega
      have ha2 : a + 1 + 1 < u.length := by omega
      have hdecomp : (u.drop a).take (b - a) =
          u[a] :: u[a+1] :: u[a+1+1] :: ((u.drop (a+1+1+1)).take (b - (a+1+1+1))) := by
        rw [List.drop_eq_getElem_cons ha0]
        rw [show b - a = (b - (a+1)) + 1 from by omega, List.take_succ_cons]
        rw [List.drop_eq_getElem_cons ha1]
        rw [show b - (a+1) = (b - (a+1+1)) + 1 from by omega, List.take_succ_cons]
        rw [List.drop_eq_getElem_cons ha2]
        rw [show b - (a+1+1) = (b - (a+1+1+1)) + 1 from by omega, List.take_succ_cons]
      rw [hdecomp]
      rw [show encB (u[a] :: u[a+1] :: u[a+1+1] :: ((u.drop (a+1+1+1)).take (b - (a+1+1+1)))) =
        tripletToBase64 (((u[a] <<< 16) &&& 0xff0000) + ((u[a+1] <<< 8) &&& 0xff00) +
          (u[a+1+1] &&& 0xff)) ++ encB ((u.drop (a+1+1+1)).take (b - (a+1+1+1))) from rfl]
      rw [encodeChunk, dif_pos hlt]
      rw [getD_eq_getElem_of_lt ha0, getD_eq_getElem_of_lt ha1,
        show u.getD (a + 2) 0 = u[a+1+1] from getD_eq_getElem_of_lt ha2]
      rw [show encodeChunk u (a + 3) b =
          encB ((u.drop (a+1+1+1)).take (b - (a+1+1+1))) from
        ih (b - (a + 3)) (by omega) (a + 3) b rfl hb (by omega)]
    · rw [encodeChunk, dif_neg hlt, show b - a = 0 from by omega, List.take_zero]
      rfl
theorem mem_b64Code_of_mem_triplet (num c : Nat) (h : c ∈ tripletToBase64 num) :
    c ∈ b64Code := by
  have hmem : ∀ i, i < 64 → b64Code.getD i 0 ∈ b64Code := by
    intro i hi
    have hlen : i < b64Code.length := by rw [show b64Code.length = 64 from rfl]; exact hi
    rw [getD_eq_getElem_of_lt hlen]
    exact List.getElem_mem hlen
  have h63 : ∀ x : Nat, x &&& 63 < 64 := by
    intro x
    rw [land_sixtythree]
    omega
  simp only [tripletToBase64, List.mem_cons, List.not_mem_nil, or_false] at h
  rcases h with rfl | rfl | rfl | rfl <;> exact hmem _ (h63 _)

theorem encB_no_eq : ∀ v : List Nat, ∀ c ∈ encB v, c ∈ b64Code
  | [], _, h => by simp [encB] at h
  | [a], _, h => by simp [encB] at h
  | [a, b], _, h => by simp [encB] at h
  | a :: b :: c :: rest, x, h => by
    rw [show encB (a :: b :: c :: rest) =
      tripletToBase64 (((a <<< 16) &&& 0xff0000) + ((b <<< 8) &&& 0xff00) + (c &&& 0xff)) ++
        encB rest from rfl] at h
    rcases List.mem_append.mp h with h | h
    · exact mem_b64Code_of_mem_triplet _ x h
    · exact encB_no_eq rest x h

theorem encB_length : ∀ v : List Nat, (encB v).length = 4 * (v.length / 3)
  | [] => rfl
  | [_] => by simp [encB]
  | [_, _] => by simp [encB]
  | a :: b :: c :: rest => by
    rw [show encB (a :: b :: c :: rest) =
      tripletToBase64 (((a <<< 16) &&& 0xff0000) + ((b <<< 8) &&& 0xff00) + (c &&& 0xff)) ++
        encB rest from rfl]
    rw [List.length_append, encB_length rest]
    simp only [tripletToBase64, List.length_cons, List.length_nil]
    omega

theorem encB_findIdx_eq : ∀ v : List Nat, (encB v).findIdx? (· = 61) = none := by
  intro v
  rw [List.findIdx?_eq_none_iff]
  intro x hx
  have := encB_no_eq v x hx
  have h61 : (61 : Nat) ∉ b64Code := by decide
  simp only [decide_eq_false_iff_not]
  intro heq
  subst heq
  exact h61 this

theorem revLookup_b64Code : ∀ j, j < 64 → revLookup (b64Code.getD j 0) = j := by
  decide

theorem b64_tmp_eq (a b c : Nat) (ha : a < 256) (hb : b < 256) (hc : c < 256) :
    ((a <<< 16) &&& 0xff0000) + ((b <<< 8) &&& 0xff00) + (c &&& 0xff) =
      a * 65536 + b * 256 + c := by
  rw [show (0xff0000 : Nat) = 255 <<< 16 from rfl, shiftLeft_land_shiftLeft,
    show (0xff00 : Nat) = 255 <<< 8 from rfl, shiftLeft_land_shiftLeft]
  rw [land_255, land_255, land_255]
  rw [Nat.mod_eq_of_lt ha, Nat.mod_eq_of_lt hb, Nat.mod_eq_of_lt hc]
  rw [Nat.shiftLeft_eq, Nat.shiftLeft_eq]

theorem getD_append_of_lt {l1 l2 : List Nat} {k : Nat} (h : k < l1.length) :
    (l1 ++ l2).getD k 0 = l1.getD k 0 := by
  rw [List.getD_eq_getElem?_getD, List.getD_eq_getElem?_getD, List.getElem?_append_left h]

theorem rev_triplet_digit (t k : Nat) (ht : t < 16777216) (hk : k ≤ 18) :
    revLookup (b64Code.getD ((t >>> k) &&& 63) 0) = (t >>> k) &&& 63 := by
  apply revLookup_b64Code
  rw [land_sixtythree]
  omega

theorem b64_lor4_eq (t : Nat) (ht : t < 16777216) :
    ((((t >>> 18) &&& 63) <<< 18) ||| (((t >>> 12) &&& 63) <<< 12)) |||
        (((t >>> 6) &&& 63) <<< 6) ||| (t &&& 63) = t := by
  rw [land_sixtythree, land_sixtythree, land_sixtythree, land_sixtythree,
    Nat.shiftRight_eq_div_pow, Nat.shiftRight_eq_div_pow, Nat.shiftRight_eq_div_pow,
    Nat.shiftLeft_eq, Nat.shiftLeft_eq, Nat.shiftLeft_eq]
  simp only [show (2 : Nat) ^ 18 = 262144 from by norm_num,
    show (2 : Nat) ^ 12 = 4096 from by norm_num, show (2 : Nat) ^ 6 = 64 from by norm_num]
  have s1 : (t / 262144 % 64 * 262144) ||| (t / 4096 % 64 * 4096) =
      t / 262144 % 64 * 262144 + t / 4096 % 64 * 4096 := by
    apply lor_eq_add_of_lt _ _ 18
    · show _ % 2 ^ 18 = 0
      rw [show (2 : Nat) ^ 18 = 262144 from by norm_num]
      omega
    · show _ < 2 ^ 18
      rw [show (2 : Nat) ^ 18 = 262144 from by norm_num]
      omega
  have s2 : (t / 262144 % 64 * 262144 + t / 4096 % 64 * 4096) ||| (t / 64 % 64 * 64) =
      t / 262144 % 64 * 262144 + t / 4096 % 64 * 4096 + t / 64 % 64 * 64 := by
    apply lor_eq_add_of_lt _ _ 12
    · show _ % 2 ^ 12 = 0
      rw [show (2 : Nat) ^ 12 = 4096 from by norm_num]
      omega
    · show _ < 2 ^ 12
      rw [show (2 : Nat) ^ 12 = 4096 from by norm_num]
      omega
  have s3 : (t / 262144 % 64 * 262144 + t / 4096 % 64 * 4096 + t / 64 % 64 * 64) ||| (t % 64) =
      t / 262144 % 64 * 262144 + t / 4096 % 64 * 4096 + t / 64 % 64 * 64 + t % 64 := by
    apply lor_eq_add_of_lt _ _ 6
    · show _ % 2 ^ 6 = 0
      rw [show (2 : Nat) ^ 6 = 64 from by norm_num]
      omega
    · show _ < 2 ^ 6
      rw [show (2 : Nat) ^ 6 = 64 from by norm_num]
      omega
  rw [s1, s2, s3]
  omega
theorem b64DecLoop_head (t : Nat) (ht : t < 16777216) (r : List Nat) (L : Nat) (hL : 0 < L) :
    b64DecLoop (tripletToBase64 t ++ r) L =
      (((t >>> 16) &&& 0xff) :: ((t >>> 8) &&& 0xff) :: (t &&& 0xff) ::
        (b64DecLoop r (L - 4)).1, (b64DecLoop r (L - 4)).2) := by
  rw [b64DecLoop, dif_pos hL]
  have hg0 : (tripletToBase64 t ++ r).getD 0 0 = b64Code.getD ((t >>> 18) &&& 63) 0 := by
    rw [getD_append_of_lt (by simp [tripletToBase64])]
    rfl
  have hg1 : (tripletToBase64 t ++ r).getD 1 0 = b64Code.getD ((t >>> 12) &&& 63) 0 := by
    rw [getD_append_of_lt (by simp [tripletToBase64])]
    rfl
  have hg2 : (tripletToBase64 t ++ r).getD 2 0 = b64Code.getD ((t >>> 6) &&& 63) 0 := by
    rw [getD_append_of_lt (by simp [tripletToBase64])]
    rfl
  have hg3 : (tripletToBase64 t ++ r).getD 3 0 = b64Code.getD (t &&& 63) 0 := by
    rw [getD_append_of_lt (by simp [tripletToBase64])]
    rfl
  rw [hg0, hg1, hg2, hg3]
  rw [rev_triplet_digit t 18 ht (by omega), rev_triplet_digit t 12 ht (by omega),
    rev_triplet_digit t 6 ht (by omega),
    show revLookup (b64Code.getD (t &&& 63) 0) = t &&& 63 from by
      apply revLookup_b64Code
      rw [land_sixtythree]
      omega]
  rw [b64_lor4_eq t ht]
  rw [show (tripletToBase64 t ++ r).drop 4 = r from List.drop_left' (by simp [tripletToBase64])]

theorem b64DecLoop_encB :
    ∀ (v : List Nat) (tl : List Nat) (L : Nat),
      (∀ x ∈ v, x < 256) → 3 ∣ v.length →
      4 * (v.length / 3) ≤ L + 3 → L ≤ 4 * (v.length / 3) →
      b64DecLoop (encB v ++ tl) L = (v, tl)
  | [], tl, L, _, _, h1, h2 => by
    have hL : L = 0 := by simpa using h2
    subst hL
    rw [show encB [] = [] from rfl, List.nil_append, b64DecLoop, dif_neg (by omega)]
  | [a], tl, L, _, hdvd, _, _ => by
    exfalso
    have h1 : (3 : Nat) ∣ 1 := by simpa using hdvd
    omega
  | [a, b], tl, L, _, hdvd, _, _ => by
    exfalso
    have h1 : (3 : Nat) ∣ 2 := by simpa using hdvd
    omega
  | a :: b :: c :: rest, tl, L, hmem, hdvd, h1, h2 => by
    have ha : a < 256 := hmem a (by simp)
    have hb : b < 256 := hmem b (by simp)
    have hc : c < 256 := hmem c (by simp)
    have hlen : (a :: b :: c :: rest).length = rest.length + 3 := by simp
    have hdvd' : 3 ∣ rest.length := by omega
    have hglen : (a :: b :: c :: rest).length / 3 = rest.length / 3 + 1 := by
      rw [hlen]
      omega
    rw [hglen] at h1 h2
    have htlt : a * 65536 + b * 256 + c < 16777216 := by omega
    have hL : 0 < L := by omega
    have hS : encB (a :: b :: c :: rest) ++ tl =
        tripletToBase64 (a * 65536 + b * 256 + c) ++ (encB rest ++ tl) := by
      rw [show encB (a :: b :: c :: rest) =
        tripletToBase64 (((a <<< 16) &&& 0xff0000) + ((b <<< 8) &&& 0xff00) + (c &&& 0xff)) ++
          encB rest from rfl, List.append_assoc, b64_tmp_eq a b c ha hb hc]
    rw [hS, b64DecLoop_head (a * 65536 + b * 256 + c) htlt (encB rest ++ tl) L hL]
    rw [b64DecLoop_encB rest tl (L - 4) (fun x hx => hmem x (by simp [hx])) hdvd'
      (by omega) (by omega)]
    have hbyte0 : ((a * 65536 + b * 256 + c) >>> 16) &&& 0xff = a := by
      rw [Nat.shiftRight_eq_div_pow, land_255,
        show (2 : Nat) ^ 16 = 65536 from by norm_num]
      omega
    have hbyte1 : ((a * 65536 + b * 256 + c) >>> 8) &&& 0xff = b := by
      rw [Nat.shiftRight_eq_div_pow, land_255, show (2 : Nat) ^ 8 = 256 from by norm_num]
      omega
    have hbyte2 : (a * 65536 + b * 256 + c) &&& 0xff = c := by
      rw [land_255]
      omega
    rw [hbyte0, hbyte1, hbyte2]

theorem b64Code_getD_ne61 : ∀ j, j < 64 → ¬(b64Code.getD j 0 = 61) := by decide

theorem getLens_encB (v : List Nat) (hdvd : 3 ∣ v.length) :
    getLens (encB v) = .ok ((encB v).length, 0) := by
  have hlen : (encB v).length = 4 * (v.length / 3) := encB_length v
  simp only [getLens, encB_findIdx_eq, Option.getD_none]
  rw [if_neg (by omega), if_pos trivial]

theorem findIdx_tail_pad2 (c1 c2 : Nat) (h1 : ¬(c1 = 61)) (h2 : ¬(c2 = 61)) :
    [c1, c2, 61, 61].findIdx? (· = 61) = some 2 := by
  rw [List.findIdx?_cons, if_neg (by simp [h1]), List.findIdx?_cons, if_neg (by simp [h2]),
    List.findIdx?_cons, if_pos (by simp)]

theorem findIdx_tail_pad1 (c1 c2 c3 : Nat) (h1 : ¬(c1 = 61)) (h2 : ¬(c2 = 61))
    (h3 : ¬(c3 = 61)) :
    [c1, c2, c3, 61].findIdx? (· = 61) = some 3 := by
  rw [List.findIdx?_cons, if_neg (by simp [h1]), List.findIdx?_cons, if_neg (by simp [h2]),
    List.findIdx?_cons, if_neg (by simp [h3]), List.findIdx?_cons, if_pos (by simp)]

theorem getLens_encB_pad2 (v : List Nat) (hdvd : 3 ∣ v.length) (c1 c2 : Nat)
    (h1 : ¬(c1 = 61)) (h2 : ¬(c2 = 61)) :
    getLens (encB v ++ [c1, c2, 61, 61]) = .ok (2 + (encB v).length, 2) := by
  have hlen : (encB v).length = 4 * (v.length / 3) := encB_length v
  have htot : (encB v ++ [c1, c2, 61, 61]).length = (encB v).length + 4 := by
    rw [List.length_append]
    rfl
  have hfind : (encB v ++ [c1, c2, 61, 61]).findIdx? (· = 61) =
      some (2 + (encB v).length) := by
    rw [List.findIdx?_append, encB_findIdx_eq, findIdx_tail_pad2 c1 c2 h1 h2]
    rfl
  simp only [getLens, hfind, Option.getD_some, htot]
  rw [if_neg (by omega), if_neg (by omega),
    show (2 + (encB v).length) % 4 = 2 from by omega]

theorem getLens_encB_pad1 (v : List Nat) (hdvd : 3 ∣ v.length) (c1 c2 c3 : Nat)
    (h1 : ¬(c1 = 61)) (h2 : ¬(c2 = 61)) (h3 : ¬(c3 = 61)) :
    getLens (encB v ++ [c1, c2, c3, 61]) = .ok (3 + (encB v).length, 1) := by
  have hlen : (encB v).length = 4 * (v.length / 3) := encB_length v
  have htot : (encB v ++ [c1, c2, c3, 61]).length = (encB v).length + 4 := by
    rw [List.length_append]
    rfl
  have hfind : (encB v ++ [c1, c2, c3, 61]).findIdx? (· = 61) =
      some (3 + (encB v).length) := by
    rw [List.findIdx?_append, encB_findIdx_eq, findIdx_tail_pad1 c1 c2 c3 h1 h2 h3]
    rfl
  simp only [getLens, hfind, Option.getD_some, htot]
  rw [if_neg (by omega), if_neg (by omega),
    show (3 + (encB v).length) % 4 = 3 from by omega]

theorem toByteArray_ph0 (b : List Nat) (vl : Nat) (h : getLens b = .ok (vl, 0)) :
    toByteArray b = .ok ((b64DecLoop b vl).1 ++ [] ++ []) := by
  unfold toByteArray
  rw [h]
  rfl

theorem toByteArray_ph2 (b : List Nat) (vl : Nat) (h : getLens b = .ok (vl, 2)) :
    toByteArray b = .ok ((b64DecLoop b (vl - 4)).1 ++
      [((revLookup ((b64DecLoop b (vl - 4)).2.getD 0 0) <<< 2) |||
        (revLookup ((b64DecLoop b (vl - 4)).2.getD 1 0) >>> 4)) &&& 0xff] ++ []) := by
  unfold toByteArray
  rw [h]
  rfl

theorem toByteArray_ph1 (b : List Nat) (vl : Nat) (h : getLens b = .ok (vl, 1)) :
    toByteArray b = .ok ((b64DecLoop b (vl - 4)).1 ++ [] ++
      [((((revLookup ((b64DecLoop b (vl - 4)).2.getD 0 0) <<< 10) |||
          (revLookup ((b64DecLoop b (vl - 4)).2.getD 1 0) <<< 4)) |||
          (revLookup ((b64DecLoop b (vl - 4)).2.getD 2 0) >>> 2)) >>> 8) &&& 0xff,
        (((revLookup ((b64DecLoop b (vl - 4)).2.getD 0 0) <<< 10) |||
          (revLookup ((b64DecLoop b (vl - 4)).2.getD 1 0) <<< 4)) |||
          (revLookup ((b64DecLoop b (vl - 4)).2.getD 2 0) >>> 2)) &&& 0xff]) := by
  unfold toByteArray
  rw [h]
  rfl

theorem toByteArray_encB (v : List Nat) (hv : ∀ x ∈ v, x < 256) (hdvd : 3 ∣ v.length) :
    toByteArray (encB v) = .ok v := by
  have hlen : (encB v).length = 4 * (v.length / 3) := encB_length v
  have hloop : b64DecLoop (encB v ++ []) (encB v).length = (v, []) := by
    rw [hlen]
    exact b64DecLoop_encB v [] _ hv hdvd (by omega) (by omega)
  rw [List.append_nil] at hloop
  rw [toByteArray_ph0 _ _ (getLens_encB v hdvd), hloop, List.append_nil, List.append_nil]

theorem toByteArray_encB_pad2 (v : List Nat) (t : Nat) (hv : ∀ x ∈ v, x < 256)
    (hdvd : 3 ∣ v.length) (ht : t < 256) :
    toByteArray (encB v ++
        [b64Code.getD (t >>> 2) 0, b64Code.getD ((t <<< 4) &&& 0x3f) 0, 61, 61]) =
      .ok (v ++ [t]) := by
  have hlen : (encB v).length = 4 * (v.length / 3) := encB_length v
  have hj1 : t >>> 2 < 64 := by
    rw [Nat.shiftRight_eq_div_pow, show (2 : Nat) ^ 2 = 4 from by norm_num]
    omega
  have hj2 : (t <<< 4) &&& 0x3f < 64 := by
    rw [land_sixtythree]
    omega
  have h1 : ¬(b64Code.getD (t >>> 2) 0 = 61) := b64Code_getD_ne61 _ hj1
  have h2 : ¬(b64Code.getD ((t <<< 4) &&& 0x3f) 0 = 61) := b64Code_getD_ne61 _ hj2
  have hgl := getLens_encB_pad2 v hdvd _ _ h1 h2
  have hloop : b64DecLoop
      (encB v ++ [b64Code.getD (t >>> 2) 0, b64Code.getD ((t <<< 4) &&& 0x3f) 0, 61, 61])
      (2 + (encB v).length - 4) =
      (v, [b64Code.getD (t >>> 2) 0, b64Code.getD ((t <<< 4) &&& 0x3f) 0, 61, 61]) :=
    b64DecLoop_encB v _ _ hv hdvd (by omega) (by omega)
  rw [toByteArray_ph2 _ _ hgl, hloop]
  simp only [List.getD_cons_zero, List.getD_cons_succ]
  rw [revLookup_b64Code _ hj1, revLookup_b64Code _ hj2]
  have e1 : (t >>> 2) <<< 2 = t / 4 * 4 := by
    rw [Nat.shiftRight_eq_div_pow, Nat.shiftLeft_eq, show (2 : Nat) ^ 2 = 4 from by norm_num]
  have e2 : ((t <<< 4) &&& 0x3f) >>> 4 = t % 4 := by
    rw [Nat.shiftLeft_eq, land_sixtythree, Nat.shiftRight_eq_div_pow,
      show (2 : Nat) ^ 4 = 16 from by norm_num]
    omega
  have hx : t / 4 * 4 % 2 ^ 2 = 0 := by
    rw [show (2 : Nat) ^ 2 = 4 from by norm_num]
    omega
  have hy : t % 4 < 2 ^ 2 := by
    rw [show (2 : Nat) ^ 2 = 4 from by norm_num]
    omega
  have harith : ((t >>> 2) <<< 2 ||| ((t <<< 4) &&& 0x3f) >>> 4) &&& 0xff = t := by
    rw [e1, e2, lor_eq_add_of_lt _ _ 2 hx hy, land_255]
    omega
  rw [harith, List.append_nil]

theorem toByteArray_encB_pad1 (v : List Nat) (b1 b2 : Nat) (hv : ∀ x ∈ v, x < 256)
    (hdvd : 3 ∣ v.length) (hb1 : b1 < 256) (hb2 : b2 < 256) :
    toByteArray (encB v ++
        [b64Code.getD (((b1 <<< 8) + b2) >>> 10) 0,
         b64Code.getD ((((b1 <<< 8) + b2) >>> 4) &&& 0x3f) 0,
         b64Code.getD ((((b1 <<< 8) + b2) <<< 2) &&& 0x3f) 0, 61]) =
      .ok (v ++ [b1, b2]) := by
  have hlen : (encB v).length = 4 * (v.length / 3) := encB_length v
  have htt : (b1 <<< 8) + b2 = 256 * b1 + b2 := by
    rw [Nat.shiftLeft_eq, show (2 : Nat) ^ 8 = 256 from by norm_num]
    omega
  have hj1 : ((b1 <<< 8) + b2) >>> 10 < 64 := by
    rw [Nat.shiftRight_eq_div_pow, show (2 : Nat) ^ 10 = 1024 from by norm_num]
    omega
  have hj2 : (((b1 <<< 8) + b2) >>> 4) &&& 0x3f < 64 := by
    rw [land_sixtythree]
    omega
  have hj3 : (((b1 <<< 8) + b2) <<< 2) &&& 0x3f < 64 := by
    rw [land_sixtythree]
    omega
  have h1 : ¬(b64Code.getD (((b1 <<< 8) + b2) >>> 10) 0 = 61) := b64Code_getD_ne61 _ hj1
  have h2 : ¬(b64Code.getD ((((b1 <<< 8) + b2) >>> 4) &&& 0x3f) 0 = 61) :=
    b64Code_getD_ne61 _ hj2
  have h3 : ¬(b64Code.getD ((((b1 <<< 8) + b2) <<< 2) &&& 0x3f) 0 = 61) :=
    b64Code_getD_ne61 _ hj3
  have hgl := getLens_encB_pad1 v hdvd _ _ _ h1 h2 h3
  have hloop : b64DecLoop
      (encB v ++
        [b64Code.getD (((b1 <<< 8) + b2) >>> 10) 0,
         b64Code.getD ((((b1 <<< 8) + b2) >>> 4) &&& 0x3f) 0,
         b64Code.getD ((((b1 <<< 8) + b2) <<< 2) &&& 0x3f) 0, 61])
      (3 + (encB v).length - 4) =
      (v, [b64Code.getD (((b1 <<< 8) + b2) >>> 10) 0,
           b64Code.getD ((((b1 <<< 8) + b2) >>> 4) &&& 0x3f) 0,
           b64Code.getD ((((b1 <<< 8) + b2) <<< 2) &&& 0x3f) 0, 61]) :=
    b64DecLoop_encB v _ _ hv hdvd (by omega) (by omega)
  rw [toByteArray_ph1 _ _ hgl, hloop]
  simp only [List.getD_cons_zero, List.getD_cons_succ]
  rw [revLookup_b64Code _ hj1, revLookup_b64Code _ hj2, revLookup_b64Code _ hj3]
  have e1 : (((b1 <<< 8) + b2) >>> 10) <<< 10 = ((b1 <<< 8) + b2) / 1024 * 1024 := by
    rw [Nat.shiftRight_eq_div_pow, Nat.shiftLeft_eq,
      show (2 : Nat) ^ 10 = 1024 from by norm_num]
  have e2 : ((((b1 <<< 8) + b2) >>> 4) &&& 0x3f) <<< 4 =
      ((b1 <<< 8) + b2) / 16 % 64 * 16 := by
    rw [Nat.shiftRight_eq_div_pow, land_sixtythree, Nat.shiftLeft_eq,
      show (2 : Nat) ^ 4 = 16 from by norm_num]
  have e3 : ((((b1 <<< 8) + b2) <<< 2) &&& 0x3f) >>> 2 = ((b1 <<< 8) + b2) % 16 := by
    rw [Nat.shiftLeft_eq, land_sixtythree, Nat.shiftRight_eq_div_pow,
      show (2 : Nat) ^ 2 = 4 from by norm_num]
    omega
  have hx1 : ((b1 <<< 8) + b2) / 1024 * 1024 % 2 ^ 10 = 0 := by
    rw [show (2 : Nat) ^ 10 = 1024 from by norm_num]
    omega
  have hy1 : ((b1 <<< 8) + b2) / 16 % 64 * 16 < 2 ^ 10 := by
    rw [show (2 : Nat) ^ 10 = 1024 from by norm_num]
    omega
  have hx2 : (((b1 <<< 8) + b2) / 1024 * 1024 + ((b1 <<< 8) + b2) / 16 % 64 * 16) % 2 ^ 4
      = 0 := by
    rw [show (2 : Nat) ^ 4 = 16 from by norm_num]
    omega
  have hy2 : ((b1 <<< 8) + b2) % 16 < 2 ^ 4 := by
    rw [show (2 : Nat) ^ 4 = 16 from by norm_num]
    omega
  have htmp : ((((b1 <<< 8) + b2) >>> 10) <<< 10 |||
      ((((b1 <<< 8) + b2) >>> 4) &&& 0x3f) <<< 4) |||
      ((((b1 <<< 8) + b2) <<< 2) &&& 0x3f) >>> 2 = (b1 <<< 8) + b2 := by
    rw [e1, e2, e3, lor_eq_add_of_lt _ _ 10 hx1 hy1, lor_eq_add_of_lt _ _ 4 hx2 hy2]
    omega
  rw [htmp]
  have hb1e : ((b1 <<< 8) + b2) >>> 8 &&& 0xff = b1 := by
    rw [Nat.shiftRight_eq_div_pow, land_255, show (2 : Nat) ^ 8 = 256 from by norm_num]
    omega
  have hb2e : ((b1 <<< 8) + b2) &&& 0xff = b2 := by
    rw [land_255]
    omega
  rw [hb1e, hb2e, List.append_nil]

theorem take_append_getElem (u : List Nat) (i : Nat) (h : i < u.length) :
    u.take i ++ [u[i]] = u.take (i + 1) := by
  rw [← List.concat_eq_append, List.take_concat_get u i h]

theorem fromByteArray_eq (u : List Nat) :
    fromByteArray u = encB (u.take (u.length - u.length % 3)) ++
      (if u.length % 3 = 1 then
        [b64Code.getD (u.getD (u.length - 1) 0 >>> 2) 0,
         b64Code.getD ((u.getD (u.length - 1) 0 <<< 4) &&& 0x3f) 0, 61, 61]
      else if u.length % 3 = 2 then
        [b64Code.getD (((u.getD (u.length - 2) 0 <<< 8) + u.getD (u.length - 1) 0) >>> 10) 0,
         b64Code.getD ((((u.getD (u.length - 2) 0 <<< 8) + u.getD (u.length - 1) 0) >>> 4) &&&
           0x3f) 0,
         b64Code.getD ((((u.getD (u.length - 2) 0 <<< 8) + u.getD (u.length - 1) 0) <<< 2) &&&
           0x3f) 0, 61]
      else []) := by
  have hchunk : b64ChunkLoop u 0 (u.length - u.length % 3) =
      encB (u.take (u.length - u.length % 3)) := by
    rw [b64ChunkLoop_eq u (u.length - u.length % 3) 0 (u.length - u.length % 3) (by omega),
      encodeChunk_eq_encB u (u.length - u.length % 3) 0 (u.length - u.length % 3) (by omega)
        (by omega) (by omega),
      List.drop_zero, Nat.sub_zero]
  simp only [fromByteArray, hchunk]

theorem b64_roundtrip_all (u : List Nat) (hmem : ∀ x ∈ u, x < 256) :
    toByteArray (fromByteArray u) = .ok u := by
  have hv : ∀ x ∈ u.take (u.length - u.length % 3), x < 256 :=
    fun x hx => hmem x (List.mem_of_mem_take hx)
  have hdvd : 3 ∣ (u.take (u.length - u.length % 3)).length := by
    rw [List.length_take]
    omega
  rw [fromByteArray_eq u]
  have h3 : u.length % 3 = 0 ∨ u.length % 3 = 1 ∨ u.length % 3 = 2 := by omega
  rcases h3 with h3 | h3 | h3
  · rw [if_neg (by omega), if_neg (by omega), List.append_nil]
    have hu : u.take (u.length - u.length % 3) = u := by
      rw [h3, Nat.sub_zero, List.take_length]
    rw [hu] at hv hdvd ⊢
    exact toByteArray_encB u hv hdvd
  · rw [if_pos h3]
    have hl1 : u.length - 1 < u.length := by omega
    have hgd : u.getD (u.length - 1) 0 = u[u.length - 1] := getD_eq_getElem_of_lt hl1
    have htlt : u.getD (u.length - 1) 0 < 256 := by
      rw [hgd]
      exact hmem _ (List.getElem_mem hl1)
    rw [show u.length - u.length % 3 = u.length - 1 from by omega] at hv hdvd ⊢
    rw [toByteArray_encB_pad2 (u.take (u.length - 1)) (u.getD (u.length - 1) 0) hv hdvd htlt]
    rw [hgd, take_append_getElem u (u.length - 1) hl1,
      show u.length - 1 + 1 = u.length from by omega, List.take_length]
  · rw [if_neg (by omega), if_pos h3]
    have hl2 : u.length - 2 < u.length := by omega
    have hl1 : u.length - 1 < u.length := by omega
    have hgd2 : u.getD (u.length - 2) 0 = u[u.length - 2] := getD_eq_getElem_of_lt hl2
    have hgd1 : u.getD (u.length - 1) 0 = u[u.length - 1] := getD_eq_getElem_of_lt hl1
    have hb1 : u.getD (u.length - 2) 0 < 256 := by
      rw [hgd2]
      exact hmem _ (List.getElem_mem hl2)
    have hb2 : u.getD (u.length - 1) 0 < 256 := by
      rw [hgd1]
      exact hmem _ (List.getElem_mem hl1)
    rw [show u.length - u.length % 3 = u.length - 2 from by omega] at hv hdvd ⊢
    rw [toByteArray_encB_pad1 (u.take (u.length - 2)) (u.getD (u.length - 2) 0)
      (u.getD (u.length - 1) 0) hv hdvd hb1 hb2]
    rw [hgd2, hgd1,
      show u.take (u.length - 2) ++ [u[u.length - 2], u[u.length - 1]] =
        (u.take (u.length - 2) ++ [u[u.length - 2]]) ++ [u[u.length - 1]] from by
          rw [List.append_assoc]
          rfl,
      take_append_getElem u (u.length - 2) hl2,
      show u.length - 2 + 1 = u.length - 1 from by omega,
      take_append_getElem u (u.length - 1) hl1,
      show u.length - 1 + 1 = u.length from by omega, List.take_length]


/-- C7: for every byte array (all entries < 256) of length at most 300, Base64
decoding (`toByteArray`) of the Base64 encoding (`fromByteArray`) of the array
returns the original array. -/
theorem claimC7_base64_roundtrip (u : List Nat) (hmem : ∀ x ∈ u, x < 256)
    (hlen : u.length ≤ 300) :
    toByteArray (fromByteArray u) = .ok u :=
  b64_roundtrip_all u hmem

/-- Witness for C7 at the seven-byte input `[72, 101, 108, 108, 111, 33, 255]`. -/
theorem claimC7_witness :
    toByteArray (fromByteArray [72, 101, 108, 108, 111, 33, 255]) =
      .ok [72, 101, 108, 108, 111, 33, 255] :=
  claimC7_base64_roundtrip [72, 101, 108, 108, 111, 33, 255] (by decide) (by decide)

theorem utf8Go_trace1 (b : Nat) (ht : utf8State (utf8Type b) = 0) :
    decodeUtf8Go false 0 0 [b] = .ok (utf8Emit ((0xff >>> utf8Type b) &&& b), 0) := by
  simp only [decodeUtf8Go, Nat.zero_add, ht]
  rw [if_neg (by simp)]
  simp [Except.map]

theorem utf8Go_trace2 (b1 b2 : Nat) (ht1 : utf8State (utf8Type b1) = 24)
    (hc2 : b2 &&& 0xc0 = 0x80) (ht2 : utf8State (24 + utf8Type b2) = 0) :
    decodeUtf8Go false 0 0 [b1, b2] =
      .ok (utf8Emit ((b2 &&& 0x3f) ||| (((0xff >>> utf8Type b1) &&& b1) <<< 6)), 0) := by
  simp only [decodeUtf8Go, Nat.zero_add, ht1, hc2, ht2]
  rw [if_neg (by simp)]
  rw [if_pos (by simp)]
  rw [if_neg (by simp)]
  simp [Except.map]

theorem utf8Go_base (cp : Nat) : decodeUtf8Go false 0 cp [] = .ok ([], 0) := by
  simp [decodeUtf8Go]

theorem utf8Go_start (b : Nat) (bs : List Nat) :
    decodeUtf8Go false 0 0 (b :: bs) =
      (if utf8State (utf8Type b) ≠ 0 then
        decodeUtf8Go false (utf8State (utf8Type b)) ((0xff >>> utf8Type b) &&& b) bs
      else (decodeUtf8Go false (utf8State (utf8Type b)) ((0xff >>> utf8Type b) &&& b) bs).map
          fun r => (utf8Emit ((0xff >>> utf8Type b) &&& b) ++ r.1, r.2)) := by
  simp only [decodeUtf8Go, Nat.zero_add]
  rw [if_neg (by simp)]
  simp

theorem utf8Go_mid (s cp b : Nat) (bs : List Nat) (hs12 : ¬(s = 12)) (hs0 : ¬(s = 0))
    (hc : b &&& 0xc0 = 0x80) :
    decodeUtf8Go false s cp (b :: bs) =
      (if utf8State (s + utf8Type b) ≠ 0 then
        decodeUtf8Go false (utf8State (s + utf8Type b)) ((b &&& 0x3f) ||| (cp <<< 6)) bs
      else
        (decodeUtf8Go false (utf8State (s + utf8Type b)) ((b &&& 0x3f) ||| (cp <<< 6)) bs).map
          fun r => (utf8Emit ((b &&& 0x3f) ||| (cp <<< 6)) ++ r.1, r.2)) := by
  simp only [decodeUtf8Go]
  rw [if_neg (by simp [hs12, hc])]
  rw [if_pos hs0]

theorem utf8Go_trace3 (b1 b2 b3 s1 : Nat) (hs1 : utf8State (utf8Type b1) = s1)
    (hs1a : ¬(s1 = 12)) (hs1b : ¬(s1 = 0))
    (hc2 : b2 &&& 0xc0 = 0x80) (hs2 : utf8State (s1 + utf8Type b2) = 24)
    (hc3 : b3 &&& 0xc0 = 0x80) (hs3 : utf8State (24 + utf8Type b3) = 0) :
    decodeUtf8Go false 0 0 [b1, b2, b3] =
      .ok (utf8Emit ((b3 &&& 0x3f) |||
        (((b2 &&& 0x3f) ||| (((0xff >>> utf8Type b1) &&& b1) <<< 6)) <<< 6)), 0) := by
  rw [utf8Go_start b1 [b2, b3], hs1, if_pos (by simpa using hs1b)]
  rw [utf8Go_mid s1 _ b2 [b3] hs1a hs1b hc2, hs2, if_pos (by simp)]
  rw [utf8Go_mid 24 _ b3 [] (by simp) (by simp) hc3, hs3, if_neg (by simp)]
  rw [utf8Go_base]
  simp [Except.map]

theorem utf8Go_trace4 (b1 b2 b3 b4 s1 : Nat) (hs1 : utf8State (utf8Type b1) = s1)
    (hs1a : ¬(s1 = 12)) (hs1b : ¬(s1 = 0))
    (hc2 : b2 &&& 0xc0 = 0x80) (hs2 : utf8State (s1 + utf8Type b2) = 36)
    (hc3 : b3 &&& 0xc0 = 0x80) (hs3 : utf8State (36 + utf8Type b3) = 24)
    (hc4 : b4 &&& 0xc0 = 0x80) (hs4 : utf8State (24 + utf8Type b4) = 0) :
    decodeUtf8Go false 0 0 [b1, b2, b3, b4] =
      .ok (utf8Emit ((b4 &&& 0x3f) ||| (((b3 &&& 0x3f) |||
        (((b2 &&& 0x3f) ||| (((0xff >>> utf8Type b1) &&& b1) <<< 6)) <<< 6)) <<< 6)), 0) := by
  rw [utf8Go_start b1 [b2, b3, b4], hs1, if_pos (by simpa using hs1b)]
  rw [utf8Go_mid s1 _ b2 [b3, b4] hs1a hs1b hc2, hs2, if_pos (by simp)]
  rw [utf8Go_mid 36 _ b3 [b4] (by simp) (by simp) hc3, hs3, if_pos (by simp)]
  rw [utf8Go_mid 24 _ b4 [] (by simp) (by simp) hc4, hs4, if_neg (by simp)]
  rw [utf8Go_base]
  simp [Except.map]

theorem utf8Type_ascii : ∀ b, b < 0x80 → utf8Type b = 0 := by decide

theorem ascii_cp : ∀ b, b < 0x80 → (0xff >>> utf8Type b) &&& b = b := by decide

theorem lead2_state : ∀ b, b < 0xe0 → 0xc2 ≤ b → utf8State (utf8Type b) = 24 := by decide

theorem lead2_cp : ∀ b, b < 0xe0 → 0xc2 ≤ b → (0xff >>> utf8Type b) &&& b = b % 64 := by decide

theorem lead3_state : ∀ b, b < 0xf0 → 0xe0 ≤ b →
    ¬(utf8State (utf8Type b) = 12) ∧ ¬(utf8State (utf8Type b) = 0) := by decide

theorem lead3_cp : ∀ b, b < 0xf0 → 0xe0 ≤ b → (0xff >>> utf8Type b) &&& b = b % 32 := by decide

theorem lead4_state : ∀ b, b < 0xf5 → 0xf0 ≤ b →
    ¬(utf8State (utf8Type b) = 12) ∧ ¬(utf8State (utf8Type b) = 0) := by decide

theorem lead4_cp : ∀ b, b < 0xf5 → 0xf0 ≤ b → (0xff >>> utf8Type b) &&& b = b % 8 := by decide

theorem cont_land : ∀ b, b < 0xc0 → 0x80 ≤ b → b &&& 0xc0 = 0x80 := by decide

theorem st_cont24 : ∀ b, b < 0xc0 → 0x80 ≤ b → utf8State (24 + utf8Type b) = 0 := by decide

theorem st_cont36 : ∀ b, b < 0xc0 → 0x80 ≤ b → utf8State (36 + utf8Type b) = 24 := by decide

theorem st3_mid : ∀ b1, b1 < 0xf0 → ∀ b2, b2 < 0xc0 →
    (0xe0 ≤ b1 ∧ 0x80 ≤ b2 ∧ (b1 = 0xe0 → 0xa0 ≤ b2) ∧ (b1 = 0xed → b2 < 0xa0)) →
    utf8State (utf8State (utf8Type b1) + utf8Type b2) = 24 := by decide

theorem st4_mid : ∀ b1, b1 < 0xf5 → ∀ b2, b2 < 0xc0 →
    (0xf0 ≤ b1 ∧ 0x80 ≤ b2 ∧ (b1 = 0xf0 → 0x90 ≤ b2) ∧ (b1 = 0xf4 → b2 < 0x90)) →
    utf8State (utf8State (utf8Type b1) + utf8Type b2) = 36 := by decide

theorem encode_single (cp : Nat) (bs : List Nat) (h : utf8EncoderHandler cp = .ok bs) :
    utf8Encode [cp] = .ok bs := by
  simp [utf8Encode, h]
  rfl

theorem handler1 (cp : Nat) (h : cp ≤ 0x7f) : utf8EncoderHandler cp = .ok [cp] := by
  unfold utf8EncoderHandler
  rw [if_pos h]

theorem handler2 (cp : Nat) (h1 : 0x80 ≤ cp) (h2 : cp ≤ 0x7ff) :
    utf8EncoderHandler cp = .ok [(cp >>> 6) + 0xc0, 0x80 ||| (cp &&& 0x3f)] := by
  unfold utf8EncoderHandler
  rw [if_neg (by omega), if_pos ⟨h1, h2⟩]
  simp [utf8ContBytes]

theorem handler3 (cp : Nat) (h1 : 0x800 ≤ cp) (h2 : cp ≤ 0xffff) :
    utf8EncoderHandler cp =
      .ok [(cp >>> 12) + 0xe0, 0x80 ||| ((cp >>> 6) &&& 0x3f), 0x80 ||| (cp &&& 0x3f)] := by
  unfold utf8EncoderHandler
  rw [if_neg (by omega), if_neg (by omega), if_pos ⟨h1, h2⟩]
  simp [utf8ContBytes]

theorem handler4 (cp : Nat) (h1 : 0x10000 ≤ cp) (h2 : cp ≤ 0x10ffff) :
    utf8EncoderHandler cp =
      .ok [(cp >>> 18) + 0xf0, 0x80 ||| ((cp >>> 12) &&& 0x3f),
           0x80 ||| ((cp >>> 6) &&& 0x3f), 0x80 ||| (cp &&& 0x3f)] := by
  unfold utf8EncoderHandler
  rw [if_neg (by omega), if_neg (by omega), if_neg (by omega), if_pos ⟨h1, h2⟩]
  simp [utf8ContBytes]

theorem utf8Emit_small (cp : Nat) (h : cp ≤ 0xffff) : utf8Emit cp = [cp] := by
  unfold utf8Emit
  rw [if_neg (by omega)]

theorem utf8Emit_large (cp : Nat) (h1 : 0x10000 ≤ cp) (h2 : cp ≤ 0x10ffff) :
    utf8Emit cp = [0xd800 + (cp - 0x10000) / 1024, 0xdc00 + (cp - 0x10000) % 1024] := by
  unfold utf8Emit
  rw [if_pos (by omega)]
  have ha : 0xd7c0 + (cp >>> 10) = 0xd800 + (cp - 0x10000) / 1024 := by
    rw [Nat.shiftRight_eq_div_pow, show (2 : Nat) ^ 10 = 1024 from by norm_num]
    omega
  have hb : 0xdc00 ||| (cp &&& 0x3ff) = 0xdc00 + (cp - 0x10000) % 1024 := by
    rw [land_1023, lor_eq_add_of_lt 0xdc00 (cp % 1024) 10 (by norm_num)
      (by rw [show (2 : Nat) ^ 10 = 1024 from by norm_num]; omega)]
    omega
  rw [ha, hb]

theorem utf8_rt1 (cp : Nat) (h : cp ≤ 0x7f) :
    utf8Encode [cp] = .ok [cp] ∧ decodeUtf8 [cp] false false = .ok ([cp], 0) := by
  constructor
  · exact encode_single cp [cp] (handler1 cp h)
  · simp only [decodeUtf8]
    rw [if_neg (by simp)]
    rw [utf8Go_trace1 cp (by rw [utf8Type_ascii cp (by omega)]; rfl)]
    rw [ascii_cp cp (by omega), utf8Emit_small cp (by omega)]

theorem utf8_rt2 (cp : Nat) (h1 : 0x80 ≤ cp) (h2 : cp ≤ 0x7ff) :
    utf8Encode [cp] = .ok [cp / 64 + 192, 128 + cp % 64] ∧
    decodeUtf8 [cp / 64 + 192, 128 + cp % 64] false false = .ok ([cp], 0) := by
  have hb1 : (cp >>> 6) + 0xc0 = cp / 64 + 192 := by
    rw [Nat.shiftRight_eq_div_pow, show (2 : Nat) ^ 6 = 64 from by norm_num]
  have hb2 : 0x80 ||| (cp &&& 0x3f) = 128 + cp % 64 := by
    rw [land_sixtythree, lor_eq_add_of_lt 128 (cp % 64) 6 (by norm_num)
      (by rw [show (2 : Nat) ^ 6 = 64 from by norm_num]; omega)]
  constructor
  · rw [encode_single cp _ (handler2 cp h1 h2), hb1, hb2]
  · simp only [decodeUtf8]
    rw [if_neg (by simp)]
    rw [utf8Go_trace2 (cp / 64 + 192) (128 + cp % 64)
      (lead2_state _ (by omega) (by omega))
      (cont_land _ (by omega) (by omega))
      (st_cont24 _ (by omega) (by omega))]
    rw [lead2_cp _ (by omega) (by omega), land_sixtythree]
    have hv : (128 + cp % 64) % 64 ||| (((cp / 64 + 192) % 64) <<< 6) = cp := by
      rw [lor_shiftLeft_lt ((cp / 64 + 192) % 64) ((128 + cp % 64) % 64) 6
        (by rw [show (2 : Nat) ^ 6 = 64 from by norm_num]; omega),
        show (2 : Nat) ^ 6 = 64 from by norm_num]
      omega
    rw [hv, utf8Emit_small cp (by omega)]

theorem utf8_rt3 (cp : Nat) (h1 : 0x800 ≤ cp) (h2 : cp ≤ 0xffff)
    (hs : ¬(0xd800 ≤ cp ∧ cp ≤ 0xdfff)) (hbm : cp ≠ 0xfeff) :
    utf8Encode [cp] = .ok [cp / 4096 + 224, 128 + cp / 64 % 64, 128 + cp % 64] ∧
    decodeUtf8 [cp / 4096 + 224, 128 + cp / 64 % 64, 128 + cp % 64] false false =
      .ok ([cp], 0) := by
  have hb1 : (cp >>> 12) + 0xe0 = cp / 4096 + 224 := by
    rw [Nat.shiftRight_eq_div_pow, show (2 : Nat) ^ 12 = 4096 from by norm_num]
  have hb2 : 0x80 ||| ((cp >>> 6) &&& 0x3f) = 128 + cp / 64 % 64 := by
    rw [Nat.shiftRight_eq_div_pow, show (2 : Nat) ^ 6 = 64 from by norm_num, land_sixtythree,
      lor_eq_add_of_lt 128 (cp / 64 % 64) 6 (by norm_num)
        (by rw [show (2 : Nat) ^ 6 = 64 from by norm_num]; omega)]
  have hb3 : 0x80 ||| (cp &&& 0x3f) = 128 + cp % 64 := by
    rw [land_sixtythree, lor_eq_add_of_lt 128 (cp % 64) 6 (by norm_num)
      (by rw [show (2 : Nat) ^ 6 = 64 from by norm_num]; omega)]
  constructor
  · rw [encode_single cp _ (handler3 cp h1 h2), hb1, hb2, hb3]
  · simp only [decodeUtf8]
    rw [if_neg (by simp; omega)]
    rw [utf8Go_trace3 (cp / 4096 + 224) (128 + cp / 64 % 64) (128 + cp % 64)
      (utf8State (utf8Type (cp / 4096 + 224))) rfl
      (lead3_state _ (by omega) (by omega)).1
      (lead3_state _ (by omega) (by omega)).2
      (cont_land _ (by omega) (by omega))
      (st3_mid _ (by omega) _ (by omega) ⟨by omega, by omega, by omega, by omega⟩)
      (cont_land _ (by omega) (by omega))
      (st_cont24 _ (by omega) (by omega))]
    rw [lead3_cp _ (by omega) (by omega)]
    simp only [land_sixtythree]
    have hinner : (128 + cp / 64 % 64) % 64 ||| (((cp / 4096 + 224) % 32) <<< 6) =
        cp / 4096 * 64 + cp / 64 % 64 := by
      rw [lor_shiftLeft_lt ((cp / 4096 + 224) % 32) ((128 + cp / 64 % 64) % 64) 6
        (by rw [show (2 : Nat) ^ 6 = 64 from by norm_num]; omega),
        show (2 : Nat) ^ 6 = 64 from by norm_num]
      omega
    have houter : (128 + cp % 64) % 64 ||| ((cp / 4096 * 64 + cp / 64 % 64) <<< 6) = cp := by
      rw [lor_shiftLeft_lt (cp / 4096 * 64 + cp / 64 % 64) ((128 + cp % 64) % 64) 6
        (by rw [show (2 : Nat) ^ 6 = 64 from by norm_num]; omega),
        show (2 : Nat) ^ 6 = 64 from by norm_num]
      omega
    rw [hinner, houter, utf8Emit_small cp (by omega)]

theorem utf8_rt4 (cp : Nat) (h1 : 0x10000 ≤ cp) (h2 : cp ≤ 0x10ffff) :
    utf8Encode [cp] =
      .ok [cp / 262144 + 240, 128 + cp / 4096 % 64, 128 + cp / 64 % 64, 128 + cp % 64] ∧
    decodeUtf8 [cp / 262144 + 240, 128 + cp / 4096 % 64, 128 + cp / 64 % 64, 128 + cp % 64]
      false false =
      .ok ([0xd800 + (cp - 0x10000) / 1024, 0xdc00 + (cp - 0x10000) % 1024], 0) := by
  have hb1 : (cp >>> 18) + 0xf0 = cp / 262144 + 240 := by
    rw [Nat.shiftRight_eq_div_pow, show (2 : Nat) ^ 18 = 262144 from by norm_num]
  have hb2 : 0x80 ||| ((cp >>> 12) &&& 0x3f) = 128 + cp / 4096 % 64 := by
    rw [Nat.shiftRight_eq_div_pow, show (2 : Nat) ^ 12 = 4096 from by norm_num,
      land_sixtythree, lor_eq_add_of_lt 128 (cp / 4096 % 64) 6 (by norm_num)
        (by rw [show (2 : Nat) ^ 6 = 64 from by norm_num]; omega)]
  have hb3 : 0x80 ||| ((cp >>> 6) &&& 0x3f) = 128 + cp / 64 % 64 := by
    rw [Nat.shiftRight_eq_div_pow, show (2 : Nat) ^ 6 = 64 from by norm_num, land_sixtythree,
      lor_eq_add_of_lt 128 (cp / 64 % 64) 6 (by norm_num)
        (by rw [show (2 : Nat) ^ 6 = 64 from by norm_num]; omega)]
  have hb4 : 0x80 ||| (cp &&& 0x3f) = 128 + cp % 64 := by
    rw [land_sixtythree, lor_eq_add_of_lt 128 (cp % 64) 6 (by norm_num)
      (by rw [show (2 : Nat) ^ 6 = 64 from by norm_num]; omega)]
  constructor
  · rw [encode_single cp _ (handler4 cp h1 h2), hb1, hb2, hb3, hb4]
  · simp only [decodeUtf8]
    rw [if_neg (by simp)]
    rw [utf8Go_trace4 (cp / 262144 + 240) (128 + cp / 4096 % 64) (128 + cp / 64 % 64)
      (128 + cp % 64) (utf8State (utf8Type (cp / 262144 + 240))) rfl
      (lead4_state _ (by omega) (by omega)).1
      (lead4_state _ (by omega) (by omega)).2
      (cont_land _ (by omega) (by omega))
      (st4_mid _ (by omega) _ (by omega) ⟨by omega, by omega, by omega, by omega⟩)
      (cont_land _ (by omega) (by omega))
      (st_cont36 _ (by omega) (by omega))
      (cont_land _ (by omega) (by omega))
      (st_cont24 _ (by omega) (by omega))]
    rw [lead4_cp _ (by omega) (by omega)]
    simp only [land_sixtythree]
    have hc2 : (128 + cp / 4096 % 64) % 64 ||| (((cp / 262144 + 240) % 8) <<< 6) =
        cp / 262144 * 64 + cp / 4096 % 64 := by
      rw [lor_shiftLeft_lt ((cp / 262144 + 240) % 8) ((128 + cp / 4096 % 64) % 64) 6
        (by rw [show (2 : Nat) ^ 6 = 64 from by norm_num]; omega),
        show (2 : Nat) ^ 6 = 64 from by norm_num]
      omega
    have hc3 : (128 + cp / 64 % 64) % 64 ||| ((cp / 262144 * 64 + cp / 4096 % 64) <<< 6) =
        cp / 262144 * 4096 + cp / 4096 % 64 * 64 + cp / 64 % 64 := by
      rw [lor_shiftLeft_lt (cp / 262144 * 64 + cp / 4096 % 64) ((128 + cp / 64 % 64) % 64) 6
        (by rw [show (2 : Nat) ^ 6 = 64 from by norm_num]; omega),
        show (2 : Nat) ^ 6 = 64 from by norm_num]
      omega
    have hc4 : (128 + cp % 64) % 64 |||
        ((cp / 262144 * 4096 + cp / 4096 % 64 * 64 + cp / 64 % 64) <<< 6) = cp := by
      rw [lor_shiftLeft_lt (cp / 262144 * 4096 + cp / 4096 % 64 * 64 + cp / 64 % 64)
        ((128 + cp % 64) % 64) 6
        (by rw [show (2 : Nat) ^ 6 = 64 from by norm_num]; omega),
        show (2 : Nat) ^ 6 = 64 from by norm_num]
      omega
    rw [hc2, hc3, hc4, utf8Emit_large cp (by omega) (by omega)]

/-- Counterexample to C2 as stated: U+FEFF encodes to the UTF-8 BOM bytes
EF BB BF, which the default (ignoreBOM unset) decode strips, so the decoded
text is empty rather than U+FEFF. -/
theorem claimC2_counterexample :
    utf8Encode [0xfeff] = .ok [0xef, 0xbb, 0xbf] ∧
    decodeUtf8 [0xef, 0xbb, 0xbf] false false = .ok ([], 0) ∧
    ([] : List Nat) ≠ [0xfeff] := ⟨by decide, by decide, by decide⟩

/-- C2 (as corrected): for every code point up to 0x10FFFF that is neither a
lone surrogate nor U+FEFF, non-fatal UTF-8 decoding (default BOM handling) of
the UTF-8 encoding of the one-code-point text returns exactly the UTF-16 code
units of that code point, with zero replacement-character substitutions. -/
theorem claimC2_utf8_roundtrip (cp : Nat) (hle : cp ≤ 0x10ffff)
    (hsurr : ¬(0xd800 ≤ cp ∧ cp ≤ 0xdfff)) (hbom : cp ≠ 0xfeff) :
    ∃ bytes, utf8Encode [cp] = .ok bytes ∧
      decodeUtf8 bytes false false =
        .ok ((if cp ≤ 0xffff then [cp]
          else [0xd800 + (cp - 0x10000) / 1024, 0xdc00 + (cp - 0x10000) % 1024]), 0) := by
  rcases (by omega :
      cp ≤ 0x7f ∨ (0x80 ≤ cp ∧ cp ≤ 0x7ff) ∨ (0x800 ≤ cp ∧ cp ≤ 0xffff) ∨ 0x10000 ≤ cp)
    with h | ⟨ha, hb⟩ | ⟨ha, hb⟩ | ha
  · obtain ⟨he, hd⟩ := utf8_rt1 cp h
    exact ⟨_, he, by rw [hd, if_pos (by omega)]⟩
  · obtain ⟨he, hd⟩ := utf8_rt2 cp ha hb
    exact ⟨_, he, by rw [hd, if_pos (by omega)]⟩
  · obtain ⟨he, hd⟩ := utf8_rt3 cp ha hb hsurr hbom
    exact ⟨_, he, by rw [hd, if_pos (by omega)]⟩
  · obtain ⟨he, hd⟩ := utf8_rt4 cp ha (by omega)
    exact ⟨_, he, by rw [hd, if_neg (by omega)]⟩

/-- Witness for C2 at the astral code point U+10437. -/
theorem claimC2_witness :
    ∃ bytes, utf8Encode [0x10437] = .ok bytes ∧
      decodeUtf8 bytes false false =
        .ok ((if (0x10437 : Nat) ≤ 0xffff then [0x10437]
          else [0xd800 + (0x10437 - 0x10000) / 1024, 0xdc00 + (0x10437 - 0x10000) % 1024]),
          0) :=
  claimC2_utf8_roundtrip 0x10437 (by decide) (by decide) (by decide)

/-- Witness for C3 at the concrete input `"AA--"`: the stripped remainder contains
a character rejected by the validation, and `atob` errors. -/
theorem claimC3_witness :
    isErr (atob [65, 65, 45, 45]) = true :=
  ((claimC3_atob_validation [65, 65, 45, 45]).1).2 (Or.inr (by decide))

end DenoTextEncoding
